import Mathlib

/-!
# PJSIP transaction layer (`sip_transaction.c`): a shallow embedding

The definitions below follow `pjsip/src/pjsip/sip_transaction.c` function by
function and keep the C names; the message types of `stun_msg.h` and the
memory player of `mem_player.c` follow in sections of their own.  Conventions
of the embedding:

* a `pj_str_t` (pointer + length) is the list of the `slen` characters it
  denotes, so the reported length of a string is `List.length`;
* a pointer that may be `NULL` is an `Option`;
* a C function that returns a `pj_status_t` and fills an out-parameter on
  success returns an `Except pj_status_t _`;
* dereferencing a `NULL` pointer is undefined in C; a function that can do so
  returns an `Option`, `none` standing for the undefined run.
-/

namespace PJSIP

/-! ## Basic types -/

/-- The `pj_str_t` of pjlib: the characters `ptr[0 .. slen-1]`. -/
abbrev pj_str_t := List Char

/-- Status codes returned by the functions of the transaction layer.  The
numeric values live in headers outside this file; `OTHER` carries any other
(non-zero) error number, e.g. one reported by a transport. -/
inductive pj_status_t
  | PJ_SUCCESS
  | PJ_EPENDING
  | PJ_EUNKNOWN
  | PJ_EINVAL
  | PJ_EINVALIDOP
  | PJ_ENOMEM
  | PJ_EBUG
  | PJ_EBUSY
  | PJSIP_EMISSINGHDR
  | PJSIP_EINVALIDHDR
  | PJSIP_ENOTREQUESTMSG
  | PJSIP_ENOTRESPONSEMSG
  | PJSIP_ETSXDESTROYED
  | OTHER (errno : Nat)
  deriving DecidableEq, Repr

/-- Transaction role. -/
inductive pjsip_role_e
  | PJSIP_ROLE_UAC
  | PJSIP_ROLE_UAS
  deriving DecidableEq, Repr

/-- Method identifiers (`pjsip_method_e`). -/
inductive pjsip_method_e
  | PJSIP_INVITE_METHOD
  | PJSIP_CANCEL_METHOD
  | PJSIP_ACK_METHOD
  | PJSIP_BYE_METHOD
  | PJSIP_REGISTER_METHOD
  | PJSIP_OPTIONS_METHOD
  | PJSIP_OTHER_METHOD
  deriving DecidableEq, Repr

/-- A SIP method: identifier and name. -/
structure pjsip_method where
  id : pjsip_method_e
  name : pj_str_t
  deriving DecidableEq, Repr

/-- Message type. -/
inductive pjsip_msg_type_e
  | PJSIP_REQUEST_MSG
  | PJSIP_RESPONSE_MSG
  deriving DecidableEq, Repr

/-- Request line (`msg->line.req`). -/
structure pjsip_request_line where
  method : pjsip_method
  uri : pj_str_t
  deriving DecidableEq, Repr

/-- Status line (`msg->line.status`). -/
structure pjsip_status_line where
  code : Int
  reason : pj_str_t
  deriving DecidableEq, Repr

/-- The two members of the C union `msg->line`, kept side by side. -/
structure pjsip_msg_line where
  req : pjsip_request_line
  status : pjsip_status_line
  deriving DecidableEq, Repr

/-- Top-most Via header: branch parameter and sent-by host and port.  The port
is the value `pj_utoa` receives. -/
structure pjsip_via_hdr where
  branch_param : pj_str_t
  sent_by_host : pj_str_t
  sent_by_port : Nat
  deriving DecidableEq, Repr

/-- CSeq header: sequence number (the value `pj_utoa` receives) and method. -/
structure pjsip_cseq_hdr where
  cseq : Nat
  method : pjsip_method
  deriving DecidableEq, Repr

/-- From / To header: only the tag matters to this file. -/
structure pjsip_fromto_hdr where
  tag : pj_str_t
  deriving DecidableEq, Repr

/-- Call-ID header. -/
structure pjsip_cid_hdr where
  id : pj_str_t
  deriving DecidableEq, Repr

/-- A parsed message: type, start line, the remaining headers (name, value)
and the body. -/
structure pjsip_msg where
  type : pjsip_msg_type_e
  line : pjsip_msg_line
  hdr : List (pj_str_t × pj_str_t)
  body : pj_str_t
  deriving DecidableEq, Repr

/-- The `msg_info` part of `pjsip_rx_data`: the message and shortcuts to the
headers the parser found (`NULL` when a header is absent). -/
structure pjsip_rx_data_msg_info where
  msg : Option pjsip_msg
  cid : Option pjsip_cid_hdr
  from_ : Option pjsip_fromto_hdr
  to_ : Option pjsip_fromto_hdr
  via : Option pjsip_via_hdr
  cseq : Option pjsip_cseq_hdr
  deriving DecidableEq, Repr

/-- Incoming message descriptor. -/
structure pjsip_rx_data where
  msg_info : pjsip_rx_data_msg_info
  deriving DecidableEq, Repr

/-! ## Key builder -/

/-- The `SEPARATOR` of the key builder. -/
def SEPARATOR : Char := '$'

/-- Modelled from the spec: the branch magic cookie literal `z9hG4bK`
(`PJSIP_RFC3261_BRANCH_ID`, defined in a header outside this file). -/
def PJSIP_RFC3261_BRANCH_ID : pj_str_t := "z9hG4bK".toList

/-- Modelled from the spec: the length of the magic cookie
(`PJSIP_RFC3261_BRANCH_LEN`). -/
def PJSIP_RFC3261_BRANCH_LEN : Nat := 7

/-- Modelled from the spec: `pj_utoa` of pjlib writes an unsigned number in
decimal and returns the number of digits written. -/
def pj_utoa (val : Nat) : pj_str_t := Nat.toDigits 10 val

/-- Modelled from the spec: `pj_strncmp` of pjlib compares the first `len`
characters of two strings and returns zero exactly when they agree (the layer
uses it to test whether a branch starts with the magic cookie). -/
def pj_strncmp (str1 str2 : pj_str_t) (len : Nat) : Int :=
  if str1.take len = str2.take len then 0
  else if str1.take len < str2.take len then -1
  else 1

/-- The role character written at the head of a key. -/
def role_char (role : pjsip_role_e) : Char :=
  if role = pjsip_role_e.PJSIP_ROLE_UAC then 'c' else 's'

/-- Size of the buffer `create_tsx_key_2543` allocates (`len_required`). -/
def len_required_2543 (from_ : pjsip_fromto_hdr) (cid : pjsip_cid_hdr)
    (via : pjsip_via_hdr) : Nat :=
  9 + from_.tag.length + cid.id.length + via.sent_by_host.length + 9 + 16

/-- The writes of `create_tsx_key_2543` through the cursor `p`, statement by
statement: `p` is the list of bytes written so far, `*p++ = c` appends `c`
and `pj_memcpy(p, s.ptr, s.slen); p += s.slen` appends `s`. -/
def key_2543_bytes (role : pjsip_role_e) (method : pjsip_method)
    (cseq : pjsip_cseq_hdr) (from_ : pjsip_fromto_hdr) (cid : pjsip_cid_hdr)
    (via : pjsip_via_hdr) : pj_str_t :=
  let host := via.sent_by_host
  let p : pj_str_t := []
  -- Add role.
  let p := p ++ [role_char role]
  let p := p ++ [SEPARATOR]
  -- Add method, except when method is INVITE or ACK.
  let p :=
    if method.id ≠ pjsip_method_e.PJSIP_INVITE_METHOD ∧
        method.id ≠ pjsip_method_e.PJSIP_ACK_METHOD then
      (p ++ method.name) ++ ['$']
    else p
  -- Add CSeq (only the number).
  let p := p ++ pj_utoa cseq.cseq
  let p := p ++ [SEPARATOR]
  -- Add From tag.
  let p := p ++ from_.tag
  let p := p ++ [SEPARATOR]
  -- Add Call-ID.
  let p := p ++ cid.id
  let p := p ++ [SEPARATOR]
  -- Add top Via header.
  let p := p ++ host
  let p := p ++ [':']
  let p := p ++ pj_utoa via.sent_by_port
  let p := p ++ [SEPARATOR]
  let p := p ++ [Char.ofNat 0]
  p

/-- Embedding of `create_tsx_key_2543`.  The `PJ_ASSERT_RETURN` guards on the
message, Via, CSeq and From become error returns; the Call-ID pointer is
dereferenced unchecked, so its absence is an undefined run (`none`).  On
success `str->ptr = key` and `str->slen = p - key`, the number of bytes
written, so the key is the whole byte sequence. -/
def create_tsx_key_2543 (role : pjsip_role_e) (method : pjsip_method)
    (rdata : pjsip_rx_data) : Option (Except pj_status_t pj_str_t) :=
  match rdata.msg_info.msg with
  | none => some (.error .PJ_EINVAL)
  | some _ =>
    match rdata.msg_info.via with
    | none => some (.error .PJSIP_EMISSINGHDR)
    | some via =>
      match rdata.msg_info.cseq with
      | none => some (.error .PJSIP_EMISSINGHDR)
      | some cseq =>
        match rdata.msg_info.from_ with
        | none => some (.error .PJSIP_EMISSINGHDR)
        | some from_ =>
          match rdata.msg_info.cid with
          | none => none
          | some cid => some (.ok (key_2543_bytes role method cseq from_ cid via))

/-- Embedding of `create_tsx_key_3261`, statement by statement as for
`key_2543_bytes`; `key->slen = p - key->ptr`. -/
def create_tsx_key_3261 (role : pjsip_role_e) (method : pjsip_method)
    (branch : pj_str_t) : Except pj_status_t pj_str_t :=
  let p : pj_str_t := []
  -- Add role.
  let p := p ++ [role_char role]
  let p := p ++ [SEPARATOR]
  -- Add method, except when method is INVITE or ACK.
  let p :=
    if method.id ≠ pjsip_method_e.PJSIP_INVITE_METHOD ∧
        method.id ≠ pjsip_method_e.PJSIP_ACK_METHOD then
      (p ++ method.name) ++ ['$']
    else p
  -- Add branch ID.
  let p := p ++ branch
  .ok p

/-- Embedding of `pjsip_tsx_create_key`.  The top-most Via is dereferenced
unchecked (`none` when it is absent). -/
def pjsip_tsx_create_key (role : pjsip_role_e) (method : pjsip_method)
    (rdata : pjsip_rx_data) : Option (Except pj_status_t pj_str_t) :=
  match rdata.msg_info.via with
  | none => none
  | some via =>
    let branch := via.branch_param
    if pj_strncmp branch PJSIP_RFC3261_BRANCH_ID PJSIP_RFC3261_BRANCH_LEN = 0 then
      some (create_tsx_key_3261 role method branch)
    else
      create_tsx_key_2543 role method rdata

/-! ## Transaction data model

The state machine is embedded as functions on a `World`: the transaction
structure the C code mutates through its `tsx` pointer, the registry of the
layer, the thread-local stack of lock frames, and a trace of the calls the
code makes to its collaborators (timer heap, transport, endpoint, transaction
user).  Calls whose result the code inspects take their answer from an `Env`.
The collaborators are taken not to call back into the transaction while they
are running: a send completes through a later `send_msg_callback` or
`transport_callback`, and a TU callback returns without touching the
transaction.  `pj_assert` is compiled out (release build); `PJ_ASSERT_RETURN`
returns its error value. -/

/-- Transaction states, in the order of `state_str`. -/
inductive pjsip_tsx_state_e
  | PJSIP_TSX_STATE_NULL
  | PJSIP_TSX_STATE_CALLING
  | PJSIP_TSX_STATE_TRYING
  | PJSIP_TSX_STATE_PROCEEDING
  | PJSIP_TSX_STATE_COMPLETED
  | PJSIP_TSX_STATE_CONFIRMED
  | PJSIP_TSX_STATE_TERMINATED
  | PJSIP_TSX_STATE_DESTROYED
  deriving DecidableEq, Repr

/-- Event types (`pjsip_event_id_e`). -/
inductive pjsip_event_id_e
  | PJSIP_EVENT_UNKNOWN
  | PJSIP_EVENT_TIMER
  | PJSIP_EVENT_TX_MSG
  | PJSIP_EVENT_RX_MSG
  | PJSIP_EVENT_TRANSPORT_ERROR
  | PJSIP_EVENT_TSX_STATE
  | PJSIP_EVENT_USER
  deriving DecidableEq, Repr

/-- Internal timer IDs. -/
inductive Transaction_Timer_Id
  | TSX_TIMER_RETRANSMISSION
  | TSX_TIMER_TIMEOUT
  deriving DecidableEq, Repr

/-- A `pj_time_val`: seconds and milliseconds. -/
structure pj_time_val where
  sec : Int
  msec : Int
  deriving DecidableEq, Repr

/-- A timer entry of the transaction: which timer it is and the slot id the
timer heap uses as cancellation token (`-1` when not scheduled). -/
structure pj_timer_entry where
  id : Transaction_Timer_Id
  _timer_id : Int
  deriving DecidableEq, Repr

/-- A transport: its address (pointer identity) and its flag word. -/
structure pjsip_transport where
  ptr : Nat
  flag : Nat
  deriving DecidableEq, Repr

/-- An outgoing message buffer: its address (pointer identity), the message,
the CSeq header `pjsip_msg_find_hdr(msg, PJSIP_H_CSEQ, NULL)` finds in it, and
the Via header `pjsip_msg_find_hdr(msg, PJSIP_H_VIA, NULL)` finds in it (the
top-most one; none unless stated). -/
structure pjsip_tx_data where
  ptr : Nat
  msg : pjsip_msg
  cseq : Option pjsip_cseq_hdr
  via : Option pjsip_via_hdr := none
  deriving DecidableEq, Repr

/-- The transaction user module: which of its two callbacks are set. -/
structure pjsip_module where
  on_rx_response : Bool
  on_tsx_state : Bool
  deriving DecidableEq, Repr

/-- The state handler functions `tsx->state_handler` can point to. -/
inductive tsx_state_handler
  | tsx_on_state_null
  | tsx_on_state_calling
  | tsx_on_state_trying
  | tsx_on_state_proceeding_uas
  | tsx_on_state_proceeding_uac
  | tsx_on_state_completed_uas
  | tsx_on_state_completed_uac
  | tsx_on_state_confirmed
  | tsx_on_state_terminated
  | tsx_on_state_destroyed
  deriving DecidableEq, Repr

/-- The bits of `tsx->transport_flag` ("Transport flag" enum), one field per
bit; the enum values are 1, 2, 4, 8 and 16. -/
structure tsx_transport_flag where
  TSX_HAS_PENDING_TRANSPORT : Bool
  TSX_HAS_PENDING_RESCHED : Bool
  TSX_HAS_PENDING_SEND : Bool
  TSX_HAS_PENDING_DESTROY : Bool
  TSX_HAS_RESOLVED_SERVER : Bool
  deriving DecidableEq, Repr

/-- The integer value of the flag word. -/
def tsx_transport_flag.toNat (f : tsx_transport_flag) : Nat :=
  (if f.TSX_HAS_PENDING_TRANSPORT then 1 else 0) +
  (if f.TSX_HAS_PENDING_RESCHED then 2 else 0) +
  (if f.TSX_HAS_PENDING_SEND then 4 else 0) +
  (if f.TSX_HAS_PENDING_DESTROY then 8 else 0) +
  (if f.TSX_HAS_RESOLVED_SERVER then 16 else 0)

/-- The response address of a UAS transaction (`tsx->res_addr`). -/
structure pjsip_response_addr where
  transport : Option pjsip_transport
  addr_len : Int
  deriving DecidableEq, Repr

/-- The transaction structure. `self` is the address of the structure, the
value a `pjsip_transaction *` compares by. -/
structure pjsip_transaction where
  self : Nat
  tsx_user : Option pjsip_module
  role : pjsip_role_e
  method : pjsip_method
  cseq : Nat
  transaction_key : pj_str_t
  hashed_key : Nat
  branch : pj_str_t
  status_code : Int
  status_text : pj_str_t
  state : pjsip_tsx_state_e
  handle_200resp : Int
  state_handler : Option tsx_state_handler
  transport : Option pjsip_transport
  is_reliable : Bool
  addr_len : Int
  res_addr : pjsip_response_addr
  transport_flag : tsx_transport_flag
  transport_err : Int
  last_tx : Option pjsip_tx_data
  retransmit_count : Nat
  retransmit_timer : pj_timer_entry
  timeout_timer : pj_timer_entry
  deriving DecidableEq, Repr

/-- A frame of the transaction lock stack (`tsx_lock_data`); `prev` is the
rest of the list it sits in. -/
structure tsx_lock_data where
  tsx : Nat
  is_alive : Bool
  deriving DecidableEq, Repr

/-- Where a state change came from (the `void *event_src` of `tsx_set_state`). -/
inductive event_src
  | null
  | rdata (rdata : pjsip_rx_data)
  | tdata (tdata : pjsip_tx_data)
  | timer_entry (entry : Transaction_Timer_Id)
  deriving DecidableEq, Repr

/-- An event handed to a state handler: its type and the member of the body
union that was initialised. -/
inductive pjsip_event
  | timer (entry : Transaction_Timer_Id)
  | tx_msg (tdata : pjsip_tx_data)
  | rx_msg (rdata : pjsip_rx_data)
  deriving DecidableEq, Repr

/-- The `type` field of an event. -/
def pjsip_event.type : pjsip_event → pjsip_event_id_e
  | .timer _ => .PJSIP_EVENT_TIMER
  | .tx_msg _ => .PJSIP_EVENT_TX_MSG
  | .rx_msg _ => .PJSIP_EVENT_RX_MSG

/-- What `event->body.rx_msg.rdata` holds: a message descriptor only when the
event was initialised as a receive event. -/
def pjsip_event.rx_msg_rdata : pjsip_event → Option pjsip_rx_data
  | .rx_msg rdata => some rdata
  | _ => none

/-- What `tsx_on_state_terminated` passes on as `event->body.user.user1`:
the first pointer of the body union. -/
def pjsip_event.user1 : pjsip_event → event_src
  | .timer entry => .timer_entry entry
  | .tx_msg tdata => .tdata tdata
  | .rx_msg rdata => .rdata rdata

/-- Calls to collaborators, in the order the code makes them. -/
inductive Effect
  | on_rx_response (rdata : pjsip_rx_data)
  | on_tsx_state (state prev_state : pjsip_tsx_state_e) (type : pjsip_event_id_e)
      (src : event_src)
  | schedule_timer (entry : Transaction_Timer_Id) (delay : pj_time_val)
  | cancel_timer (entry : Transaction_Timer_Id)
  | transport_send (transport : pjsip_transport) (tdata : pjsip_tx_data)
  | send_request_stateless (tdata : pjsip_tx_data)
  | send_response (tdata : pjsip_tx_data)
  | create_ack (tdata : pjsip_tx_data) (rdata : pjsip_rx_data)
  | transport_add_ref (transport : pjsip_transport)
  | transport_dec_ref (transport : pjsip_transport)
  | tx_data_add_ref (tdata : pjsip_tx_data)
  | tx_data_dec_ref (tdata : pjsip_tx_data)
  | mutex_destroy
  | release_pool
  deriving DecidableEq, Repr

/-- Everything a call into the transaction can read and change. -/
structure World where
  tsx : pjsip_transaction
  htable : List (pj_str_t × Nat)
  tls : List tsx_lock_data
  trace : List Effect
  released : Bool
  deriving DecidableEq, Repr

/-- Constants from headers outside this file, and the answers of the
collaborators to the calls whose result the code inspects. -/
structure Env where
  PJSIP_T1_TIMEOUT : Int
  PJSIP_T2_TIMEOUT : Int
  PJSIP_T4_TIMEOUT : Int
  PJSIP_TD_TIMEOUT : Int
  PJSIP_TRANSPORT_RELIABLE : Nat
  PJSIP_SC_TSX_TIMEOUT : Int
  PJSIP_SC_TSX_TRANSPORT_ERROR : Int
  pjsip_get_status_text : Int → pj_str_t
  pj_strerror : pj_status_t → pj_str_t
  timer_slot : Nat
  transport_send : pj_status_t
  send_request_stateless : pj_status_t
  send_response : pj_status_t
  create_ack : Except pj_status_t pjsip_tx_data

/-! ## Collaborators and small helpers -/

/-- Append a call to the trace. -/
def World.log (w : World) (e : Effect) : World :=
  { w with trace := w.trace ++ [e] }

/-- Timer value `t1_timer_val`. -/
def t1_timer_val (env : Env) : pj_time_val :=
  ⟨Int.tdiv env.PJSIP_T1_TIMEOUT 1000, Int.tmod env.PJSIP_T1_TIMEOUT 1000⟩

/-- Timer value `t4_timer_val`. -/
def t4_timer_val (env : Env) : pj_time_val :=
  ⟨Int.tdiv env.PJSIP_T4_TIMEOUT 1000, Int.tmod env.PJSIP_T4_TIMEOUT 1000⟩

/-- Timer value `td_timer_val`. -/
def td_timer_val (env : Env) : pj_time_val :=
  ⟨Int.tdiv env.PJSIP_TD_TIMEOUT 1000, Int.tmod env.PJSIP_TD_TIMEOUT 1000⟩

/-- Timer value `timeout_timer_val`, 64 times T1. -/
def timeout_timer_val (env : Env) : pj_time_val :=
  ⟨Int.tdiv (64 * env.PJSIP_T1_TIMEOUT) 1000, Int.tmod (64 * env.PJSIP_T1_TIMEOUT) 1000⟩

/-- The value of a 32-bit `int` expression: two's complement wrap-around. -/
def int32 (x : Int) : Int :=
  (x + 2147483648) % 4294967296 - 2147483648

/-- Modelled from the spec: `PJSIP_IS_STATUS_IN_CLASS(status_code, code_class)`
(a macro of a header outside this file) tells whether a status code lies in
the hundred of `code_class`, e.g. 1xx for 100. -/
def PJSIP_IS_STATUS_IN_CLASS (status_code code_class : Int) : Bool :=
  Int.tdiv status_code 100 = Int.tdiv code_class 100

/-- Modelled from the spec: `PJSIP_TRANSPORT_IS_RELIABLE(tp)` (a macro of a
header outside this file) is the reliability bit of the transport flag word. -/
def PJSIP_TRANSPORT_IS_RELIABLE (env : Env) (tp : pjsip_transport) : Nat :=
  tp.flag &&& env.PJSIP_TRANSPORT_RELIABLE

/-- Modelled from the spec: `pjsip_method_cmp` (outside this file) is zero
exactly when both methods are the same: same identifier and, for extension
methods, the same name up to letter case. -/
def pjsip_method_cmp (m1 m2 : pjsip_method) : Int :=
  if m1.id = m2.id then
    if m1.id ≠ pjsip_method_e.PJSIP_OTHER_METHOD then 0
    else if m1.name.map Char.toLower = m2.name.map Char.toLower then 0
    else 1
  else 1

/-- Modelled from the spec: `pj_hash_get` on the registry, the value stored
under a key, if any. -/
def pj_hash_get (ht : List (pj_str_t × Nat)) (key : pj_str_t) : Option Nat :=
  ht.lookup key

/-- Modelled from the spec: `pj_hash_set` on the registry stores a value under
a key, replacing what was there; with a `NULL` value it removes the key. -/
def pj_hash_set (ht : List (pj_str_t × Nat)) (key : pj_str_t) (value : Option Nat) :
    List (pj_str_t × Nat) :=
  match value with
  | none => ht.filter (fun kv => kv.1 ≠ key)
  | some v => (key, v) :: ht.filter (fun kv => kv.1 ≠ key)

/-- Write the slot id of one of the two timer entries of the transaction. -/
def set_timer_id (w : World) (entry : Transaction_Timer_Id) (id : Int) : World :=
  match entry with
  | .TSX_TIMER_RETRANSMISSION =>
    { w with tsx := { w.tsx with
        retransmit_timer := { w.tsx.retransmit_timer with _timer_id := id } } }
  | .TSX_TIMER_TIMEOUT =>
    { w with tsx := { w.tsx with
        timeout_timer := { w.tsx.timeout_timer with _timer_id := id } } }

/-- Modelled from the spec: `pjsip_endpt_schedule_timer` hands the entry to the
timer heap, which sets its slot id to a non-negative value. -/
def pjsip_endpt_schedule_timer (env : Env) (w : World) (entry : Transaction_Timer_Id)
    (delay : pj_time_val) : World :=
  set_timer_id (w.log (.schedule_timer entry delay)) entry env.timer_slot

/-- Modelled from the spec: `pjsip_endpt_cancel_timer` takes the entry off the
timer heap, which resets its slot id to `-1`. -/
def pjsip_endpt_cancel_timer (w : World) (entry : Transaction_Timer_Id) : World :=
  set_timer_id (w.log (.cancel_timer entry)) entry (-1)

/-- Update the flag word of the transaction. -/
def set_transport_flag (w : World) (f : tsx_transport_flag) : World :=
  { w with tsx := { w.tsx with transport_flag := f } }

/-- Pointer comparison `tsx->last_tx == tdata`. -/
def last_tx_is (w : World) (tdata : pjsip_tx_data) : Bool :=
  w.tsx.last_tx.map (fun t => t.ptr) = some tdata.ptr

/-- The conversion of the `int` kept in `tsx->transport_err` to a status. -/
def pj_status_of_int (n : Int) : pj_status_t :=
  if n = 0 then .PJ_SUCCESS else .OTHER n.natAbs

/-- The handler table `tsx_state_handler_uac`, indexed by state. -/
def tsx_state_handler_uac : pjsip_tsx_state_e → Option tsx_state_handler
  | .PJSIP_TSX_STATE_NULL => some .tsx_on_state_null
  | .PJSIP_TSX_STATE_CALLING => some .tsx_on_state_calling
  | .PJSIP_TSX_STATE_TRYING => none
  | .PJSIP_TSX_STATE_PROCEEDING => some .tsx_on_state_proceeding_uac
  | .PJSIP_TSX_STATE_COMPLETED => some .tsx_on_state_completed_uac
  | .PJSIP_TSX_STATE_CONFIRMED => some .tsx_on_state_confirmed
  | .PJSIP_TSX_STATE_TERMINATED => some .tsx_on_state_terminated
  | .PJSIP_TSX_STATE_DESTROYED => some .tsx_on_state_destroyed

/-- The handler table `tsx_state_handler_uas`, indexed by state. -/
def tsx_state_handler_uas : pjsip_tsx_state_e → Option tsx_state_handler
  | .PJSIP_TSX_STATE_NULL => some .tsx_on_state_null
  | .PJSIP_TSX_STATE_CALLING => none
  | .PJSIP_TSX_STATE_TRYING => some .tsx_on_state_trying
  | .PJSIP_TSX_STATE_PROCEEDING => some .tsx_on_state_proceeding_uas
  | .PJSIP_TSX_STATE_COMPLETED => some .tsx_on_state_completed_uas
  | .PJSIP_TSX_STATE_CONFIRMED => some .tsx_on_state_confirmed
  | .PJSIP_TSX_STATE_TERMINATED => some .tsx_on_state_terminated
  | .PJSIP_TSX_STATE_DESTROYED => some .tsx_on_state_destroyed

/-! ## Registry and lock frames -/

/-- Embedding of `mod_tsx_layer_register_tsx`: the check for an existing key
is a `pj_assert` only, the key is stored and `PJ_SUCCESS` returned. -/
def mod_tsx_layer_register_tsx (w : World) : pj_status_t × World :=
  (.PJ_SUCCESS,
    { w with htable := pj_hash_set w.htable w.tsx.transaction_key (some w.tsx.self) })

/-- Embedding of `mod_tsx_layer_unregister_tsx`. -/
def mod_tsx_layer_unregister_tsx (w : World) : World :=
  { w with htable := pj_hash_set w.htable w.tsx.transaction_key none }

/-- Embedding of `pjsip_tsx_layer_find_tsx`: the transaction stored in the
registry under the key, if any.  With `lock` set the mutex of the transaction
found is taken as well, which the model does not record; the hash value the
table computes for the key is the one the transaction was stored with
(`tsx->hashed_key` is `pj_hash_calc` of the key). -/
def pjsip_tsx_layer_find_tsx (w : World) (key : pj_str_t) (_lock : Bool) : Option Nat :=
  pj_hash_get w.htable key

/-- Embedding of `lock_tsx`: push a live frame for the transaction. -/
def lock_tsx (w : World) : World :=
  { w with tls := { tsx := w.tsx.self, is_alive := true } :: w.tls }

/-- Embedding of `unlock_tsx` on the frame pushed last: pop it and report
whether the transaction is still alive.  There is no frame to read when the
stack is empty (`none`). -/
def unlock_tsx (w : World) : Option (pj_status_t × World) :=
  match w.tls with
  | [] => none
  | lck :: prev =>
    some (if lck.is_alive then .PJ_SUCCESS else .PJSIP_ETSXDESTROYED,
      { w with tls := prev })

/-- Embedding of `tsx_set_status_code`. -/
def tsx_set_status_code (env : Env) (w : World) (code : Int) (reason : Option pj_str_t) :
    World :=
  { w with tsx := { w.tsx with
      status_code := code
      status_text :=
        match reason with
        | some r => r
        | none => env.pjsip_get_status_text code } }

/-- Embedding of `tsx_destroy`. -/
def tsx_destroy (w : World) : World :=
  -- Decrement transport reference counter.
  let w :=
    match w.tsx.transport with
    | some tp => { (w.log (.transport_dec_ref tp)) with
        tsx := { w.tsx with transport := none } }
    | none => w
  -- Free last transmitted message.
  let w :=
    match w.tsx.last_tx with
    | some t => { (w.log (.tx_data_dec_ref t)) with tsx := { w.tsx with last_tx := none } }
    | none => w
  -- Cancel timeout timer.
  let w :=
    if w.tsx.timeout_timer._timer_id ≠ -1 then
      set_timer_id (pjsip_endpt_cancel_timer w .TSX_TIMER_TIMEOUT) .TSX_TIMER_TIMEOUT (-1)
    else w
  -- Cancel retransmission timer.
  let w :=
    if w.tsx.retransmit_timer._timer_id ≠ -1 then
      set_timer_id (pjsip_endpt_cancel_timer w .TSX_TIMER_RETRANSMISSION)
        .TSX_TIMER_RETRANSMISSION (-1)
    else w
  -- Clear some pending flags.
  let w := set_transport_flag w { w.tsx.transport_flag with
    TSX_HAS_PENDING_RESCHED := false, TSX_HAS_PENDING_SEND := false }
  -- Refuse to destroy transaction if it has pending resolving.
  if w.tsx.transport_flag.TSX_HAS_PENDING_TRANSPORT then
    let w := set_transport_flag w { w.tsx.transport_flag with
      TSX_HAS_PENDING_DESTROY := true }
    { w with tsx := { w.tsx with tsx_user := none } }
  else
    -- Clear TLS, so that mutex will not be unlocked.
    let w := { w with tls := w.tls.map (fun (lck : tsx_lock_data) =>
      if lck.tsx = w.tsx.self then { lck with is_alive := false } else lck) }
    let w := w.log .mutex_destroy
    { (w.log .release_pool) with released := true }

/-! ## State change, send pipeline, retransmission -/

/-- First block of `tsx_set_state`, "Before informing TU about state changed,
inform TU about rx event": with a receive event and a transaction user the
`rdata` pointer is dereferenced (`none` when it does not point to a message
descriptor with a message), and a response is passed to `on_rx_response`. -/
def tsx_set_state_inform_rx (w : World) (event_src_type : pjsip_event_id_e)
    (src : event_src) : Option World :=
  match w.tsx.tsx_user with
  | some tsx_user =>
    if event_src_type = .PJSIP_EVENT_RX_MSG then
      match src with
      | .rdata rdata =>
        match rdata.msg_info.msg with
        | some msg =>
          if msg.type = .PJSIP_RESPONSE_MSG ∧ tsx_user.on_rx_response = true then
            some (w.log (.on_rx_response rdata))
          else some w
        | none => none
      | _ => none
    else some w
  | none => some w

/-- Second block of `tsx_set_state`, "Inform TU about state changed". -/
def tsx_set_state_inform_state (w : World) (state prev_state : pjsip_tsx_state_e)
    (event_src_type : pjsip_event_id_e) (src : event_src) : World :=
  match w.tsx.tsx_user with
  | some tsx_user =>
    if tsx_user.on_tsx_state = true then
      w.log (.on_tsx_state state prev_state event_src_type src)
    else w
  | none => w

/-- Third block of `tsx_set_state`, "When the transaction is terminated,
release transport, and free the saved last transmitted message" with its
`else if (state == PJSIP_TSX_STATE_DESTROYED)` arm. -/
def tsx_set_state_finish (env : Env) (w : World) (state : pjsip_tsx_state_e) : World :=
  if state = .PJSIP_TSX_STATE_TERMINATED then
    -- Reschedule timeout timer to destroy this transaction.
    if w.tsx.transport_flag.TSX_HAS_PENDING_TRANSPORT then
      set_transport_flag w { w.tsx.transport_flag with TSX_HAS_PENDING_DESTROY := true }
    else
      -- Cancel timeout timer.
      let w :=
        if w.tsx.timeout_timer._timer_id ≠ -1 then
          set_timer_id (pjsip_endpt_cancel_timer w .TSX_TIMER_TIMEOUT) .TSX_TIMER_TIMEOUT (-1)
        else w
      pjsip_endpt_schedule_timer env w .TSX_TIMER_TIMEOUT ⟨0, 0⟩
  else if state = .PJSIP_TSX_STATE_DESTROYED then
    -- Unregister transaction.
    let w := mod_tsx_layer_unregister_tsx w
    -- Destroy transaction.
    tsx_destroy w
  else w

/-- Embedding of `tsx_set_state`: the state and the handler are updated, then
the three blocks above run in order. -/
def tsx_set_state (env : Env) (w : World) (state : pjsip_tsx_state_e)
    (event_src_type : pjsip_event_id_e) (src : event_src) : Option World :=
  let prev_state := w.tsx.state
  -- Change state.
  let w := { w with tsx := { w.tsx with state := state } }
  -- Update the state handlers.
  let w := { w with tsx := { w.tsx with
    state_handler :=
      if w.tsx.role = pjsip_role_e.PJSIP_ROLE_UAC then tsx_state_handler_uac state
      else tsx_state_handler_uas state } }
  match tsx_set_state_inform_rx w event_src_type src with
  | none => none
  | some w =>
    some (tsx_set_state_finish env
      (tsx_set_state_inform_state w state prev_state event_src_type src) state)

/-- The second half of `tsx_send_msg`, from "We are here because we don't have
transport, or we failed to send the message using existing transport";
`status` is the status the first half left. -/
def tsx_send_msg_resolve (env : Env) (w : World) (tdata : pjsip_tx_data)
    (status : pj_status_t) : Option (pj_status_t × World) :=
  -- If we have resolved the server, we treat the error as permanent error.
  if w.tsx.transport_flag.TSX_HAS_RESOLVED_SERVER then
    let status := if status = .PJ_SUCCESS then .PJ_EUNKNOWN else status
    let err := env.pj_strerror status
    let w := tsx_set_status_code env w env.PJSIP_SC_TSX_TRANSPORT_ERROR (some err)
    match tsx_set_state env w .PJSIP_TSX_STATE_TERMINATED .PJSIP_EVENT_TRANSPORT_ERROR
        .null with
    | none => none
    | some w => some (status, w)
  else
    -- Must add reference counter because the send request functions
    -- decrement the reference counter.
    let w := w.log (.tx_data_add_ref tdata)
    -- Begin resolving destination etc to send the message.
    if tdata.msg.type = .PJSIP_REQUEST_MSG then
      let w := set_transport_flag w { w.tsx.transport_flag with
        TSX_HAS_PENDING_TRANSPORT := true }
      let w := w.log (.send_request_stateless tdata)
      let status := env.send_request_stateless
      let status := if status = .PJ_EPENDING then .PJ_SUCCESS else status
      let w := if status ≠ .PJ_SUCCESS then w.log (.tx_data_dec_ref tdata) else w
      -- Check if transaction is terminated.
      let status :=
        if status = .PJ_SUCCESS ∧ w.tsx.state = .PJSIP_TSX_STATE_TERMINATED then
          pj_status_of_int w.tsx.transport_err
        else status
      some (status, w)
    else
      let w := set_transport_flag w { w.tsx.transport_flag with
        TSX_HAS_PENDING_TRANSPORT := true }
      let w := w.log (.send_response tdata)
      let status := env.send_response
      let status := if status = .PJ_EPENDING then .PJ_SUCCESS else status
      let w := if status ≠ .PJ_SUCCESS then w.log (.tx_data_dec_ref tdata) else w
      -- Check if transaction is terminated.
      let status :=
        if status = .PJ_SUCCESS ∧ w.tsx.state = .PJSIP_TSX_STATE_TERMINATED then
          pj_status_of_int w.tsx.transport_err
        else status
      some (status, w)

/-- Embedding of `tsx_send_msg`; `tdata` may be `NULL`. -/
def tsx_send_msg (env : Env) (w : World) (tdata : Option pjsip_tx_data) :
    Option (pj_status_t × World) :=
  match tdata with
  | none => some (.PJ_EINVAL, w)
  | some tdata =>
    -- Send later if transport is still pending.
    if w.tsx.transport_flag.TSX_HAS_PENDING_TRANSPORT then
      some (.PJ_SUCCESS, set_transport_flag w { w.tsx.transport_flag with
        TSX_HAS_PENDING_SEND := true })
    else
      -- If we have the transport, send the message using that transport.
      -- Otherwise perform full transport resolution.
      match w.tsx.transport with
      | some tp =>
        let w := w.log (.transport_send tp tdata)
        let status := env.transport_send
        let status := if status = .PJ_EPENDING then .PJ_SUCCESS else status
        if status ≠ .PJ_SUCCESS then
          -- On error, release transport to force using full transport
          -- resolution procedure.
          let w := w.log (.transport_dec_ref tp)
          let w := { w with tsx := { w.tsx with
            transport := none
            addr_len := 0
            res_addr := { transport := none, addr_len := 0 } } }
          tsx_send_msg_resolve env w tdata status
        else some (.PJ_SUCCESS, w)
      | none => tsx_send_msg_resolve env w tdata .PJ_SUCCESS

/-- Embedding of `tsx_resched_retransmission`.  `msec_time` is an `int`. -/
def tsx_resched_retransmission (env : Env) (w : World) : World :=
  let msec_time := int32 (int32 (2 ^ w.tsx.retransmit_count) * env.PJSIP_T1_TIMEOUT)
  let msec_time :=
    if w.tsx.role = .PJSIP_ROLE_UAC then
      -- Retransmission for non-INVITE transaction caps-off at T2
      if msec_time > env.PJSIP_T2_TIMEOUT ∧
          w.tsx.method.id ≠ pjsip_method_e.PJSIP_INVITE_METHOD then
        env.PJSIP_T2_TIMEOUT
      else msec_time
    else
      -- Retransmission of INVITE final response also caps-off at T2
      if msec_time > env.PJSIP_T2_TIMEOUT then env.PJSIP_T2_TIMEOUT else msec_time
  let timeout : pj_time_val := ⟨Int.tdiv msec_time 1000, Int.tmod msec_time 1000⟩
  pjsip_endpt_schedule_timer env w .TSX_TIMER_RETRANSMISSION timeout

/-- Embedding of `tsx_retransmit`. -/
def tsx_retransmit (env : Env) (w : World) (resched : Bool) :
    Option (pj_status_t × World) :=
  match w.tsx.last_tx with
  | none => some (.PJ_EBUG, w)
  | some last_tx =>
    let w := { w with tsx := { w.tsx with retransmit_count := w.tsx.retransmit_count + 1 } }
    -- Restart timer T1 first before sending the message to ensure that
    -- retransmission timer is not engaged when loop transport is used.
    let w :=
      if resched then
        if w.tsx.transport_flag.TSX_HAS_PENDING_TRANSPORT then
          set_transport_flag w { w.tsx.transport_flag with TSX_HAS_PENDING_RESCHED := true }
        else tsx_resched_retransmission env w
      else w
    match tsx_send_msg env w (some last_tx) with
    | none => none
    | some (status, w) =>
      if status ≠ .PJ_SUCCESS then some (status, w)
      else some (.PJ_SUCCESS, w)

/-! ## State handlers -/

/-- The "cancel retransmission timer" idiom of the handlers: cancel the timer
when its slot id is not `-1`, then clear the pending-reschedule flag. -/
def cancel_retransmit_timer (w : World) : World :=
  let w :=
    if w.tsx.retransmit_timer._timer_id ≠ -1 then
      set_timer_id (pjsip_endpt_cancel_timer w .TSX_TIMER_RETRANSMISSION)
        .TSX_TIMER_RETRANSMISSION (-1)
    else w
  set_transport_flag w { w.tsx.transport_flag with TSX_HAS_PENDING_RESCHED := false }

/-- The "save the message" idiom `if (tsx->last_tx != tdata) { tsx->last_tx =
tdata; pjsip_tx_data_add_ref(tdata); }`. -/
def save_last_tx (w : World) (tdata : pjsip_tx_data) : World :=
  if ¬ last_tx_is w tdata then
    { (w.log (.tx_data_add_ref tdata)) with tsx := { w.tsx with last_tx := some tdata } }
  else w

/-- The "discard the saved message" idiom `if (tsx->last_tx && tsx->last_tx !=
tdata) { pjsip_tx_data_dec_ref(tsx->last_tx); tsx->last_tx = NULL; }`. -/
def discard_last_tx (w : World) (tdata : pjsip_tx_data) : World :=
  match w.tsx.last_tx with
  | some last_tx =>
    if ¬ last_tx_is w tdata then
      { (w.log (.tx_data_dec_ref last_tx)) with tsx := { w.tsx with last_tx := none } }
    else w
  | none => w

/-- The "start retransmission timer" idiom: reset the counter and either note
the pending reschedule or schedule the retransmit timer at T1. -/
def start_retransmit_timer (env : Env) (w : World) : World :=
  let w := { w with tsx := { w.tsx with retransmit_count := 0 } }
  if w.tsx.transport_flag.TSX_HAS_PENDING_TRANSPORT then
    set_transport_flag w { w.tsx.transport_flag with TSX_HAS_PENDING_RESCHED := true }
  else
    pjsip_endpt_schedule_timer env w .TSX_TIMER_RETRANSMISSION (t1_timer_val env)

/-- Embedding of `tsx_on_state_null`. -/
def tsx_on_state_null (env : Env) (w : World) (event : pjsip_event) :
    Option (pj_status_t × World) :=
  if w.tsx.role = .PJSIP_ROLE_UAS then
    -- Set state to Trying.
    match tsx_set_state env w .PJSIP_TSX_STATE_TRYING .PJSIP_EVENT_RX_MSG event.user1 with
    | none => none
    | some w => some (.PJ_SUCCESS, w)
  else
    -- Must be transmit event.
    match event with
    | .tx_msg tdata =>
      -- Save the message for retransmission.
      let w := discard_last_tx w tdata
      let w := save_last_tx w tdata
      -- Send the message.
      match tsx_send_msg env w (some tdata) with
      | none => none
      | some (status, w) =>
        if status ≠ .PJ_SUCCESS then some (status, w)
        else
          -- Start Timer B (or called timer F for non-INVITE) for transaction
          -- timeout.
          let w := pjsip_endpt_schedule_timer env w .TSX_TIMER_TIMEOUT (timeout_timer_val env)
          -- Start Timer A (or timer E) for retransmission only if unreliable
          -- transport is being used.
          let w := if ¬ w.tsx.is_reliable then start_retransmit_timer env w else w
          -- Move state.
          match tsx_set_state env w .PJSIP_TSX_STATE_CALLING .PJSIP_EVENT_TX_MSG
              (.tdata tdata) with
          | none => none
          | some w => some (.PJ_SUCCESS, w)
    | _ => some (.PJ_EBUG, w)

/-- The block "Generate ACK now (for INVITE) but send it later because dialog
need to use last_tx" of `tsx_on_state_proceeding_uac`: the result of
`pjsip_endpt_create_ack` (no ACK for another method).  The call reads the
original request and the response, so both pointers must be valid. -/
def proceeding_uac_create_ack (env : Env) (w : World) (event : pjsip_event) :
    Option (Except pj_status_t (Option pjsip_tx_data) × World) :=
  if w.tsx.method.id = pjsip_method_e.PJSIP_INVITE_METHOD then
    match w.tsx.last_tx, event.rx_msg_rdata with
    | some last_tx, some rdata =>
      match env.create_ack with
      | .ok ack_tdata => some (.ok (some ack_tdata), w.log (.create_ack last_tx rdata))
      | .error status => some (.error status, w.log (.create_ack last_tx rdata))
    | _, _ => none
  else some (.ok none, w)

/-- The block "Generate and send ACK for INVITE" of
`tsx_on_state_proceeding_uac`: send the ACK and make it the new `last_tx`;
the status is that of the send (success for another method). -/
def proceeding_uac_send_ack (env : Env) (w : World) (ack_tdata : Option pjsip_tx_data) :
    Option (pj_status_t × World) :=
  if w.tsx.method.id = pjsip_method_e.PJSIP_INVITE_METHOD then
    match tsx_send_msg env w ack_tdata with
    | none => none
    | some (status, w) =>
      if w.tsx.last_tx.map (fun t => t.ptr) ≠ ack_tdata.map (fun t => t.ptr) then
        match w.tsx.last_tx with
        | none => none
        | some last_tx =>
          some (status, { (w.log (.tx_data_dec_ref last_tx)) with
            tsx := { w.tsx with last_tx := ack_tdata } })
      else some (status, w)
  else some (.PJ_SUCCESS, w)

/-- The block "Start Timer D with TD/T4 timer if unreliable transport is
used" of `tsx_on_state_proceeding_uac`. -/
def proceeding_uac_start_timer_d (env : Env) (w : World) : World :=
  -- Note: tsx->transport may be NULL!
  let unreliable : Bool :=
    (match w.tsx.transport with
      | some tp => decide (PJSIP_TRANSPORT_IS_RELIABLE env tp = 0)
      | none => false) ||
    decide (w.tsx.transport_flag.toNat &&& env.PJSIP_TRANSPORT_RELIABLE = 0)
  let timeout :=
    if unreliable then
      if w.tsx.method.id = pjsip_method_e.PJSIP_INVITE_METHOD then td_timer_val env
      else t4_timer_val env
    else ⟨0, 0⟩
  pjsip_endpt_schedule_timer env w .TSX_TIMER_TIMEOUT timeout

/-- The second part of `tsx_on_state_proceeding_uac`, after the status code
has been set: the branch on the class of `tsx->status_code`. -/
def tsx_on_state_proceeding_uac_status (env : Env) (w : World) (event : pjsip_event) :
    Option (pj_status_t × World) :=
  if PJSIP_IS_STATUS_IN_CLASS w.tsx.status_code 100 then
    -- Inform the message to TU.
    match tsx_set_state env w .PJSIP_TSX_STATE_PROCEEDING .PJSIP_EVENT_RX_MSG
        event.user1 with
    | none => none
    | some w => some (.PJ_SUCCESS, w)
  else if PJSIP_IS_STATUS_IN_CLASS w.tsx.status_code 200 then
    -- Stop timeout timer B/F.
    let w := pjsip_endpt_cancel_timer w .TSX_TIMER_TIMEOUT
    -- For INVITE, the state moves to Terminated state (because ACK is
    -- handled in TU). For non-INVITE, state moves to Completed.
    if w.tsx.method.id = pjsip_method_e.PJSIP_INVITE_METHOD then
      match tsx_set_state env w .PJSIP_TSX_STATE_TERMINATED .PJSIP_EVENT_RX_MSG
          event.user1 with
      | none => none
      | some w => some (.PJ_SUCCESS, w)
    else
      -- For unreliable transport, start timer D (for INVITE) or
      -- timer K for non-INVITE.
      let timeout :=
        if ¬ w.tsx.is_reliable then
          if w.tsx.method.id = pjsip_method_e.PJSIP_INVITE_METHOD then td_timer_val env
          else t4_timer_val env
        else ⟨0, 0⟩
      let w := pjsip_endpt_schedule_timer env w .TSX_TIMER_TIMEOUT timeout
      -- Move state to Completed, inform TU.
      match tsx_set_state env w .PJSIP_TSX_STATE_COMPLETED .PJSIP_EVENT_RX_MSG
          event.user1 with
      | none => none
      | some w => some (.PJ_SUCCESS, w)
  else if w.tsx.status_code ≥ 300 ∧ w.tsx.status_code ≤ 699 then
    -- Stop timer B.
    let w := pjsip_endpt_cancel_timer w .TSX_TIMER_TIMEOUT
    -- Generate ACK now (for INVITE) but send it later because dialog need to
    -- use last_tx.
    match proceeding_uac_create_ack env w event with
    | none => none
    | some (.error status, w) => some (status, w)
    | some (.ok ack_tdata, w) =>
      -- Inform TU.
      match tsx_set_state env w .PJSIP_TSX_STATE_COMPLETED .PJSIP_EVENT_RX_MSG
          event.user1 with
      | none => none
      | some w =>
        -- Generate and send ACK for INVITE.
        match proceeding_uac_send_ack env w ack_tdata with
        | none => none
        | some (status, w) =>
          if status ≠ .PJ_SUCCESS then some (status, w)
          else
            -- Start Timer D with TD/T4 timer if unreliable transport is used.
            some (.PJ_SUCCESS, proceeding_uac_start_timer_d env w)
  else
    -- Shouldn't happen because there's no timer for this state.
    some (.PJ_EBUG, w)

/-- Embedding of `tsx_on_state_proceeding_uac`. -/
def tsx_on_state_proceeding_uac (env : Env) (w : World) (event : pjsip_event) :
    Option (pj_status_t × World) :=
  match event with
  | .tx_msg _ =>
    -- Must be incoming response.
    some (.PJ_EINVALIDOP, w)
  | .rx_msg rdata =>
    match rdata.msg_info.msg with
    | none => none
    | some msg =>
      -- Must be a response message.
      if msg.type ≠ .PJSIP_RESPONSE_MSG then some (.PJSIP_ENOTRESPONSEMSG, w)
      else
        let w := tsx_set_status_code env w msg.line.status.code (some msg.line.status.reason)
        tsx_on_state_proceeding_uac_status env w event
  | .timer _ =>
    let w := tsx_set_status_code env w env.PJSIP_SC_TSX_TIMEOUT none
    tsx_on_state_proceeding_uac_status env w event

/-- Embedding of `tsx_on_state_calling`. -/
def tsx_on_state_calling (env : Env) (w : World) (event : pjsip_event) :
    Option (pj_status_t × World) :=
  match event with
  | .timer .TSX_TIMER_RETRANSMISSION =>
    -- Retransmit the request.
    match tsx_retransmit env w true with
    | none => none
    | some (status, w) =>
      if status ≠ .PJ_SUCCESS then some (status, w) else some (.PJ_SUCCESS, w)
  | .timer .TSX_TIMER_TIMEOUT =>
    -- Cancel retransmission timer.
    let w := cancel_retransmit_timer w
    -- Set status code
    let w := tsx_set_status_code env w env.PJSIP_SC_TSX_TIMEOUT none
    -- Inform TU.
    match tsx_set_state env w .PJSIP_TSX_STATE_TERMINATED .PJSIP_EVENT_TIMER
        (.timer_entry .TSX_TIMER_TIMEOUT) with
    | none => none
    | some w => some (.PJ_SUCCESS, w)
  | .rx_msg rdata =>
    -- Get message instance
    match rdata.msg_info.msg with
    | none => none
    | some msg =>
      -- Better be a response message.
      if msg.type ≠ .PJSIP_RESPONSE_MSG then some (.PJSIP_ENOTRESPONSEMSG, w)
      else
        -- Cancel retransmission timer A.
        let w := cancel_retransmit_timer w
        -- Cancel timer B (transaction timeout)
        let w := pjsip_endpt_cancel_timer w .TSX_TIMER_TIMEOUT
        -- Processing is similar to state Proceeding; the status it returns
        -- is dropped.
        match tsx_on_state_proceeding_uac env w event with
        | none => none
        | some (_, w) => some (.PJ_SUCCESS, w)
  | .tx_msg _ => some (.PJ_EBUG, w)

/-- The block "Setup timeout timer" of the 2xx branch of
`tsx_on_state_proceeding_uas`: timer H for INVITE, timer J for the others.
For a non-INVITE transaction the transport pointer is dereferenced unchecked
(`none` when it is `NULL`). -/
def proceeding_uas_2xx_timeout (env : Env) (w : World) : Option pj_time_val :=
  if w.tsx.method.id = pjsip_method_e.PJSIP_INVITE_METHOD then
    -- Start Timer H at 64*T1 for INVITE server transaction, regardless of
    -- transport.
    some (timeout_timer_val env)
  else
    match w.tsx.transport with
    | none => none
    | some tp =>
      if PJSIP_TRANSPORT_IS_RELIABLE env tp = 0 then
        -- For non-INVITE, start timer J at 64*T1 for unreliable transport.
        some (timeout_timer_val env)
      else
        -- Transaction terminates immediately for non-INVITE when reliable
        -- transport is used.
        some ⟨0, 0⟩

/-- The block "For INVITE, start timer H for transaction termination
regardless whether transport is reliable or not.  For non-INVITE, start timer
J with the value of 64*T1 for non-reliable transports, and zero for reliable
transports" of the 3xx-6xx branch of `tsx_on_state_proceeding_uas`. -/
def proceeding_uas_3xx_timeout (env : Env) (w : World) : World :=
  if w.tsx.method.id = pjsip_method_e.PJSIP_INVITE_METHOD then
    -- Start timer H for INVITE
    pjsip_endpt_schedule_timer env w .TSX_TIMER_TIMEOUT (timeout_timer_val env)
  else if ¬ w.tsx.is_reliable then
    -- Start timer J on 64*T1 seconds for non-INVITE
    pjsip_endpt_schedule_timer env w .TSX_TIMER_TIMEOUT (timeout_timer_val env)
  else
    -- Start timer J on zero seconds for non-INVITE
    pjsip_endpt_schedule_timer env w .TSX_TIMER_TIMEOUT ⟨0, 0⟩

/-- The block "For INVITE, if unreliable transport is used, retransmission
timer G will be scheduled" of the 3xx-6xx branch of
`tsx_on_state_proceeding_uas`.  The CSeq header found in the response is
dereferenced unchecked (`none` when the response has none). -/
def proceeding_uas_3xx_retransmit (env : Env) (w : World) (tdata : pjsip_tx_data) :
    Option World :=
  if ¬ w.tsx.is_reliable then
    match tdata.cseq with
    | none => none
    | some cseq =>
      if cseq.method.id = pjsip_method_e.PJSIP_INVITE_METHOD then
        some (start_retransmit_timer env w)
      else some w
  else some w

/-- The block "Update transaction state" of `tsx_on_state_proceeding_uas`,
reached once the response has been sent. -/
def proceeding_uas_update_state (env : Env) (w : World) (tdata : pjsip_tx_data) :
    Option (pj_status_t × World) :=
  if PJSIP_IS_STATUS_IN_CLASS w.tsx.status_code 100 then
    let w := save_last_tx w tdata
    match tsx_set_state env w .PJSIP_TSX_STATE_PROCEEDING .PJSIP_EVENT_TX_MSG
        (.tdata tdata) with
    | none => none
    | some w => some (.PJ_SUCCESS, w)
  else if PJSIP_IS_STATUS_IN_CLASS w.tsx.status_code 200 then
    if w.tsx.method.id = pjsip_method_e.PJSIP_INVITE_METHOD ∧
        w.tsx.handle_200resp = 0 then
      -- 2xx class message is not saved, because retransmission is handled by
      -- TU.
      match tsx_set_state env w .PJSIP_TSX_STATE_TERMINATED .PJSIP_EVENT_TX_MSG
          (.tdata tdata) with
      | none => none
      | some w => some (.PJ_SUCCESS, w)
    else
      let w :=
        if w.tsx.method.id = pjsip_method_e.PJSIP_INVITE_METHOD then
          start_retransmit_timer env w
        else w
      -- Save last response sent for retransmission when request
      -- retransmission is received.
      let w := save_last_tx w tdata
      -- Setup timeout timer:
      match proceeding_uas_2xx_timeout env w with
      | none => none
      | some timeout =>
        let w := pjsip_endpt_schedule_timer env w .TSX_TIMER_TIMEOUT timeout
        -- Set state to "Completed"
        match tsx_set_state env w .PJSIP_TSX_STATE_COMPLETED .PJSIP_EVENT_TX_MSG
            (.tdata tdata) with
        | none => none
        | some w => some (.PJ_SUCCESS, w)
  else if w.tsx.status_code ≥ 300 then
    -- 3xx-6xx class message causes transaction to move to "Completed" state.
    let w := save_last_tx w tdata
    let w := proceeding_uas_3xx_timeout env w
    match proceeding_uas_3xx_retransmit env w tdata with
    | none => none
    | some w =>
      -- Inform TU
      match tsx_set_state env w .PJSIP_TSX_STATE_COMPLETED .PJSIP_EVENT_TX_MSG
          (.tdata tdata) with
      | none => none
      | some w => some (.PJ_SUCCESS, w)
  else some (.PJ_SUCCESS, w)

/-- Embedding of `tsx_on_state_proceeding_uas`. -/
def tsx_on_state_proceeding_uas (env : Env) (w : World) (event : pjsip_event) :
    Option (pj_status_t × World) :=
  match event with
  | .rx_msg _ =>
    -- Receive request retransmission.  Must have last response sent.
    match w.tsx.last_tx with
    | none => some (.PJ_EBUG, w)
    | some last_tx =>
      -- Send last response
      if w.tsx.transport_flag.TSX_HAS_PENDING_TRANSPORT then
        some (.PJ_SUCCESS, set_transport_flag w { w.tsx.transport_flag with
          TSX_HAS_PENDING_SEND := true })
      else
        match tsx_send_msg env w (some last_tx) with
        | none => none
        | some (status, w) =>
          if status ≠ .PJ_SUCCESS then some (status, w) else some (.PJ_SUCCESS, w)
  | .tx_msg tdata =>
    let msg := tdata.msg
    -- This can only be a response message.
    if msg.type ≠ .PJSIP_RESPONSE_MSG then some (.PJSIP_ENOTRESPONSEMSG, w)
    else
      -- Update last status
      let w := tsx_set_status_code env w msg.line.status.code (some msg.line.status.reason)
      -- Discard the saved last response (it will be updated later as
      -- necessary).
      let w := discard_last_tx w tdata
      -- Send the message.
      match tsx_send_msg env w (some tdata) with
      | none => none
      | some (status, w) =>
        if status ≠ .PJ_SUCCESS then some (status, w)
        -- Update transaction state
        else proceeding_uas_update_state env w tdata
  | .timer .TSX_TIMER_RETRANSMISSION =>
    -- Retransmission timer elapsed.  Retransmit the last response.
    match tsx_retransmit env w true with
    | none => none
    | some (status, w) =>
      if status ≠ .PJ_SUCCESS then some (status, w) else some (.PJ_SUCCESS, w)
  | .timer .TSX_TIMER_TIMEOUT =>
    -- Timeout timer. should not happen?
    let w := tsx_set_status_code env w env.PJSIP_SC_TSX_TIMEOUT none
    match tsx_set_state env w .PJSIP_TSX_STATE_TERMINATED .PJSIP_EVENT_TIMER
        (.timer_entry .TSX_TIMER_TIMEOUT) with
    | none => none
    | some w => some (.PJ_EBUG, w)

/-- Embedding of `tsx_on_state_trying`. -/
def tsx_on_state_trying (env : Env) (w : World) (event : pjsip_event) :
    Option (pj_status_t × World) :=
  -- Better be transmission of response message.  If we've got request
  -- retransmission, just ignore the event.
  if event.type ≠ .PJSIP_EVENT_TX_MSG then some (.PJ_SUCCESS, w)
  else
    -- The rest of the processing of the event is exactly the same as in
    -- "Proceeding" state.
    match tsx_on_state_proceeding_uas env w event with
    | none => none
    | some (status, w) =>
      -- Inform the TU of the state transision if state is still State_Trying
      if status = .PJ_SUCCESS ∧ w.tsx.state = .PJSIP_TSX_STATE_TRYING then
        match tsx_set_state env w .PJSIP_TSX_STATE_PROCEEDING .PJSIP_EVENT_TX_MSG
            event.user1 with
        | none => none
        | some w => some (status, w)
      else some (status, w)

/-- Embedding of `tsx_on_state_completed_uas`. -/
def tsx_on_state_completed_uas (env : Env) (w : World) (event : pjsip_event) :
    Option (pj_status_t × World) :=
  match event with
  | .rx_msg rdata =>
    match rdata.msg_info.msg with
    | none => none
    | some msg =>
      -- This must be a request message retransmission.
      if msg.type ≠ .PJSIP_REQUEST_MSG then some (.PJSIP_ENOTREQUESTMSG, w)
      -- On receive request retransmission, retransmit last response.
      else if msg.line.req.method.id ≠ pjsip_method_e.PJSIP_ACK_METHOD then
        match tsx_retransmit env w false with
        | none => none
        | some (status, w) =>
          if status ≠ .PJ_SUCCESS then some (status, w) else some (.PJ_SUCCESS, w)
      else
        -- Process incoming ACK request.  Cease retransmission.
        let w := cancel_retransmit_timer w
        -- Start timer I in T4 interval (transaction termination).
        let w := pjsip_endpt_cancel_timer w .TSX_TIMER_TIMEOUT
        let w := pjsip_endpt_schedule_timer env w .TSX_TIMER_TIMEOUT (t4_timer_val env)
        -- Move state to "Confirmed"
        match tsx_set_state env w .PJSIP_TSX_STATE_CONFIRMED .PJSIP_EVENT_RX_MSG
            (.rdata rdata) with
        | none => none
        | some w => some (.PJ_SUCCESS, w)
  | .timer .TSX_TIMER_RETRANSMISSION =>
    -- Retransmit message.
    match tsx_retransmit env w true with
    | none => none
    | some (status, w) =>
      if status ≠ .PJ_SUCCESS then some (status, w) else some (.PJ_SUCCESS, w)
  | .timer .TSX_TIMER_TIMEOUT =>
    if w.tsx.method.id = pjsip_method_e.PJSIP_INVITE_METHOD then
      -- For INVITE, this means that ACK was never received.  Set state to
      -- Terminated, and inform TU.
      let w := tsx_set_status_code env w env.PJSIP_SC_TSX_TIMEOUT none
      match tsx_set_state env w .PJSIP_TSX_STATE_TERMINATED .PJSIP_EVENT_TIMER
          (.timer_entry .TSX_TIMER_TIMEOUT) with
      | none => none
      | some w => some (.PJ_SUCCESS, w)
    else
      -- Transaction terminated, it can now be deleted.
      match tsx_set_state env w .PJSIP_TSX_STATE_TERMINATED .PJSIP_EVENT_TIMER
          (.timer_entry .TSX_TIMER_TIMEOUT) with
      | none => none
      | some w => some (.PJ_SUCCESS, w)
  | .tx_msg tdata =>
    -- Ignore request to transmit.
    if last_tx_is w tdata then some (.PJ_SUCCESS, w) else some (.PJ_EINVALIDOP, w)

/-- Embedding of `tsx_on_state_completed_uac`. -/
def tsx_on_state_completed_uac (env : Env) (w : World) (event : pjsip_event) :
    Option (pj_status_t × World) :=
  match event with
  | .timer entry =>
    -- Move to Terminated state.
    match tsx_set_state env w .PJSIP_TSX_STATE_TERMINATED .PJSIP_EVENT_TIMER
        (.timer_entry entry) with
    | none => none
    | some w => some (.PJ_SUCCESS, w)
  | .rx_msg rdata =>
    if w.tsx.method.id = pjsip_method_e.PJSIP_INVITE_METHOD then
      -- On received of final response retransmission, retransmit the ACK.
      -- TU doesn't need to be informed.
      match rdata.msg_info.msg with
      | none => none
      | some msg =>
        if msg.type = .PJSIP_RESPONSE_MSG ∧ msg.line.status.code ≥ 200 then
          match tsx_retransmit env w false with
          | none => none
          | some (status, w) =>
            if status ≠ .PJ_SUCCESS then some (status, w) else some (.PJ_SUCCESS, w)
        else
          -- Very late retransmission of privisional response.
          some (.PJ_SUCCESS, w)
    else
      -- Just drop the response.
      some (.PJ_SUCCESS, w)
  | .tx_msg _ => some (.PJ_EINVALIDOP, w)

/-- Embedding of `tsx_on_state_confirmed`. -/
def tsx_on_state_confirmed (env : Env) (w : World) (event : pjsip_event) :
    Option (pj_status_t × World) :=
  match event with
  | .rx_msg rdata =>
    -- Absorb any ACK received.
    match rdata.msg_info.msg with
    | none => none
    | some msg =>
      -- Only expecting request message.
      if msg.type ≠ .PJSIP_REQUEST_MSG then some (.PJSIP_ENOTREQUESTMSG, w)
      else some (.PJ_SUCCESS, w)
  | .timer _ =>
    -- Move to Terminated state.
    match tsx_set_state env w .PJSIP_TSX_STATE_TERMINATED .PJSIP_EVENT_TIMER
        (.timer_entry .TSX_TIMER_TIMEOUT) with
    | none => none
    | some w => some (.PJ_SUCCESS, w)
  | .tx_msg _ => some (.PJ_EBUG, w)

/-- Embedding of `tsx_on_state_terminated`. -/
def tsx_on_state_terminated (env : Env) (w : World) (event : pjsip_event) :
    Option (pj_status_t × World) :=
  -- Destroy this transaction
  match tsx_set_state env w .PJSIP_TSX_STATE_DESTROYED event.type event.user1 with
  | none => none
  | some w => some (.PJ_SUCCESS, w)

/-- Embedding of `tsx_on_state_destroyed`. -/
def tsx_on_state_destroyed (_env : Env) (w : World) (_event : pjsip_event) :
    Option (pj_status_t × World) :=
  some (.PJ_EBUG, w)

/-- The call `(*tsx->state_handler)(tsx, &event)`; calling through a `NULL`
function pointer is undefined. -/
def call_state_handler (env : Env) (w : World) (event : pjsip_event) :
    Option (pj_status_t × World) :=
  match w.tsx.state_handler with
  | none => none
  | some .tsx_on_state_null => tsx_on_state_null env w event
  | some .tsx_on_state_calling => tsx_on_state_calling env w event
  | some .tsx_on_state_trying => tsx_on_state_trying env w event
  | some .tsx_on_state_proceeding_uas => tsx_on_state_proceeding_uas env w event
  | some .tsx_on_state_proceeding_uac => tsx_on_state_proceeding_uac env w event
  | some .tsx_on_state_completed_uas => tsx_on_state_completed_uas env w event
  | some .tsx_on_state_completed_uac => tsx_on_state_completed_uac env w event
  | some .tsx_on_state_confirmed => tsx_on_state_confirmed env w event
  | some .tsx_on_state_terminated => tsx_on_state_terminated env w event
  | some .tsx_on_state_destroyed => tsx_on_state_destroyed env w event

/-! ## Entry points

Each entry point works on the memory of the transaction, so it has no defined
run (`none`) once the pool has been released. -/

/-- Embedding of `tsx_timer_callback`. -/
def tsx_timer_callback (env : Env) (w : World) (entry : Transaction_Timer_Id) :
    Option World :=
  if w.released then none
  else
    let event := pjsip_event.timer entry
    -- Dispatch event to transaction.
    let w := lock_tsx w
    match call_state_handler env w event with
    | none => none
    | some (_, w) =>
      match unlock_tsx w with
      | none => none
      | some (_, w) => some w

/-- Embedding of `pjsip_tsx_terminate`. -/
def pjsip_tsx_terminate (env : Env) (w : World) (code : Int) :
    Option (pj_status_t × World) :=
  if w.released then none
  else if ¬ (code ≥ 200) then some (.PJ_EINVAL, w)
  else if w.tsx.state = .PJSIP_TSX_STATE_TERMINATED then some (.PJ_SUCCESS, w)
  else
    let w := lock_tsx w
    let w := tsx_set_status_code env w code none
    match tsx_set_state env w .PJSIP_TSX_STATE_TERMINATED .PJSIP_EVENT_USER .null with
    | none => none
    | some w =>
      match unlock_tsx w with
      | none => none
      | some (_, w) => some (.PJ_SUCCESS, w)

/-- Embedding of `pjsip_tsx_send_msg`; `tdata` may be `NULL`. -/
def pjsip_tsx_send_msg (env : Env) (w : World) (tdata : Option pjsip_tx_data) :
    Option (pj_status_t × World) :=
  if w.released then none
  else
    let tdata := match tdata with
      | none => w.tsx.last_tx
      | some t => some t
    match tdata with
    | none => some (.PJ_EINVALIDOP, w)
    | some tdata =>
      let event := pjsip_event.tx_msg tdata
      -- Dispatch to transaction.
      let w := lock_tsx w
      match call_state_handler env w event with
      | none => none
      | some (status, w) =>
        match unlock_tsx w with
        | none => none
        | some (_, w) =>
          -- Will always decrement tdata reference counter
          let w := if status = .PJ_SUCCESS then w.log (.tx_data_dec_ref tdata) else w
          some (status, w)

/-- Embedding of `pjsip_tsx_recv_msg`. -/
def pjsip_tsx_recv_msg (env : Env) (w : World) (rdata : pjsip_rx_data) : Option World :=
  if w.released then none
  else
    -- Init event.
    let event := pjsip_event.rx_msg rdata
    -- Dispatch to transaction.
    let w := lock_tsx w
    match call_state_handler env w event with
    | none => none
    | some (_, w) =>
      match unlock_tsx w with
      | none => none
      | some (_, w) => some w

/-- The block "Update transport" of `send_msg_callback` (successful send): the
transaction drops its transport, takes `send_state->cur_transport` (used
unchecked) and recomputes `is_reliable`. -/
def send_msg_callback_update_transport (env : Env) (w : World)
    (cur_transport : Option pjsip_transport) : Option World :=
  if w.tsx.transport.map (fun t => t.ptr) ≠ cur_transport.map (fun t => t.ptr) then
    -- Update transport.
    let w :=
      match w.tsx.transport with
      | some tp => { (w.log (.transport_dec_ref tp)) with
          tsx := { w.tsx with transport := none } }
      | none => w
    match cur_transport with
    | none => none
    | some tp =>
      let w := { (w.log (.transport_add_ref tp)) with
        tsx := { w.tsx with transport := some tp } }
      -- Update is_reliable flag.
      some { w with tsx := { w.tsx with
        is_reliable := decide (PJSIP_TRANSPORT_IS_RELIABLE env tp ≠ 0) } }
  else some w

/-- The block of `send_msg_callback` (failed send) that releases the
transport of the transaction when it is the one that failed. -/
def send_msg_callback_release_transport (w : World)
    (cur_transport : Option pjsip_transport) : World :=
  match w.tsx.transport with
  | some tp =>
    if cur_transport.map (fun t => t.ptr) = some tp.ptr then
      { (w.log (.transport_dec_ref tp)) with tsx := { w.tsx with transport := none } }
    else w
  | none => w

/-- Embedding of `send_msg_callback`: `cur_transport` is
`send_state->cur_transport`, `tdata` is `send_state->tdata`, `cont` is the
value of `*cont`. -/
def send_msg_callback (env : Env) (w : World) (cur_transport : Option pjsip_transport)
    (tdata : pjsip_tx_data) (sent : Int) (cont : Bool) : Option World :=
  if w.released then none
  else
    let w := lock_tsx w
    let w1 : Option World :=
      if sent > 0 then
        -- Successfully sent!
        match send_msg_callback_update_transport env w cur_transport with
        | none => none
        | some w =>
          -- Clear pending transport flag.
          let w := set_transport_flag w { w.tsx.transport_flag with
            TSX_HAS_PENDING_TRANSPORT := false }
          -- Mark that we have resolved the addresses.
          let w := set_transport_flag w { w.tsx.transport_flag with
            TSX_HAS_RESOLVED_SERVER := true }
          -- Pending destroy?
          if w.tsx.transport_flag.TSX_HAS_PENDING_DESTROY then
            tsx_set_state env w .PJSIP_TSX_STATE_DESTROYED .PJSIP_EVENT_UNKNOWN .null
          else
            -- Need to transmit a message?
            let w1 : Option World :=
              if w.tsx.transport_flag.TSX_HAS_PENDING_SEND then
                let w := set_transport_flag w { w.tsx.transport_flag with
                  TSX_HAS_PENDING_SEND := false }
                match tsx_send_msg env w w.tsx.last_tx with
                | none => none
                | some (_, w) => some w
              else some w
            match w1 with
            | none => none
            | some w =>
              -- Need to reschedule retransmission?
              if w.tsx.transport_flag.TSX_HAS_PENDING_RESCHED then
                let w := set_transport_flag w { w.tsx.transport_flag with
                  TSX_HAS_PENDING_RESCHED := false }
                -- Only update when transport turns out to be unreliable.
                if ¬ w.tsx.is_reliable then some (tsx_resched_retransmission env w)
                else some w
              else some w
      else
        -- Failed to send!  If transaction is using the same transport as the
        -- failed one, release the transport.
        let w := send_msg_callback_release_transport w cur_transport
        if ¬ cont then
          let w := { w with tsx := { w.tsx with transport_err := -sent } }
          let err := env.pj_strerror (pj_status_of_int (-sent))
          -- Clear pending transport flag.
          let w := set_transport_flag w { w.tsx.transport_flag with
            TSX_HAS_PENDING_TRANSPORT := false }
          -- Mark that we have resolved the addresses.
          let w := set_transport_flag w { w.tsx.transport_flag with
            TSX_HAS_RESOLVED_SERVER := true }
          -- Terminate transaction, if it's not already terminated.
          let w := tsx_set_status_code env w env.PJSIP_SC_TSX_TRANSPORT_ERROR (some err)
          if w.tsx.state ≠ .PJSIP_TSX_STATE_TERMINATED ∧
              w.tsx.state ≠ .PJSIP_TSX_STATE_DESTROYED then
            tsx_set_state env w .PJSIP_TSX_STATE_TERMINATED .PJSIP_EVENT_TRANSPORT_ERROR
              (.tdata tdata)
          else some w
        else
          -- Temporary failure: logged only.
          some w
    match w1 with
    | none => none
    | some w =>
      match unlock_tsx w with
      | none => none
      | some (_, w) => some w

/-- Embedding of `transport_callback`.  The transport pointer is released
unchecked (`none` when the transaction holds no transport). -/
def transport_callback (env : Env) (w : World) (tdata : pjsip_tx_data) (sent : Int) :
    Option World :=
  if w.released then none
  else if sent < 0 then
    let w := { w with tsx := { w.tsx with transport_err := -sent } }
    let err := env.pj_strerror (pj_status_of_int (-sent))
    let w := lock_tsx w
    -- Dereference transport.
    match w.tsx.transport with
    | none => none
    | some tp =>
      let w := { (w.log (.transport_dec_ref tp)) with tsx := { w.tsx with transport := none } }
      -- Terminate transaction.
      let w := tsx_set_status_code env w env.PJSIP_SC_TSX_TRANSPORT_ERROR (some err)
      match tsx_set_state env w .PJSIP_TSX_STATE_TERMINATED .PJSIP_EVENT_TRANSPORT_ERROR
          (.tdata tdata) with
      | none => none
      | some w =>
        match unlock_tsx w with
        | none => none
        | some (_, w) => some w
  else some w

/-! ## Transaction creation -/

/-- The part of the state that exists whether or not a transaction does: the
registry of the layer, the lock-frame stack of the calling thread, and the
trace of calls to collaborators. -/
structure tsx_layer where
  htable : List (pj_str_t × Nat)
  tls : List tsx_lock_data
  trace : List Effect
  deriving DecidableEq, Repr

/-- The layer part of a world. -/
def World.layer (w : World) : tsx_layer :=
  { htable := w.htable, tls := w.tls, trace := w.trace }

/-- Answers of the collaborators called while a transaction is created:
the address of the memory `pjsip_endpt_create_pool` and `pj_pool_zalloc` hand
out (`none` when there is no memory), the status of
`pj_mutex_create_recursive`, what `pjsip_get_response_addr` returns, and the
hash function `pj_hash_calc`. -/
structure create_env where
  pool : Option Nat
  mutex_create : pj_status_t
  get_response_addr : pj_status_t × pjsip_response_addr
  pj_hash_calc : pj_str_t → Nat

/-- Embedding of `tsx_create`: a zero-filled structure with the fields the
function sets. -/
def tsx_create (cenv : create_env) (l : tsx_layer) (tsx_user : Option pjsip_module) :
    Except pj_status_t World × tsx_layer :=
  match cenv.pool with
  | none => (.error .PJ_ENOMEM, l)
  | some addr =>
    let tsx : pjsip_transaction :=
      { self := addr
        tsx_user := tsx_user
        role := .PJSIP_ROLE_UAC
        method := ⟨.PJSIP_INVITE_METHOD, []⟩
        cseq := 0
        transaction_key := []
        hashed_key := 0
        branch := []
        status_code := 0
        status_text := []
        state := .PJSIP_TSX_STATE_NULL
        handle_200resp := 1
        state_handler := none
        transport := none
        is_reliable := false
        addr_len := 0
        res_addr := { transport := none, addr_len := 0 }
        transport_flag := ⟨false, false, false, false, false⟩
        transport_err := 0
        last_tx := none
        retransmit_count := 0
        retransmit_timer := { id := .TSX_TIMER_RETRANSMISSION, _timer_id := -1 }
        timeout_timer := { id := .TSX_TIMER_TIMEOUT, _timer_id := -1 } }
    if cenv.mutex_create ≠ .PJ_SUCCESS then
      (.error cenv.mutex_create, { l with trace := l.trace ++ [.release_pool] })
    else
      (.ok { tsx := tsx, htable := l.htable, tls := l.tls, trace := l.trace,
             released := false }, l)

/-- Embedding of `pjsip_tsx_create_uas`.  The result is the status, the
transaction stored through `p_tsx` on success, and the layer state on return.
The `PJ_ASSERT_RETURN` argument checks return their error value. -/
def pjsip_tsx_create_uas (env : Env) (cenv : create_env) (l : tsx_layer)
    (tsx_user : Option pjsip_module) (rdata : pjsip_rx_data) :
    Option (pj_status_t × Option pjsip_transaction × tsx_layer) :=
  -- Validate arguments.
  match rdata.msg_info.msg with
  | none => some (.PJ_EINVAL, none, l)
  | some msg =>
    -- Make sure this is a request message.
    if msg.type ≠ .PJSIP_REQUEST_MSG then some (.PJSIP_ENOTREQUESTMSG, none, l)
    -- Make sure method is not ACK
    else if ¬ (msg.line.req.method.id ≠ pjsip_method_e.PJSIP_ACK_METHOD) then
      some (.PJ_EINVALIDOP, none, l)
    else
      -- Make sure CSeq header is present.
      match rdata.msg_info.cseq with
      | none => some (.PJSIP_EMISSINGHDR, none, l)
      | some cseq =>
        -- Make sure Via header is present.
        match rdata.msg_info.via with
        | none => some (.PJSIP_EMISSINGHDR, none, l)
        | some via =>
          -- Check that method in CSeq header match request method.
          if pjsip_method_cmp msg.line.req.method cseq.method ≠ 0 then
            some (.PJSIP_EINVALIDHDR, none, l)
          else
            -- Create transaction instance.
            match tsx_create cenv l tsx_user with
            | (.error status, l) => some (status, none, l)
            | (.ok w, _) =>
              -- Lock transaction.
              let w := lock_tsx w
              -- Role is UAS; save method; save CSeq.
              let w := { w with tsx := { w.tsx with
                role := .PJSIP_ROLE_UAS
                method := msg.line.req.method
                cseq := cseq.cseq } }
              -- Get transaction key either from branch for RFC3261 message, or
              -- create transaction key.
              match pjsip_tsx_create_key .PJSIP_ROLE_UAS w.tsx.method rdata with
              | none => none
              | some (.error status) => some (status, none, (tsx_destroy w).layer)
              | some (.ok key) =>
                let w := { w with tsx := { w.tsx with transaction_key := key } }
                -- Calculate hashed key value.
                let w := { w with tsx := { w.tsx with
                  hashed_key := cenv.pj_hash_calc w.tsx.transaction_key } }
                -- Duplicate branch parameter for transaction.
                let w := { w with tsx := { w.tsx with branch := via.branch_param } }
                -- Begin with state NULL.
                let w := { w with tsx := { w.tsx with
                  state := .PJSIP_TSX_STATE_NULL
                  state_handler := some .tsx_on_state_null } }
                -- Get response address.
                let w := { w with tsx := { w.tsx with res_addr := cenv.get_response_addr.2 } }
                if cenv.get_response_addr.1 ≠ .PJ_SUCCESS then
                  some (cenv.get_response_addr.1, none, (tsx_destroy w).layer)
                else
                  -- If it's decided that we should use current transport, keep
                  -- the transport.
                  let w :=
                    match w.tsx.res_addr.transport with
                    | some tp =>
                      { (w.log (.transport_add_ref tp)) with tsx := { w.tsx with
                        transport := some tp
                        addr_len := w.tsx.res_addr.addr_len
                        is_reliable := decide (PJSIP_TRANSPORT_IS_RELIABLE env tp ≠ 0) } }
                    | none => w
                  -- Register the transaction.
                  match mod_tsx_layer_register_tsx w with
                  | (status, w) =>
                    if status ≠ .PJ_SUCCESS then some (status, none, (tsx_destroy w).layer)
                    else
                      -- Unlock transaction and return.
                      match unlock_tsx w with
                      | none => none
                      | some (_, w) => some (.PJ_SUCCESS, some w.tsx, w.layer)

/-! ## Transaction creation, client side -/

/-- Answers of the collaborators `pjsip_tsx_create_uac` calls besides those
of `tsx_create`: the status and `dst_info.flag` of `pjsip_get_request_addr`,
the constant `PJSIP_MAX_BRANCH_LEN` (from a header outside this file), the
characters `pj_generate_unique_string` writes, and the bytes found in freshly
allocated pool memory, by offset. -/
structure create_uac_env where
  get_request_addr : pj_status_t × Nat
  PJSIP_MAX_BRANCH_LEN : Nat
  pj_generate_unique_string : pj_str_t
  pj_pool_alloc : Nat → Char

/-- Modelled from the spec: `pjsip_via_hdr_create` returns a Via header with
no branch parameter and an empty sent-by. -/
def pjsip_via_hdr_create : pjsip_via_hdr := ⟨[], [], 0⟩

/-- The block "Generate branch parameter if it doesn't exist" of
`pjsip_tsx_create_uac`: a buffer of `PJSIP_MAX_BRANCH_LEN` bytes is allocated,
the magic cookie copied to its start, the bytes 80 and 106 written after it
and the unique string after those; `branch_param.slen` is
`PJSIP_MAX_BRANCH_LEN`, so the branch is the whole buffer.  Writing past the
end of the buffer is undefined (`none`). -/
def create_uac_generate_branch (uenv : create_uac_env) : Option pj_str_t :=
  let mem := (List.range uenv.PJSIP_MAX_BRANCH_LEN).map uenv.pj_pool_alloc
  let written := PJSIP_RFC3261_BRANCH_ID.take PJSIP_RFC3261_BRANCH_LEN ++
    [Char.ofNat 80, Char.ofNat 106] ++ uenv.pj_generate_unique_string
  if written.length ≤ uenv.PJSIP_MAX_BRANCH_LEN then
    some (written ++ mem.drop written.length)
  else none

/-- The blocks "Generate Via header if it doesn't exist" and "Generate branch
parameter if it doesn't exist" of `pjsip_tsx_create_uac`: the Via header of
the message on leaving them.  Inserting the new Via header first in the
message makes it the Via header found in the message. -/
def create_uac_via (uenv : create_uac_env) (tdata : pjsip_tx_data) : Option pjsip_via_hdr :=
  -- Generate Via header if it doesn't exist.
  let via :=
    match tdata.via with
    | some via => via
    | none => pjsip_via_hdr_create
  -- Generate branch parameter if it doesn't exist.
  if via.branch_param.length = 0 then
    match create_uac_generate_branch uenv with
    | none => none
    | some branch => some { via with branch_param := branch }
  else some via

/-- Embedding of `pjsip_tsx_create_uac`.  The result is the status, the
transaction stored through `p_tsx` on success, and the layer state on return.
The `PJ_ASSERT_RETURN` argument checks return their error value. -/
def pjsip_tsx_create_uac (env : Env) (cenv : create_env) (uenv : create_uac_env)
    (l : tsx_layer) (tsx_user : Option pjsip_module) (tdata : pjsip_tx_data) :
    Option (pj_status_t × Option pjsip_transaction × tsx_layer) :=
  -- Keep shortcut
  let msg := tdata.msg
  -- Validate arguments.
  if msg.type ≠ .PJSIP_REQUEST_MSG then some (.PJSIP_ENOTREQUESTMSG, none, l)
  -- Method MUST NOT be ACK!
  else if ¬ (msg.line.req.method.id ≠ pjsip_method_e.PJSIP_ACK_METHOD) then
    some (.PJ_EINVALIDOP, none, l)
  else
    -- Make sure CSeq header is present.
    match tdata.cseq with
    | none => some (.PJSIP_EMISSINGHDR, none, l)
    | some cseq =>
      -- Create transaction instance.
      match tsx_create cenv l tsx_user with
      | (.error status, l) => some (status, none, l)
      | (.ok w, _) =>
        -- Lock transaction.
        let w := lock_tsx w
        -- Role is UAC; save method; save CSeq.
        let w := { w with tsx := { w.tsx with
          role := .PJSIP_ROLE_UAC
          method := msg.line.req.method
          cseq := cseq.cseq } }
        -- Generate Via header and branch parameter if they don't exist.
        match create_uac_via uenv tdata with
        | none => none
        | some via =>
          let tdata := { tdata with via := some via }
          -- Save (or copy) branch parameter.
          let w := { w with tsx := { w.tsx with branch := via.branch_param } }
          -- Generate transaction key (the status returned is not looked at).
          let w :=
            match create_tsx_key_3261 .PJSIP_ROLE_UAC w.tsx.method via.branch_param with
            | .ok key => { w with tsx := { w.tsx with transaction_key := key } }
            | .error _ => w
          -- Calculate hashed key value.
          let w := { w with tsx := { w.tsx with
            hashed_key := cenv.pj_hash_calc w.tsx.transaction_key } }
          -- Begin with State_Null.
          let w := { w with tsx := { w.tsx with
            state := .PJSIP_TSX_STATE_NULL
            state_handler := some .tsx_on_state_null } }
          -- Save the message.
          let w := { (w.log (.tx_data_add_ref tdata)) with
            tsx := { w.tsx with last_tx := some tdata } }
          -- Determine whether reliable transport should be used initially.
          if uenv.get_request_addr.1 ≠ .PJ_SUCCESS then
            some (uenv.get_request_addr.1, none, (tsx_destroy w).layer)
          else
            let w := { w with tsx := { w.tsx with
              is_reliable :=
                decide (uenv.get_request_addr.2 &&& env.PJSIP_TRANSPORT_RELIABLE ≠ 0) } }
            -- Register transaction to hash table.
            match mod_tsx_layer_register_tsx w with
            | (status, w) =>
              if status ≠ .PJ_SUCCESS then some (status, none, (tsx_destroy w).layer)
              else
                -- Unlock transaction and return.
                match unlock_tsx w with
                | none => none
                | some (_, w) => some (.PJ_SUCCESS, some w.tsx, w.layer)

/-! ## The layer and the transactions in memory -/

/-- The transaction layer together with the transaction structures alive in
memory, by address: what the pointers stored in the registry point to. -/
structure tsx_layer_memory where
  layer : tsx_layer
  heap : List (Nat × pjsip_transaction)
  deriving DecidableEq, Repr

/-- The transaction structure at an address, if one is alive there. -/
def tsx_layer_memory.deref (s : tsx_layer_memory) (addr : Nat) : Option pjsip_transaction :=
  s.heap.lookup addr

/-- The world in which a call runs on the transaction `tsx` of the memory. -/
def tsx_layer_memory.world (s : tsx_layer_memory) (tsx : pjsip_transaction) : World :=
  { tsx := tsx, htable := s.layer.htable, tls := s.layer.tls, trace := s.layer.trace,
    released := false }

/-- The memory after a call on a transaction has returned in world `w`: the
layer part is that of `w`; the structure is written back, or gone when its
pool has been released. -/
def tsx_layer_memory.commit (s : tsx_layer_memory) (w : World) : tsx_layer_memory :=
  { layer := w.layer
    heap :=
      if w.released then s.heap.filter (fun e => e.1 ≠ w.tsx.self)
      else (w.tsx.self, w.tsx) :: s.heap.filter (fun e => e.1 ≠ w.tsx.self) }

/-- The memory in which the transaction of a world is the only one alive. -/
def World.memory (w : World) : tsx_layer_memory :=
  { layer := w.layer, heap := [(w.tsx.self, w.tsx)] }

/-- The common body of `mod_tsx_layer_on_rx_request` and
`mod_tsx_layer_on_rx_response`, which differ in the role passed to
`pjsip_tsx_create_key` only.  The CSeq header is dereferenced unchecked, the
status of `pjsip_tsx_create_key` is not looked at (on failure `key` is left
uninitialised), and the pointer found is dereferenced: each of these is an
undefined run (`none`) when the header is absent, the key is not built, or no
transaction is alive at the address. -/
def mod_tsx_layer_on_rx (env : Env) (s : tsx_layer_memory) (role : pjsip_role_e)
    (rdata : pjsip_rx_data) : Option (Bool × tsx_layer_memory) :=
  match rdata.msg_info.cseq with
  | none => none
  | some cseq =>
    match pjsip_tsx_create_key role cseq.method rdata with
    | some (.ok key) =>
      -- Find transaction.
      match pj_hash_get s.layer.htable key with
      | none =>
        -- Transaction not found.
        some (false, s)
      | some addr =>
        match s.deref addr with
        | none => none
        | some tsx =>
          if tsx.state = .PJSIP_TSX_STATE_TERMINATED then some (false, s)
          else
            -- Pass the message to the transaction.
            match pjsip_tsx_recv_msg env (s.world tsx) rdata with
            | none => none
            | some w => some (true, s.commit w)
    | _ => none

/-- Embedding of `mod_tsx_layer_on_rx_request`. -/
def mod_tsx_layer_on_rx_request (env : Env) (s : tsx_layer_memory) (rdata : pjsip_rx_data) :
    Option (Bool × tsx_layer_memory) :=
  mod_tsx_layer_on_rx env s .PJSIP_ROLE_UAS rdata

/-- Embedding of `mod_tsx_layer_on_rx_response`. -/
def mod_tsx_layer_on_rx_response (env : Env) (s : tsx_layer_memory) (rdata : pjsip_rx_data) :
    Option (Bool × tsx_layer_memory) :=
  mod_tsx_layer_on_rx env s .PJSIP_ROLE_UAC rdata

/-! ## STUN message types (`stun_msg.h`) -/

/-- The enumeration `pj_stun_msg_type`. -/
inductive pj_stun_msg_type
  | PJ_STUN_BINDING_REQUEST
  | PJ_STUN_BINDING_RESPONSE
  | PJ_STUN_BINDING_ERROR_RESPONSE
  | PJ_STUN_SHARED_SECRET_REQUEST
  | PJ_STUN_SHARED_SECRET_RESPONSE
  | PJ_STUN_SHARED_SECRET_ERROR_RESPONSE
  | PJ_STUN_ALLOCATE_REQUEST
  | PJ_STUN_ALLOCATE_RESPONSE
  | PJ_STUN_ALLOCATE_ERROR_RESPONSE
  | PJ_STUN_SEND_INDICATION
  | PJ_STUN_DATA_INDICATION
  | PJ_STUN_SET_ACTIVE_DESTINATION_REQUEST
  | PJ_STUN_SET_ACTIVE_DESTINATION_RESPONSE
  | PJ_STUN_SET_ACTIVE_DESTINATION_ERROR_RESPONSE
  | PJ_STUN_CONNECT_REQUEST
  | PJ_STUN_CONNECT_RESPONSE
  | PJ_STUN_CONNECT_ERROR_RESPONSE
  | PJ_STUN_CONNECT_STATUS_INDICATION
  deriving DecidableEq, Repr

/-- The value of each enumerator of `pj_stun_msg_type`. -/
def pj_stun_msg_type.val : pj_stun_msg_type → Nat
  | .PJ_STUN_BINDING_REQUEST => 0x0001
  | .PJ_STUN_BINDING_RESPONSE => 0x0101
  | .PJ_STUN_BINDING_ERROR_RESPONSE => 0x0111
  | .PJ_STUN_SHARED_SECRET_REQUEST => 0x0002
  | .PJ_STUN_SHARED_SECRET_RESPONSE => 0x0102
  | .PJ_STUN_SHARED_SECRET_ERROR_RESPONSE => 0x0112
  | .PJ_STUN_ALLOCATE_REQUEST => 0x0003
  | .PJ_STUN_ALLOCATE_RESPONSE => 0x0103
  | .PJ_STUN_ALLOCATE_ERROR_RESPONSE => 0x0113
  | .PJ_STUN_SEND_INDICATION => 0x0004
  | .PJ_STUN_DATA_INDICATION => 0x0115
  | .PJ_STUN_SET_ACTIVE_DESTINATION_REQUEST => 0x0006
  | .PJ_STUN_SET_ACTIVE_DESTINATION_RESPONSE => 0x0106
  | .PJ_STUN_SET_ACTIVE_DESTINATION_ERROR_RESPONSE => 0x0116
  | .PJ_STUN_CONNECT_REQUEST => 0x0007
  | .PJ_STUN_CONNECT_RESPONSE => 0x0107
  | .PJ_STUN_CONNECT_ERROR_RESPONSE => 0x0117
  | .PJ_STUN_CONNECT_STATUS_INDICATION => 0x0118

/-- The macro `PJ_STUN_IS_REQUEST`. -/
def PJ_STUN_IS_REQUEST (msg_type : Nat) : Bool :=
  decide (msg_type &&& 0x0F00 = 0x0000)

/-- The macro `PJ_STUN_IS_RESPONSE`. -/
def PJ_STUN_IS_RESPONSE (msg_type : Nat) : Bool :=
  decide (msg_type &&& 0x0F00 = 0x0100)

/-- The macro `PJ_STUN_IS_ERROR_RESPONSE`. -/
def PJ_STUN_IS_ERROR_RESPONSE (msg_type : Nat) : Bool :=
  decide (msg_type &&& 0x0FF0 = 0x0110)

/-- The kind of message an enumerator of `pj_stun_msg_type` names, read off
the suffix of its name. -/
inductive stun_msg_kind
  | request
  | success_response
  | error_response
  | indication
  deriving DecidableEq, Repr

/-- The kind each enumerator names: `*_REQUEST`, `*_RESPONSE`,
`*_ERROR_RESPONSE` or `*_INDICATION`. -/
def pj_stun_msg_type.kind : pj_stun_msg_type → stun_msg_kind
  | .PJ_STUN_BINDING_REQUEST => .request
  | .PJ_STUN_BINDING_RESPONSE => .success_response
  | .PJ_STUN_BINDING_ERROR_RESPONSE => .error_response
  | .PJ_STUN_SHARED_SECRET_REQUEST => .request
  | .PJ_STUN_SHARED_SECRET_RESPONSE => .success_response
  | .PJ_STUN_SHARED_SECRET_ERROR_RESPONSE => .error_response
  | .PJ_STUN_ALLOCATE_REQUEST => .request
  | .PJ_STUN_ALLOCATE_RESPONSE => .success_response
  | .PJ_STUN_ALLOCATE_ERROR_RESPONSE => .error_response
  | .PJ_STUN_SEND_INDICATION => .indication
  | .PJ_STUN_DATA_INDICATION => .indication
  | .PJ_STUN_SET_ACTIVE_DESTINATION_REQUEST => .request
  | .PJ_STUN_SET_ACTIVE_DESTINATION_RESPONSE => .success_response
  | .PJ_STUN_SET_ACTIVE_DESTINATION_ERROR_RESPONSE => .error_response
  | .PJ_STUN_CONNECT_REQUEST => .request
  | .PJ_STUN_CONNECT_RESPONSE => .success_response
  | .PJ_STUN_CONNECT_ERROR_RESPONSE => .error_response
  | .PJ_STUN_CONNECT_STATUS_INDICATION => .indication

/-! ## Stopping and unloading the layer -/

/-- Modelled from the spec: `pj_hash_count` of pjlib is the number of entries
in the table. -/
def pj_hash_count (ht : List (pj_str_t × Nat)) : Nat := ht.length

/-- The loop "Destroy all transactions" of `mod_tsx_layer_stop`: `it` is the
list of entries the iterator still has to visit (`pj_hash_next` is its tail),
`pj_hash_this` is the pointer stored in the entry, and `tsx_destroy` runs on
the structure at that address (an undefined run, `none`, when no transaction
is alive there). -/
def mod_tsx_layer_stop_loop (s : tsx_layer_memory) :
    List (pj_str_t × Nat) → Option tsx_layer_memory
  | [] => some s
  | entry :: next =>
    match s.deref entry.2 with
    | none => none
    | some tsx => mod_tsx_layer_stop_loop (s.commit (tsx_destroy (s.world tsx))) next

/-- Embedding of `mod_tsx_layer_stop`: the iterator starts at
`pj_hash_first` of the registry. -/
def mod_tsx_layer_stop (s : tsx_layer_memory) : Option (pj_status_t × tsx_layer_memory) :=
  -- Destroy all transactions.
  match mod_tsx_layer_stop_loop s s.layer.htable with
  | none => none
  | some s => some (.PJ_SUCCESS, s)

/-- Embedding of `mod_tsx_layer_unload`: the calls that destroy the mutex of
the module and release its pool are recorded in the trace. -/
def mod_tsx_layer_unload (s : tsx_layer_memory) : pj_status_t × tsx_layer_memory :=
  -- Only self destroy when there's no transaction in the table.
  if pj_hash_count s.layer.htable ≠ 0 then (.PJ_EBUSY, s)
  else
    (.PJ_SUCCESS,
      { s with layer := { s.layer with
          trace := s.layer.trace ++ [.mutex_destroy, .release_pool] } })

/-! ## The mutex of the transaction -/

/-- Calls on the mutex of a transaction. -/
inductive mutex_call
  | pj_mutex_lock
  | pj_mutex_unlock
  deriving DecidableEq, Repr

/-- The calls `unlock_tsx` makes on the mutex of the transaction (the world
does not record them): `if (lck->is_alive) pj_mutex_unlock(tsx->mutex)` on the
frame pushed last; there is no frame to read when the stack is empty. -/
def unlock_tsx_mutex (w : World) : Option (List mutex_call) :=
  match w.tls with
  | [] => none
  | lck :: _ => some (if lck.is_alive then [.pj_mutex_unlock] else [])

/-! ## Memory player (`mem_player.c`) -/

/-- Modelled from the spec: `PJ_EEOF` of pjlib (`pj/errno.h`, outside the
sources at hand), the status number 70016. -/
def PJ_EEOF : pj_status_t := .OTHER 70016

/-- Modelled from the spec: the port signature
`PJMEDIA_PORT_SIGNATURE('M', 'P', 'l', 'y')`, the four characters packed into
a 32-bit word, first character in the top byte. -/
def SIGNATURE : Nat := 0x4D506C79

/-- The constant `BYTES_PER_SAMPLE`. -/
def BYTES_PER_SAMPLE : Nat := 2

/-- Frame types (`pjmedia_frame_type`) the player uses. -/
inductive pjmedia_frame_type
  | PJMEDIA_FRAME_TYPE_NONE
  | PJMEDIA_FRAME_TYPE_AUDIO
  deriving DecidableEq, Repr

/-- A `pjmedia_frame`.  `buf` points to memory the caller supplies; the model
keeps its bytes by offset.  The frame carries no capacity the player could
read, so the caller is taken to supply room for a whole frame.  The timestamp
is the 64-bit `timestamp.u64`. -/
structure pjmedia_frame where
  type : pjmedia_frame_type
  buf : Nat → Nat
  size : Nat
  timestamp : Nat

/-- The fields of `pjmedia_port_info` the player reads. -/
structure pjmedia_port_info where
  signature : Nat
  clock_rate : Nat
  channel_count : Nat
  bits_per_sample : Nat
  samples_per_frame : Nat
  bytes_per_frame : Nat
  deriving DecidableEq, Repr

/-- The structure `mem_player`.  `info` is `base.info`; `buffer` is the memory
handed to `pjmedia_mem_player_create`, by offset, of which the first
`buf_size` bytes belong to the player; `read_pos` is the offset of the read
pointer from `buffer`; `timestamp` is the 64-bit `timestamp.u64`; `cb` is the
end-of-buffer callback, if set, with the status it returns when called. -/
structure mem_player where
  info : pjmedia_port_info
  options : Nat
  timestamp : Nat
  buffer : Nat → Nat
  buf_size : Nat
  read_pos : Nat
  eof : Bool
  cb : Option pj_status_t

/-- Modelled from the spec: `pjmedia_port_info_init` of pjmedia (`port.c`,
outside the sources at hand) stores its arguments in the port info and
computes `bytes_per_frame = samples_per_frame * bits_per_sample / 8`.  The
arguments and the field are `unsigned`, so the product is taken modulo
2^32. -/
def pjmedia_port_info_init (signature clock_rate channel_count bits_per_sample
    samples_per_frame : Nat) : pjmedia_port_info :=
  { signature := signature
    clock_rate := clock_rate
    channel_count := channel_count
    bits_per_sample := bits_per_sample
    samples_per_frame := samples_per_frame
    bytes_per_frame := samples_per_frame * bits_per_sample % 2 ^ 32 / 8 }

/-- Embedding of `pjmedia_mem_player_create`.  `pool`, `buffer` and `p_port`
may be `NULL`; `pj_pool_zalloc` answers with `alloc` (false when it returns
`NULL`). -/
def pjmedia_mem_player_create (alloc : Bool)
    (pool : Bool) (buffer : Option (Nat → Nat)) (size clock_rate channel_count
      samples_per_frame bits_per_sample options : Nat) (p_port : Bool) :
    Except pj_status_t mem_player :=
  match buffer with
  | none => .error .PJ_EINVAL
  | some buffer =>
    -- Sanity check
    if ¬ (pool = true ∧ size ≠ 0 ∧ clock_rate ≠ 0 ∧ channel_count ≠ 0 ∧
        samples_per_frame ≠ 0 ∧ bits_per_sample ≠ 0 ∧ p_port = true) then
      .error .PJ_EINVAL
    -- Can only support 16bit PCM
    else if ¬ (bits_per_sample = 16) then .error .PJ_EINVAL
    else if ¬ alloc then .error .PJ_ENOMEM
    else
      .ok
        { -- Create the port
          info := pjmedia_port_info_init SIGNATURE clock_rate channel_count bits_per_sample
            samples_per_frame
          -- Save the buffer
          buffer := buffer
          read_pos := 0
          buf_size := size
          -- Options
          options := options
          timestamp := 0
          eof := false
          cb := none }

/-- Why a run of `mem_get_frame` has no defined result: `pj_memcpy` read
bytes past the end of the buffer of the player, or the loop was still running
when the iterations allowed were used up. -/
inductive mem_fault
  | read_past_buffer
  | out_of_fuel
  deriving DecidableEq, Repr

/-- The loop `while (size_written < size_needed)` of `mem_get_frame`, run for
at most `fuel` iterations.  The result is `some status` when the loop is left
through the `return status` after the callback, `none` when it ends because
`size_written` has reached `size_needed`.  `(int)max` is the 32-bit `int`
value of `max`. -/
def mem_get_frame_loop : Nat → mem_player → pjmedia_frame → Nat → Nat →
    Except mem_fault (Option pj_status_t × mem_player × pjmedia_frame)
  | 0, player, frame, size_needed, size_written =>
    if size_written < size_needed then .error .out_of_fuel
    else .ok (none, player, frame)
  | fuel + 1, player, frame, size_needed, size_written =>
    if size_written < size_needed then
      let endpos := player.buf_size
      let max := size_needed - size_written
      let max :=
        if (endpos : Int) - (player.read_pos : Int) < int32 (max : Int) then
          endpos - player.read_pos
        else max
      -- pj_memcpy(dst, player->read_pos, max)
      if player.read_pos + max > endpos then .error .read_past_buffer
      else
        let frame := { frame with
          buf := fun j =>
            if size_written ≤ j ∧ j < size_written + max then
              player.buffer (player.read_pos + (j - size_written))
            else frame.buf j }
        let size_written := size_written + max
        let player := { player with read_pos := player.read_pos + max }
        if player.read_pos = endpos then
          let player := { player with read_pos := 0 }
          -- Call callback, if any
          match player.cb with
          | some status =>
            let player := { player with eof := true }
            if status ≠ .PJ_SUCCESS then
              .ok (some status, player,
                { frame with
                  size := size_written
                  timestamp := player.timestamp
                  type := pjmedia_frame_type.PJMEDIA_FRAME_TYPE_AUDIO })
            else
              mem_get_frame_loop fuel { player with eof := false } frame size_needed
                size_written
          | none => mem_get_frame_loop fuel player frame size_needed size_written
        else mem_get_frame_loop fuel player frame size_needed size_written
    else .ok (none, player, frame)

/-- Embedding of `mem_get_frame`, its loop run for at most `fuel`
iterations. -/
def mem_get_frame (fuel : Nat) (player : mem_player) (frame : pjmedia_frame) :
    Except mem_fault (pj_status_t × mem_player × pjmedia_frame) :=
  if player.info.signature ≠ SIGNATURE then .ok (.PJ_EINVALIDOP, player, frame)
  else if player.eof then
    .ok (PJ_EEOF, player, { frame with type := .PJMEDIA_FRAME_TYPE_NONE })
  else
    let size_needed := player.info.bytes_per_frame
    match mem_get_frame_loop fuel player frame size_needed 0 with
    | .error fault => .error fault
    | .ok (some status, player, frame) => .ok (status, player, frame)
    | .ok (none, player, frame) =>
      let frame := { frame with
        size := player.info.bytes_per_frame
        timestamp := player.timestamp
        type := pjmedia_frame_type.PJMEDIA_FRAME_TYPE_AUDIO }
      let player := { player with
        timestamp := (player.timestamp + player.info.samples_per_frame) % 2 ^ 64 }
      .ok (.PJ_SUCCESS, player, frame)

/-! ## Reading a trace -/

/-- A call that hands a message to the network. -/
def Effect.is_send : Effect → Bool
  | .transport_send _ _ => true
  | .send_request_stateless _ => true
  | .send_response _ => true
  | _ => false

/-- A call that builds an ACK request. -/
def Effect.is_create_ack : Effect → Bool
  | .create_ack _ _ => true
  | _ => false

/-- A callback into the transaction user. -/
def Effect.is_tu_callback : Effect → Bool
  | .on_rx_response _ => true
  | .on_tsx_state _ _ _ _ => true
  | _ => false

/-- The callbacks `tsx_set_state` makes into the transaction user for a
received response `rdata` that moves the transaction from `prev_state` to
`state`: `on_rx_response` first, then `on_tsx_state`, each when set. -/
def tu_callbacks_rx (tsx_user : Option pjsip_module) (rdata : pjsip_rx_data)
    (state prev_state : pjsip_tsx_state_e) : List Effect :=
  match tsx_user with
  | none => []
  | some u =>
    (if u.on_rx_response then [Effect.on_rx_response rdata] else []) ++
    (if u.on_tsx_state then
      [Effect.on_tsx_state state prev_state .PJSIP_EVENT_RX_MSG (.rdata rdata)] else [])

/-! ## Notions used to state the results -/

/-- The rank of a state: its position in the order Null, Calling, Trying,
Proceeding, Completed, Confirmed, Terminated, Destroyed (the value of the
enumerator). -/
def pjsip_tsx_state_e.rank : pjsip_tsx_state_e → Nat
  | .PJSIP_TSX_STATE_NULL => 0
  | .PJSIP_TSX_STATE_CALLING => 1
  | .PJSIP_TSX_STATE_TRYING => 2
  | .PJSIP_TSX_STATE_PROCEEDING => 3
  | .PJSIP_TSX_STATE_COMPLETED => 4
  | .PJSIP_TSX_STATE_CONFIRMED => 5
  | .PJSIP_TSX_STATE_TERMINATED => 6
  | .PJSIP_TSX_STATE_DESTROYED => 7

/-- The invariant `tsx_set_state` and the creation functions maintain between
`tsx->state_handler` and `tsx->state`: the handler is the entry of the table
of the role for the state. -/
def handler_consistent (w : World) : Prop :=
  w.tsx.state_handler =
    if w.tsx.role = pjsip_role_e.PJSIP_ROLE_UAC then tsx_state_handler_uac w.tsx.state
    else tsx_state_handler_uas w.tsx.state

/-! ## The key shapes as the specification words them -/

/-- The optional method part of a key: the method name and a dollar sign,
left out when the method is INVITE or ACK. -/
def spec_method_part (method : pjsip_method) : pj_str_t :=
  if method.id = pjsip_method_e.PJSIP_INVITE_METHOD ∨
      method.id = pjsip_method_e.PJSIP_ACK_METHOD then []
  else method.name ++ ['$']

/-- RFC 3261 key of the specification:
`role_char '$' [method_name '$'] branch`. -/
def spec_key_3261 (role : pjsip_role_e) (method : pjsip_method)
    (branch : pj_str_t) : pj_str_t :=
  (if role = pjsip_role_e.PJSIP_ROLE_UAC then 'c' else 's') :: '$' ::
    (spec_method_part method ++ branch)

/-- RFC 2543 key of the specification:
`role_char '$' [method '$'] cseq_num '$' from_tag '$' call_id '$' via_host ':' via_port`,
numbers in decimal. -/
def spec_key_2543 (role : pjsip_role_e) (method : pjsip_method)
    (cseq_num : Nat) (from_tag call_id via_host : pj_str_t) (via_port : Nat) :
    pj_str_t :=
  (if role = pjsip_role_e.PJSIP_ROLE_UAC then 'c' else 's') :: '$' ::
    (spec_method_part method ++ Nat.toDigits 10 cseq_num ++ ['$'] ++ from_tag ++ ['$']
      ++ call_id ++ ['$'] ++ via_host ++ [':'] ++ Nat.toDigits 10 via_port)

/-- Two incoming messages carry the same top-most Via branch parameter (or
both lack a Via header). -/
def same_top_via_branch (r1 r2 : pjsip_rx_data) : Prop :=
  r1.msg_info.via.map (fun v => v.branch_param) =
    r2.msg_info.via.map (fun v => v.branch_param)

/-- Two incoming messages agree on the fields the RFC 2543 key is built from:
CSeq number, From tag, Call-ID and Via sent-by host and port (and on whether
the parsed message is there at all). -/
def same_2543_fields (r1 r2 : pjsip_rx_data) : Prop :=
  r1.msg_info.msg.isSome = r2.msg_info.msg.isSome ∧
  r1.msg_info.cseq.map (fun c => c.cseq) = r2.msg_info.cseq.map (fun c => c.cseq) ∧
  r1.msg_info.from_.map (fun f => f.tag) = r2.msg_info.from_.map (fun f => f.tag) ∧
  r1.msg_info.cid.map (fun c => c.id) = r2.msg_info.cid.map (fun c => c.id) ∧
  r1.msg_info.via.map (fun v => v.sent_by_host) =
    r2.msg_info.via.map (fun v => v.sent_by_host) ∧
  r1.msg_info.via.map (fun v => v.sent_by_port) =
    r2.msg_info.via.map (fun v => v.sent_by_port)

/-- The top-most Via branch of a message starts with the magic cookie. -/
def has_rfc3261_branch (r : pjsip_rx_data) : Prop :=
  ∃ v, r.msg_info.via = some v ∧
    v.branch_param.take 7 = ['z', '9', 'h', 'G', '4', 'b', 'K']

/-! ## Notions used to state the behaviour of the handlers -/

/-- The state callback `tsx_set_state` makes into the transaction user, when
the user has set one. -/
def tu_state_callback (tsx_user : Option pjsip_module) (state prev_state : pjsip_tsx_state_e)
    (type : pjsip_event_id_e) (src : event_src) : List Effect :=
  match tsx_user with
  | none => []
  | some u =>
    if u.on_tsx_state then [Effect.on_tsx_state state prev_state type src] else []

/-- What the block of `tsx_set_state` that runs for state Terminated adds to
the trace, given the pending-transport flag and the slot id of the timeout
timer: nothing while a transport is pending, otherwise the timeout timer is
cancelled when armed and scheduled at zero. -/
def terminated_timer_ops (pending_transport : Bool) (timeout_timer_id : Int) : List Effect :=
  if pending_transport then []
  else
    (if timeout_timer_id ≠ -1 then [Effect.cancel_timer .TSX_TIMER_TIMEOUT] else []) ++
    [Effect.schedule_timer .TSX_TIMER_TIMEOUT ⟨0, 0⟩]

/-- The calls `tsx_send_msg` makes for message `t` when it reports success:
the send over the transport held, the release of a transport whose send
failed, the reference taken for the endpoint, and the send with resolution. -/
def Effect.is_send_step (t : pjsip_tx_data) : Effect → Bool
  | .transport_send _ t1 => decide (t1 = t)
  | .transport_dec_ref _ => true
  | .tx_data_add_ref t1 => decide (t1 = t)
  | .send_request_stateless t1 => decide (t1 = t)
  | .send_response t1 => decide (t1 = t)
  | _ => false

/-- The message a send call hands to the network. -/
def Effect.sent_tdata : Effect → Option pjsip_tx_data
  | .transport_send _ t => some t
  | .send_request_stateless t => some t
  | .send_response t => some t
  | _ => none

/-- Every send call in the list hands the message `t` to the network. -/
def sends_only (t : pjsip_tx_data) (l : List Effect) : Prop :=
  ∀ e ∈ l, Effect.is_send e = true → Effect.sent_tdata e = some t

/-- A call that arms the retransmit timer. -/
def Effect.arms_retransmit : Effect → Bool
  | .schedule_timer .TSX_TIMER_RETRANSMISSION _ => true
  | _ => false

/-- A call that arms the timeout timer. -/
def Effect.arms_timeout : Effect → Bool
  | .schedule_timer .TSX_TIMER_TIMEOUT _ => true
  | _ => false

/-- Between two worlds nothing was scheduled for retransmission: the
reliability of the transport is the same, the trace holds the same calls that
arm the retransmit timer, and the pending reschedule is set afterwards only
if it was set before. -/
def retransmit_quiet (w w' : World) : Prop :=
  w'.tsx.is_reliable = w.tsx.is_reliable ∧
  w'.trace.filter Effect.arms_retransmit = w.trace.filter Effect.arms_retransmit ∧
  (w'.tsx.transport_flag.TSX_HAS_PENDING_RESCHED = true →
    w.tsx.transport_flag.TSX_HAS_PENDING_RESCHED = true)

/-- The next state of a UAS transaction when the response it was given has
been sent, as the specification words it: Proceeding for 1xx; for 2xx,
Terminated when the method is INVITE and `handle_200resp` is 0 and Completed
otherwise; Completed for 3xx-6xx. -/
def spec_uas_next_state (method : pjsip_method) (handle_200resp code : Int) :
    pjsip_tsx_state_e :=
  if code < 200 then .PJSIP_TSX_STATE_PROCEEDING
  else if code < 300 then
    if method.id = pjsip_method_e.PJSIP_INVITE_METHOD ∧ handle_200resp = 0 then
      .PJSIP_TSX_STATE_TERMINATED
    else .PJSIP_TSX_STATE_COMPLETED
  else .PJSIP_TSX_STATE_COMPLETED

/-- The send step of `tsx_on_state_proceeding_uas` for a response the
transaction user hands to `pjsip_tsx_send_msg`: with the transaction locked,
the status code is updated, the saved response discarded and the message
passed to `tsx_send_msg`. -/
def uas_send_response_step (env : Env) (w : World) (tdata : pjsip_tx_data) :
    Option (pj_status_t × World) :=
  tsx_send_msg env
    (discard_last_tx
      (tsx_set_status_code env (lock_tsx w) tdata.msg.line.status.code
        (some tdata.msg.line.status.reason)) tdata)
    (some tdata)

/-- The send step of `tsx_retransmit(tsx, 0)` for a received message, with
the transaction locked: the retransmission counter is incremented and the
last message passed to `tsx_send_msg`. -/
def retransmit_send_step (env : Env) (w : World) (t : pjsip_tx_data) :
    Option (pj_status_t × World) :=
  tsx_send_msg env
    { (lock_tsx w) with
      tsx := { (lock_tsx w).tsx with retransmit_count := w.tsx.retransmit_count + 1 } }
    (some t)

/-- The send step a UAS transaction runs for a received retransmission of its
request: in Completed it goes through `tsx_retransmit(tsx, 0)`, in Proceeding
the last response is passed to `tsx_send_msg` directly. -/
def uas_retransmit_send_step (env : Env) (w : World) (t : pjsip_tx_data) :
    Option (pj_status_t × World) :=
  if w.tsx.state = .PJSIP_TSX_STATE_COMPLETED then retransmit_send_step env w t
  else tsx_send_msg env (lock_tsx w) (some t)

/-- The world in which the transaction user has been told about a 3xx-6xx
response to an INVITE: status code set, timer B cancelled, the ACK built from
`req`, the state moved to Completed. -/
def uac_notified_world (env : Env) (w : World) (rdata : pjsip_rx_data) (msg : pjsip_msg)
    (req : pjsip_tx_data) : World :=
  let wa := tsx_set_status_code env w msg.line.status.code (some msg.line.status.reason)
  let wb := pjsip_endpt_cancel_timer wa .TSX_TIMER_TIMEOUT
  let wc := wb.log (.create_ack req rdata)
  { wc with
    tsx := { wc.tsx with
      state := .PJSIP_TSX_STATE_COMPLETED
      state_handler :=
        if w.tsx.role = pjsip_role_e.PJSIP_ROLE_UAC then
          tsx_state_handler_uac .PJSIP_TSX_STATE_COMPLETED
        else tsx_state_handler_uas .PJSIP_TSX_STATE_COMPLETED }
    trace := wc.trace ++
      tu_callbacks_rx w.tsx.tsx_user rdata .PJSIP_TSX_STATE_COMPLETED w.tsx.state }

/-- A registration (`true`) or removal (`false`) that another transaction
`op.2` performs on the registry the world shares with it. -/
def registry_op_apply (w : World) (op : Bool × pjsip_transaction) : World :=
  let w2 : World := { w with tsx := op.2 }
  let w3 : World :=
    if op.1 then (mod_tsx_layer_register_tsx w2).2 else mod_tsx_layer_unregister_tsx w2
  { w3 with tsx := w.tsx }

/-! ## Notions used to state the results on lock frames, sending and timers -/

/-- What "Clear TLS, so that mutex will not be unlocked" of `tsx_destroy`
does to one frame when the transaction at address `tsx` is destroyed. -/
def tsx_lock_data.clear (tsx : Nat) (lck : tsx_lock_data) : tsx_lock_data :=
  if lck.tsx = tsx then { lck with is_alive := false } else lck

/-- The call of the slow path of `tsx_send_msg` that hands the message to the
endpoint for sending with resolution: `pjsip_endpt_send_request_stateless`
for a request, `pjsip_endpt_send_response` for a response. -/
def slow_path_send (tdata : pjsip_tx_data) : Effect :=
  if tdata.msg.type = .PJSIP_REQUEST_MSG then .send_request_stateless tdata
  else .send_response tdata

/-- The status the endpoint gives back for the slow-path send of a message. -/
def slow_path_status (env : Env) (tdata : pjsip_tx_data) : pj_status_t :=
  if tdata.msg.type = .PJSIP_REQUEST_MSG then env.send_request_stateless
  else env.send_response

/-- A call that hands a message to the endpoint for sending with
resolution. -/
def Effect.is_slow_path_send : Effect → Bool
  | .send_request_stateless _ => true
  | .send_response _ => true
  | _ => false

/-- The slot id of one of the two timer entries of the transaction. -/
def World.timer_slot_id (w : World) : Transaction_Timer_Id → Int
  | .TSX_TIMER_RETRANSMISSION => w.tsx.retransmit_timer._timer_id
  | .TSX_TIMER_TIMEOUT => w.tsx.timeout_timer._timer_id

/-- The memory in which the transaction a creation function has returned is
the only one alive, in the layer state returned. -/
def created_memory (r : Option (pj_status_t × Option pjsip_transaction × tsx_layer)) :
    Option tsx_layer_memory :=
  match r with
  | some (_, some tsx, l) => some { layer := l, heap := [(tsx.self, tsx)] }
  | _ => none

/-- Every entry of the list points to a transaction alive in memory, stored
at the address the entry holds, and no two entries hold the same address. -/
def entries_alive (s : tsx_layer_memory) (it : List (pj_str_t × Nat)) : Prop :=
  (∀ e ∈ it, ∃ tsx, s.deref e.2 = some tsx ∧ tsx.self = e.2) ∧ (it.map Prod.snd).Nodup

/-- The transport the transaction holds, with its pending-transport flag. -/
def World.transport_view (w : World) : Option pjsip_transport × Bool :=
  (w.tsx.transport, w.tsx.transport_flag.TSX_HAS_PENDING_TRANSPORT)

/-- While a transport is pending the transaction holds none.  `tsx_send_msg`
sets `TSX_HAS_PENDING_TRANSPORT` only on its slow path, where it hands the
message and `send_msg_callback` to the endpoint; it gets there with
`tsx->transport` being `NULL` (never assigned, or released and cleared after
the failed send), and a transport is assigned again only by
`send_msg_callback` on a successful send, which clears the flag. -/
def pending_transport_consistent (w : World) : Prop :=
  w.tsx.transport_flag.TSX_HAS_PENDING_TRANSPORT = true → w.tsx.transport = none

/-! ## Sample values used by the closed statements below -/

/-- The INVITE method. -/
def INVITE : pjsip_method := ⟨.PJSIP_INVITE_METHOD, "INVITE".toList⟩

/-- The ACK method. -/
def ACK : pjsip_method := ⟨.PJSIP_ACK_METHOD, "ACK".toList⟩

/-- The CANCEL method. -/
def CANCEL : pjsip_method := ⟨.PJSIP_CANCEL_METHOD, "CANCEL".toList⟩

/-- The OPTIONS method. -/
def OPTIONS : pjsip_method := ⟨.PJSIP_OPTIONS_METHOD, "OPTIONS".toList⟩

/-- A request with the given method in request line and CSeq, CSeq number 1,
From tag `t`, Call-ID `c`, and a top Via `h:5060` with the given branch. -/
def sample_request (method : pjsip_method) (branch : pj_str_t) : pjsip_rx_data :=
  { msg_info :=
    { msg := some
        { type := .PJSIP_REQUEST_MSG
          line := { req := ⟨method, "sip:u@h".toList⟩, status := ⟨0, []⟩ }
          hdr := []
          body := [] }
      cid := some ⟨"c".toList⟩
      from_ := some ⟨"t".toList⟩
      to_ := some ⟨[]⟩
      via := some ⟨branch, "h".toList, 5060⟩
      cseq := some ⟨1, method⟩ } }

/-- A response with the given status code to the sample request (Via and CSeq
present, CSeq method as given). -/
def sample_response (method : pjsip_method) (branch : pj_str_t) (code : Int) :
    pjsip_rx_data :=
  { msg_info :=
    { msg := some
        { type := .PJSIP_RESPONSE_MSG
          line := { req := ⟨⟨.PJSIP_INVITE_METHOD, []⟩, []⟩, status := ⟨code, []⟩ }
          hdr := []
          body := [] }
      cid := some ⟨"c".toList⟩
      from_ := some ⟨"t".toList⟩
      to_ := some ⟨"u".toList⟩
      via := some ⟨branch, "h".toList, 5060⟩
      cseq := some ⟨1, method⟩ } }

/-- The sample response with its CSeq header removed. -/
def sample_response_no_cseq : pjsip_rx_data :=
  { msg_info := { (sample_response INVITE ['x'] 200).msg_info with cseq := none } }

/-- An environment with the RFC default timer values (T1 = 500 ms, T2 = 4 s,
T4 = 5 s, TD = 32 s), in which sends are accepted asynchronously. -/
def sample_env : Env :=
  { PJSIP_T1_TIMEOUT := 500
    PJSIP_T2_TIMEOUT := 4000
    PJSIP_T4_TIMEOUT := 5000
    PJSIP_TD_TIMEOUT := 32000
    PJSIP_TRANSPORT_RELIABLE := 1
    PJSIP_SC_TSX_TIMEOUT := 408
    PJSIP_SC_TSX_TRANSPORT_ERROR := 503
    pjsip_get_status_text := fun _ => []
    pj_strerror := fun _ => []
    timer_slot := 1
    transport_send := .PJ_EPENDING
    send_request_stateless := .PJ_EPENDING
    send_response := .PJ_EPENDING
    create_ack := .error .PJ_EUNKNOWN }

/-- Creation answers: memory at address 1, mutex created, no response
transport chosen. -/
def sample_create_env : create_env :=
  { pool := some 1
    mutex_create := .PJ_SUCCESS
    get_response_addr := (.PJ_SUCCESS, { transport := none, addr_len := 0 })
    pj_hash_calc := fun key => key.length }

/-- A layer with an empty registry, no lock frame and an empty trace. -/
def empty_layer : tsx_layer := { htable := [], tls := [], trace := [] }

/-- An outgoing request buffer at address 7 carrying the sample request. -/
def sample_tdata (method : pjsip_method) : pjsip_tx_data :=
  { ptr := 7
    msg :=
      { type := .PJSIP_REQUEST_MSG
        line := { req := ⟨method, "sip:u@h".toList⟩, status := ⟨0, []⟩ }
        hdr := []
        body := [] }
    cseq := some ⟨1, method⟩ }

/-- A UAC transaction for the given method as it stands right after creation:
state Null, the request saved in `last_tx`, registered under its RFC 3261
key, unreliable transport expected, and a transaction user with both
callbacks. -/
def sample_uac_world (method : pjsip_method) : World :=
  { tsx :=
      { self := 1
        tsx_user := some ⟨true, true⟩
        role := .PJSIP_ROLE_UAC
        method := method
        cseq := 1
        transaction_key := spec_key_3261 .PJSIP_ROLE_UAC method "z9hG4bKabc".toList
        hashed_key := 0
        branch := "z9hG4bKabc".toList
        status_code := 0
        status_text := []
        state := .PJSIP_TSX_STATE_NULL
        handle_200resp := 1
        state_handler := some .tsx_on_state_null
        transport := none
        is_reliable := false
        addr_len := 0
        res_addr := { transport := none, addr_len := 0 }
        transport_flag := ⟨false, false, false, false, false⟩
        transport_err := 0
        last_tx := some (sample_tdata method)
        retransmit_count := 0
        retransmit_timer := { id := .TSX_TIMER_RETRANSMISSION, _timer_id := -1 }
        timeout_timer := { id := .TSX_TIMER_TIMEOUT, _timer_id := -1 } }
    htable := [(spec_key_3261 .PJSIP_ROLE_UAC method "z9hG4bKabc".toList, 1)]
    tls := []
    trace := []
    released := false }

/-- The number of milliseconds a `pj_time_val` stands for. -/
def pj_time_val.to_msec (t : pj_time_val) : Int := t.sec * 1000 + t.msec

/-- The sample INVITE request with its CSeq header removed. -/
def sample_request_no_cseq : pjsip_rx_data :=
  { msg_info := { (sample_request INVITE ['x']).msg_info with cseq := none } }

/-- The sample INVITE request with a CSeq header that names OPTIONS. -/
def sample_request_cseq_mismatch : pjsip_rx_data :=
  { msg_info := { (sample_request INVITE ['x']).msg_info with cseq := some ⟨1, OPTIONS⟩ } }

/-- The sample UAC transaction with the retransmission counter set. -/
def sample_uac_world_count (method : pjsip_method) (n : Nat) : World :=
  { sample_uac_world method with
    tsx := { (sample_uac_world method).tsx with retransmit_count := n } }

/-- The sample UAC transaction after its request has been handed to the
endpoint for resolution: state Calling, transport pending, timer B armed and
the first retransmission noted as pending. -/
def sample_calling_world (method : pjsip_method) : World :=
  { sample_uac_world method with
    tsx := { (sample_uac_world method).tsx with
      state := .PJSIP_TSX_STATE_CALLING
      state_handler := some .tsx_on_state_calling
      transport_flag := ⟨true, true, false, false, false⟩
      timeout_timer := { id := .TSX_TIMER_TIMEOUT, _timer_id := 1 } } }

/-- The sample UAC transaction created without a transaction user. -/
def sample_uac_world_no_tu (method : pjsip_method) : World :=
  { sample_uac_world method with
    tsx := { (sample_uac_world method).tsx with tsx_user := none } }

/-- A run through the entry points, starting from the freshly created sample
UAC transaction (no transaction user): the request is sent and its
destination is still being resolved; the transaction is terminated by the
user with code 487; timer B, still armed, fires. -/
def deferred_destroy_run : Option World :=
  match pjsip_tsx_send_msg sample_env (sample_uac_world_no_tu OPTIONS) none with
  | none => none
  | some (_, w1) =>
    match pjsip_tsx_terminate sample_env w1 487 with
    | none => none
    | some (_, w2) => tsx_timer_callback sample_env w2 .TSX_TIMER_TIMEOUT

/-- The run `deferred_destroy_run` followed by a second call of
`pjsip_tsx_terminate`. -/
def deferred_destroy_then_terminate : Option (pj_status_t × World) :=
  match deferred_destroy_run with
  | none => none
  | some w3 => pjsip_tsx_terminate sample_env w3 487

/-- The sample request with the same key fields but another Request-URI, To
tag, extra header and body. -/
def sample_request_other_fields (method : pjsip_method) (branch : pj_str_t) :
    pjsip_rx_data :=
  { msg_info :=
    { msg := some
        { type := .PJSIP_REQUEST_MSG
          line := { req := ⟨method, "sip:other@example".toList⟩, status := ⟨0, []⟩ }
          hdr := [("Subject".toList, "x".toList)]
          body := "hello".toList }
      cid := some ⟨"c".toList⟩
      from_ := some ⟨"t".toList⟩
      to_ := some ⟨"zz".toList⟩
      via := some ⟨branch, "h".toList, 5060⟩
      cseq := some ⟨1, method⟩ } }

/-- Creation answers for a server transaction: memory at address 1, mutex
created, and the response goes back over the transport the request came in on
(at address 9, with the given flag word). -/
def sample_uas_create_env (flag : Nat) : create_env :=
  { pool := some 1
    mutex_create := .PJ_SUCCESS
    get_response_addr := (.PJ_SUCCESS, { transport := some ⟨9, flag⟩, addr_len := 16 })
    pj_hash_calc := fun key => key.length }

/-- The world a creation function leaves behind on success: the transaction
stored through `p_tsx`, in the layer state returned. -/
def created_world (r : Option (pj_status_t × Option pjsip_transaction × tsx_layer)) :
    Option World :=
  match r with
  | some (_, some tsx, l) =>
    some { tsx := tsx, htable := l.htable, tls := l.tls, trace := l.trace, released := false }
  | _ => none

/-- An outgoing response buffer at address 8 with the given status code, to
the sample request. -/
def sample_response_tdata (method : pjsip_method) (code : Int) : pjsip_tx_data :=
  { ptr := 8
    msg :=
      { type := .PJSIP_RESPONSE_MSG
        line := { req := ⟨⟨.PJSIP_INVITE_METHOD, []⟩, []⟩, status := ⟨code, []⟩ }
        hdr := []
        body := [] }
    cseq := some ⟨1, method⟩ }

/-- An ACK request buffer at address 11. -/
def sample_ack : pjsip_tx_data :=
  { ptr := 11
    msg :=
      { type := .PJSIP_REQUEST_MSG
        line := { req := ⟨ACK, "sip:u@h".toList⟩, status := ⟨0, []⟩ }
        hdr := []
        body := [] }
    cseq := some ⟨1, ACK⟩ }

/-- The sample environment in which `pjsip_endpt_create_ack` succeeds and
hands out the sample ACK. -/
def sample_env_ack : Env := { sample_env with create_ack := .ok sample_ack }

/-- The environment `sample_env_ack` after the transport has broken: a send
over the transport held reports an error. -/
def sample_env_send_fails : Env := { sample_env_ack with transport_send := .PJ_EUNKNOWN }

/-- A server transaction created by `pjsip_tsx_create_uas` for the sample
request, received over a transport with the given flag word, and then given
that request: state Trying. -/
def sample_uas_trying (method : pjsip_method) (flag : Nat) : Option World :=
  match created_world (pjsip_tsx_create_uas sample_env (sample_uas_create_env flag)
      empty_layer (some ⟨true, true⟩) (sample_request method "z9hG4bKabc".toList)) with
  | none => none
  | some w => pjsip_tsx_recv_msg sample_env w (sample_request method "z9hG4bKabc".toList)

/-- The sample server transaction after the transaction user has sent a
response with the given status code. -/
def sample_uas_responded (method : pjsip_method) (flag : Nat) (code : Int) : Option World :=
  match sample_uas_trying method flag with
  | none => none
  | some w =>
    match pjsip_tsx_send_msg sample_env w (some (sample_response_tdata method code)) with
    | none => none
    | some (_, w) => some w

/-- The sample client transaction after its request has been sent and the
endpoint has reported the send as done over the transport at address 9 with
the given flag word: state Calling, transport held. -/
def sample_uac_sent (method : pjsip_method) (flag : Nat) : Option World :=
  match pjsip_tsx_send_msg sample_env_ack (sample_uac_world method) none with
  | none => none
  | some (_, w1) =>
    send_msg_callback sample_env_ack w1 (some ⟨9, flag⟩) (sample_tdata method) 1 false

/-- The sample client transaction after its request has been sent and a
response with the given status code has been received. -/
def sample_uac_responded (method : pjsip_method) (flag : Nat) (code : Int) : Option World :=
  match sample_uac_sent method flag with
  | none => none
  | some w =>
    pjsip_tsx_recv_msg sample_env_ack w (sample_response method "z9hG4bKabc".toList code)

/-- Answers for the creation of a client transaction: the destination is
reached over an unreliable transport, `PJSIP_MAX_BRANCH_LEN` is 41, and the
unique string has 32 characters. -/
def sample_create_uac_env : create_uac_env :=
  { get_request_addr := (.PJ_SUCCESS, 0)
    PJSIP_MAX_BRANCH_LEN := 41
    pj_generate_unique_string := "0123456789abcdef0123456789abcdef".toList
    pj_pool_alloc := fun _ => Char.ofNat 0 }

/-- The sample outgoing request with a top Via that carries a branch. -/
def sample_tdata_via (method : pjsip_method) : pjsip_tx_data :=
  { sample_tdata method with via := some ⟨"z9hG4bKabc".toList, "h".toList, 5060⟩ }

/-- The sample outgoing INVITE with a CSeq header that names OPTIONS. -/
def sample_tdata_cseq_mismatch : pjsip_tx_data :=
  { sample_tdata INVITE with cseq := some ⟨1, OPTIONS⟩ }

/-- An extension method with a name of 24 characters. -/
def sample_long_method : pjsip_method :=
  ⟨.PJSIP_OTHER_METHOD, "ABCDEFGHIJKLMNOPQRSTUVWX".toList⟩

/-- Creation answers in which `pjsip_get_response_addr` fails. -/
def sample_create_env_no_response_addr : create_env :=
  { sample_create_env with
    get_response_addr := (.PJ_EINVAL, { transport := none, addr_len := 0 }) }

/-- Answers for the creation of a client transaction in which
`pjsip_get_request_addr` fails. -/
def sample_create_uac_env_no_request_addr : create_uac_env :=
  { sample_create_uac_env with get_request_addr := (.PJ_EINVAL, 0) }

/-- The sample request with an RFC 2543 branch and no From header: the key
builder fails on it. -/
def sample_request_no_from : pjsip_rx_data :=
  { msg_info := { (sample_request INVITE ['x']).msg_info with from_ := none } }

/-- A world whose thread holds three lock frames: the transaction at address
1 locked twice, with a frame of the transaction at address 2 in between. -/
def sample_nested_lock_world : World :=
  { sample_uac_world INVITE with
    tls := [⟨1, true⟩, ⟨2, true⟩, ⟨1, true⟩] }

/-- An outgoing 486 response buffer at address 12, to the sample request. -/
def sample_response_tdata_486 : pjsip_tx_data :=
  { sample_response_tdata INVITE 486 with ptr := 12 }

/-- A server INVITE transaction created without a transport for the response
(the destination has to be resolved), given its request, and then two
responses by the transaction user before the first send has completed: a 180
and a 486.  Both `TSX_HAS_PENDING_SEND` and `TSX_HAS_PENDING_RESCHED` are set
when the run ends. -/
def sample_uas_two_responses : Option World :=
  match created_world (pjsip_tsx_create_uas sample_env sample_create_env
      empty_layer (some ⟨true, true⟩) (sample_request INVITE "z9hG4bKabc".toList)) with
  | none => none
  | some w =>
    match pjsip_tsx_recv_msg sample_env w (sample_request INVITE "z9hG4bKabc".toList) with
    | none => none
    | some w =>
      match pjsip_tsx_send_msg sample_env w (some (sample_response_tdata INVITE 180)) with
      | none => none
      | some (_, w) =>
        match pjsip_tsx_send_msg sample_env w (some sample_response_tdata_486) with
        | none => none
        | some (_, w) => some w

/-- The sample client transaction waiting for its transport, after the
transaction user has terminated it: destruction is pending. -/
def sample_terminated_pending : Option World :=
  match pjsip_tsx_terminate sample_env (sample_calling_world OPTIONS) 487 with
  | none => none
  | some (_, w) => some w

/-- The sample outgoing request with a top Via whose branch the transaction
user has set to `abc`, without the magic cookie. -/
def sample_tdata_old_branch (method : pjsip_method) : pjsip_tx_data :=
  { sample_tdata method with via := some ⟨"abc".toList, "h".toList, 5060⟩ }

/-- A player created over a buffer of five bytes `10, 11, 12, 13, 14`, with
frames of four samples (eight bytes). -/
def sample_player : mem_player :=
  { info := pjmedia_port_info_init SIGNATURE 8000 1 16 4
    options := 0
    timestamp := 0
    buffer := fun i => 10 + i
    buf_size := 5
    read_pos := 0
    eof := false
    cb := none }

/-- A frame whose buffer holds zeros. -/
def sample_frame : pjmedia_frame :=
  { type := .PJMEDIA_FRAME_TYPE_NONE, buf := fun _ => 0, size := 0, timestamp := 0 }

/-- A server transaction created by `pjsip_tsx_create_uas` for the sample
request when `pjsip_get_response_addr` has not picked the transport the
request came in on (`res_addr.transport` is `NULL`, the response is to be sent
with resolution), and then given that request: state Trying, no transport
held. -/
def sample_uas_trying_no_transport (method : pjsip_method) : Option World :=
  match created_world (pjsip_tsx_create_uas sample_env sample_create_env
      empty_layer (some ⟨true, true⟩) (sample_request method "z9hG4bKabc".toList)) with
  | none => none
  | some w => pjsip_tsx_recv_msg sample_env w (sample_request method "z9hG4bKabc".toList)

/-! # Theorems -/

/-! ## Key builder -/

theorem key_method_part_eq (method : pjsip_method) (p : pj_str_t) :
    (if method.id ≠ pjsip_method_e.PJSIP_INVITE_METHOD ∧
        method.id ≠ pjsip_method_e.PJSIP_ACK_METHOD then
      (p ++ method.name) ++ ['$'] else p) = p ++ spec_method_part method := by
  unfold spec_method_part
  by_cases h1 : method.id = pjsip_method_e.PJSIP_INVITE_METHOD
  · simp [h1]
  · by_cases h2 : method.id = pjsip_method_e.PJSIP_ACK_METHOD
    · simp [h2]
    · simp [h1, h2]

theorem create_tsx_key_3261_eq (role : pjsip_role_e) (method : pjsip_method)
    (branch : pj_str_t) :
    create_tsx_key_3261 role method branch = .ok (spec_key_3261 role method branch) := by
  simp only [create_tsx_key_3261, key_method_part_eq, spec_key_3261, role_char, SEPARATOR]
  simp

theorem key_2543_bytes_eq (role : pjsip_role_e) (method : pjsip_method)
    (cseq : pjsip_cseq_hdr) (from_ : pjsip_fromto_hdr) (cid : pjsip_cid_hdr)
    (via : pjsip_via_hdr) :
    key_2543_bytes role method cseq from_ cid via =
      spec_key_2543 role method cseq.cseq from_.tag cid.id via.sent_by_host
        via.sent_by_port ++ ['$', Char.ofNat 0] := by
  simp only [key_2543_bytes, key_method_part_eq, spec_key_2543, role_char, SEPARATOR, pj_utoa]
  simp

/-- C2: for every role, method and branch, `create_tsx_key_3261` succeeds with
exactly the key `role_char '$' [method_name '$'] branch` (role character `c`
for UAC and `s` for UAS, method part present exactly when the method is
neither INVITE nor ACK), and the reported length is the length of that
string. -/
theorem create_tsx_key_3261_spec (role : pjsip_role_e) (method : pjsip_method)
    (branch : pj_str_t) :
    ∃ key, create_tsx_key_3261 role method branch = .ok key ∧
      key = (if role = pjsip_role_e.PJSIP_ROLE_UAC then 'c' else 's') :: '$' ::
        ((if method.id = pjsip_method_e.PJSIP_INVITE_METHOD ∨
              method.id = pjsip_method_e.PJSIP_ACK_METHOD then []
          else method.name ++ ['$']) ++ branch) ∧
      key.length = (spec_key_3261 role method branch).length ∧
      key.length =
        2 + (if method.id = pjsip_method_e.PJSIP_INVITE_METHOD ∨
              method.id = pjsip_method_e.PJSIP_ACK_METHOD then 0
            else method.name.length + 1) + branch.length := by
  refine ⟨_, create_tsx_key_3261_eq role method branch, ?_, rfl, ?_⟩
  · simp [spec_key_3261, spec_method_part]
  · by_cases h : method.id = pjsip_method_e.PJSIP_INVITE_METHOD ∨
        method.id = pjsip_method_e.PJSIP_ACK_METHOD
    · simp only [spec_key_3261, spec_method_part, if_pos h]
      simp; omega
    · simp only [spec_key_3261, spec_method_part, if_neg h]
      simp; omega

theorem pj_strncmp_cookie (branch : pj_str_t) :
    pj_strncmp branch PJSIP_RFC3261_BRANCH_ID PJSIP_RFC3261_BRANCH_LEN = 0 ↔
      branch.take 7 = ['z', '9', 'h', 'G', '4', 'b', 'K'] := by
  have h : PJSIP_RFC3261_BRANCH_ID.take PJSIP_RFC3261_BRANCH_LEN =
      ['z', '9', 'h', 'G', '4', 'b', 'K'] := by decide
  unfold pj_strncmp
  rw [h]
  show (if List.take 7 branch = _ then (0 : Int) else _) = 0 ↔ _
  constructor
  · intro h0
    by_contra hne
    rw [if_neg hne] at h0
    split at h0 <;> omega
  · intro heq
    rw [if_pos heq]

/-- C3 (as stated, refuted): for the sample INVITE with a legacy branch the key
`create_tsx_key_2543` returns is not the string that ends with the Via port,
and its length is not the length of that string. -/
theorem create_tsx_key_2543_not_spec_key :
    ∃ key, create_tsx_key_2543 .PJSIP_ROLE_UAS INVITE (sample_request INVITE ['x']) =
        some (.ok key) ∧
      spec_key_2543 .PJSIP_ROLE_UAS INVITE 1 ['t'] ['c'] ['h'] 5060 = "s$1$t$c$h:5060".toList ∧
      key ≠ spec_key_2543 .PJSIP_ROLE_UAS INVITE 1 ['t'] ['c'] ['h'] 5060 ∧
      key.length ≠ (spec_key_2543 .PJSIP_ROLE_UAS INVITE 1 ['t'] ['c'] ['h'] 5060).length := by
  refine ⟨_, rfl, ?_, ?_, ?_⟩ <;> decide

/-- C3 (amended): for every role, method and message carrying Via, CSeq, From
and Call-ID, `create_tsx_key_2543` succeeds with the key
`role_char '$' [method '$'] cseq_num '$' from_tag '$' call_id '$' via_host ':' via_port`
followed by one more separator `'$'` and a terminating NUL character; the
reported key length counts both trailing characters. -/
theorem create_tsx_key_2543_spec (role : pjsip_role_e) (method : pjsip_method)
    (rdata : pjsip_rx_data) (msg : pjsip_msg) (via : pjsip_via_hdr)
    (cseq : pjsip_cseq_hdr) (from_ : pjsip_fromto_hdr) (cid : pjsip_cid_hdr)
    (hmsg : rdata.msg_info.msg = some msg) (hvia : rdata.msg_info.via = some via)
    (hcseq : rdata.msg_info.cseq = some cseq) (hfrom : rdata.msg_info.from_ = some from_)
    (hcid : rdata.msg_info.cid = some cid) :
    ∃ key, create_tsx_key_2543 role method rdata = some (.ok key) ∧
      key = spec_key_2543 role method cseq.cseq from_.tag cid.id via.sent_by_host
              via.sent_by_port ++ ['$', Char.ofNat 0] ∧
      key.length = (spec_key_2543 role method cseq.cseq from_.tag cid.id
              via.sent_by_host via.sent_by_port).length + 2 := by
  refine ⟨_, ?_, rfl, by simp⟩
  simp [create_tsx_key_2543, hmsg, hvia, hcseq, hfrom, hcid, key_2543_bytes_eq]

theorem create_tsx_key_2543_spec_witness :
    ∃ key, create_tsx_key_2543 .PJSIP_ROLE_UAC OPTIONS (sample_request OPTIONS ['x']) =
        some (.ok key) ∧
      key = spec_key_2543 .PJSIP_ROLE_UAC OPTIONS 1 ['t'] ['c'] ['h'] 5060
              ++ ['$', Char.ofNat 0] ∧
      key.length = (spec_key_2543 .PJSIP_ROLE_UAC OPTIONS 1 ['t'] ['c'] ['h'] 5060).length + 2 :=
  create_tsx_key_2543_spec .PJSIP_ROLE_UAC OPTIONS (sample_request OPTIONS ['x'])
    _ ⟨['x'], ['h'], 5060⟩ ⟨1, OPTIONS⟩ ⟨['t']⟩ ⟨['c']⟩ rfl rfl rfl rfl rfl

theorem pjsip_tsx_create_key_cookie (role : pjsip_role_e) (method : pjsip_method)
    (rdata : pjsip_rx_data) (via : pjsip_via_hdr)
    (hvia : rdata.msg_info.via = some via)
    (h : via.branch_param.take 7 = ['z', '9', 'h', 'G', '4', 'b', 'K']) :
    pjsip_tsx_create_key role method rdata =
      some (create_tsx_key_3261 role method via.branch_param) := by
  simp only [pjsip_tsx_create_key, hvia]
  rw [if_pos ((pj_strncmp_cookie _).2 h)]

theorem pjsip_tsx_create_key_no_cookie (role : pjsip_role_e) (method : pjsip_method)
    (rdata : pjsip_rx_data) (via : pjsip_via_hdr)
    (hvia : rdata.msg_info.via = some via)
    (h : via.branch_param.take 7 ≠ ['z', '9', 'h', 'G', '4', 'b', 'K']) :
    pjsip_tsx_create_key role method rdata = create_tsx_key_2543 role method rdata := by
  simp only [pjsip_tsx_create_key, hvia]
  rw [if_neg (fun h0 => h ((pj_strncmp_cookie _).1 h0))]

/-- C4: for every message with a top-most Via, `pjsip_tsx_create_key` returns
the RFC 3261 key (`create_tsx_key_3261` on the top-Via branch) when that
branch begins with the seven characters `z9hG4bK`, and the RFC 2543 key
(`create_tsx_key_2543` on the message) in every other case. -/
theorem pjsip_tsx_create_key_dispatch (role : pjsip_role_e) (method : pjsip_method)
    (rdata : pjsip_rx_data) (via : pjsip_via_hdr)
    (hvia : rdata.msg_info.via = some via) :
    (via.branch_param.take 7 = ['z', '9', 'h', 'G', '4', 'b', 'K'] →
      pjsip_tsx_create_key role method rdata =
        some (create_tsx_key_3261 role method via.branch_param)) ∧
    (via.branch_param.take 7 ≠ ['z', '9', 'h', 'G', '4', 'b', 'K'] →
      pjsip_tsx_create_key role method rdata =
        create_tsx_key_2543 role method rdata) := by
  exact ⟨pjsip_tsx_create_key_cookie role method rdata via hvia,
    pjsip_tsx_create_key_no_cookie role method rdata via hvia⟩

theorem pjsip_tsx_create_key_dispatch_witness :
    pjsip_tsx_create_key .PJSIP_ROLE_UAS INVITE (sample_request INVITE "z9hG4bKabc".toList) =
        some (create_tsx_key_3261 .PJSIP_ROLE_UAS INVITE "z9hG4bKabc".toList) ∧
    pjsip_tsx_create_key .PJSIP_ROLE_UAS INVITE (sample_request INVITE "abc".toList) =
        create_tsx_key_2543 .PJSIP_ROLE_UAS INVITE (sample_request INVITE "abc".toList) :=
  ⟨(pjsip_tsx_create_key_dispatch .PJSIP_ROLE_UAS INVITE
      (sample_request INVITE "z9hG4bKabc".toList) ⟨"z9hG4bKabc".toList, ['h'], 5060⟩ rfl).1
      (by decide),
   (pjsip_tsx_create_key_dispatch .PJSIP_ROLE_UAS INVITE
      (sample_request INVITE "abc".toList) ⟨"abc".toList, ['h'], 5060⟩ rfl).2
      (by decide)⟩

theorem create_tsx_key_2543_congr (role : pjsip_role_e) (m1 m2 : pjsip_method)
    (r1 r2 : pjsip_rx_data) (hm : spec_method_part m1 = spec_method_part m2)
    (hf : same_2543_fields r1 r2) :
    create_tsx_key_2543 role m1 r1 = create_tsx_key_2543 role m2 r2 := by
  obtain ⟨⟨msg1, cid1, from1, to1, via1, cseq1⟩⟩ := r1
  obtain ⟨⟨msg2, cid2, from2, to2, via2, cseq2⟩⟩ := r2
  obtain ⟨h1, h2, h3, h4, h5, h6⟩ := hf
  simp only at h1 h2 h3 h4 h5 h6
  cases msg1 <;> cases msg2 <;> simp at h1 <;>
  cases via1 <;> cases via2 <;> simp at h5 h6 <;>
  cases cseq1 <;> cases cseq2 <;> simp at h2 <;>
  cases from1 <;> cases from2 <;> simp at h3 <;>
  cases cid1 <;> cases cid2 <;> simp at h4 <;>
  simp [create_tsx_key_2543, key_2543_bytes_eq, spec_key_2543, hm, h2, h3, h4, h5, h6]

theorem pjsip_tsx_create_key_congr (role : pjsip_role_e) (m1 m2 : pjsip_method)
    (r1 r2 : pjsip_rx_data) (hm : spec_method_part m1 = spec_method_part m2)
    (hb : same_top_via_branch r1 r2)
    (hf : ¬ has_rfc3261_branch r1 → same_2543_fields r1 r2) :
    pjsip_tsx_create_key role m1 r1 = pjsip_tsx_create_key role m2 r2 := by
  unfold same_top_via_branch at hb
  cases hv1 : r1.msg_info.via with
  | none =>
    rw [hv1] at hb
    cases hv2 : r2.msg_info.via with
    | none => simp [pjsip_tsx_create_key, hv1, hv2]
    | some v2 => rw [hv2] at hb; simp at hb
  | some v1 =>
    rw [hv1] at hb
    cases hv2 : r2.msg_info.via with
    | none => rw [hv2] at hb; simp at hb
    | some v2 =>
      rw [hv2] at hb
      simp only [Option.map_some', Option.some.injEq] at hb
      by_cases hc : v1.branch_param.take 7 = ['z', '9', 'h', 'G', '4', 'b', 'K']
      · rw [pjsip_tsx_create_key_cookie role m1 r1 v1 hv1 hc,
          pjsip_tsx_create_key_cookie role m2 r2 v2 hv2 (hb ▸ hc),
          create_tsx_key_3261_eq, create_tsx_key_3261_eq, hb]
        simp [spec_key_3261, hm]
      · rw [pjsip_tsx_create_key_no_cookie role m1 r1 v1 hv1 hc,
          pjsip_tsx_create_key_no_cookie role m2 r2 v2 hv2 (hb ▸ hc)]
        apply create_tsx_key_2543_congr role m1 m2 r1 r2 hm
        apply hf
        rintro ⟨v, hv, hcv⟩
        rw [hv1] at hv
        cases hv
        exact hc hcv

theorem same_2543_fields_sample (m1 m2 : pjsip_method) (b1 b2 : pj_str_t) :
    same_2543_fields (sample_request m1 b1) (sample_request m2 b2) :=
  ⟨rfl, rfl, rfl, rfl, rfl, rfl⟩

/-- C5: for every role and every pair of messages that carry the same top-Via
branch and, when that branch lacks the magic cookie, the same CSeq number,
From tag, Call-ID and Via host and port, the key `pjsip_tsx_create_key` builds
with method INVITE equals the key it builds with method ACK; so the ACK
for a non-2xx response is looked up under the key of the INVITE server
transaction. -/
theorem invite_ack_same_key (role : pjsip_role_e) (m_invite m_ack : pjsip_method)
    (r1 r2 : pjsip_rx_data)
    (hi : m_invite.id = pjsip_method_e.PJSIP_INVITE_METHOD)
    (ha : m_ack.id = pjsip_method_e.PJSIP_ACK_METHOD)
    (hb : same_top_via_branch r1 r2)
    (hf : ¬ has_rfc3261_branch r1 → same_2543_fields r1 r2) :
    pjsip_tsx_create_key role m_invite r1 = pjsip_tsx_create_key role m_ack r2 := by
  apply pjsip_tsx_create_key_congr role m_invite m_ack r1 r2 _ hb hf
  simp [spec_method_part, hi, ha]

theorem invite_ack_same_key_witness :
    (pjsip_tsx_create_key .PJSIP_ROLE_UAS INVITE (sample_request INVITE ['x']) =
      pjsip_tsx_create_key .PJSIP_ROLE_UAS ACK (sample_request ACK ['x'])) ∧
    (pjsip_tsx_create_key .PJSIP_ROLE_UAS INVITE (sample_request INVITE "z9hG4bKabc".toList) =
      pjsip_tsx_create_key .PJSIP_ROLE_UAS ACK (sample_request ACK "z9hG4bKabc".toList)) :=
  ⟨invite_ack_same_key .PJSIP_ROLE_UAS INVITE ACK (sample_request INVITE ['x'])
      (sample_request ACK ['x']) rfl rfl rfl (fun _ => same_2543_fields_sample _ _ _ _),
   invite_ack_same_key .PJSIP_ROLE_UAS INVITE ACK (sample_request INVITE "z9hG4bKabc".toList)
      (sample_request ACK "z9hG4bKabc".toList) rfl rfl rfl
      (fun _ => same_2543_fields_sample _ _ _ _)⟩

/-- C6 (as stated, refuted): an RFC 2543 INVITE and a CANCEL of it that agree on
role, CSeq number, From tag, Call-ID and Via host and port get different keys
from `pjsip_tsx_create_key`. -/
theorem invite_cancel_2543_keys_differ :
    same_2543_fields (sample_request INVITE ['x']) (sample_request CANCEL ['x']) ∧
    ¬ has_rfc3261_branch (sample_request INVITE ['x']) ∧
    pjsip_tsx_create_key .PJSIP_ROLE_UAS INVITE (sample_request INVITE ['x']) =
      some (.ok ("s$1$t$c$h:5060$".toList ++ [Char.ofNat 0])) ∧
    pjsip_tsx_create_key .PJSIP_ROLE_UAS CANCEL (sample_request CANCEL ['x']) =
      some (.ok ("s$CANCEL$1$t$c$h:5060$".toList ++ [Char.ofNat 0])) ∧
    pjsip_tsx_create_key .PJSIP_ROLE_UAS INVITE (sample_request INVITE ['x']) ≠
      pjsip_tsx_create_key .PJSIP_ROLE_UAS CANCEL (sample_request CANCEL ['x']) := by
  have e1 : pjsip_tsx_create_key .PJSIP_ROLE_UAS INVITE (sample_request INVITE ['x']) =
      some (.ok ("s$1$t$c$h:5060$".toList ++ [Char.ofNat 0])) := rfl
  have e2 : pjsip_tsx_create_key .PJSIP_ROLE_UAS CANCEL (sample_request CANCEL ['x']) =
      some (.ok ("s$CANCEL$1$t$c$h:5060$".toList ++ [Char.ofNat 0])) := rfl
  refine ⟨same_2543_fields_sample _ _ _ _, ?_, e1, e2, ?_⟩
  · rintro ⟨v, hv, hc⟩
    cases hv
    revert hc
    decide
  · rw [e1, e2]
    intro h
    have h2 := Except.ok.inj (Option.some.inj h)
    revert h2
    decide

/-- C6 (amended): for every pair of RFC 2543 requests (top-Via branch without
the magic cookie) carrying Via, CSeq, From and Call-ID that agree on role, CSeq
number, From tag, Call-ID and Via host and port, one being an INVITE and the
other a CANCEL of it, `pjsip_tsx_create_key` succeeds on both and the CANCEL
key is the INVITE key with the CANCEL method name and a `'$'` inserted after
the two-character role part; the two keys are never equal. -/
theorem invite_cancel_2543_sibling_keys (role : pjsip_role_e)
    (m_invite m_cancel : pjsip_method) (r1 r2 : pjsip_rx_data)
    (msg : pjsip_msg) (via : pjsip_via_hdr) (cseq : pjsip_cseq_hdr)
    (from_ : pjsip_fromto_hdr) (cid : pjsip_cid_hdr)
    (hi : m_invite.id = pjsip_method_e.PJSIP_INVITE_METHOD)
    (hc : m_cancel.id = pjsip_method_e.PJSIP_CANCEL_METHOD)
    (hmsg : r1.msg_info.msg = some msg) (hvia : r1.msg_info.via = some via)
    (hcseq : r1.msg_info.cseq = some cseq) (hfrom : r1.msg_info.from_ = some from_)
    (hcid : r1.msg_info.cid = some cid)
    (h2543 : ¬ has_rfc3261_branch r1)
    (hb : same_top_via_branch r1 r2) (hf : same_2543_fields r1 r2) :
    ∃ k1 k2, pjsip_tsx_create_key role m_invite r1 = some (.ok k1) ∧
      pjsip_tsx_create_key role m_cancel r2 = some (.ok k2) ∧
      k2 = k1.take 2 ++ m_cancel.name ++ ['$'] ++ k1.drop 2 ∧
      k1 ≠ k2 := by
  have hnc : via.branch_param.take 7 ≠ ['z', '9', 'h', 'G', '4', 'b', 'K'] :=
    fun h => h2543 ⟨via, hvia, h⟩
  have e1 : pjsip_tsx_create_key role m_invite r1 =
      some (.ok (spec_key_2543 role m_invite cseq.cseq from_.tag cid.id via.sent_by_host
        via.sent_by_port ++ ['$', Char.ofNat 0])) := by
    rw [pjsip_tsx_create_key_no_cookie role m_invite r1 via hvia hnc]
    simp [create_tsx_key_2543, hmsg, hvia, hcseq, hfrom, hcid, key_2543_bytes_eq]
  have e2 : pjsip_tsx_create_key role m_cancel r2 =
      some (.ok (spec_key_2543 role m_cancel cseq.cseq from_.tag cid.id via.sent_by_host
        via.sent_by_port ++ ['$', Char.ofNat 0])) := by
    rw [← pjsip_tsx_create_key_congr role m_cancel m_cancel r1 r2 rfl hb (fun _ => hf),
      pjsip_tsx_create_key_no_cookie role m_cancel r1 via hvia hnc]
    simp [create_tsx_key_2543, hmsg, hvia, hcseq, hfrom, hcid, key_2543_bytes_eq]
  refine ⟨_, _, e1, e2, ?_, ?_⟩
  · simp [spec_key_2543, spec_method_part, hi, hc]
  · intro h
    have hl := congrArg List.length h
    simp [spec_key_2543, spec_method_part, hi, hc] at hl
    omega

theorem invite_cancel_2543_sibling_keys_witness :
    ∃ k1 k2, pjsip_tsx_create_key .PJSIP_ROLE_UAS INVITE (sample_request INVITE ['x']) =
        some (.ok k1) ∧
      pjsip_tsx_create_key .PJSIP_ROLE_UAS CANCEL (sample_request CANCEL ['x']) =
        some (.ok k2) ∧
      k2 = k1.take 2 ++ CANCEL.name ++ ['$'] ++ k1.drop 2 ∧
      k1 ≠ k2 :=
  invite_cancel_2543_sibling_keys .PJSIP_ROLE_UAS INVITE CANCEL (sample_request INVITE ['x'])
    (sample_request CANCEL ['x']) _ ⟨['x'], ['h'], 5060⟩ ⟨1, INVITE⟩ ⟨['t']⟩ ⟨['c']⟩
    rfl rfl rfl rfl rfl rfl rfl
    (by rintro ⟨v, hv, hc⟩; cases hv; revert hc; decide)
    rfl (same_2543_fields_sample _ _ _ _)

/-- C7: `pjsip_tsx_create_key` gives identical results for any two messages
that agree on role, method and top-Via branch and, when the branch lacks the
magic cookie, also on CSeq number, From tag, Call-ID and Via sent-by host
and port; the two messages are otherwise arbitrary, so no other field
(Request-URI, To, body, other headers) influences the key. -/
theorem pjsip_tsx_create_key_depends_only_on_key_fields (role : pjsip_role_e)
    (method : pjsip_method) (r1 r2 : pjsip_rx_data)
    (hb : same_top_via_branch r1 r2)
    (hf : ¬ has_rfc3261_branch r1 → same_2543_fields r1 r2) :
    pjsip_tsx_create_key role method r1 = pjsip_tsx_create_key role method r2 :=
  pjsip_tsx_create_key_congr role method method r1 r2 rfl hb hf

theorem pjsip_tsx_create_key_depends_only_on_key_fields_witness :
    sample_request INVITE ['x'] ≠ sample_request_other_fields INVITE ['x'] ∧
    pjsip_tsx_create_key .PJSIP_ROLE_UAS INVITE (sample_request INVITE ['x']) =
      pjsip_tsx_create_key .PJSIP_ROLE_UAS INVITE (sample_request_other_fields INVITE ['x']) ∧
    pjsip_tsx_create_key .PJSIP_ROLE_UAS INVITE (sample_request INVITE "z9hG4bKabc".toList) =
      pjsip_tsx_create_key .PJSIP_ROLE_UAS INVITE
        (sample_request_other_fields INVITE "z9hG4bKabc".toList) :=
  ⟨by decide,
   pjsip_tsx_create_key_depends_only_on_key_fields .PJSIP_ROLE_UAS INVITE
      (sample_request INVITE ['x']) (sample_request_other_fields INVITE ['x']) rfl
      (fun _ => ⟨rfl, rfl, rfl, rfl, rfl, rfl⟩),
   pjsip_tsx_create_key_depends_only_on_key_fields .PJSIP_ROLE_UAS INVITE
      (sample_request INVITE "z9hG4bKabc".toList)
      (sample_request_other_fields INVITE "z9hG4bKabc".toList) rfl
      (fun _ => ⟨rfl, rfl, rfl, rfl, rfl, rfl⟩)⟩

/-! ## Transaction creation -/

/-- C1 (as stated, refuted): a response message without a CSeq header is
rejected by `pjsip_tsx_create_uas` with the not-a-request error, not with the
missing-header error. -/
theorem pjsip_tsx_create_uas_response_without_cseq :
    sample_response_no_cseq.msg_info.cseq = none ∧
    pjsip_tsx_create_uas sample_env sample_create_env empty_layer none
        sample_response_no_cseq =
      some (.PJSIP_ENOTREQUESTMSG, none, empty_layer) ∧
    pjsip_tsx_create_uas sample_env sample_create_env empty_layer none
        sample_response_no_cseq ≠
      some (.PJSIP_EMISSINGHDR, none, empty_layer) := by
  refine ⟨rfl, rfl, ?_⟩
  decide

/-- C1 (amended): for every incoming request message whose request-line method
is not ACK, `pjsip_tsx_create_uas` fails with the missing-header error when
the CSeq header or the Via header is absent, and with the invalid-header
error when both are present and the CSeq method differs from the request-line
method; a message that is not a request fails with the not-a-request error
and an ACK request with the invalid-operation error.  In each of these cases
no transaction is returned and the registry, the lock-frame stack and the
trace of calls are left unchanged (nothing was created). -/
theorem pjsip_tsx_create_uas_rejects (env : Env) (cenv : create_env) (l : tsx_layer)
    (tsx_user : Option pjsip_module) (rdata : pjsip_rx_data) (msg : pjsip_msg)
    (hmsg : rdata.msg_info.msg = some msg) :
    (msg.type ≠ .PJSIP_REQUEST_MSG →
      pjsip_tsx_create_uas env cenv l tsx_user rdata =
        some (.PJSIP_ENOTREQUESTMSG, none, l)) ∧
    (msg.type = .PJSIP_REQUEST_MSG →
      msg.line.req.method.id = pjsip_method_e.PJSIP_ACK_METHOD →
      pjsip_tsx_create_uas env cenv l tsx_user rdata = some (.PJ_EINVALIDOP, none, l)) ∧
    (msg.type = .PJSIP_REQUEST_MSG →
      msg.line.req.method.id ≠ pjsip_method_e.PJSIP_ACK_METHOD →
      (rdata.msg_info.cseq = none ∨ rdata.msg_info.via = none) →
      pjsip_tsx_create_uas env cenv l tsx_user rdata =
        some (.PJSIP_EMISSINGHDR, none, l)) ∧
    (msg.type = .PJSIP_REQUEST_MSG →
      msg.line.req.method.id ≠ pjsip_method_e.PJSIP_ACK_METHOD →
      ∀ cseq via, rdata.msg_info.cseq = some cseq → rdata.msg_info.via = some via →
      pjsip_method_cmp msg.line.req.method cseq.method ≠ 0 →
      pjsip_tsx_create_uas env cenv l tsx_user rdata =
        some (.PJSIP_EINVALIDHDR, none, l)) := by
  refine ⟨?_, ?_, ?_, ?_⟩
  · intro h
    simp [pjsip_tsx_create_uas, hmsg, h]
  · intro h1 h2
    simp [pjsip_tsx_create_uas, hmsg, h1, h2]
  · intro h1 h2 h3
    rcases h3 with h3 | h3
    · simp [pjsip_tsx_create_uas, hmsg, h1, h2, h3]
    · cases hc : rdata.msg_info.cseq <;> simp [pjsip_tsx_create_uas, hmsg, h1, h2, h3, hc]
  · intro h1 h2 cseq via hc hv hne
    simp [pjsip_tsx_create_uas, hmsg, h1, h2, hc, hv, hne]

theorem pjsip_tsx_create_uas_rejects_witness :
    pjsip_tsx_create_uas sample_env sample_create_env empty_layer none
        sample_request_no_cseq = some (.PJSIP_EMISSINGHDR, none, empty_layer) ∧
    pjsip_tsx_create_uas sample_env sample_create_env empty_layer none
        sample_request_cseq_mismatch = some (.PJSIP_EINVALIDHDR, none, empty_layer) :=
  ⟨(pjsip_tsx_create_uas_rejects sample_env sample_create_env empty_layer none
      sample_request_no_cseq _ rfl).2.2.1 rfl (by decide) (Or.inl rfl),
   (pjsip_tsx_create_uas_rejects sample_env sample_create_env empty_layer none
      sample_request_cseq_mismatch _ rfl).2.2.2 rfl (by decide) ⟨1, OPTIONS⟩
      ⟨['x'], ['h'], 5060⟩ rfl rfl (by decide)⟩

/-! ## Retransmission timer -/

theorem int32_of_bounds (x : Int) (h1 : -2147483648 ≤ x) (h2 : x < 2147483648) :
    int32 x = x := by
  unfold int32
  omega

theorem tdiv_tmod_to_msec (x : Int) :
    pj_time_val.to_msec ⟨Int.tdiv x 1000, Int.tmod x 1000⟩ = x := by
  unfold pj_time_val.to_msec
  have := Int.tdiv_add_tmod x 1000
  simp only
  linarith

/-- C9 (as stated, refuted): with T1 = 500 ms and T2 = 4 s, an INVITE client
transaction whose retransmission counter is 4 gets its retransmit timer armed
with 8000 ms, not with min(T2, T1·2^4) = 4000 ms. -/
theorem tsx_resched_retransmission_invite_uac_uncapped :
    (tsx_resched_retransmission sample_env (sample_uac_world_count INVITE 4)).trace =
      [.schedule_timer .TSX_TIMER_RETRANSMISSION ⟨8, 0⟩] ∧
    min sample_env.PJSIP_T2_TIMEOUT (sample_env.PJSIP_T1_TIMEOUT * 2 ^ 4) = 4000 ∧
    pj_time_val.to_msec ⟨8, 0⟩ ≠
      min sample_env.PJSIP_T2_TIMEOUT (sample_env.PJSIP_T1_TIMEOUT * 2 ^ 4) := by
  refine ⟨?_, ?_, ?_⟩ <;> decide

/-- C9 (amended): for every transaction and every retransmission counter value
n for which T1·2^n does not overflow, `tsx_resched_retransmission` arms the
retransmit timer (one call to the timer heap, slot id set) with exactly
min(T2, T1·2^n) milliseconds when the transaction is a UAS transaction or a
non-INVITE UAC transaction, and with exactly T1·2^n milliseconds, not capped
at T2, when it is an INVITE UAC transaction. -/
theorem tsx_resched_retransmission_delay (env : Env) (w : World)
    (hshift : w.tsx.retransmit_count < 31)
    (hlo : -2147483648 ≤ env.PJSIP_T1_TIMEOUT * 2 ^ w.tsx.retransmit_count)
    (hhi : env.PJSIP_T1_TIMEOUT * 2 ^ w.tsx.retransmit_count < 2147483648) :
    ∃ delay,
      (tsx_resched_retransmission env w).trace =
        w.trace ++ [.schedule_timer .TSX_TIMER_RETRANSMISSION delay] ∧
      (tsx_resched_retransmission env w).tsx.retransmit_timer._timer_id = env.timer_slot ∧
      (w.tsx.role = .PJSIP_ROLE_UAC ∧
          w.tsx.method.id = pjsip_method_e.PJSIP_INVITE_METHOD →
        delay.to_msec = env.PJSIP_T1_TIMEOUT * 2 ^ w.tsx.retransmit_count) ∧
      (¬ (w.tsx.role = .PJSIP_ROLE_UAC ∧
          w.tsx.method.id = pjsip_method_e.PJSIP_INVITE_METHOD) →
        delay.to_msec =
          min env.PJSIP_T2_TIMEOUT (env.PJSIP_T1_TIMEOUT * 2 ^ w.tsx.retransmit_count)) := by
  have hpow : (2 : Int) ^ w.tsx.retransmit_count < 2147483648 := by
    have : (2 : Int) ^ w.tsx.retransmit_count < 2 ^ 31 :=
      pow_lt_pow_right₀ (by norm_num) hshift
    simpa using this
  have hpow0 : (0 : Int) < 2 ^ w.tsx.retransmit_count := by positivity
  have e1 : int32 (2 ^ w.tsx.retransmit_count) = 2 ^ w.tsx.retransmit_count :=
    int32_of_bounds _ (by omega) hpow
  have e2 : int32 (int32 (2 ^ w.tsx.retransmit_count) * env.PJSIP_T1_TIMEOUT) =
      env.PJSIP_T1_TIMEOUT * 2 ^ w.tsx.retransmit_count := by
    rw [e1, mul_comm]
    exact int32_of_bounds _ hlo hhi
  refine ⟨⟨Int.tdiv
      (if w.tsx.role = .PJSIP_ROLE_UAC then
        if env.PJSIP_T1_TIMEOUT * 2 ^ w.tsx.retransmit_count > env.PJSIP_T2_TIMEOUT ∧
            w.tsx.method.id ≠ pjsip_method_e.PJSIP_INVITE_METHOD then env.PJSIP_T2_TIMEOUT
        else env.PJSIP_T1_TIMEOUT * 2 ^ w.tsx.retransmit_count
      else
        if env.PJSIP_T1_TIMEOUT * 2 ^ w.tsx.retransmit_count > env.PJSIP_T2_TIMEOUT then
          env.PJSIP_T2_TIMEOUT
        else env.PJSIP_T1_TIMEOUT * 2 ^ w.tsx.retransmit_count) 1000,
    Int.tmod
      (if w.tsx.role = .PJSIP_ROLE_UAC then
        if env.PJSIP_T1_TIMEOUT * 2 ^ w.tsx.retransmit_count > env.PJSIP_T2_TIMEOUT ∧
            w.tsx.method.id ≠ pjsip_method_e.PJSIP_INVITE_METHOD then env.PJSIP_T2_TIMEOUT
        else env.PJSIP_T1_TIMEOUT * 2 ^ w.tsx.retransmit_count
      else
        if env.PJSIP_T1_TIMEOUT * 2 ^ w.tsx.retransmit_count > env.PJSIP_T2_TIMEOUT then
          env.PJSIP_T2_TIMEOUT
        else env.PJSIP_T1_TIMEOUT * 2 ^ w.tsx.retransmit_count) 1000⟩,
    ?_, ?_, ?_, ?_⟩
  · simp only [tsx_resched_retransmission, e2, pjsip_endpt_schedule_timer, World.log,
      set_timer_id]
  · simp only [tsx_resched_retransmission, e2, pjsip_endpt_schedule_timer, World.log,
      set_timer_id]
  · rintro ⟨hr, hm⟩
    rw [tdiv_tmod_to_msec]
    simp [hr, hm]
  · intro hn
    rw [tdiv_tmod_to_msec]
    by_cases hr : w.tsx.role = .PJSIP_ROLE_UAC
    · have hm : w.tsx.method.id ≠ pjsip_method_e.PJSIP_INVITE_METHOD := fun h => hn ⟨hr, h⟩
      simp only [hr, if_true, hm, ne_eq, not_false_eq_true, and_true]
      split
      · rw [min_eq_left]; omega
      · rw [min_eq_right]; omega
    · simp only [hr, if_false]
      split
      · rw [min_eq_left]; omega
      · rw [min_eq_right]; omega

theorem tsx_resched_retransmission_delay_witness :
    ∃ delay,
      (tsx_resched_retransmission sample_env (sample_uac_world_count OPTIONS 4)).trace =
        [] ++ [.schedule_timer .TSX_TIMER_RETRANSMISSION delay] ∧
      (tsx_resched_retransmission sample_env
        (sample_uac_world_count OPTIONS 4)).tsx.retransmit_timer._timer_id = 1 ∧
      (pjsip_role_e.PJSIP_ROLE_UAC = .PJSIP_ROLE_UAC ∧
          OPTIONS.id = pjsip_method_e.PJSIP_INVITE_METHOD →
        delay.to_msec = 500 * 2 ^ 4) ∧
      (¬ (pjsip_role_e.PJSIP_ROLE_UAC = .PJSIP_ROLE_UAC ∧
          OPTIONS.id = pjsip_method_e.PJSIP_INVITE_METHOD) →
        delay.to_msec = min 4000 (500 * 2 ^ 4)) :=
  tsx_resched_retransmission_delay sample_env (sample_uac_world_count OPTIONS 4)
    (by decide) (by decide) (by decide)

/-! ## State machine -/

theorem status_in_class_2xx (c : Int) (h : 200 ≤ c ∧ c ≤ 299) :
    PJSIP_IS_STATUS_IN_CLASS c 100 = false ∧ PJSIP_IS_STATUS_IN_CLASS c 200 = true := by
  have h1 : Int.tdiv c 100 = 2 := by
    rw [Int.tdiv_eq_ediv (by omega) (by omega)]
    omega
  have h2 : Int.tdiv 100 100 = 1 := by decide
  have h3 : Int.tdiv 200 100 = 2 := by decide
  simp [PJSIP_IS_STATUS_IN_CLASS, h1, h2, h3]

theorem cancel_retransmit_timer_eq (w : World) :
    cancel_retransmit_timer w =
      { w with
        tsx := { w.tsx with
          retransmit_timer := { w.tsx.retransmit_timer with _timer_id := -1 }
          transport_flag := { w.tsx.transport_flag with TSX_HAS_PENDING_RESCHED := false } }
        trace := w.trace ++
          (if w.tsx.retransmit_timer._timer_id ≠ -1 then
            [.cancel_timer .TSX_TIMER_RETRANSMISSION] else []) } := by
  obtain ⟨tsx, htable, tls, trace, released⟩ := w
  obtain ⟨self, tsx_user, role, method, cseq, transaction_key, hashed_key, branch,
    status_code, status_text, state, handle_200resp, state_handler, transport, is_reliable,
    addr_len, res_addr, transport_flag, transport_err, last_tx, retransmit_count,
    ⟨rid, rtid⟩, timeout_timer⟩ := tsx
  by_cases h : rtid = -1
  · subst h
    simp only [cancel_retransmit_timer, set_transport_flag, ne_eq, not_true_eq_false, if_false,
      List.append_nil]
  · simp only [cancel_retransmit_timer, set_transport_flag, ne_eq, h, not_false_eq_true, if_true,
      set_timer_id, pjsip_endpt_cancel_timer, World.log]

theorem tsx_set_state_terminated_rx (env : Env) (w : World) (rdata : pjsip_rx_data)
    (msg : pjsip_msg) (hmsg : rdata.msg_info.msg = some msg)
    (hresp : msg.type = .PJSIP_RESPONSE_MSG) :
    tsx_set_state env w .PJSIP_TSX_STATE_TERMINATED .PJSIP_EVENT_RX_MSG (.rdata rdata) =
      some { w with
        tsx := { w.tsx with
          state := .PJSIP_TSX_STATE_TERMINATED
          state_handler :=
            if w.tsx.role = pjsip_role_e.PJSIP_ROLE_UAC then
              tsx_state_handler_uac .PJSIP_TSX_STATE_TERMINATED
            else tsx_state_handler_uas .PJSIP_TSX_STATE_TERMINATED
          transport_flag := { w.tsx.transport_flag with
            TSX_HAS_PENDING_DESTROY :=
              w.tsx.transport_flag.TSX_HAS_PENDING_DESTROY ||
                w.tsx.transport_flag.TSX_HAS_PENDING_TRANSPORT }
          timeout_timer := { w.tsx.timeout_timer with
            _timer_id :=
              if w.tsx.transport_flag.TSX_HAS_PENDING_TRANSPORT then
                w.tsx.timeout_timer._timer_id
              else env.timer_slot } }
        trace := w.trace ++
          tu_callbacks_rx w.tsx.tsx_user rdata .PJSIP_TSX_STATE_TERMINATED w.tsx.state ++
          (if w.tsx.transport_flag.TSX_HAS_PENDING_TRANSPORT then []
           else
            (if w.tsx.timeout_timer._timer_id ≠ -1 then
              [Effect.cancel_timer .TSX_TIMER_TIMEOUT] else []) ++
            [Effect.schedule_timer .TSX_TIMER_TIMEOUT ⟨0, 0⟩]) } := by
  obtain ⟨tsx, htable, tls, trace, released⟩ := w
  obtain ⟨self, tsx_user, role, method, cseq, transaction_key, hashed_key, branch,
    status_code, status_text, state, handle_200resp, state_handler, transport, is_reliable,
    addr_len, res_addr, ⟨f1, f2, f3, f4, f5⟩, transport_err, last_tx, retransmit_count,
    retransmit_timer, ⟨toid, totid⟩⟩ := tsx
  unfold tsx_set_state tsx_set_state_inform_rx tsx_set_state_inform_state
    tsx_set_state_finish
  rcases tsx_user with _ | ⟨_ | _, _ | _⟩ <;>
  cases f1 <;>
  by_cases ht : totid = -1 <;>
  simp only [hmsg, hresp, ht, World.log, set_transport_flag, tu_callbacks_rx,
    pjsip_endpt_schedule_timer, pjsip_endpt_cancel_timer, set_timer_id, if_true, if_false,
    true_and, and_true, and_false, ne_eq, not_true_eq_false, not_false_eq_true,
    List.append_nil, List.nil_append, Bool.or_true, Bool.or_false, List.append_assoc,
    reduceCtorEq, Bool.false_eq_true, List.singleton_append, List.cons_append]


theorem tu_callbacks_rx_filter (u : Option pjsip_module) (rdata : pjsip_rx_data)
    (state prev : pjsip_tsx_state_e) :
    (tu_callbacks_rx u rdata state prev).filter Effect.is_tu_callback =
        tu_callbacks_rx u rdata state prev ∧
      (tu_callbacks_rx u rdata state prev).filter Effect.is_send = [] ∧
      (tu_callbacks_rx u rdata state prev).filter Effect.is_create_ack = [] := by
  rcases u with _ | ⟨_ | _, _ | _⟩ <;> exact ⟨rfl, rfl, rfl⟩

/-- C10: for every INVITE UAC transaction in Calling or Proceeding, receiving
a 2xx response sets the status code to the code of the response, moves the
state directly to Terminated, delivers the response to the TU
(`on_rx_response`, then the state callback, each when the TU has set it),
sends no message and builds no ACK, and leaves `last_tx` unchanged. -/
theorem invite_uac_2xx_terminates (env : Env) (w : World) (rdata : pjsip_rx_data)
    (msg : pjsip_msg)
    (hrel : w.released = false)
    (hrole : w.tsx.role = .PJSIP_ROLE_UAC)
    (hmethod : w.tsx.method.id = pjsip_method_e.PJSIP_INVITE_METHOD)
    (hstate : w.tsx.state = .PJSIP_TSX_STATE_CALLING ∨
      w.tsx.state = .PJSIP_TSX_STATE_PROCEEDING)
    (hwf : handler_consistent w)
    (hmsg : rdata.msg_info.msg = some msg)
    (hresp : msg.type = .PJSIP_RESPONSE_MSG)
    (hcode : 200 ≤ msg.line.status.code ∧ msg.line.status.code ≤ 299) :
    ∃ w' new, pjsip_tsx_recv_msg env w rdata = some w' ∧
      w'.tsx.status_code = msg.line.status.code ∧
      w'.tsx.state = .PJSIP_TSX_STATE_TERMINATED ∧
      w'.tsx.last_tx = w.tsx.last_tx ∧
      w'.trace = w.trace ++ new ∧
      new.filter Effect.is_tu_callback =
        tu_callbacks_rx w.tsx.tsx_user rdata .PJSIP_TSX_STATE_TERMINATED w.tsx.state ∧
      new.filter Effect.is_send = [] ∧
      new.filter Effect.is_create_ack = [] := by
  obtain ⟨hc1, hc2⟩ := status_in_class_2xx _ hcode
  have hhandler : w.tsx.state_handler = tsx_state_handler_uac w.tsx.state := by
    rw [hwf, if_pos hrole]
  obtain ⟨hf1, hf2, hf3⟩ :=
    tu_callbacks_rx_filter w.tsx.tsx_user rdata .PJSIP_TSX_STATE_TERMINATED w.tsx.state
  rcases hstate with hs | hs
  · rw [hs] at hhandler
    simp only [pjsip_tsx_recv_msg, hrel, lock_tsx, call_state_handler, hhandler,
      tsx_state_handler_uac, tsx_on_state_calling, hmsg, hresp, tsx_on_state_proceeding_uac,
      tsx_on_state_proceeding_uac_status, cancel_retransmit_timer_eq,
      pjsip_endpt_cancel_timer, set_timer_id, World.log, tsx_set_status_code,
      hc1, hc2, hmethod, pjsip_event.user1, tsx_set_state_terminated_rx env _ rdata msg hmsg hresp,
      unlock_tsx, if_true, if_false, ne_eq, not_true_eq_false, Bool.false_eq_true]
    refine ⟨_,
      (if ¬ w.tsx.retransmit_timer._timer_id = -1 then
          [Effect.cancel_timer .TSX_TIMER_RETRANSMISSION] else []) ++
        ([Effect.cancel_timer .TSX_TIMER_TIMEOUT] ++
        ([Effect.cancel_timer .TSX_TIMER_TIMEOUT] ++
        (tu_callbacks_rx w.tsx.tsx_user rdata .PJSIP_TSX_STATE_TERMINATED w.tsx.state ++
        (if w.tsx.transport_flag.TSX_HAS_PENDING_TRANSPORT = true then []
         else [] ++ [Effect.schedule_timer .TSX_TIMER_TIMEOUT ⟨0, 0⟩])))),
      rfl, rfl, rfl, rfl, ?_, ?_, ?_, ?_⟩
    · simp only [List.append_assoc]
    · simp only [List.filter_append, hf1]
      split_ifs <;> simp [Effect.is_tu_callback, Effect.is_send, Effect.is_create_ack]
    · simp only [List.filter_append, hf2]
      split_ifs <;> simp [Effect.is_tu_callback, Effect.is_send, Effect.is_create_ack]
    · simp only [List.filter_append, hf3]
      split_ifs <;> simp [Effect.is_tu_callback, Effect.is_send, Effect.is_create_ack]
  · rw [hs] at hhandler
    simp only [pjsip_tsx_recv_msg, hrel, lock_tsx, call_state_handler, hhandler,
      tsx_state_handler_uac, hmsg, hresp, tsx_on_state_proceeding_uac,
      tsx_on_state_proceeding_uac_status,
      pjsip_endpt_cancel_timer, set_timer_id, World.log, tsx_set_status_code,
      hc1, hc2, hmethod, pjsip_event.user1, tsx_set_state_terminated_rx env _ rdata msg hmsg hresp,
      unlock_tsx, if_true, if_false, ne_eq, not_true_eq_false, Bool.false_eq_true]
    refine ⟨_,
        ([Effect.cancel_timer .TSX_TIMER_TIMEOUT] ++
        (tu_callbacks_rx w.tsx.tsx_user rdata .PJSIP_TSX_STATE_TERMINATED w.tsx.state ++
        (if w.tsx.transport_flag.TSX_HAS_PENDING_TRANSPORT = true then []
         else [] ++ [Effect.schedule_timer .TSX_TIMER_TIMEOUT ⟨0, 0⟩]))),
      rfl, rfl, rfl, rfl, ?_, ?_, ?_, ?_⟩
    · simp only [List.append_assoc]
    · simp only [List.filter_append, hf1]
      split_ifs <;> simp [Effect.is_tu_callback, Effect.is_send, Effect.is_create_ack]
    · simp only [List.filter_append, hf2]
      split_ifs <;> simp [Effect.is_tu_callback, Effect.is_send, Effect.is_create_ack]
    · simp only [List.filter_append, hf3]
      split_ifs <;> simp [Effect.is_tu_callback, Effect.is_send, Effect.is_create_ack]

theorem invite_uac_2xx_terminates_witness :
    ∃ w' new, pjsip_tsx_recv_msg sample_env (sample_calling_world INVITE)
        (sample_response INVITE "z9hG4bKabc".toList 200) = some w' ∧
      w'.tsx.status_code = 200 ∧
      w'.tsx.state = .PJSIP_TSX_STATE_TERMINATED ∧
      w'.tsx.last_tx = some (sample_tdata INVITE) ∧
      w'.trace = [] ++ new ∧
      new.filter Effect.is_tu_callback =
        tu_callbacks_rx (some ⟨true, true⟩) (sample_response INVITE "z9hG4bKabc".toList 200)
          .PJSIP_TSX_STATE_TERMINATED .PJSIP_TSX_STATE_CALLING ∧
      new.filter Effect.is_send = [] ∧
      new.filter Effect.is_create_ack = [] :=
  invite_uac_2xx_terminates sample_env (sample_calling_world INVITE)
    (sample_response INVITE "z9hG4bKabc".toList 200) _ rfl rfl rfl (Or.inl rfl) rfl rfl rfl
    (by decide)

/-! ### The state field through the building blocks -/

@[simp] theorem log_state (w : World) (e : Effect) : (w.log e).tsx.state = w.tsx.state := rfl

@[simp] theorem set_timer_id_state (w : World) (entry : Transaction_Timer_Id) (id : Int) :
    (set_timer_id w entry id).tsx.state = w.tsx.state := by
  cases entry <;> rfl

@[simp] theorem set_transport_flag_state (w : World) (f : tsx_transport_flag) :
    (set_transport_flag w f).tsx.state = w.tsx.state := rfl

@[simp] theorem cancel_timer_state (w : World) (entry : Transaction_Timer_Id) :
    (pjsip_endpt_cancel_timer w entry).tsx.state = w.tsx.state := by
  cases entry <;> rfl

@[simp] theorem schedule_timer_state (env : Env) (w : World) (entry : Transaction_Timer_Id)
    (d : pj_time_val) : (pjsip_endpt_schedule_timer env w entry d).tsx.state = w.tsx.state := by
  cases entry <;> rfl

@[simp] theorem set_status_code_state (env : Env) (w : World) (c : Int)
    (r : Option pj_str_t) : (tsx_set_status_code env w c r).tsx.state = w.tsx.state := rfl

@[simp] theorem lock_tsx_state (w : World) : (lock_tsx w).tsx.state = w.tsx.state := rfl

@[simp] theorem unregister_state (w : World) :
    (mod_tsx_layer_unregister_tsx w).tsx.state = w.tsx.state := rfl

@[simp] theorem cancel_retransmit_timer_state (w : World) :
    (cancel_retransmit_timer w).tsx.state = w.tsx.state := by
  rw [cancel_retransmit_timer_eq]

@[simp] theorem save_last_tx_state (w : World) (t : pjsip_tx_data) :
    (save_last_tx w t).tsx.state = w.tsx.state := by
  unfold save_last_tx; split <;> rfl

@[simp] theorem discard_last_tx_state (w : World) (t : pjsip_tx_data) :
    (discard_last_tx w t).tsx.state = w.tsx.state := by
  unfold discard_last_tx; split
  · split <;> rfl
  · rfl

@[simp] theorem start_retransmit_timer_state (env : Env) (w : World) :
    (start_retransmit_timer env w).tsx.state = w.tsx.state := by
  unfold start_retransmit_timer; simp only; split
  · rfl
  · rw [schedule_timer_state]

@[simp] theorem resched_state (env : Env) (w : World) :
    (tsx_resched_retransmission env w).tsx.state = w.tsx.state := by
  unfold tsx_resched_retransmission; simp only [schedule_timer_state]

theorem tsx_destroy_eq (w : World) :
    tsx_destroy w =
      { w with
        tsx := { w.tsx with
          tsx_user :=
            if w.tsx.transport_flag.TSX_HAS_PENDING_TRANSPORT then none else w.tsx.tsx_user
          transport := none
          last_tx := none
          timeout_timer := { w.tsx.timeout_timer with _timer_id := -1 }
          retransmit_timer := { w.tsx.retransmit_timer with _timer_id := -1 }
          transport_flag := { w.tsx.transport_flag with
            TSX_HAS_PENDING_RESCHED := false
            TSX_HAS_PENDING_SEND := false
            TSX_HAS_PENDING_DESTROY :=
              w.tsx.transport_flag.TSX_HAS_PENDING_DESTROY ||
                w.tsx.transport_flag.TSX_HAS_PENDING_TRANSPORT } }
        tls :=
          if w.tsx.transport_flag.TSX_HAS_PENDING_TRANSPORT then w.tls
          else w.tls.map (fun (lck : tsx_lock_data) =>
            if lck.tsx = w.tsx.self then { lck with is_alive := false } else lck)
        trace := w.trace ++
          (match w.tsx.transport with
            | some tp => [Effect.transport_dec_ref tp]
            | none => []) ++
          (match w.tsx.last_tx with
            | some t => [Effect.tx_data_dec_ref t]
            | none => []) ++
          (if w.tsx.timeout_timer._timer_id ≠ -1 then
            [Effect.cancel_timer .TSX_TIMER_TIMEOUT] else []) ++
          (if w.tsx.retransmit_timer._timer_id ≠ -1 then
            [Effect.cancel_timer .TSX_TIMER_RETRANSMISSION] else []) ++
          (if w.tsx.transport_flag.TSX_HAS_PENDING_TRANSPORT then []
           else [Effect.mutex_destroy, Effect.release_pool])
        released :=
          if w.tsx.transport_flag.TSX_HAS_PENDING_TRANSPORT then w.released else true } := by
  obtain ⟨tsx, htable, tls, trace, released⟩ := w
  obtain ⟨self, tsx_user, role, method, cseq, transaction_key, hashed_key, branch,
    status_code, status_text, state, handle_200resp, state_handler, transport, is_reliable,
    addr_len, res_addr, ⟨f1, f2, f3, f4, f5⟩, transport_err, last_tx, retransmit_count,
    ⟨rid, rtid⟩, ⟨toid, totid⟩⟩ := tsx
  unfold tsx_destroy
  cases transport <;> cases last_tx <;> cases f1 <;>
  by_cases ht : totid = -1 <;> by_cases hr : rtid = -1 <;>
  simp only [ht, hr, World.log, set_transport_flag, pjsip_endpt_cancel_timer, set_timer_id,
    if_true, if_false, ne_eq, not_true_eq_false, not_false_eq_true,
    List.append_nil, List.nil_append, Bool.or_true, Bool.or_false, List.append_assoc,
    Bool.false_eq_true, List.singleton_append, List.cons_append]

@[simp] theorem tsx_destroy_state (w : World) : (tsx_destroy w).tsx.state = w.tsx.state := by
  rw [tsx_destroy_eq]

theorem inform_rx_state (w w' : World) (ty : pjsip_event_id_e) (src : event_src)
    (h : tsx_set_state_inform_rx w ty src = some w') : w'.tsx.state = w.tsx.state := by
  unfold tsx_set_state_inform_rx at h
  repeat' split at h
  all_goals first | (cases h; rfl) | cases h

@[simp] theorem inform_state_state (w : World) (s p : pjsip_tsx_state_e)
    (ty : pjsip_event_id_e) (src : event_src) :
    (tsx_set_state_inform_state w s p ty src).tsx.state = w.tsx.state := by
  unfold tsx_set_state_inform_state
  repeat' split
  all_goals rfl

@[simp] theorem finish_state (env : Env) (w : World) (s : pjsip_tsx_state_e) :
    (tsx_set_state_finish env w s).tsx.state = w.tsx.state := by
  unfold tsx_set_state_finish
  repeat' split
  all_goals simp only [set_transport_flag_state, schedule_timer_state, set_timer_id_state,
    cancel_timer_state, tsx_destroy_state, unregister_state]

theorem tsx_set_state_state (env : Env) (w w' : World) (s : pjsip_tsx_state_e)
    (ty : pjsip_event_id_e) (src : event_src)
    (h : tsx_set_state env w s ty src = some w') : w'.tsx.state = s := by
  unfold tsx_set_state at h
  simp only at h
  split at h
  · cases h
  · rename_i w1 hw1
    cases h
    rw [finish_state, inform_state_state, inform_rx_state _ _ _ _ hw1]

theorem tsx_send_msg_resolve_state (env : Env) (w w' : World) (t : pjsip_tx_data)
    (st0 st : pj_status_t) (h : tsx_send_msg_resolve env w t st0 = some (st, w')) :
    w'.tsx.state = w.tsx.state ∨ w'.tsx.state = .PJSIP_TSX_STATE_TERMINATED := by
  unfold tsx_send_msg_resolve at h
  split at h
  · simp only at h
    split at h
    · cases h
    · rename_i w1 hw1
      cases h
      exact Or.inr (tsx_set_state_state _ _ _ _ _ _ hw1)
  · simp only at h
    split at h <;> cases h <;> left <;> (repeat' split) <;> rfl

theorem tsx_send_msg_state (env : Env) (w w' : World) (t : Option pjsip_tx_data)
    (st : pj_status_t) (h : tsx_send_msg env w t = some (st, w')) :
    w'.tsx.state = w.tsx.state ∨ w'.tsx.state = .PJSIP_TSX_STATE_TERMINATED := by
  unfold tsx_send_msg at h
  split at h
  · cases h; exact Or.inl rfl
  · split at h
    · cases h; exact Or.inl rfl
    · split at h
      · simp only at h
        by_cases hst : (if env.transport_send = pj_status_t.PJ_EPENDING then
            pj_status_t.PJ_SUCCESS else env.transport_send) ≠ pj_status_t.PJ_SUCCESS
        · rw [if_pos hst] at h
          rcases tsx_send_msg_resolve_state _ _ _ _ _ _ h with h1 | h1
          · left; rw [h1]; rfl
          · right; exact h1
        · rw [if_neg hst] at h
          cases h; exact Or.inl rfl
      · exact tsx_send_msg_resolve_state _ _ _ _ _ _ h

theorem tsx_retransmit_state (env : Env) (w w' : World) (resched : Bool)
    (st : pj_status_t) (h : tsx_retransmit env w resched = some (st, w')) :
    w'.tsx.state = w.tsx.state ∨ w'.tsx.state = .PJSIP_TSX_STATE_TERMINATED := by
  unfold tsx_retransmit at h
  split at h
  · cases h; exact Or.inl rfl
  · simp only at h
    split at h
    · cases h
    · rename_i st1 w1 hs
      have := tsx_send_msg_state _ _ _ _ _ hs
      have e : w1 = w' := by split at h <;> cases h <;> rfl
      subst e
      rcases this with h1 | h1
      · left; rw [h1]; repeat' split
        all_goals simp only [set_transport_flag_state, resched_state]
      · exact Or.inr h1

/-! ## The state never goes back: handlers and entry points

Each lemma below bounds the state a handler or an entry point can leave
behind; together they show that, `pjsip_tsx_terminate` on a Destroyed
transaction apart, no entry point lowers the rank of the state. -/

section StateRank
open pjsip_tsx_state_e pjsip_event_id_e

theorem set_state_then_status (X : Option World) (c st : pj_status_t) (w' : World)
    (h : (match X with
      | none => none
      | some w1 => some (c, w1)) = some (st, w')) : X = some w' ∧ st = c := by
  cases X with
  | none => cases h
  | some w1 => cases h; exact ⟨rfl, rfl⟩

theorem status_passthrough (X : Option (pj_status_t × World)) (st : pj_status_t) (w' : World)
    (h : (match X with
      | none => none
      | some (status, w1) =>
        if status ≠ pj_status_t.PJ_SUCCESS then some (status, w1)
        else some (pj_status_t.PJ_SUCCESS, w1)) = some (st, w')) : X = some (st, w') := by
  cases X with
  | none => cases h
  | some r =>
    obtain ⟨s1, w1⟩ := r
    simp only at h
    split at h
    · exact h
    · rename_i hs
      cases h
      simp only [ne_eq, Decidable.not_not] at hs
      rw [hs]

theorem proceeding_uac_create_ack_state (env : Env) (w w' : World) (event : pjsip_event)
    (r : Except pj_status_t (Option pjsip_tx_data))
    (h : proceeding_uac_create_ack env w event = some (r, w')) :
    w'.tsx.state = w.tsx.state := by
  unfold proceeding_uac_create_ack at h
  split at h
  · split at h
    · split at h <;> cases h <;> rfl
    · cases h
  · cases h; rfl

theorem proceeding_uac_send_ack_state (env : Env) (w w' : World)
    (ack : Option pjsip_tx_data) (st : pj_status_t)
    (h : proceeding_uac_send_ack env w ack = some (st, w')) :
    w'.tsx.state = w.tsx.state ∨ w'.tsx.state = .PJSIP_TSX_STATE_TERMINATED := by
  unfold proceeding_uac_send_ack at h
  split at h
  · split at h
    · cases h
    · rename_i st1 w1 hs
      have := tsx_send_msg_state _ _ _ _ _ hs
      split at h
      · split at h
        · cases h
        · cases h; exact this
      · cases h; exact this
  · cases h; exact Or.inl rfl

@[simp] theorem proceeding_uac_start_timer_d_state (env : Env) (w : World) :
    (proceeding_uac_start_timer_d env w).tsx.state = w.tsx.state := by
  unfold proceeding_uac_start_timer_d
  simp only [schedule_timer_state]

theorem tsx_on_state_proceeding_uac_status_state (env : Env) (w w' : World)
    (event : pjsip_event) (st : pj_status_t)
    (h : tsx_on_state_proceeding_uac_status env w event = some (st, w')) :
    w'.tsx.state = w.tsx.state ∨ w'.tsx.state = .PJSIP_TSX_STATE_PROCEEDING ∨
      w'.tsx.state = .PJSIP_TSX_STATE_COMPLETED ∨
      w'.tsx.state = .PJSIP_TSX_STATE_TERMINATED := by
  unfold tsx_on_state_proceeding_uac_status at h
  split at h
  · obtain ⟨hX, -⟩ := set_state_then_status _ _ _ _ h
    exact Or.inr (Or.inl (tsx_set_state_state _ _ _ _ _ _ hX))
  · split at h
    · simp only at h
      split at h
      · obtain ⟨hX, -⟩ := set_state_then_status _ _ _ _ h
        exact Or.inr (Or.inr (Or.inr (tsx_set_state_state _ _ _ _ _ _ hX)))
      · obtain ⟨hX, -⟩ := set_state_then_status _ _ _ _ h
        exact Or.inr (Or.inr (Or.inl (tsx_set_state_state _ _ _ _ _ _ hX)))
    · split at h
      · simp only at h
        split at h
        · cases h
        · rename_i status w1 hack
          cases h
          left
          rw [proceeding_uac_create_ack_state _ _ _ _ _ hack, cancel_timer_state]
        · rename_i ack w1 hack
          split at h
          · cases h
          · rename_i w2 hset
            have e2 := tsx_set_state_state _ _ _ _ _ _ hset
            split at h
            · cases h
            · rename_i st3 w3 hsend
              have e3 := proceeding_uac_send_ack_state _ _ _ _ _ hsend
              rw [e2] at e3
              split at h
              · cases h
                rcases e3 with e3 | e3
                · exact Or.inr (Or.inr (Or.inl e3))
                · exact Or.inr (Or.inr (Or.inr e3))
              · cases h
                rw [proceeding_uac_start_timer_d_state]
                rcases e3 with e3 | e3
                · exact Or.inr (Or.inr (Or.inl e3))
                · exact Or.inr (Or.inr (Or.inr e3))
      · cases h; exact Or.inl rfl

theorem tsx_on_state_proceeding_uac_state (env : Env) (w w' : World)
    (event : pjsip_event) (st : pj_status_t)
    (h : tsx_on_state_proceeding_uac env w event = some (st, w')) :
    w'.tsx.state = w.tsx.state ∨ w'.tsx.state = .PJSIP_TSX_STATE_PROCEEDING ∨
      w'.tsx.state = .PJSIP_TSX_STATE_COMPLETED ∨
      w'.tsx.state = .PJSIP_TSX_STATE_TERMINATED := by
  unfold tsx_on_state_proceeding_uac at h
  split at h
  · cases h; exact Or.inl rfl
  · split at h
    · cases h
    · split at h
      · cases h; exact Or.inl rfl
      · simp only at h
        have := tsx_on_state_proceeding_uac_status_state _ _ _ _ _ h
        rwa [set_status_code_state] at this
  · simp only at h
    have := tsx_on_state_proceeding_uac_status_state _ _ _ _ _ h
    rwa [set_status_code_state] at this

theorem tsx_on_state_calling_state (env : Env) (w w' : World)
    (event : pjsip_event) (st : pj_status_t)
    (h : tsx_on_state_calling env w event = some (st, w')) :
    w'.tsx.state = w.tsx.state ∨ w'.tsx.state = .PJSIP_TSX_STATE_PROCEEDING ∨
      w'.tsx.state = .PJSIP_TSX_STATE_COMPLETED ∨
      w'.tsx.state = .PJSIP_TSX_STATE_TERMINATED := by
  unfold tsx_on_state_calling at h
  split at h
  · have := tsx_retransmit_state _ _ _ _ _ (status_passthrough _ _ _ h)
    rcases this with e | e
    · exact Or.inl e
    · exact Or.inr (Or.inr (Or.inr e))
  · simp only at h
    obtain ⟨hX, -⟩ := set_state_then_status _ _ _ _ h
    exact Or.inr (Or.inr (Or.inr (tsx_set_state_state _ _ _ _ _ _ hX)))
  · split at h
    · cases h
    · split at h
      · cases h; exact Or.inl rfl
      · simp only at h
        split at h
        · cases h
        · rename_i st1 w1 hp
          cases h
          have := tsx_on_state_proceeding_uac_state _ _ _ _ _ hp
          rwa [cancel_timer_state, cancel_retransmit_timer_state] at this
  · cases h; exact Or.inl rfl

@[simp] theorem proceeding_uas_3xx_timeout_state (env : Env) (w : World) :
    (proceeding_uas_3xx_timeout env w).tsx.state = w.tsx.state := by
  unfold proceeding_uas_3xx_timeout
  split
  · rw [schedule_timer_state]
  · split <;> rw [schedule_timer_state]

theorem proceeding_uas_update_state_state (env : Env) (w w' : World)
    (tdata : pjsip_tx_data) (st : pj_status_t)
    (h : proceeding_uas_update_state env w tdata = some (st, w')) :
    w'.tsx.state = w.tsx.state ∨ w'.tsx.state = .PJSIP_TSX_STATE_PROCEEDING ∨
      w'.tsx.state = .PJSIP_TSX_STATE_COMPLETED ∨
      w'.tsx.state = .PJSIP_TSX_STATE_TERMINATED := by
  unfold proceeding_uas_update_state at h
  split at h
  · simp only at h
    obtain ⟨hX, -⟩ := set_state_then_status _ _ _ _ h
    exact Or.inr (Or.inl (tsx_set_state_state _ _ _ _ _ _ hX))
  · split at h
    · split at h
      · obtain ⟨hX, -⟩ := set_state_then_status _ _ _ _ h
        exact Or.inr (Or.inr (Or.inr (tsx_set_state_state _ _ _ _ _ _ hX)))
      · simp only at h
        split at h
        · cases h
        · obtain ⟨hX, -⟩ := set_state_then_status _ _ _ _ h
          exact Or.inr (Or.inr (Or.inl (tsx_set_state_state _ _ _ _ _ _ hX)))
    · split at h
      · simp only at h
        split at h
        · cases h
        · obtain ⟨hX, -⟩ := set_state_then_status _ _ _ _ h
          exact Or.inr (Or.inr (Or.inl (tsx_set_state_state _ _ _ _ _ _ hX)))
      · cases h; exact Or.inl rfl

theorem tsx_on_state_proceeding_uas_state (env : Env) (w w' : World)
    (event : pjsip_event) (st : pj_status_t)
    (h : tsx_on_state_proceeding_uas env w event = some (st, w')) :
    w'.tsx.state = w.tsx.state ∨ w'.tsx.state = .PJSIP_TSX_STATE_PROCEEDING ∨
      w'.tsx.state = .PJSIP_TSX_STATE_COMPLETED ∨
      w'.tsx.state = .PJSIP_TSX_STATE_TERMINATED := by
  unfold tsx_on_state_proceeding_uas at h
  split at h
  · -- request retransmission
    split at h
    · cases h; exact Or.inl rfl
    · split at h
      · cases h; exact Or.inl rfl
      · have := tsx_send_msg_state _ _ _ _ _ (status_passthrough _ _ _ h)
        rcases this with e | e
        · exact Or.inl e
        · exact Or.inr (Or.inr (Or.inr e))
  · -- response sent by the TU
    simp only at h
    split at h
    · cases h; exact Or.inl rfl
    · split at h
      · cases h
      · rename_i st1 w1 hsend
        have e1 := tsx_send_msg_state _ _ _ _ _ hsend
        rw [discard_last_tx_state, set_status_code_state] at e1
        split at h
        · cases h
          rcases e1 with e | e
          · exact Or.inl e
          · exact Or.inr (Or.inr (Or.inr e))
        · have e2 := proceeding_uas_update_state_state _ _ _ _ _ h
          rcases e1 with e | e
          · rwa [e] at e2
          · rw [e] at e2
            rcases e2 with e2 | e2 | e2 | e2
            · exact Or.inr (Or.inr (Or.inr e2))
            · exact Or.inr (Or.inl e2)
            · exact Or.inr (Or.inr (Or.inl e2))
            · exact Or.inr (Or.inr (Or.inr e2))
  · have := tsx_retransmit_state _ _ _ _ _ (status_passthrough _ _ _ h)
    rcases this with e | e
    · exact Or.inl e
    · exact Or.inr (Or.inr (Or.inr e))
  · simp only at h
    obtain ⟨hX, -⟩ := set_state_then_status _ _ _ _ h
    exact Or.inr (Or.inr (Or.inr (tsx_set_state_state _ _ _ _ _ _ hX)))

theorem tsx_on_state_trying_state (env : Env) (w w' : World)
    (event : pjsip_event) (st : pj_status_t)
    (h : tsx_on_state_trying env w event = some (st, w')) :
    w'.tsx.state = w.tsx.state ∨ w'.tsx.state = .PJSIP_TSX_STATE_PROCEEDING ∨
      w'.tsx.state = .PJSIP_TSX_STATE_COMPLETED ∨
      w'.tsx.state = .PJSIP_TSX_STATE_TERMINATED := by
  unfold tsx_on_state_trying at h
  split at h
  · cases h; exact Or.inl rfl
  · split at h
    · cases h
    · rename_i st1 w1 hp
      have e1 := tsx_on_state_proceeding_uas_state _ _ _ _ _ hp
      split at h
      · split at h
        · cases h
        · rename_i w2 hset
          cases h
          exact Or.inr (Or.inl (tsx_set_state_state _ _ _ _ _ _ hset))
      · cases h; exact e1

theorem tsx_on_state_completed_uas_state (env : Env) (w w' : World)
    (event : pjsip_event) (st : pj_status_t)
    (h : tsx_on_state_completed_uas env w event = some (st, w')) :
    w'.tsx.state = w.tsx.state ∨ w'.tsx.state = .PJSIP_TSX_STATE_CONFIRMED ∨
      w'.tsx.state = .PJSIP_TSX_STATE_TERMINATED := by
  unfold tsx_on_state_completed_uas at h
  split at h
  · split at h
    · cases h
    · split at h
      · cases h; exact Or.inl rfl
      · split at h
        · have := tsx_retransmit_state _ _ _ _ _ (status_passthrough _ _ _ h)
          rcases this with e | e
          · exact Or.inl e
          · exact Or.inr (Or.inr e)
        · simp only at h
          obtain ⟨hX, -⟩ := set_state_then_status _ _ _ _ h
          exact Or.inr (Or.inl (tsx_set_state_state _ _ _ _ _ _ hX))
  · have := tsx_retransmit_state _ _ _ _ _ (status_passthrough _ _ _ h)
    rcases this with e | e
    · exact Or.inl e
    · exact Or.inr (Or.inr e)
  · split at h
    · simp only at h
      obtain ⟨hX, -⟩ := set_state_then_status _ _ _ _ h
      exact Or.inr (Or.inr (tsx_set_state_state _ _ _ _ _ _ hX))
    · obtain ⟨hX, -⟩ := set_state_then_status _ _ _ _ h
      exact Or.inr (Or.inr (tsx_set_state_state _ _ _ _ _ _ hX))
  · split at h <;> cases h <;> exact Or.inl rfl

theorem tsx_on_state_completed_uac_state (env : Env) (w w' : World)
    (event : pjsip_event) (st : pj_status_t)
    (h : tsx_on_state_completed_uac env w event = some (st, w')) :
    w'.tsx.state = w.tsx.state ∨ w'.tsx.state = .PJSIP_TSX_STATE_TERMINATED := by
  unfold tsx_on_state_completed_uac at h
  split at h
  · obtain ⟨hX, -⟩ := set_state_then_status _ _ _ _ h
    exact Or.inr (tsx_set_state_state _ _ _ _ _ _ hX)
  · split at h
    · split at h
      · cases h
      · split at h
        · exact tsx_retransmit_state _ _ _ _ _ (status_passthrough _ _ _ h)
        · cases h; exact Or.inl rfl
    · cases h; exact Or.inl rfl
  · cases h; exact Or.inl rfl

theorem tsx_on_state_confirmed_state (env : Env) (w w' : World)
    (event : pjsip_event) (st : pj_status_t)
    (h : tsx_on_state_confirmed env w event = some (st, w')) :
    w'.tsx.state = w.tsx.state ∨ w'.tsx.state = .PJSIP_TSX_STATE_TERMINATED := by
  unfold tsx_on_state_confirmed at h
  split at h
  · split at h
    · cases h
    · split at h <;> cases h <;> exact Or.inl rfl
  · obtain ⟨hX, -⟩ := set_state_then_status _ _ _ _ h
    exact Or.inr (tsx_set_state_state _ _ _ _ _ _ hX)
  · cases h; exact Or.inl rfl

theorem tsx_on_state_terminated_state (env : Env) (w w' : World)
    (event : pjsip_event) (st : pj_status_t)
    (h : tsx_on_state_terminated env w event = some (st, w')) :
    w'.tsx.state = .PJSIP_TSX_STATE_DESTROYED := by
  unfold tsx_on_state_terminated at h
  obtain ⟨hX, -⟩ := set_state_then_status _ _ _ _ h
  exact tsx_set_state_state _ _ _ _ _ _ hX

theorem tsx_on_state_destroyed_state (env : Env) (w w' : World)
    (event : pjsip_event) (st : pj_status_t)
    (h : tsx_on_state_destroyed env w event = some (st, w')) :
    w'.tsx.state = w.tsx.state := by
  unfold tsx_on_state_destroyed at h
  cases h; rfl

theorem rank_le_of_state_eq (w w' : World) (h : w'.tsx.state = w.tsx.state) :
    w.tsx.state.rank ≤ w'.tsx.state.rank := by
  rw [h]

/-- Every defined run of the current state handler of a transaction whose
handler matches its role and state leaves the state at the same or a higher
rank. -/
theorem call_state_handler_monotone (env : Env) (w w' : World) (event : pjsip_event)
    (st : pj_status_t) (hwf : handler_consistent w)
    (h : call_state_handler env w event = some (st, w')) :
    w.tsx.state.rank ≤ w'.tsx.state.rank := by
  unfold handler_consistent at hwf
  unfold call_state_handler at h
  cases hr : w.tsx.role <;> cases hs : w.tsx.state <;> rw [hr, hs] at hwf <;>
    simp only [if_true, if_false, reduceCtorEq, tsx_state_handler_uac,
      tsx_state_handler_uas] at hwf <;>
    rw [hwf] at h <;> simp only at h
  all_goals first
    | (cases h; done)
    | exact Nat.zero_le _
    | (cases h; rw [hs])
    | (have e := tsx_on_state_calling_state _ _ _ _ _ h
       rw [hs] at e
       rcases e with e | e | e | e <;> (rw [e]; try decide))
    | (have e := tsx_on_state_trying_state _ _ _ _ _ h
       rw [hs] at e
       rcases e with e | e | e | e <;> (rw [e]; try decide))
    | (have e := tsx_on_state_proceeding_uac_state _ _ _ _ _ h
       rw [hs] at e
       rcases e with e | e | e | e <;> (rw [e]; try decide))
    | (have e := tsx_on_state_proceeding_uas_state _ _ _ _ _ h
       rw [hs] at e
       rcases e with e | e | e | e <;> (rw [e]; try decide))
    | (have e := tsx_on_state_completed_uac_state _ _ _ _ _ h
       rw [hs] at e
       rcases e with e | e <;> (rw [e]; try decide))
    | (have e := tsx_on_state_completed_uas_state _ _ _ _ _ h
       rw [hs] at e
       rcases e with e | e | e <;> (rw [e]; try decide))
    | (have e := tsx_on_state_confirmed_state _ _ _ _ _ h
       rw [hs] at e
       rcases e with e | e <;> (rw [e]; try decide))
    | (have e := tsx_on_state_terminated_state _ _ _ _ _ h
       rw [e]; decide)

theorem unlock_tsx_state (w w' : World) (st : pj_status_t)
    (h : unlock_tsx w = some (st, w')) : w'.tsx.state = w.tsx.state := by
  unfold unlock_tsx at h
  split at h
  · cases h
  · cases h; rfl

theorem handler_consistent_lock (w : World) (h : handler_consistent w) :
    handler_consistent (lock_tsx w) := h

/-- The three entry points that dispatch to the state handler
(`pjsip_tsx_send_msg`, `pjsip_tsx_recv_msg`, `tsx_timer_callback`) never lower
the rank of the state. -/
theorem dispatch_entry_points_monotone (env : Env) (w : World)
    (hwf : handler_consistent w) :
    (∀ tdata st w', pjsip_tsx_send_msg env w tdata = some (st, w') →
      w.tsx.state.rank ≤ w'.tsx.state.rank) ∧
    (∀ rdata w', pjsip_tsx_recv_msg env w rdata = some w' →
      w.tsx.state.rank ≤ w'.tsx.state.rank) ∧
    (∀ entry w', tsx_timer_callback env w entry = some w' →
      w.tsx.state.rank ≤ w'.tsx.state.rank) := by
  refine ⟨?_, ?_, ?_⟩
  · intro tdata st w' h
    unfold pjsip_tsx_send_msg at h
    split at h
    · cases h
    · simp only at h
      split at h
      · cases h; exact le_refl _
      · split at h
        · cases h
        · rename_i st1 w1 hc
          have m := call_state_handler_monotone env _ _ _ _ (handler_consistent_lock w hwf) hc
          split at h
          · cases h
          · rename_i st2 w2 hu
            have e := unlock_tsx_state _ _ _ hu
            cases h
            show w.tsx.state.rank ≤ (ite _ _ _ : World).tsx.state.rank
            split
            · show _ ≤ w2.tsx.state.rank
              rw [e]; exact m
            · rw [e]; exact m
  · intro rdata w' h
    unfold pjsip_tsx_recv_msg at h
    split at h
    · cases h
    · simp only at h
      split at h
      · cases h
      · rename_i st1 w1 hc
        have m := call_state_handler_monotone env _ _ _ _ (handler_consistent_lock w hwf) hc
        split at h
        · cases h
        · rename_i st2 w2 hu
          cases h
          rw [unlock_tsx_state _ _ _ hu]
          exact m
  · intro entry w' h
    unfold tsx_timer_callback at h
    split at h
    · cases h
    · simp only at h
      split at h
      · cases h
      · rename_i st1 w1 hc
        have m := call_state_handler_monotone env _ _ _ _ (handler_consistent_lock w hwf) hc
        split at h
        · cases h
        · rename_i st2 w2 hu
          cases h
          rw [unlock_tsx_state _ _ _ hu]
          exact m

/-- `pjsip_tsx_terminate` leaves the state as it is or moves it to Terminated;
so it never lowers the rank of a transaction that is not in state Destroyed. -/
theorem pjsip_tsx_terminate_monotone (env : Env) (w w' : World) (code : Int)
    (st : pj_status_t) (hs : w.tsx.state ≠ .PJSIP_TSX_STATE_DESTROYED)
    (h : pjsip_tsx_terminate env w code = some (st, w')) :
    w.tsx.state.rank ≤ w'.tsx.state.rank := by
  unfold pjsip_tsx_terminate at h
  split at h
  · cases h
  · split at h
    · cases h; exact le_refl _
    · split at h
      · cases h; exact le_refl _
      · simp only at h
        split at h
        · cases h
        · rename_i w1 hset
          have e1 := tsx_set_state_state _ _ _ _ _ _ hset
          split at h
          · cases h
          · rename_i st2 w2 hu
            cases h
            rw [unlock_tsx_state _ _ _ hu, e1]
            revert hs
            cases w.tsx.state <;> intro hs <;> first | decide | exact absurd rfl hs

theorem transport_callback_state (env : Env) (w w' : World) (tdata : pjsip_tx_data)
    (sent : Int) (h : transport_callback env w tdata sent = some w') :
    w'.tsx.state = w.tsx.state ∨
      (w'.tsx.state = .PJSIP_TSX_STATE_TERMINATED ∧ w.tsx.transport ≠ none) := by
  unfold transport_callback at h
  split at h
  · cases h
  · split at h
    · simp only at h
      split at h
      · cases h
      · rename_i tp htp
        split at h
        · cases h
        · rename_i w1 hset
          have e1 := tsx_set_state_state _ _ _ _ _ _ hset
          split at h
          · cases h
          · rename_i st2 w2 hu
            cases h
            right
            refine ⟨?_, ?_⟩
            · rw [unlock_tsx_state _ _ _ hu, e1]
            · intro hn
              have : (lock_tsx { w with tsx := { w.tsx with transport_err := -sent } }).tsx.transport
                  = w.tsx.transport := rfl
              rw [this, hn] at htp
              cases htp
    · cases h; left; rfl

theorem set_transport_flag_flag (w : World) (f : tsx_transport_flag) :
    (set_transport_flag w f).tsx.transport_flag = f := by
  rfl

theorem send_msg_callback_update_transport_state (env : Env) (w w' : World)
    (cur_transport : Option pjsip_transport)
    (h : send_msg_callback_update_transport env w cur_transport = some w') :
    w'.tsx.state = w.tsx.state ∧ w'.tsx.transport_flag = w.tsx.transport_flag := by
  unfold send_msg_callback_update_transport at h
  split at h
  · cases cur_transport with
    | none => cases h
    | some tp =>
      cases ht : w.tsx.transport with
      | none =>
        rw [ht] at h
        cases h
        exact ⟨rfl, rfl⟩
      | some tp0 =>
        rw [ht] at h
        cases h
        exact ⟨rfl, rfl⟩
  · cases h; exact ⟨rfl, rfl⟩

theorem send_msg_callback_release_transport_state (w : World)
    (cur_transport : Option pjsip_transport) :
    (send_msg_callback_release_transport w cur_transport).tsx.state = w.tsx.state := by
  unfold send_msg_callback_release_transport
  split
  · split <;> rfl
  · rfl

theorem send_msg_callback_state (env : Env) (w w' : World)
    (cur_transport : Option pjsip_transport) (tdata : pjsip_tx_data) (sent : Int)
    (cont : Bool) (h : send_msg_callback env w cur_transport tdata sent cont = some w') :
    w'.tsx.state = w.tsx.state ∨ w'.tsx.state = .PJSIP_TSX_STATE_DESTROYED ∨
      (w'.tsx.state = .PJSIP_TSX_STATE_TERMINATED ∧
        (w.tsx.state = .PJSIP_TSX_STATE_DESTROYED →
          w.tsx.transport_flag.TSX_HAS_PENDING_DESTROY = false)) := by
  unfold send_msg_callback at h
  split at h
  · cases h
  · simp only at h
    split at h
    · cases h
    · rename_i w1 hw1
      split at h
      · cases h
      · rename_i st2 w2 hu
        cases h
        rw [unlock_tsx_state _ _ _ hu]
        clear hu
        split at hw1
        · -- sent
          split at hw1
          · cases hw1
          · rename_i w3 hw3
            have e3 := send_msg_callback_update_transport_state _ _ _ _ hw3
            simp only [set_transport_flag_flag] at hw1
            split at hw1
            · right; left
              exact tsx_set_state_state _ _ _ _ _ _ hw1
            · rename_i hpd
              have hpd2 : w.tsx.transport_flag.TSX_HAS_PENDING_DESTROY = false := by
                have e32 : w3.tsx.transport_flag = w.tsx.transport_flag := e3.2
                rw [← e32]
                revert hpd
                cases w3.tsx.transport_flag.TSX_HAS_PENDING_DESTROY <;> simp
              split at hw1
              · cases hw1
              · rename_i w4 hw4
                have e4 : w4.tsx.state = w.tsx.state ∨
                    w4.tsx.state = .PJSIP_TSX_STATE_TERMINATED := by
                  split at hw4
                  · split at hw4
                    · cases hw4
                    · rename_i st5 w5 hs5
                      cases hw4
                      rcases tsx_send_msg_state _ _ _ _ _ hs5 with e | e
                      · left; rw [e]; exact e3.1
                      · right; exact e
                  · cases hw4; left; exact e3.1
                have e5 : w1.tsx.state = w4.tsx.state := by
                  split at hw1
                  · split at hw1
                    · cases hw1; exact resched_state _ _
                    · cases hw1; rfl
                  · cases hw1; rfl
                rw [e5]
                rcases e4 with e | e
                · left; exact e
                · right; right; exact ⟨e, fun _ => hpd2⟩
        · -- failed to send
          have er := send_msg_callback_release_transport_state (lock_tsx w) cur_transport
          split at hw1
          · split at hw1
            · rename_i hc hst
              right; right
              refine ⟨tsx_set_state_state _ _ _ _ _ _ hw1, ?_⟩
              intro hd
              exact absurd (er.trans hd) hst.2
            · cases hw1
              left
              exact er
          · cases hw1
            left
            exact er

/-- The two completion callbacks never lower the rank of the state of a
transaction in which state Destroyed goes with a pending destroy and no
transport, which is how `tsx_destroy` leaves a transaction it defers. -/
theorem completion_callbacks_monotone (env : Env) (w : World)
    (hd : w.tsx.state = .PJSIP_TSX_STATE_DESTROYED →
      w.tsx.transport_flag.TSX_HAS_PENDING_DESTROY = true ∧ w.tsx.transport = none) :
    (∀ cur tdata sent cont w', send_msg_callback env w cur tdata sent cont = some w' →
      w.tsx.state.rank ≤ w'.tsx.state.rank) ∧
    (∀ tdata sent w', transport_callback env w tdata sent = some w' →
      w.tsx.state.rank ≤ w'.tsx.state.rank) := by
  constructor
  · intro cur tdata sent cont w' h
    rcases send_msg_callback_state _ _ _ _ _ _ _ h with e | e | ⟨e, e2⟩
    · rw [e]
    · rw [e]; cases w.tsx.state <;> decide
    · rw [e]
      revert hd e2
      cases w.tsx.state <;> intro hd e2 <;> first
        | decide
        | (have h1 := (hd rfl).1
           rw [e2 rfl] at h1
           cases h1)
  · intro tdata sent w' h
    rcases transport_callback_state _ _ _ _ _ h with e | ⟨e, e2⟩
    · rw [e]
    · rw [e]
      revert hd
      cases w.tsx.state <;> intro hd <;> first
        | decide
        | exact absurd (hd rfl).2 e2

end StateRank

/-- C8 (the code at the failing input): starting from a freshly created UAC
transaction, sending the request (destination still being resolved),
terminating it and letting timer B fire leaves the transaction in state
Destroyed with its destruction deferred (memory not released); a further
`pjsip_tsx_terminate` then succeeds and moves the state back to Terminated,
whose rank is lower. -/
theorem terminate_after_deferred_destroy_goes_back :
    ∃ w3 w4, deferred_destroy_run = some w3 ∧
      w3.tsx.state = .PJSIP_TSX_STATE_DESTROYED ∧
      w3.released = false ∧
      handler_consistent w3 ∧
      pjsip_tsx_terminate sample_env w3 487 = some (.PJ_SUCCESS, w4) ∧
      w4.tsx.state = .PJSIP_TSX_STATE_TERMINATED ∧
      w4.tsx.state.rank < w3.tsx.state.rank := by
  refine ⟨_, _, rfl, rfl, rfl, rfl, rfl, rfl, ?_⟩
  decide

/-! ## Registry lookup -/

theorem pj_hash_get_set_self (ht : List (pj_str_t × Nat)) (key : pj_str_t) (v : Nat) :
    pj_hash_get (pj_hash_set ht key (some v)) key = some v := by
  simp [pj_hash_get, pj_hash_set, List.lookup]

theorem lookup_filter_self (ht : List (pj_str_t × Nat)) (key : pj_str_t) :
    List.lookup key (ht.filter (fun kv => decide (kv.1 ≠ key))) = none := by
  induction ht with
  | nil => rfl
  | cons kv rest ih =>
    by_cases h : kv.1 = key
    · rw [List.filter_cons_of_neg (by simpa using h)]
      exact ih
    · rw [List.filter_cons_of_pos (by simpa using h)]
      obtain ⟨a, b⟩ := kv
      have hk : (key == a) = false := by
        simp only [beq_eq_false_iff_ne, ne_eq]
        exact fun e => h e.symm
      rw [List.lookup_cons, hk]
      exact ih

theorem lookup_filter_other (ht : List (pj_str_t × Nat)) (key k : pj_str_t) (hk : k ≠ key) :
    List.lookup k (ht.filter (fun kv => decide (kv.1 ≠ key))) = List.lookup k ht := by
  induction ht with
  | nil => rfl
  | cons kv rest ih =>
    obtain ⟨a, b⟩ := kv
    by_cases h : a = key
    · have hk2 : (k == a) = false := by
        simp only [beq_eq_false_iff_ne, ne_eq]
        rw [h]; exact hk
      rw [List.filter_cons_of_neg (by simpa using h), List.lookup_cons, hk2]
      exact ih
    · rw [List.filter_cons_of_pos (by simpa using h), List.lookup_cons, List.lookup_cons, ih]

theorem pj_hash_get_set_none (ht : List (pj_str_t × Nat)) (key : pj_str_t) :
    pj_hash_get (pj_hash_set ht key none) key = none := by
  simp only [pj_hash_get, pj_hash_set]
  exact lookup_filter_self ht key

theorem pj_hash_get_set_other (ht : List (pj_str_t × Nat)) (key k : pj_str_t)
    (v : Option Nat) (hk : k ≠ key) :
    pj_hash_get (pj_hash_set ht key v) k = pj_hash_get ht k := by
  cases v with
  | none =>
    simp only [pj_hash_get, pj_hash_set]
    exact lookup_filter_other ht key k hk
  | some v =>
    have hk2 : (k == key) = false := by
      simp only [beq_eq_false_iff_ne, ne_eq]; exact hk
    simp only [pj_hash_get, pj_hash_set, List.lookup, hk2]
    exact lookup_filter_other ht key k hk

theorem registry_op_apply_other (w : World) (op : Bool × pjsip_transaction) (k : pj_str_t)
    (lock : Bool) (hk : op.2.transaction_key ≠ k) :
    pjsip_tsx_layer_find_tsx (registry_op_apply w op) k lock =
      pjsip_tsx_layer_find_tsx w k lock := by
  obtain ⟨b, t⟩ := op
  cases b
  · exact pj_hash_get_set_other w.htable t.transaction_key k none (fun e => hk e.symm)
  · exact pj_hash_get_set_other w.htable t.transaction_key k (some t.self)
      (fun e => hk e.symm)

theorem registry_ops_other (ops : List (Bool × pjsip_transaction)) (w : World)
    (k : pj_str_t) (lock : Bool) (hk : ∀ op ∈ ops, op.2.transaction_key ≠ k) :
    pjsip_tsx_layer_find_tsx (ops.foldl registry_op_apply w) k lock =
      pjsip_tsx_layer_find_tsx w k lock := by
  induction ops generalizing w with
  | nil => rfl
  | cons op rest ih =>
    rw [List.foldl_cons, ih _ (fun o ho => hk o (List.mem_cons_of_mem _ ho)),
      registry_op_apply_other w op k lock (hk op (List.mem_cons_self _ _))]

/-- While no other transaction is registered or removed under the same key,
the registry does what is specified: registering a transaction always succeeds and makes
`pjsip_tsx_layer_find_tsx` return it for its key, and it stays so through any
registrations and removals made for other keys; after
`mod_tsx_layer_unregister_tsx` the lookup of its key returns nothing; and
neither operation changes what the lookup of any other key returns. -/
theorem registry_find_after_register_unregister (w : World)
    (ops : List (Bool × pjsip_transaction)) (k : pj_str_t) (lock : Bool)
    (hops : ∀ op ∈ ops, op.2.transaction_key ≠ w.tsx.transaction_key)
    (hk : k ≠ w.tsx.transaction_key) :
    (mod_tsx_layer_register_tsx w).1 = .PJ_SUCCESS ∧
    pjsip_tsx_layer_find_tsx (mod_tsx_layer_register_tsx w).2 w.tsx.transaction_key lock =
      some w.tsx.self ∧
    pjsip_tsx_layer_find_tsx
        (ops.foldl registry_op_apply (mod_tsx_layer_register_tsx w).2)
        w.tsx.transaction_key lock = some w.tsx.self ∧
    pjsip_tsx_layer_find_tsx (mod_tsx_layer_unregister_tsx w) w.tsx.transaction_key lock =
      none ∧
    pjsip_tsx_layer_find_tsx (mod_tsx_layer_register_tsx w).2 k lock =
      pjsip_tsx_layer_find_tsx w k lock ∧
    pjsip_tsx_layer_find_tsx (mod_tsx_layer_unregister_tsx w) k lock =
      pjsip_tsx_layer_find_tsx w k lock := by
  have h1 : pjsip_tsx_layer_find_tsx (mod_tsx_layer_register_tsx w).2
      w.tsx.transaction_key lock = some w.tsx.self :=
    pj_hash_get_set_self w.htable w.tsx.transaction_key w.tsx.self
  refine ⟨rfl, h1, ?_, ?_, ?_, ?_⟩
  · rw [registry_ops_other ops _ _ lock hops]
    exact h1
  · exact pj_hash_get_set_none w.htable w.tsx.transaction_key
  · exact pj_hash_get_set_other w.htable w.tsx.transaction_key k (some w.tsx.self) hk
  · exact pj_hash_get_set_other w.htable w.tsx.transaction_key k none hk

theorem registry_find_after_register_unregister_witness :
    (mod_tsx_layer_register_tsx (sample_uac_world INVITE)).1 = .PJ_SUCCESS ∧
    pjsip_tsx_layer_find_tsx (mod_tsx_layer_register_tsx (sample_uac_world INVITE)).2
      (sample_uac_world INVITE).tsx.transaction_key true = some 1 ∧
    pjsip_tsx_layer_find_tsx
        ([(true, (sample_uac_world OPTIONS).tsx), (false, (sample_uac_world OPTIONS).tsx)].foldl
          registry_op_apply (mod_tsx_layer_register_tsx (sample_uac_world INVITE)).2)
        (sample_uac_world INVITE).tsx.transaction_key true = some 1 ∧
    pjsip_tsx_layer_find_tsx (mod_tsx_layer_unregister_tsx (sample_uac_world INVITE))
      (sample_uac_world INVITE).tsx.transaction_key true = none ∧
    pjsip_tsx_layer_find_tsx (mod_tsx_layer_register_tsx (sample_uac_world INVITE)).2
        (sample_uac_world OPTIONS).tsx.transaction_key true =
      pjsip_tsx_layer_find_tsx (sample_uac_world INVITE)
        (sample_uac_world OPTIONS).tsx.transaction_key true ∧
    pjsip_tsx_layer_find_tsx (mod_tsx_layer_unregister_tsx (sample_uac_world INVITE))
        (sample_uac_world OPTIONS).tsx.transaction_key true =
      pjsip_tsx_layer_find_tsx (sample_uac_world INVITE)
        (sample_uac_world OPTIONS).tsx.transaction_key true :=
  registry_find_after_register_unregister (sample_uac_world INVITE)
    [(true, (sample_uac_world OPTIONS).tsx), (false, (sample_uac_world OPTIONS).tsx)]
    (sample_uac_world OPTIONS).tsx.transaction_key true (by decide) (by decide)

/-- C20 (the code at the failing inputs): a transaction is registered, and a
second transaction at another address that carries the same key is registered
after it (`mod_tsx_layer_register_tsx` only asserts that the key is free and
returns `PJ_SUCCESS`).  The first transaction has not been unregistered, yet
`pjsip_tsx_layer_find_tsx` of its key returns the second one; and once the
second one is unregistered the lookup of the key returns nothing, the first
transaction still never having been unregistered. -/
theorem second_registration_hides_registered_transaction (w : World)
    (t : pjsip_transaction) (lock : Bool)
    (hkey : t.transaction_key = w.tsx.transaction_key)
    (hself : t.self ≠ w.tsx.self) :
    pjsip_tsx_layer_find_tsx (mod_tsx_layer_register_tsx w).2 w.tsx.transaction_key lock =
      some w.tsx.self ∧
    (mod_tsx_layer_register_tsx { (mod_tsx_layer_register_tsx w).2 with tsx := t }).1 =
      .PJ_SUCCESS ∧
    pjsip_tsx_layer_find_tsx
        (registry_op_apply (mod_tsx_layer_register_tsx w).2 (true, t))
        w.tsx.transaction_key lock = some t.self ∧
    pjsip_tsx_layer_find_tsx
        (registry_op_apply (mod_tsx_layer_register_tsx w).2 (true, t))
        w.tsx.transaction_key lock ≠ some w.tsx.self ∧
    pjsip_tsx_layer_find_tsx
        (registry_op_apply (registry_op_apply (mod_tsx_layer_register_tsx w).2 (true, t))
          (false, t))
        w.tsx.transaction_key lock = none := by
  have h2 : pjsip_tsx_layer_find_tsx
      (registry_op_apply (mod_tsx_layer_register_tsx w).2 (true, t))
      w.tsx.transaction_key lock = some t.self := by
    rw [← hkey]
    exact pj_hash_get_set_self _ t.transaction_key t.self
  refine ⟨pj_hash_get_set_self w.htable w.tsx.transaction_key w.tsx.self, rfl, h2, ?_, ?_⟩
  · rw [h2]
    intro h
    exact hself (Option.some.inj h)
  · rw [← hkey]
    exact pj_hash_get_set_none _ t.transaction_key

theorem second_registration_hides_registered_transaction_witness :
    pjsip_tsx_layer_find_tsx (mod_tsx_layer_register_tsx (sample_uac_world INVITE)).2
      (sample_uac_world INVITE).tsx.transaction_key true = some 1 ∧
    (mod_tsx_layer_register_tsx { (mod_tsx_layer_register_tsx (sample_uac_world INVITE)).2 with
      tsx := { (sample_uac_world INVITE).tsx with self := 2 } }).1 = .PJ_SUCCESS ∧
    pjsip_tsx_layer_find_tsx
        (registry_op_apply (mod_tsx_layer_register_tsx (sample_uac_world INVITE)).2
          (true, { (sample_uac_world INVITE).tsx with self := 2 }))
        (sample_uac_world INVITE).tsx.transaction_key true = some 2 ∧
    pjsip_tsx_layer_find_tsx
        (registry_op_apply (mod_tsx_layer_register_tsx (sample_uac_world INVITE)).2
          (true, { (sample_uac_world INVITE).tsx with self := 2 }))
        (sample_uac_world INVITE).tsx.transaction_key true ≠ some 1 ∧
    pjsip_tsx_layer_find_tsx
        (registry_op_apply
          (registry_op_apply (mod_tsx_layer_register_tsx (sample_uac_world INVITE)).2
            (true, { (sample_uac_world INVITE).tsx with self := 2 }))
          (false, { (sample_uac_world INVITE).tsx with self := 2 }))
        (sample_uac_world INVITE).tsx.transaction_key true = none :=
  second_registration_hides_registered_transaction (sample_uac_world INVITE)
    { (sample_uac_world INVITE).tsx with self := 2 } true rfl (by decide)

/-! ## Behaviour of the state handlers -/

section Behaviour
open pjsip_tsx_state_e pjsip_event_id_e

/-! ### State change and timeout timer -/

theorem tsx_set_state_inform_state_eq (w : World) (s p : pjsip_tsx_state_e)
    (ty : pjsip_event_id_e) (src : event_src) :
    tsx_set_state_inform_state w s p ty src =
      { w with trace := w.trace ++ tu_state_callback w.tsx.tsx_user s p ty src } := by
  obtain ⟨tsx, htable, tls, trace, released⟩ := w
  unfold tsx_set_state_inform_state tu_state_callback
  rcases h : tsx.tsx_user with _ | ⟨a, _ | _⟩ <;>
    simp only [h, World.log, List.append_nil, if_true, if_false, Bool.false_eq_true]

theorem tsx_set_state_inform_rx_other (w : World) (ty : pjsip_event_id_e) (src : event_src)
    (hty : ty ≠ .PJSIP_EVENT_RX_MSG) : tsx_set_state_inform_rx w ty src = some w := by
  unfold tsx_set_state_inform_rx
  cases w.tsx.tsx_user with
  | none => rfl
  | some u => simp only [hty, if_false]

theorem tsx_set_state_inform_rx_request (w : World) (rdata : pjsip_rx_data) (msg : pjsip_msg)
    (hmsg : rdata.msg_info.msg = some msg) (hreq : msg.type = .PJSIP_REQUEST_MSG) :
    tsx_set_state_inform_rx w .PJSIP_EVENT_RX_MSG (.rdata rdata) = some w := by
  unfold tsx_set_state_inform_rx
  cases w.tsx.tsx_user with
  | none => rfl
  | some u => simp only [hmsg, hreq, if_true, reduceCtorEq, false_and, if_false]

theorem tsx_set_state_finish_other (env : Env) (w : World) (s : pjsip_tsx_state_e)
    (h1 : s ≠ .PJSIP_TSX_STATE_TERMINATED) (h2 : s ≠ .PJSIP_TSX_STATE_DESTROYED) :
    tsx_set_state_finish env w s = w := by
  unfold tsx_set_state_finish
  rw [if_neg h1, if_neg h2]

theorem tsx_set_state_finish_terminated (env : Env) (w : World) :
    tsx_set_state_finish env w .PJSIP_TSX_STATE_TERMINATED =
      { w with
        tsx := { w.tsx with
          transport_flag := { w.tsx.transport_flag with
            TSX_HAS_PENDING_DESTROY :=
              w.tsx.transport_flag.TSX_HAS_PENDING_DESTROY ||
                w.tsx.transport_flag.TSX_HAS_PENDING_TRANSPORT }
          timeout_timer := { w.tsx.timeout_timer with
            _timer_id :=
              if w.tsx.transport_flag.TSX_HAS_PENDING_TRANSPORT then
                w.tsx.timeout_timer._timer_id
              else env.timer_slot } }
        trace := w.trace ++ terminated_timer_ops w.tsx.transport_flag.TSX_HAS_PENDING_TRANSPORT
          w.tsx.timeout_timer._timer_id } := by
  obtain ⟨tsx, htable, tls, trace, released⟩ := w
  obtain ⟨self, tsx_user, role, method, cseq, transaction_key, hashed_key, branch,
    status_code, status_text, state, handle_200resp, state_handler, transport, is_reliable,
    addr_len, res_addr, ⟨f1, f2, f3, f4, f5⟩, transport_err, last_tx, retransmit_count,
    retransmit_timer, ⟨toid, totid⟩⟩ := tsx
  unfold tsx_set_state_finish terminated_timer_ops
  cases f1 <;>
  by_cases ht : totid = -1 <;>
  simp only [ht, World.log, set_transport_flag,
    pjsip_endpt_schedule_timer, pjsip_endpt_cancel_timer, set_timer_id, if_true, if_false,
    ne_eq, not_true_eq_false, not_false_eq_true,
    List.append_nil, List.nil_append, Bool.or_true, Bool.or_false, List.append_assoc,
    reduceCtorEq, Bool.false_eq_true, List.singleton_append, List.cons_append]

/-- Normal form of `tsx_set_state` for a target state other than Terminated
and Destroyed, when the event is not a received message. -/
theorem tsx_set_state_plain (env : Env) (w : World) (s : pjsip_tsx_state_e)
    (ty : pjsip_event_id_e) (src : event_src)
    (h1 : s ≠ .PJSIP_TSX_STATE_TERMINATED) (h2 : s ≠ .PJSIP_TSX_STATE_DESTROYED)
    (hty : ty ≠ .PJSIP_EVENT_RX_MSG) :
    tsx_set_state env w s ty src =
      some { w with
        tsx := { w.tsx with
          state := s
          state_handler :=
            if w.tsx.role = pjsip_role_e.PJSIP_ROLE_UAC then tsx_state_handler_uac s
            else tsx_state_handler_uas s }
        trace := w.trace ++ tu_state_callback w.tsx.tsx_user s w.tsx.state ty src } := by
  unfold tsx_set_state
  simp only [tsx_set_state_inform_rx_other _ _ _ hty, tsx_set_state_inform_state_eq,
    tsx_set_state_finish_other _ _ _ h1 h2]

/-- Normal form of `tsx_set_state` for a target state other than Terminated
and Destroyed, when the event is a received request. -/
theorem tsx_set_state_plain_request (env : Env) (w : World) (s : pjsip_tsx_state_e)
    (rdata : pjsip_rx_data) (msg : pjsip_msg)
    (h1 : s ≠ .PJSIP_TSX_STATE_TERMINATED) (h2 : s ≠ .PJSIP_TSX_STATE_DESTROYED)
    (hmsg : rdata.msg_info.msg = some msg) (hreq : msg.type = .PJSIP_REQUEST_MSG) :
    tsx_set_state env w s .PJSIP_EVENT_RX_MSG (.rdata rdata) =
      some { w with
        tsx := { w.tsx with
          state := s
          state_handler :=
            if w.tsx.role = pjsip_role_e.PJSIP_ROLE_UAC then tsx_state_handler_uac s
            else tsx_state_handler_uas s }
        trace := w.trace ++
          tu_state_callback w.tsx.tsx_user s w.tsx.state .PJSIP_EVENT_RX_MSG (.rdata rdata) } := by
  unfold tsx_set_state
  simp only [tsx_set_state_inform_rx_request _ _ _ hmsg hreq, tsx_set_state_inform_state_eq,
    tsx_set_state_finish_other _ _ _ h1 h2]

/-- Normal form of `tsx_set_state` for state Terminated, when the event is not
a received message. -/
theorem tsx_set_state_terminated (env : Env) (w : World)
    (ty : pjsip_event_id_e) (src : event_src) (hty : ty ≠ .PJSIP_EVENT_RX_MSG) :
    tsx_set_state env w .PJSIP_TSX_STATE_TERMINATED ty src =
      some { w with
        tsx := { w.tsx with
          state := .PJSIP_TSX_STATE_TERMINATED
          state_handler :=
            if w.tsx.role = pjsip_role_e.PJSIP_ROLE_UAC then
              tsx_state_handler_uac .PJSIP_TSX_STATE_TERMINATED
            else tsx_state_handler_uas .PJSIP_TSX_STATE_TERMINATED
          transport_flag := { w.tsx.transport_flag with
            TSX_HAS_PENDING_DESTROY :=
              w.tsx.transport_flag.TSX_HAS_PENDING_DESTROY ||
                w.tsx.transport_flag.TSX_HAS_PENDING_TRANSPORT }
          timeout_timer := { w.tsx.timeout_timer with
            _timer_id :=
              if w.tsx.transport_flag.TSX_HAS_PENDING_TRANSPORT then
                w.tsx.timeout_timer._timer_id
              else env.timer_slot } }
        trace := w.trace ++
          tu_state_callback w.tsx.tsx_user .PJSIP_TSX_STATE_TERMINATED w.tsx.state ty src ++
          terminated_timer_ops w.tsx.transport_flag.TSX_HAS_PENDING_TRANSPORT
            w.tsx.timeout_timer._timer_id } := by
  unfold tsx_set_state
  simp only [tsx_set_state_inform_rx_other _ _ _ hty, tsx_set_state_inform_state_eq,
    tsx_set_state_finish_terminated, terminated_timer_ops, List.append_assoc]

theorem tsx_set_state_inform_rx_response (w : World) (rdata : pjsip_rx_data) (msg : pjsip_msg)
    (hmsg : rdata.msg_info.msg = some msg) (hresp : msg.type = .PJSIP_RESPONSE_MSG) :
    tsx_set_state_inform_rx w .PJSIP_EVENT_RX_MSG (.rdata rdata) =
      some { w with trace := w.trace ++
        (match w.tsx.tsx_user with
          | none => []
          | some u => if u.on_rx_response then [Effect.on_rx_response rdata] else []) } := by
  obtain ⟨tsx, htable, tls, trace, released⟩ := w
  unfold tsx_set_state_inform_rx
  rcases h : tsx.tsx_user with _ | ⟨_ | _, b⟩ <;>
    simp only [h, hmsg, hresp, World.log, List.append_nil, if_true, if_false,
      Bool.false_eq_true, true_and, and_false, and_true]

/-- Normal form of `tsx_set_state` for a target state other than Terminated
and Destroyed, when the event is a received response. -/
theorem tsx_set_state_plain_response (env : Env) (w : World) (s : pjsip_tsx_state_e)
    (rdata : pjsip_rx_data) (msg : pjsip_msg)
    (h1 : s ≠ .PJSIP_TSX_STATE_TERMINATED) (h2 : s ≠ .PJSIP_TSX_STATE_DESTROYED)
    (hmsg : rdata.msg_info.msg = some msg) (hresp : msg.type = .PJSIP_RESPONSE_MSG) :
    tsx_set_state env w s .PJSIP_EVENT_RX_MSG (.rdata rdata) =
      some { w with
        tsx := { w.tsx with
          state := s
          state_handler :=
            if w.tsx.role = pjsip_role_e.PJSIP_ROLE_UAC then tsx_state_handler_uac s
            else tsx_state_handler_uas s }
        trace := w.trace ++ tu_callbacks_rx w.tsx.tsx_user rdata s w.tsx.state } := by
  unfold tsx_set_state
  simp only [tsx_set_state_inform_rx_response _ _ _ hmsg hresp, tsx_set_state_inform_state_eq,
    tsx_set_state_finish_other _ _ _ h1 h2]
  obtain ⟨tsx, htable, tls, trace, released⟩ := w
  rcases h : tsx.tsx_user with _ | ⟨_ | _, _ | _⟩ <;>
    simp only [h, tu_callbacks_rx, tu_state_callback, List.append_nil, List.append_assoc,
      if_true, if_false, Bool.false_eq_true, List.nil_append]

theorem tu_state_callback_filter (u : Option pjsip_module) (s p : pjsip_tsx_state_e)
    (ty : pjsip_event_id_e) (src : event_src) :
    (tu_state_callback u s p ty src).filter Effect.is_tu_callback =
        tu_state_callback u s p ty src ∧
      (tu_state_callback u s p ty src).filter Effect.is_send = [] ∧
      (tu_state_callback u s p ty src).filter Effect.is_create_ack = [] := by
  rcases u with _ | ⟨a, _ | _⟩ <;> exact ⟨rfl, rfl, rfl⟩

theorem terminated_timer_ops_filter (p : Bool) (id : Int) :
    (terminated_timer_ops p id).filter Effect.is_tu_callback = [] ∧
      (terminated_timer_ops p id).filter Effect.is_send = [] ∧
      (terminated_timer_ops p id).filter Effect.is_create_ack = [] := by
  unfold terminated_timer_ops
  split
  · exact ⟨rfl, rfl, rfl⟩
  · split <;> exact ⟨rfl, rfl, rfl⟩

/-- C16: when the transaction-timeout timer fires for a UAC transaction in
Calling (timer B/F) or for an INVITE UAS transaction in Completed (timer H),
the status code becomes the transaction-timeout code and the state Terminated,
with the state callback as the only call into the transaction user; in the
Calling case the retransmit timer is cancelled as well (slot `-1`, cancelled
on the timer heap when it was armed) and the pending reschedule is cleared. -/
theorem timeout_timer_terminates (env : Env) (w : World)
    (hrel : w.released = false)
    (hwf : handler_consistent w)
    (hcase : (w.tsx.role = .PJSIP_ROLE_UAC ∧ w.tsx.state = .PJSIP_TSX_STATE_CALLING) ∨
      (w.tsx.role = .PJSIP_ROLE_UAS ∧ w.tsx.state = .PJSIP_TSX_STATE_COMPLETED ∧
        w.tsx.method.id = pjsip_method_e.PJSIP_INVITE_METHOD)) :
    ∃ w' new, tsx_timer_callback env w .TSX_TIMER_TIMEOUT = some w' ∧
      w'.tsx.status_code = env.PJSIP_SC_TSX_TIMEOUT ∧
      w'.tsx.state = .PJSIP_TSX_STATE_TERMINATED ∧
      w'.trace = w.trace ++ new ∧
      new.filter Effect.is_tu_callback =
        tu_state_callback w.tsx.tsx_user .PJSIP_TSX_STATE_TERMINATED w.tsx.state
          .PJSIP_EVENT_TIMER (.timer_entry .TSX_TIMER_TIMEOUT) ∧
      (w.tsx.role = .PJSIP_ROLE_UAC →
        w'.tsx.retransmit_timer._timer_id = -1 ∧
        w'.tsx.transport_flag.TSX_HAS_PENDING_RESCHED = false ∧
        (w.tsx.retransmit_timer._timer_id ≠ -1 →
          Effect.cancel_timer .TSX_TIMER_RETRANSMISSION ∈ new)) := by
  obtain ⟨hf1, -, -⟩ := tu_state_callback_filter w.tsx.tsx_user .PJSIP_TSX_STATE_TERMINATED
    w.tsx.state .PJSIP_EVENT_TIMER (.timer_entry .TSX_TIMER_TIMEOUT)
  have hty : pjsip_event_id_e.PJSIP_EVENT_TIMER ≠ .PJSIP_EVENT_RX_MSG := by decide
  rcases hcase with ⟨hrole, hs⟩ | ⟨hrole, hs, hm⟩
  · have hhandler : w.tsx.state_handler = some .tsx_on_state_calling := by
      rw [hwf, if_pos hrole, hs]; rfl
    simp only [tsx_timer_callback, hrel, lock_tsx, call_state_handler, hhandler,
      tsx_on_state_calling, cancel_retransmit_timer_eq, tsx_set_status_code,
      tsx_set_state_terminated env _ _ _ hty, unlock_tsx, if_false, Bool.false_eq_true]
    refine ⟨_,
      (if w.tsx.retransmit_timer._timer_id ≠ -1 then
          [Effect.cancel_timer .TSX_TIMER_RETRANSMISSION] else []) ++
        (tu_state_callback w.tsx.tsx_user .PJSIP_TSX_STATE_TERMINATED w.tsx.state
            .PJSIP_EVENT_TIMER (.timer_entry .TSX_TIMER_TIMEOUT) ++
          terminated_timer_ops w.tsx.transport_flag.TSX_HAS_PENDING_TRANSPORT
            w.tsx.timeout_timer._timer_id),
      rfl, rfl, rfl, ?_, ?_, ?_⟩
    · simp only [List.append_assoc]
    · simp only [List.filter_append, hf1, (terminated_timer_ops_filter _ _).1,
        List.append_nil]
      split_ifs <;> simp [Effect.is_tu_callback]
    · intro _
      refine ⟨rfl, rfl, ?_⟩
      intro hne
      simp only [hne, if_true, ne_eq, not_false_eq_true]
      simp
  · have hhandler : w.tsx.state_handler = some .tsx_on_state_completed_uas := by
      rw [hwf, hrole, hs]; rfl
    simp only [tsx_timer_callback, hrel, lock_tsx, call_state_handler, hhandler,
      tsx_on_state_completed_uas, hm, tsx_set_status_code,
      tsx_set_state_terminated env _ _ _ hty, unlock_tsx, if_true, if_false,
      Bool.false_eq_true]
    refine ⟨_,
        (tu_state_callback w.tsx.tsx_user .PJSIP_TSX_STATE_TERMINATED w.tsx.state
            .PJSIP_EVENT_TIMER (.timer_entry .TSX_TIMER_TIMEOUT) ++
          terminated_timer_ops w.tsx.transport_flag.TSX_HAS_PENDING_TRANSPORT
            w.tsx.timeout_timer._timer_id),
      rfl, rfl, rfl, ?_, ?_, ?_⟩
    · simp only [List.append_assoc]
    · simp only [List.filter_append, hf1, (terminated_timer_ops_filter _ _).1,
        List.append_nil]
    · intro h
      rw [hrole] at h
      cases h

theorem timeout_timer_terminates_witness :
    ∃ w' new, tsx_timer_callback sample_env (sample_calling_world INVITE)
        .TSX_TIMER_TIMEOUT = some w' ∧
      w'.tsx.status_code = 408 ∧
      w'.tsx.state = .PJSIP_TSX_STATE_TERMINATED ∧
      w'.trace = [] ++ new ∧
      new.filter Effect.is_tu_callback =
        tu_state_callback (some ⟨true, true⟩) .PJSIP_TSX_STATE_TERMINATED
          .PJSIP_TSX_STATE_CALLING .PJSIP_EVENT_TIMER (.timer_entry .TSX_TIMER_TIMEOUT) ∧
      ((sample_calling_world INVITE).tsx.role = .PJSIP_ROLE_UAC →
        w'.tsx.retransmit_timer._timer_id = -1 ∧
        w'.tsx.transport_flag.TSX_HAS_PENDING_RESCHED = false ∧
        ((sample_calling_world INVITE).tsx.retransmit_timer._timer_id ≠ -1 →
          Effect.cancel_timer .TSX_TIMER_RETRANSMISSION ∈ new)) :=
  timeout_timer_terminates sample_env (sample_calling_world INVITE) rfl rfl
    (Or.inl ⟨rfl, rfl⟩)

/-- C19 (amended): for every INVITE UAS transaction in Completed, whatever the
reliability of its transport, a received ACK request moves it to Confirmed
with the timeout timer (timer I) cancelled and armed again with T4, never with
zero; when that timer fires in Confirmed the state moves to Terminated. -/
theorem ack_arms_timer_i_with_t4 (env : Env) (w : World) (rdata : pjsip_rx_data)
    (msg : pjsip_msg)
    (hrel : w.released = false)
    (hrole : w.tsx.role = .PJSIP_ROLE_UAS)
    (hinvite : w.tsx.method.id = pjsip_method_e.PJSIP_INVITE_METHOD)
    (hstate : w.tsx.state = .PJSIP_TSX_STATE_COMPLETED)
    (hwf : handler_consistent w)
    (hmsg : rdata.msg_info.msg = some msg)
    (hreq : msg.type = .PJSIP_REQUEST_MSG)
    (hack : msg.line.req.method.id = pjsip_method_e.PJSIP_ACK_METHOD) :
    ∃ w1 w2 new, pjsip_tsx_recv_msg env w rdata = some w1 ∧
      w1.tsx.state = .PJSIP_TSX_STATE_CONFIRMED ∧
      w1.tsx.role = .PJSIP_ROLE_UAS ∧
      w1.tsx.method.id = pjsip_method_e.PJSIP_INVITE_METHOD ∧
      w1.trace = w.trace ++ new ∧
      new.filter (fun e => e matches .schedule_timer _ _) =
        [Effect.schedule_timer .TSX_TIMER_TIMEOUT (t4_timer_val env)] ∧
      new.filter (fun e => e matches .cancel_timer .TSX_TIMER_TIMEOUT) =
        [Effect.cancel_timer .TSX_TIMER_TIMEOUT] ∧
      w1.tsx.timeout_timer._timer_id = env.timer_slot ∧
      tsx_timer_callback env w1 .TSX_TIMER_TIMEOUT = some w2 ∧
      w2.tsx.state = .PJSIP_TSX_STATE_TERMINATED := by
  have hhandler : w.tsx.state_handler = some .tsx_on_state_completed_uas := by
    rw [hwf, hrole, hstate]; rfl
  have h1 : PJSIP_TSX_STATE_CONFIRMED ≠ PJSIP_TSX_STATE_TERMINATED := by decide
  have h2 : PJSIP_TSX_STATE_CONFIRMED ≠ PJSIP_TSX_STATE_DESTROYED := by decide
  have hty : pjsip_event_id_e.PJSIP_EVENT_TIMER ≠ .PJSIP_EVENT_RX_MSG := by decide
  simp only [pjsip_tsx_recv_msg, hrel, lock_tsx, call_state_handler, hhandler,
    tsx_on_state_completed_uas, hmsg, hreq, hack, cancel_retransmit_timer_eq,
    pjsip_endpt_cancel_timer, pjsip_endpt_schedule_timer, set_timer_id, World.log,
    tsx_set_state_plain_request env _ _ rdata msg h1 h2 hmsg hreq, unlock_tsx,
    if_true, if_false, ne_eq, not_true_eq_false, Bool.false_eq_true, hrole, reduceCtorEq,
    tsx_state_handler_uas, tsx_timer_callback, tsx_on_state_confirmed,
    tsx_set_state_terminated env _ _ _ hty]
  refine ⟨_, _,
    (if ¬ w.tsx.retransmit_timer._timer_id = -1 then
        [Effect.cancel_timer .TSX_TIMER_RETRANSMISSION] else []) ++
      ([Effect.cancel_timer .TSX_TIMER_TIMEOUT] ++
      ([Effect.schedule_timer .TSX_TIMER_TIMEOUT (t4_timer_val env)] ++
        tu_state_callback w.tsx.tsx_user .PJSIP_TSX_STATE_CONFIRMED w.tsx.state
          .PJSIP_EVENT_RX_MSG (.rdata rdata))),
    rfl, rfl, rfl, hinvite, ?_, ?_, ?_, rfl, rfl, rfl⟩
  · simp only [List.append_assoc]
  · rcases w.tsx.tsx_user with _ | ⟨a, _ | _⟩ <;>
      split_ifs <;> simp [tu_state_callback]
  · rcases w.tsx.tsx_user with _ | ⟨a, _ | _⟩ <;>
      split_ifs <;> simp [tu_state_callback]

theorem ack_arms_timer_i_with_t4_witness :
    ∃ w, sample_uas_responded INVITE 0 486 = some w ∧
      ∃ w1 w2 new,
        pjsip_tsx_recv_msg sample_env w (sample_request ACK "z9hG4bKabc".toList) = some w1 ∧
        w1.tsx.state = .PJSIP_TSX_STATE_CONFIRMED ∧
        w1.tsx.role = .PJSIP_ROLE_UAS ∧
        w1.tsx.method.id = pjsip_method_e.PJSIP_INVITE_METHOD ∧
        w1.trace = w.trace ++ new ∧
        new.filter (fun e => e matches .schedule_timer _ _) =
          [Effect.schedule_timer .TSX_TIMER_TIMEOUT (t4_timer_val sample_env)] ∧
        new.filter (fun e => e matches .cancel_timer .TSX_TIMER_TIMEOUT) =
          [Effect.cancel_timer .TSX_TIMER_TIMEOUT] ∧
        w1.tsx.timeout_timer._timer_id = sample_env.timer_slot ∧
        tsx_timer_callback sample_env w1 .TSX_TIMER_TIMEOUT = some w2 ∧
        w2.tsx.state = .PJSIP_TSX_STATE_TERMINATED :=
  ⟨_, rfl, ack_arms_timer_i_with_t4 sample_env _ (sample_request ACK "z9hG4bKabc".toList) _
    rfl rfl rfl rfl rfl rfl rfl rfl⟩

/-- C19 (counterexample): an INVITE server transaction over a reliable
transport that has sent a 486 response receives the ACK: it moves to
Confirmed and the timeout timer (timer I) is armed with T4, 5 seconds, not
with zero. -/
theorem reliable_invite_uas_timer_i_is_t4 :
    ∃ w2 w3, sample_uas_responded INVITE 1 486 = some w2 ∧
      w2.tsx.is_reliable = true ∧
      w2.tsx.state = .PJSIP_TSX_STATE_COMPLETED ∧
      pjsip_tsx_recv_msg sample_env w2 (sample_request ACK "z9hG4bKabc".toList) = some w3 ∧
      w3.tsx.state = .PJSIP_TSX_STATE_CONFIRMED ∧
      w3.trace = w2.trace ++
        [Effect.cancel_timer .TSX_TIMER_TIMEOUT,
         Effect.schedule_timer .TSX_TIMER_TIMEOUT ⟨5, 0⟩,
         Effect.on_tsx_state .PJSIP_TSX_STATE_CONFIRMED .PJSIP_TSX_STATE_COMPLETED
           .PJSIP_EVENT_RX_MSG (.rdata (sample_request ACK "z9hG4bKabc".toList))] :=
  ⟨_, _, rfl, rfl, rfl, rfl, rfl, rfl⟩

/-- C13 (the code at the failing input): a server transaction created for an
OPTIONS request, after its 200 response has been sent, is in Completed; an ACK
request handed to `pjsip_tsx_recv_msg` moves it to Confirmed, the state whose
handler asserts that the method is INVITE. -/
theorem non_invite_uas_enters_confirmed :
    ∃ w2 w3, sample_uas_responded OPTIONS 0 200 = some w2 ∧
      w2.tsx.role = .PJSIP_ROLE_UAS ∧
      w2.tsx.method.id = pjsip_method_e.PJSIP_OPTIONS_METHOD ∧
      w2.tsx.state = .PJSIP_TSX_STATE_COMPLETED ∧
      handler_consistent w2 ∧
      pjsip_tsx_recv_msg sample_env w2 (sample_request ACK "z9hG4bKabc".toList) = some w3 ∧
      w3.tsx.state = .PJSIP_TSX_STATE_CONFIRMED ∧
      w3.tsx.state_handler = some .tsx_on_state_confirmed :=
  ⟨_, _, rfl, rfl, rfl, rfl, rfl, rfl, rfl, rfl⟩

/-! ### Responses sent by a server transaction -/

theorem tsx_send_msg_resolve_success (env : Env) (w w' : World) (t : pjsip_tx_data)
    (st0 : pj_status_t)
    (h : tsx_send_msg_resolve env w t st0 = some (.PJ_SUCCESS, w')) :
    w.tsx.transport_flag.TSX_HAS_RESOLVED_SERVER = false ∧
    w' = { w with
      tsx := { w.tsx with
        transport_flag := { w.tsx.transport_flag with TSX_HAS_PENDING_TRANSPORT := true } }
      trace := w.trace ++ [Effect.tx_data_add_ref t,
        if t.msg.type = .PJSIP_REQUEST_MSG then Effect.send_request_stateless t
        else Effect.send_response t] } := by
  unfold tsx_send_msg_resolve at h
  split at h
  · simp only at h
    have h2 := (set_state_then_status _ _ _ _ h).2
    split at h2
    · cases h2
    · rename_i hne
      exact absurd h2.symm hne
  · rename_i hres
    refine ⟨by simpa using hres, ?_⟩
    simp only at h
    split at h
    · rename_i hreq
      rw [if_pos hreq]
      by_cases hs : (if env.send_request_stateless = pj_status_t.PJ_EPENDING then
          pj_status_t.PJ_SUCCESS else env.send_request_stateless) = pj_status_t.PJ_SUCCESS
      · simp only [hs, ne_eq, not_true_eq_false, if_false, true_and] at h
        have h2 := congrArg Prod.snd (Option.some.inj h)
        simp only at h2
        rw [← h2]
        simp only [World.log, set_transport_flag, List.append_assoc, List.singleton_append,
          List.cons_append, List.nil_append]
      · simp only [hs, ne_eq, not_false_eq_true, if_true, false_and, if_false] at h
        have h1 := congrArg Prod.fst (Option.some.inj h)
        exact absurd h1 hs
    · rename_i hreq
      rw [if_neg hreq]
      by_cases hs : (if env.send_response = pj_status_t.PJ_EPENDING then
          pj_status_t.PJ_SUCCESS else env.send_response) = pj_status_t.PJ_SUCCESS
      · simp only [hs, ne_eq, not_true_eq_false, if_false, true_and] at h
        have h2 := congrArg Prod.snd (Option.some.inj h)
        simp only at h2
        rw [← h2]
        simp only [World.log, set_transport_flag, List.append_assoc, List.singleton_append,
          List.cons_append, List.nil_append]
      · simp only [hs, ne_eq, not_false_eq_true, if_true, false_and, if_false] at h
        have h1 := congrArg Prod.fst (Option.some.inj h)
        exact absurd h1 hs

/-- What a successful `tsx_send_msg` leaves behind: apart from the transport
(kept, or dropped after a failed send), the address fields that go with it,
the flag word and the trace, nothing in the world changes; the calls added
are send steps for the message; with a transport pending nothing is sent and
the pending send is noted, otherwise the message is handed to the network. -/
theorem tsx_send_msg_success (env : Env) (w w' : World) (t : pjsip_tx_data)
    (h : tsx_send_msg env w (some t) = some (.PJ_SUCCESS, w')) :
    ∃ tp al ra fl post,
      w' = { w with
        tsx := { w.tsx with transport := tp, addr_len := al, res_addr := ra,
                            transport_flag := fl }
        trace := w.trace ++ post } ∧
      fl.TSX_HAS_PENDING_RESCHED = w.tsx.transport_flag.TSX_HAS_PENDING_RESCHED ∧
      fl.TSX_HAS_PENDING_DESTROY = w.tsx.transport_flag.TSX_HAS_PENDING_DESTROY ∧
      fl.TSX_HAS_RESOLVED_SERVER = w.tsx.transport_flag.TSX_HAS_RESOLVED_SERVER ∧
      (∀ e ∈ post, Effect.is_send_step t e = true) ∧
      (w.tsx.transport_flag.TSX_HAS_PENDING_TRANSPORT = true →
        post = [] ∧ fl.TSX_HAS_PENDING_SEND = true ∧ fl.TSX_HAS_PENDING_TRANSPORT = true ∧
        tp = w.tsx.transport) ∧
      (w.tsx.transport_flag.TSX_HAS_PENDING_TRANSPORT = false →
        (∃ e ∈ post, Effect.is_send e = true ∧ Effect.sent_tdata e = some t) ∧
        fl.TSX_HAS_PENDING_SEND = w.tsx.transport_flag.TSX_HAS_PENDING_SEND) ∧
      (tp = w.tsx.transport ∨ tp = none) := by
  unfold tsx_send_msg at h
  simp only at h
  split at h
  · rename_i hp
    cases h
    refine ⟨w.tsx.transport, w.tsx.addr_len, w.tsx.res_addr,
      { w.tsx.transport_flag with TSX_HAS_PENDING_SEND := true }, [], ?_, rfl, rfl, rfl, ?_, ?_,
      ?_, Or.inl rfl⟩
    · simp only [set_transport_flag, List.append_nil]
    · intro e he; cases he
    · intro _; exact ⟨rfl, rfl, hp, rfl⟩
    · intro hf; rw [hp] at hf; cases hf
  · rename_i hp
    have hp2 : w.tsx.transport_flag.TSX_HAS_PENDING_TRANSPORT = false := by simpa using hp
    split at h
    · rename_i tp htp
      by_cases hst : (if env.transport_send = pj_status_t.PJ_EPENDING then
          pj_status_t.PJ_SUCCESS else env.transport_send) ≠ pj_status_t.PJ_SUCCESS
      · rw [if_pos hst] at h
        obtain ⟨hres, hw⟩ := tsx_send_msg_resolve_success _ _ _ _ _ h
        refine ⟨none, 0, { transport := none, addr_len := 0 },
          { w.tsx.transport_flag with TSX_HAS_PENDING_TRANSPORT := true },
          [Effect.transport_send tp t, Effect.transport_dec_ref tp, Effect.tx_data_add_ref t,
            if t.msg.type = .PJSIP_REQUEST_MSG then Effect.send_request_stateless t
            else Effect.send_response t], ?_, rfl, rfl, rfl, ?_, ?_, ?_, Or.inr rfl⟩
        · rw [hw]
          simp only [World.log, List.append_assoc, List.singleton_append, List.cons_append,
            List.nil_append]
        · intro e he
          simp only [List.mem_cons, List.mem_singleton, List.not_mem_nil, or_false] at he
          rcases he with rfl | rfl | rfl | rfl
          · simp [Effect.is_send_step]
          · simp [Effect.is_send_step]
          · simp [Effect.is_send_step]
          · split <;> simp [Effect.is_send_step]
        · intro hf; rw [hp2] at hf; cases hf
        · intro _
          exact ⟨⟨_, List.mem_cons_self _ _, rfl, rfl⟩, rfl⟩
      · rw [if_neg hst] at h
        cases h
        refine ⟨w.tsx.transport, w.tsx.addr_len, w.tsx.res_addr, w.tsx.transport_flag,
          [Effect.transport_send tp t], ?_, rfl, rfl, rfl, ?_, ?_, ?_, Or.inl rfl⟩
        · rfl
        · intro e he
          simp only [List.mem_singleton] at he
          subst he
          simp [Effect.is_send_step]
        · intro hf; rw [hp2] at hf; cases hf
        · intro _
          exact ⟨⟨_, List.mem_cons_self _ _, rfl, rfl⟩, rfl⟩
    · rename_i htp
      obtain ⟨hres, hw⟩ := tsx_send_msg_resolve_success _ _ _ _ _ h
      refine ⟨w.tsx.transport, w.tsx.addr_len, w.tsx.res_addr,
        { w.tsx.transport_flag with TSX_HAS_PENDING_TRANSPORT := true },
        [Effect.tx_data_add_ref t,
          if t.msg.type = .PJSIP_REQUEST_MSG then Effect.send_request_stateless t
          else Effect.send_response t], ?_, rfl, rfl, rfl, ?_, ?_, ?_, Or.inl rfl⟩
      · rw [hw]
      · intro e he
        simp only [List.mem_cons, List.mem_singleton, List.not_mem_nil, or_false] at he
        rcases he with rfl | rfl
        · simp [Effect.is_send_step]
        · split <;> simp [Effect.is_send_step]
      · intro hf; rw [hp2] at hf; cases hf
      · intro _
        refine ⟨⟨_, List.mem_cons_of_mem _ (List.mem_cons_self _ _), ?_⟩, rfl⟩
        split <;> exact ⟨rfl, rfl⟩

theorem discard_last_tx_eq (w : World) (t : pjsip_tx_data) :
    discard_last_tx w t =
      { w with
        tsx := { w.tsx with last_tx := if last_tx_is w t then w.tsx.last_tx else none }
        trace := w.trace ++
          (match w.tsx.last_tx with
            | some l => if last_tx_is w t then [] else [Effect.tx_data_dec_ref l]
            | none => []) } := by
  obtain ⟨tsx, htable, tls, trace, released⟩ := w
  obtain ⟨self, tsx_user, role, method, cseq, transaction_key, hashed_key, branch,
    status_code, status_text, state, handle_200resp, state_handler, transport, is_reliable,
    addr_len, res_addr, transport_flag, transport_err, last_tx, retransmit_count,
    retransmit_timer, timeout_timer⟩ := tsx
  cases last_tx with
  | none =>
    simp only [discard_last_tx, last_tx_is, Option.map_none', List.append_nil, reduceCtorEq,
      decide_False, Bool.false_eq_true, if_false]
  | some l =>
    by_cases h : l.ptr = t.ptr
    · simp only [discard_last_tx, last_tx_is, Option.map_some', Option.some.injEq, h,
        decide_True, not_true_eq_false, if_false, if_true, List.append_nil]
    · simp only [discard_last_tx, last_tx_is, Option.map_some', Option.some.injEq, h,
        decide_False, Bool.false_eq_true, not_false_eq_true, if_true, if_false, World.log]

theorem save_last_tx_eq (w : World) (t : pjsip_tx_data) :
    save_last_tx w t =
      { w with
        tsx := { w.tsx with last_tx := if last_tx_is w t then w.tsx.last_tx else some t }
        trace := w.trace ++ (if last_tx_is w t then [] else [Effect.tx_data_add_ref t]) } := by
  obtain ⟨tsx, htable, tls, trace, released⟩ := w
  obtain ⟨self, tsx_user, role, method, cseq, transaction_key, hashed_key, branch,
    status_code, status_text, state, handle_200resp, state_handler, transport, is_reliable,
    addr_len, res_addr, transport_flag, transport_err, last_tx, retransmit_count,
    retransmit_timer, timeout_timer⟩ := tsx
  by_cases h : last_tx_is ⟨⟨self, tsx_user, role, method, cseq, transaction_key, hashed_key,
    branch, status_code, status_text, state, handle_200resp, state_handler, transport,
    is_reliable, addr_len, res_addr, transport_flag, transport_err, last_tx, retransmit_count,
    retransmit_timer, timeout_timer⟩, htable, tls, trace, released⟩ t = true
  · simp only [save_last_tx, h, not_true_eq_false, if_false, if_true, List.append_nil]
  · simp only [save_last_tx, h, not_false_eq_true, if_true, if_false, World.log,
      Bool.false_eq_true]

theorem start_retransmit_timer_eq (env : Env) (w : World) :
    start_retransmit_timer env w =
      { w with
        tsx := { w.tsx with
          retransmit_count := 0
          transport_flag := { w.tsx.transport_flag with
            TSX_HAS_PENDING_RESCHED :=
              w.tsx.transport_flag.TSX_HAS_PENDING_RESCHED ||
                w.tsx.transport_flag.TSX_HAS_PENDING_TRANSPORT }
          retransmit_timer := { w.tsx.retransmit_timer with
            _timer_id :=
              if w.tsx.transport_flag.TSX_HAS_PENDING_TRANSPORT then
                w.tsx.retransmit_timer._timer_id
              else env.timer_slot } }
        trace := w.trace ++
          (if w.tsx.transport_flag.TSX_HAS_PENDING_TRANSPORT then []
           else [Effect.schedule_timer .TSX_TIMER_RETRANSMISSION (t1_timer_val env)]) } := by
  obtain ⟨tsx, htable, tls, trace, released⟩ := w
  obtain ⟨self, tsx_user, role, method, cseq, transaction_key, hashed_key, branch,
    status_code, status_text, state, handle_200resp, state_handler, transport, is_reliable,
    addr_len, res_addr, ⟨f1, f2, f3, f4, f5⟩, transport_err, last_tx, retransmit_count,
    ⟨rid, rtid⟩, timeout_timer⟩ := tsx
  cases f1 <;>
    simp only [start_retransmit_timer, set_transport_flag, pjsip_endpt_schedule_timer,
      set_timer_id, World.log, if_true, if_false, Bool.or_true, Bool.or_false,
      Bool.false_eq_true, List.append_nil]

theorem status_in_class_1xx (c : Int) (h : 100 ≤ c ∧ c ≤ 199) :
    PJSIP_IS_STATUS_IN_CLASS c 100 = true := by
  have h1 : Int.tdiv c 100 = 1 := by
    rw [Int.tdiv_eq_ediv (by omega) (by omega)]
    omega
  have h2 : Int.tdiv 100 100 = 1 := by decide
  simp [PJSIP_IS_STATUS_IN_CLASS, h1, h2]

theorem status_in_class_ge_300 (c : Int) (h : 300 ≤ c) :
    PJSIP_IS_STATUS_IN_CLASS c 100 = false ∧ PJSIP_IS_STATUS_IN_CLASS c 200 = false := by
  have h1 : 3 ≤ Int.tdiv c 100 := by
    rw [Int.tdiv_eq_ediv (by omega) (by omega)]
    omega
  have h2 : Int.tdiv 100 100 = 1 := by decide
  have h3 : Int.tdiv 200 100 = 2 := by decide
  simp only [PJSIP_IS_STATUS_IN_CLASS, h2, h3, decide_eq_false_iff_not]
  constructor <;> omega

theorem proceeding_uas_3xx_timeout_eq (env : Env) (w : World) :
    proceeding_uas_3xx_timeout env w =
      pjsip_endpt_schedule_timer env w .TSX_TIMER_TIMEOUT
        (if w.tsx.method.id = pjsip_method_e.PJSIP_INVITE_METHOD then timeout_timer_val env
         else if ¬ w.tsx.is_reliable then timeout_timer_val env
         else ⟨0, 0⟩) := by
  unfold proceeding_uas_3xx_timeout
  split
  · rfl
  · split <;> rfl

theorem proceeding_uas_update_state_spec (env : Env) (w : World) (tdata : pjsip_tx_data)
    (hcode : 100 ≤ w.tsx.status_code)
    (htp : 200 ≤ w.tsx.status_code → w.tsx.status_code ≤ 299 →
      w.tsx.method.id ≠ pjsip_method_e.PJSIP_INVITE_METHOD → w.tsx.transport ≠ none)
    (hcseq : 300 ≤ w.tsx.status_code → w.tsx.is_reliable = false → tdata.cseq ≠ none) :
    ∃ w', proceeding_uas_update_state env w tdata = some (.PJ_SUCCESS, w') ∧
      w'.tsx.state = spec_uas_next_state w.tsx.method w.tsx.handle_200resp w.tsx.status_code ∧
      w'.tsx.status_code = w.tsx.status_code ∧
      w'.tls = w.tls ∧ w'.released = w.released ∧
      ∃ new, w'.trace = w.trace ++ new ∧
        new.filter Effect.is_tu_callback =
          tu_state_callback w.tsx.tsx_user
            (spec_uas_next_state w.tsx.method w.tsx.handle_200resp w.tsx.status_code) w.tsx.state
            .PJSIP_EVENT_TX_MSG (.tdata tdata) := by
  have hty : pjsip_event_id_e.PJSIP_EVENT_TX_MSG ≠ .PJSIP_EVENT_RX_MSG := by decide
  have hp1 : PJSIP_TSX_STATE_PROCEEDING ≠ PJSIP_TSX_STATE_TERMINATED := by decide
  have hp2 : PJSIP_TSX_STATE_PROCEEDING ≠ PJSIP_TSX_STATE_DESTROYED := by decide
  have hc1 : PJSIP_TSX_STATE_COMPLETED ≠ PJSIP_TSX_STATE_TERMINATED := by decide
  have hc2 : PJSIP_TSX_STATE_COMPLETED ≠ PJSIP_TSX_STATE_DESTROYED := by decide
  have hcb := fun s => (tu_state_callback_filter w.tsx.tsx_user s w.tsx.state
    .PJSIP_EVENT_TX_MSG (.tdata tdata)).1
  by_cases h1 : w.tsx.status_code ≤ 199
  · -- 1xx
    have hcl := status_in_class_1xx _ ⟨hcode, h1⟩
    have hn : spec_uas_next_state w.tsx.method w.tsx.handle_200resp w.tsx.status_code =
        .PJSIP_TSX_STATE_PROCEEDING := by
      unfold spec_uas_next_state; rw [if_pos (by omega)]
    rw [hn]
    simp only [proceeding_uas_update_state, hcl, if_true, save_last_tx_eq,
      tsx_set_state_plain env _ _ _ _ hp1 hp2 hty]
    refine ⟨_, rfl, rfl, rfl, rfl, rfl, ?_⟩
    simp only [List.append_assoc]
    refine ⟨_, rfl, ?_⟩
    simp only [List.filter_append, hcb]
    split_ifs <;> simp [Effect.is_tu_callback]
  · by_cases h2 : w.tsx.status_code ≤ 299
    · -- 2xx
      obtain ⟨hcl1, hcl2⟩ := status_in_class_2xx _ ⟨by omega, h2⟩
      by_cases hinv : w.tsx.method.id = pjsip_method_e.PJSIP_INVITE_METHOD
      · by_cases h200 : w.tsx.handle_200resp = 0
        · have hn : spec_uas_next_state w.tsx.method w.tsx.handle_200resp w.tsx.status_code =
              .PJSIP_TSX_STATE_TERMINATED := by
            unfold spec_uas_next_state
            rw [if_neg (by omega), if_pos (by omega), if_pos ⟨hinv, h200⟩]
          rw [hn]
          simp only [proceeding_uas_update_state, hcl1, hcl2, hinv, h200, if_true, if_false,
            and_self, Bool.false_eq_true, tsx_set_state_terminated env _ _ _ hty]
          refine ⟨_, rfl, rfl, rfl, rfl, rfl, ?_⟩
          simp only [List.append_assoc]
          refine ⟨_, rfl, ?_⟩
          simp only [List.filter_append, hcb,
            (terminated_timer_ops_filter _ _).1, List.append_nil]
        · have hn : spec_uas_next_state w.tsx.method w.tsx.handle_200resp w.tsx.status_code =
              .PJSIP_TSX_STATE_COMPLETED := by
            unfold spec_uas_next_state
            rw [if_neg (by omega), if_pos (by omega), if_neg (fun h => h200 h.2)]
          rw [hn]
          simp only [proceeding_uas_update_state, hcl1, hcl2, hinv, h200, if_true, if_false,
            and_false, and_true, Bool.false_eq_true, start_retransmit_timer_eq, save_last_tx_eq,
            proceeding_uas_2xx_timeout, pjsip_endpt_schedule_timer, set_timer_id, World.log,
            tsx_set_state_plain env _ _ _ _ hc1 hc2 hty]
          refine ⟨_, rfl, rfl, rfl, rfl, rfl, ?_⟩
          simp only [List.append_assoc]
          refine ⟨_, rfl, ?_⟩
          simp only [List.filter_append, hcb]
          split_ifs <;> simp [Effect.is_tu_callback]
      · have hn : spec_uas_next_state w.tsx.method w.tsx.handle_200resp w.tsx.status_code =
            .PJSIP_TSX_STATE_COMPLETED := by
          unfold spec_uas_next_state
          rw [if_neg (by omega), if_pos (by omega), if_neg (fun h => hinv h.1)]
        rw [hn]
        obtain ⟨tp, htp1⟩ := Option.ne_none_iff_exists'.mp (htp (by omega) h2 hinv)
        by_cases hr : PJSIP_TRANSPORT_IS_RELIABLE env tp = 0 <;>
        · simp only [proceeding_uas_update_state, hcl1, hcl2, hinv, if_true, if_false,
            false_and, Bool.false_eq_true, save_last_tx_eq, hr,
            proceeding_uas_2xx_timeout, htp1, pjsip_endpt_schedule_timer, set_timer_id,
            World.log, tsx_set_state_plain env _ _ _ _ hc1 hc2 hty]
          refine ⟨_, rfl, rfl, rfl, rfl, rfl, ?_⟩
          simp only [List.append_assoc]
          refine ⟨_, rfl, ?_⟩
          simp only [List.filter_append, hcb]
          split_ifs <;> simp [Effect.is_tu_callback]
    · -- 3xx and above
      obtain ⟨hcl1, hcl2⟩ := status_in_class_ge_300 w.tsx.status_code (by omega)
      have hge : w.tsx.status_code ≥ 300 := by omega
      have hn : spec_uas_next_state w.tsx.method w.tsx.handle_200resp w.tsx.status_code =
          .PJSIP_TSX_STATE_COMPLETED := by
        unfold spec_uas_next_state
        rw [if_neg (by omega), if_neg (by omega)]
      rw [hn]
      have hd := proceeding_uas_3xx_timeout_eq env
      by_cases hrl : w.tsx.is_reliable = true
      · simp only [proceeding_uas_update_state, hcl1, hcl2, hge, if_true, if_false,
          Bool.false_eq_true, hd, save_last_tx_eq, proceeding_uas_3xx_retransmit, hrl,
          not_true_eq_false, pjsip_endpt_schedule_timer, set_timer_id, World.log,
          tsx_set_state_plain env _ _ _ _ hc1 hc2 hty]
        refine ⟨_, rfl, rfl, rfl, rfl, rfl, ?_⟩
        simp only [List.append_assoc]
        refine ⟨_, rfl, ?_⟩
        simp only [List.filter_append, hcb]
        split_ifs <;> simp [Effect.is_tu_callback]
      · have hrl2 : w.tsx.is_reliable = false := by simpa using hrl
        obtain ⟨cseq, hcs⟩ := Option.ne_none_iff_exists'.mp (hcseq (by omega) hrl2)
        by_cases hci : cseq.method.id = pjsip_method_e.PJSIP_INVITE_METHOD <;>
        · simp only [proceeding_uas_update_state, hcl1, hcl2, hge, if_true, if_false,
            Bool.false_eq_true, hd, save_last_tx_eq, proceeding_uas_3xx_retransmit, hrl2,
            not_false_eq_true, hcs, hci, start_retransmit_timer_eq,
            pjsip_endpt_schedule_timer, set_timer_id, World.log,
            tsx_set_state_plain env _ _ _ _ hc1 hc2 hty]
          refine ⟨_, rfl, rfl, rfl, rfl, rfl, ?_⟩
          simp only [List.append_assoc]
          refine ⟨_, rfl, ?_⟩
          simp only [List.filter_append, hcb]
          split_ifs <;> simp [Effect.is_tu_callback]

theorem send_steps_no_tu_callback (t : pjsip_tx_data) (post : List Effect)
    (h : ∀ e ∈ post, Effect.is_send_step t e = true) :
    post.filter Effect.is_tu_callback = [] := by
  rw [List.filter_eq_nil_iff]
  intro e he
  have := h e he
  cases e <;> simp_all [Effect.is_send_step, Effect.is_tu_callback]

theorem spec_uas_next_state_ne_trying (m : pjsip_method) (h c : Int) :
    spec_uas_next_state m h c ≠ .PJSIP_TSX_STATE_TRYING := by
  unfold spec_uas_next_state
  split
  · decide
  · split
    · split <;> decide
    · decide

theorem discard_trace_no_tu_callback (l : Option pjsip_tx_data) (b : Bool) :
    (match l with
      | some l => if b then [] else [Effect.tx_data_dec_ref l]
      | none => []).filter Effect.is_tu_callback = [] := by
  cases l with
  | none => rfl
  | some l => cases b <;> rfl

theorem proceeding_uas_tx_spec (env : Env) (w w1 : World) (tdata : pjsip_tx_data)
    (hresp : tdata.msg.type = .PJSIP_RESPONSE_MSG)
    (hcode : 100 ≤ tdata.msg.line.status.code)
    (hsend : tsx_send_msg env
      (discard_last_tx
        (tsx_set_status_code env w tdata.msg.line.status.code
          (some tdata.msg.line.status.reason)) tdata)
      (some tdata) = some (.PJ_SUCCESS, w1))
    (htp : 200 ≤ tdata.msg.line.status.code → tdata.msg.line.status.code ≤ 299 →
      w.tsx.method.id ≠ pjsip_method_e.PJSIP_INVITE_METHOD → w1.tsx.transport ≠ none)
    (hcseq : 300 ≤ tdata.msg.line.status.code → w.tsx.is_reliable = false →
      tdata.cseq ≠ none) :
    ∃ w2, tsx_on_state_proceeding_uas env w (.tx_msg tdata) = some (.PJ_SUCCESS, w2) ∧
      w2.tsx.state =
        spec_uas_next_state w.tsx.method w.tsx.handle_200resp tdata.msg.line.status.code ∧
      w2.tsx.status_code = tdata.msg.line.status.code ∧
      w2.tls = w.tls ∧ w2.released = w.released ∧
      ∃ new, w2.trace = w.trace ++ new ∧
        new.filter Effect.is_tu_callback =
          tu_state_callback w.tsx.tsx_user
            (spec_uas_next_state w.tsx.method w.tsx.handle_200resp tdata.msg.line.status.code)
            w.tsx.state .PJSIP_EVENT_TX_MSG (.tdata tdata) := by
  have hh : tsx_on_state_proceeding_uas env w (.tx_msg tdata) =
      proceeding_uas_update_state env w1 tdata := by
    simp only [tsx_on_state_proceeding_uas, hresp, ne_eq, not_true_eq_false, if_false, hsend]
  rw [hh]
  simp only [discard_last_tx_eq, tsx_set_status_code] at hsend
  obtain ⟨tp, al, ra, fl, post, hw1, -, -, -, hpost, -, -, -⟩ :=
    tsx_send_msg_success _ _ _ _ hsend
  have e1 : w1.tsx.status_code = tdata.msg.line.status.code := by rw [hw1]
  have e2 : w1.tsx.method = w.tsx.method := by rw [hw1]
  have e3 : w1.tsx.handle_200resp = w.tsx.handle_200resp := by rw [hw1]
  have e4 : w1.tsx.is_reliable = w.tsx.is_reliable := by rw [hw1]
  have e5 : w1.tsx.tsx_user = w.tsx.tsx_user := by rw [hw1]
  have e6 : w1.tsx.state = w.tsx.state := by rw [hw1]
  have e7 : w1.tls = w.tls := by rw [hw1]
  have e8 : w1.released = w.released := by rw [hw1]
  have e9 : ∃ pre, w1.trace = w.trace ++ pre ∧ pre.filter Effect.is_tu_callback = [] := by
    rw [hw1]
    simp only [List.append_assoc]
    refine ⟨_, rfl, ?_⟩
    rw [List.filter_append, send_steps_no_tu_callback tdata post hpost, List.append_nil]
    cases w.tsx.last_tx with
    | none => rfl
    | some l => simp only; split_ifs <;> rfl
  obtain ⟨pre, e9, hpre⟩ := e9
  obtain ⟨w2, h2, hs2, hc2, htls, hrel, new, htr, hfil⟩ :=
    proceeding_uas_update_state_spec env w1 tdata (by rw [e1]; exact hcode)
      (by rw [e1, e2]; exact htp) (by rw [e1, e4]; exact hcseq)
  rw [e1, e2, e3] at hs2
  rw [e1] at hc2
  rw [e1, e2, e3, e5, e6] at hfil
  refine ⟨w2, h2, hs2, hc2, htls.trans e7, hrel.trans e8, pre ++ new, ?_, ?_⟩
  · rw [htr, e9, List.append_assoc]
  · rw [List.filter_append, hpre, List.nil_append]
    exact hfil

/-- Where the transport and the CSeq header are there to be read, a response
sent by a server transaction has the effect specified: for
every UAS transaction in Trying or Proceeding and every response
with a status code from 100 to 699 that the TU hands to `pjsip_tsx_send_msg`
and whose send step reports success, the call succeeds, the status code
becomes the code of the response, the next state is Proceeding for 1xx,
Terminated for 2xx when the method is INVITE and `handle_200resp` is 0,
Completed for every other 2xx and for 3xx-6xx, and the state callback for that
transition is the only call into the transaction user.  It is assumed that
the transaction holds a transport when a non-INVITE 2xx is sent, and that a
response sent over an unreliable transport with a code of 300 or more carries
a CSeq header (the code reads both unchecked). -/
theorem uas_response_next_state (env : Env) (w w1 : World) (tdata : pjsip_tx_data)
    (hrel : w.released = false)
    (hrole : w.tsx.role = .PJSIP_ROLE_UAS)
    (hstate : w.tsx.state = .PJSIP_TSX_STATE_TRYING ∨
      w.tsx.state = .PJSIP_TSX_STATE_PROCEEDING)
    (hwf : handler_consistent w)
    (hresp : tdata.msg.type = .PJSIP_RESPONSE_MSG)
    (hcode : 100 ≤ tdata.msg.line.status.code ∧ tdata.msg.line.status.code ≤ 699)
    (hsend : uas_send_response_step env w tdata = some (.PJ_SUCCESS, w1))
    (htp : 200 ≤ tdata.msg.line.status.code → tdata.msg.line.status.code ≤ 299 →
      w.tsx.method.id ≠ pjsip_method_e.PJSIP_INVITE_METHOD → w1.tsx.transport ≠ none)
    (hcseq : 300 ≤ tdata.msg.line.status.code → w.tsx.is_reliable = false →
      tdata.cseq ≠ none) :
    ∃ w' new, pjsip_tsx_send_msg env w (some tdata) = some (.PJ_SUCCESS, w') ∧
      w'.tsx.status_code = tdata.msg.line.status.code ∧
      w'.tsx.state =
        spec_uas_next_state w.tsx.method w.tsx.handle_200resp tdata.msg.line.status.code ∧
      w'.trace = w.trace ++ new ∧
      new.filter Effect.is_tu_callback =
        tu_state_callback w.tsx.tsx_user
          (spec_uas_next_state w.tsx.method w.tsx.handle_200resp tdata.msg.line.status.code)
          w.tsx.state .PJSIP_EVENT_TX_MSG (.tdata tdata) := by
  obtain ⟨w2, h2, hs2, hc2, htls, hrel2, new, htr, hfil⟩ :=
    proceeding_uas_tx_spec env (lock_tsx w) w1 tdata hresp hcode.1 hsend htp hcseq
  have hcall : call_state_handler env (lock_tsx w) (.tx_msg tdata) =
      some (.PJ_SUCCESS, w2) := by
    have hh : (lock_tsx w).tsx.state_handler = w.tsx.state_handler := rfl
    unfold call_state_handler
    rw [hh, hwf, hrole]
    rcases hstate with hs | hs
    · rw [hs]
      simp only [reduceCtorEq, if_false, tsx_state_handler_uas, tsx_on_state_trying,
        pjsip_event.type, ne_eq, not_true_eq_false, h2, true_and]
      rw [if_neg (by rw [hs2]; exact spec_uas_next_state_ne_trying _ _ _)]
    · rw [hs]
      simp only [reduceCtorEq, if_false, tsx_state_handler_uas]
      exact h2
  have hun : unlock_tsx w2 = some (.PJ_SUCCESS, { w2 with tls := w.tls }) := by
    unfold unlock_tsx
    rw [htls]
    rfl
  refine ⟨{ w2 with tls := w.tls, trace := w2.trace ++ [Effect.tx_data_dec_ref tdata] },
    new ++ [Effect.tx_data_dec_ref tdata], ?_, hc2, hs2, ?_, ?_⟩
  · unfold pjsip_tsx_send_msg
    rw [if_neg (by rw [hrel]; decide)]
    simp only [hcall, hun, World.log, if_true]
  · show w2.trace ++ _ = _
    rw [htr, List.append_assoc]
    rfl
  · rw [List.filter_append, hfil]
    show _ ++ [] = _
    rw [List.append_nil]
    rfl

theorem uas_response_next_state_witness :
    ∃ w, sample_uas_trying OPTIONS 0 = some w ∧
      ∃ w' new,
        pjsip_tsx_send_msg sample_env w (some (sample_response_tdata OPTIONS 200)) =
          some (.PJ_SUCCESS, w') ∧
        w'.tsx.status_code = 200 ∧
        w'.tsx.state = spec_uas_next_state OPTIONS 1 200 ∧
        w'.trace = w.trace ++ new ∧
        new.filter Effect.is_tu_callback =
          tu_state_callback (some ⟨true, true⟩) (spec_uas_next_state OPTIONS 1 200)
            .PJSIP_TSX_STATE_TRYING .PJSIP_EVENT_TX_MSG
            (.tdata (sample_response_tdata OPTIONS 200)) :=
  ⟨_, rfl, uas_response_next_state sample_env _ _ (sample_response_tdata OPTIONS 200)
    rfl rfl (Or.inl rfl) rfl rfl (by decide) rfl
    (fun _ _ _ => by decide) (fun h _ => absurd h (by decide))⟩

theorem proceeding_uas_update_state_null_transport (env : Env) (w : World)
    (tdata : pjsip_tx_data)
    (hcode : 200 ≤ w.tsx.status_code ∧ w.tsx.status_code ≤ 299)
    (hmethod : w.tsx.method.id ≠ pjsip_method_e.PJSIP_INVITE_METHOD)
    (htp : w.tsx.transport = none) :
    proceeding_uas_update_state env w tdata = none := by
  obtain ⟨h1, h2⟩ := status_in_class_2xx w.tsx.status_code hcode
  have h3 : (save_last_tx w tdata).tsx.transport = none := by
    unfold save_last_tx
    split
    · exact htp
    · exact htp
  have h4 : (save_last_tx w tdata).tsx.method = w.tsx.method := by
    unfold save_last_tx
    split <;> rfl
  unfold proceeding_uas_update_state
  simp only [h1, h2, hmethod, false_and, if_false, if_true, Bool.false_eq_true,
    proceeding_uas_2xx_timeout, h3, h4]

/-- C12 (the code at the failing inputs): a UAS transaction for a method other
than INVITE, in Trying or Proceeding, holds no transport (`tsx->transport` is
`NULL`: `pjsip_tsx_create_uas` keeps a transport only when
`pjsip_get_response_addr` has picked one, and a failed send drops it).  The
transaction user sends a 2xx response and the send step reports success, the
message having been handed to the endpoint for resolution.  The transaction
still holds no transport, and the handler goes on to read
`PJSIP_TRANSPORT_IS_RELIABLE(tsx->transport)` through the null pointer:
`pjsip_tsx_send_msg` has no defined result, the transaction does not reach
Completed and the transaction user gets no state callback. -/
theorem uas_non_invite_2xx_reads_null_transport (env : Env) (w w1 : World)
    (tdata : pjsip_tx_data)
    (hrel : w.released = false)
    (hrole : w.tsx.role = .PJSIP_ROLE_UAS)
    (hstate : w.tsx.state = .PJSIP_TSX_STATE_TRYING ∨
      w.tsx.state = .PJSIP_TSX_STATE_PROCEEDING)
    (hwf : handler_consistent w)
    (hresp : tdata.msg.type = .PJSIP_RESPONSE_MSG)
    (hcode : 200 ≤ tdata.msg.line.status.code ∧ tdata.msg.line.status.code ≤ 299)
    (hmethod : w.tsx.method.id ≠ pjsip_method_e.PJSIP_INVITE_METHOD)
    (htp : w.tsx.transport = none)
    (hsend : uas_send_response_step env w tdata = some (.PJ_SUCCESS, w1)) :
    w1.tsx.transport = none ∧
      w1.tsx.status_code = tdata.msg.line.status.code ∧
      spec_uas_next_state w.tsx.method w.tsx.handle_200resp tdata.msg.line.status.code =
        .PJSIP_TSX_STATE_COMPLETED ∧
      pjsip_tsx_send_msg env w (some tdata) = none := by
  have hsend2 := hsend
  unfold uas_send_response_step at hsend2
  have hh : tsx_on_state_proceeding_uas env (lock_tsx w) (.tx_msg tdata) =
      proceeding_uas_update_state env w1 tdata := by
    simp only [tsx_on_state_proceeding_uas, hresp, ne_eq, not_true_eq_false, if_false, hsend2]
  simp only [discard_last_tx_eq, tsx_set_status_code] at hsend2
  obtain ⟨tp, al, ra, fl, post, hw1, -, -, -, -, -, -, htpor⟩ :=
    tsx_send_msg_success _ _ _ _ hsend2
  have e0 : w1.tsx.transport = none := by
    rw [hw1]
    rcases htpor with h | h
    · rw [h]; exact htp
    · exact h
  have e1 : w1.tsx.status_code = tdata.msg.line.status.code := by rw [hw1]
  have e2 : w1.tsx.method = w.tsx.method := by rw [hw1]; rfl
  have hnone : tsx_on_state_proceeding_uas env (lock_tsx w) (.tx_msg tdata) = none := by
    rw [hh]
    exact proceeding_uas_update_state_null_transport env w1 tdata (by rw [e1]; exact hcode)
      (by rw [e2]; exact hmethod) e0
  have hcall : call_state_handler env (lock_tsx w) (.tx_msg tdata) = none := by
    have hhd : (lock_tsx w).tsx.state_handler = w.tsx.state_handler := rfl
    unfold call_state_handler
    rw [hhd, hwf, hrole]
    rcases hstate with hs | hs
    · rw [hs]
      simp only [reduceCtorEq, if_false, tsx_state_handler_uas, tsx_on_state_trying,
        pjsip_event.type, ne_eq, not_true_eq_false, hnone]
    · rw [hs]
      simp only [reduceCtorEq, if_false, tsx_state_handler_uas]
      exact hnone
  refine ⟨e0, e1, ?_, ?_⟩
  · unfold spec_uas_next_state
    rw [if_neg (by omega), if_pos (by omega), if_neg (fun h => hmethod h.1)]
  · unfold pjsip_tsx_send_msg
    rw [if_neg (by rw [hrel]; decide)]
    simp only [hcall]

theorem uas_non_invite_2xx_reads_null_transport_witness :
    ∃ w w1, sample_uas_trying_no_transport OPTIONS = some w ∧
      w.tsx.state = .PJSIP_TSX_STATE_TRYING ∧
      uas_send_response_step sample_env w (sample_response_tdata OPTIONS 200) =
        some (.PJ_SUCCESS, w1) ∧
      w1.tsx.transport = none ∧
      w1.tsx.status_code = 200 ∧
      spec_uas_next_state w.tsx.method w.tsx.handle_200resp 200 =
        .PJSIP_TSX_STATE_COMPLETED ∧
      pjsip_tsx_send_msg sample_env w (some (sample_response_tdata OPTIONS 200)) = none :=
  ⟨_, _, rfl, rfl, rfl,
    uas_non_invite_2xx_reads_null_transport sample_env
      ((sample_uas_trying_no_transport OPTIONS).getD (sample_uac_world OPTIONS)) _
      (sample_response_tdata OPTIONS 200) rfl rfl (Or.inl rfl) rfl rfl (by decide) (by decide)
      rfl rfl⟩

/-! ### Retransmissions received -/

theorem status_passthrough_eq (X : Option (pj_status_t × World)) :
    (match X with
      | none => none
      | some (status, w1) =>
        if status ≠ pj_status_t.PJ_SUCCESS then some (status, w1)
        else some (pj_status_t.PJ_SUCCESS, w1)) = X := by
  rcases X with _ | ⟨st, w1⟩
  · rfl
  · by_cases h : st = pj_status_t.PJ_SUCCESS
    · subst h; simp
    · simp [h]

theorem tsx_retransmit_no_resched (env : Env) (w : World) (t : pjsip_tx_data)
    (hlast : w.tsx.last_tx = some t) :
    tsx_retransmit env w false =
      tsx_send_msg env
        { w with tsx := { w.tsx with retransmit_count := w.tsx.retransmit_count + 1 } }
        (some t) := by
  unfold tsx_retransmit
  rw [hlast]
  simp only [Bool.false_eq_true, if_false]
  exact status_passthrough_eq _

/-- What a received message that only makes the transaction send its last
message again leaves behind, given the frame of the successful send. -/
theorem resend_frame (env : Env) (w0 w1 : World) (t : pjsip_tx_data)
    (h : tsx_send_msg env w0 (some t) = some (.PJ_SUCCESS, w1)) :
    w1.tsx.state = w0.tsx.state ∧ w1.tsx.status_code = w0.tsx.status_code ∧
    w1.tsx.last_tx = w0.tsx.last_tx ∧
    w1.tsx.retransmit_timer = w0.tsx.retransmit_timer ∧
    w1.tsx.timeout_timer = w0.tsx.timeout_timer ∧
    w1.tsx.retransmit_count = w0.tsx.retransmit_count ∧
    w1.tls = w0.tls ∧ w1.released = w0.released ∧
    ∃ new, w1.trace = w0.trace ++ new ∧
      new.filter Effect.is_tu_callback = [] ∧
      (∀ e ∈ new, Effect.is_send_step t e = true) ∧
      (w0.tsx.transport_flag.TSX_HAS_PENDING_TRANSPORT = true →
        new = [] ∧ w1.tsx.transport_flag.TSX_HAS_PENDING_SEND = true) ∧
      (w0.tsx.transport_flag.TSX_HAS_PENDING_TRANSPORT = false →
        ∃ e ∈ new, Effect.is_send e = true ∧ Effect.sent_tdata e = some t) := by
  obtain ⟨tp, al, ra, fl, post, hw1, -, -, -, hpost, hpend, hnp, -⟩ :=
    tsx_send_msg_success _ _ _ _ h
  subst hw1
  refine ⟨rfl, rfl, rfl, rfl, rfl, rfl, rfl, rfl, post, rfl,
    send_steps_no_tu_callback t post hpost, hpost, ?_, ?_⟩
  · intro hp
    exact ⟨(hpend hp).1, (hpend hp).2.1⟩
  · intro hp
    exact (hnp hp).1

theorem proceeding_uas_rx_eq (env : Env) (w : World) (rdata : pjsip_rx_data)
    (t : pjsip_tx_data) (hlast : w.tsx.last_tx = some t) :
    tsx_on_state_proceeding_uas env w (.rx_msg rdata) = tsx_send_msg env w (some t) := by
  unfold tsx_on_state_proceeding_uas tsx_send_msg
  simp only [hlast]
  split
  · rfl
  · exact status_passthrough_eq _

/-- C14 (amended): for every UAS transaction in Trying, Proceeding or
Completed, a received retransmission of the request (a non-ACK request) whose
send step reports success leaves the state, the status code, `last_tx` and
both timers as they were and makes no call into the transaction user.  In
Trying nothing is sent and the transaction is unchanged; in Proceeding and
Completed the last response is handed to the network again, or the pending
send is noted while the transport is pending; the retransmission counter is
unchanged in Proceeding and incremented by one in Completed. -/
theorem uas_request_retransmission (env : Env) (w w1 : World) (rdata : pjsip_rx_data)
    (msg : pjsip_msg) (t : pjsip_tx_data)
    (hrel : w.released = false)
    (hrole : w.tsx.role = .PJSIP_ROLE_UAS)
    (hstate : w.tsx.state = .PJSIP_TSX_STATE_TRYING ∨
      w.tsx.state = .PJSIP_TSX_STATE_PROCEEDING ∨
      w.tsx.state = .PJSIP_TSX_STATE_COMPLETED)
    (hwf : handler_consistent w)
    (hmsg : rdata.msg_info.msg = some msg)
    (hreq : msg.type = .PJSIP_REQUEST_MSG)
    (hnack : msg.line.req.method.id ≠ pjsip_method_e.PJSIP_ACK_METHOD)
    (hlast : w.tsx.state ≠ .PJSIP_TSX_STATE_TRYING → w.tsx.last_tx = some t)
    (hsend : w.tsx.state ≠ .PJSIP_TSX_STATE_TRYING →
      uas_retransmit_send_step env w t = some (.PJ_SUCCESS, w1)) :
    ∃ w' new, pjsip_tsx_recv_msg env w rdata = some w' ∧
      w'.tsx.state = w.tsx.state ∧
      w'.tsx.status_code = w.tsx.status_code ∧
      w'.tsx.last_tx = w.tsx.last_tx ∧
      w'.tsx.retransmit_timer = w.tsx.retransmit_timer ∧
      w'.tsx.timeout_timer = w.tsx.timeout_timer ∧
      w'.tsx.retransmit_count =
        (if w.tsx.state = .PJSIP_TSX_STATE_COMPLETED then w.tsx.retransmit_count + 1
         else w.tsx.retransmit_count) ∧
      w'.trace = w.trace ++ new ∧
      new.filter Effect.is_tu_callback = [] ∧
      (∀ e ∈ new, Effect.is_send_step t e = true) ∧
      (w.tsx.state = .PJSIP_TSX_STATE_TRYING → w' = w) ∧
      (w.tsx.state ≠ .PJSIP_TSX_STATE_TRYING →
        w.tsx.transport_flag.TSX_HAS_PENDING_TRANSPORT = true →
        new = [] ∧ w'.tsx.transport_flag.TSX_HAS_PENDING_SEND = true) ∧
      (w.tsx.state ≠ .PJSIP_TSX_STATE_TRYING →
        w.tsx.transport_flag.TSX_HAS_PENDING_TRANSPORT = false →
        ∃ e ∈ new, Effect.is_send e = true ∧ Effect.sent_tdata e = some t) := by
  have hh : (lock_tsx w).tsx.state_handler = w.tsx.state_handler := rfl
  rcases hstate with hs | hs | hs
  · -- Trying: the event is ignored
    have hcall : call_state_handler env (lock_tsx w) (.rx_msg rdata) =
        some (.PJ_SUCCESS, lock_tsx w) := by
      unfold call_state_handler
      rw [hh, hwf, hrole, hs]
      simp only [reduceCtorEq, if_false, tsx_state_handler_uas, tsx_on_state_trying,
        pjsip_event.type, ne_eq, not_false_eq_true, if_true]
    refine ⟨w, [], ?_, rfl, rfl, rfl, rfl, rfl, ?_, ?_, rfl, ?_, ?_, ?_, ?_⟩
    · unfold pjsip_tsx_recv_msg
      rw [if_neg (by rw [hrel]; decide)]
      simp only [hcall]
      rfl
    · rw [hs]; rfl
    · rw [List.append_nil]
    · intro e he; cases he
    · intro _; rfl
    · intro h; exact absurd hs h
    · intro h; exact absurd hs h
  · -- Proceeding: the last response is sent again
    have hne : w.tsx.state ≠ .PJSIP_TSX_STATE_TRYING := by rw [hs]; decide
    have hsend1 : tsx_send_msg env (lock_tsx w) (some t) = some (.PJ_SUCCESS, w1) := by
      have := hsend hne
      unfold uas_retransmit_send_step at this
      rw [if_neg (by rw [hs]; decide)] at this
      exact this
    have hcall : call_state_handler env (lock_tsx w) (.rx_msg rdata) =
        some (.PJ_SUCCESS, w1) := by
      unfold call_state_handler
      rw [hh, hwf, hrole, hs]
      simp only [reduceCtorEq, if_false, tsx_state_handler_uas]
      rw [proceeding_uas_rx_eq env (lock_tsx w) rdata t (hlast hne)]
      exact hsend1
    obtain ⟨f1, f2, f3, f4, f5, f6, f7, f8, new, f9, f10, f11, f12, f13⟩ :=
      resend_frame env _ _ t hsend1
    have hun : unlock_tsx w1 = some (.PJ_SUCCESS, { w1 with tls := w.tls }) := by
      unfold unlock_tsx
      rw [f7]
      rfl
    refine ⟨{ w1 with tls := w.tls }, new, ?_, f1, f2, f3, f4, f5, ?_, f9, f10, f11, ?_, ?_, ?_⟩
    · unfold pjsip_tsx_recv_msg
      rw [if_neg (by rw [hrel]; decide)]
      simp only [hcall, hun]
    · rw [if_neg (by rw [hs]; decide)]
      exact f6
    · intro h; rw [hs] at h; cases h
    · intro _ hp; exact f12 hp
    · intro _ hp; exact f13 hp
  · -- Completed: the last response is retransmitted, the counter incremented
    have hne : w.tsx.state ≠ .PJSIP_TSX_STATE_TRYING := by rw [hs]; decide
    have hsend1 : retransmit_send_step env w t = some (.PJ_SUCCESS, w1) := by
      have := hsend hne
      unfold uas_retransmit_send_step at this
      rw [if_pos hs] at this
      exact this
    unfold retransmit_send_step at hsend1
    have hcall : call_state_handler env (lock_tsx w) (.rx_msg rdata) =
        some (.PJ_SUCCESS, w1) := by
      unfold call_state_handler
      rw [hh, hwf, hrole, hs]
      simp only [reduceCtorEq, if_false, tsx_state_handler_uas, tsx_on_state_completed_uas,
        hmsg]
      have e : tsx_retransmit env (lock_tsx w) false = some (.PJ_SUCCESS, w1) :=
        (tsx_retransmit_no_resched env (lock_tsx w) t (hlast hne)).trans hsend1
      rw [if_neg (by rw [hreq]; exact fun h => h rfl), if_pos hnack, e]
      rfl
    obtain ⟨f1, f2, f3, f4, f5, f6, f7, f8, new, f9, f10, f11, f12, f13⟩ :=
      resend_frame env _ _ t hsend1
    have hun : unlock_tsx w1 = some (.PJ_SUCCESS, { w1 with tls := w.tls }) := by
      unfold unlock_tsx
      rw [f7]
      rfl
    refine ⟨{ w1 with tls := w.tls }, new, ?_, f1, f2, f3, f4, f5, ?_, f9, f10, f11, ?_, ?_, ?_⟩
    · unfold pjsip_tsx_recv_msg
      rw [if_neg (by rw [hrel]; decide)]
      simp only [hcall, hun]
    · rw [if_pos hs]
      exact f6
    · intro h; rw [hs] at h; cases h
    · intro _ hp; exact f12 hp
    · intro _ hp; exact f13 hp

theorem uas_request_retransmission_witness :
    ∃ w, sample_uas_responded INVITE 0 486 = some w ∧
      ∃ w' new,
        pjsip_tsx_recv_msg sample_env w (sample_request INVITE "z9hG4bKabc".toList) =
          some w' ∧
        w'.tsx.state = w.tsx.state ∧
        w'.tsx.status_code = w.tsx.status_code ∧
        w'.tsx.last_tx = w.tsx.last_tx ∧
        w'.tsx.retransmit_timer = w.tsx.retransmit_timer ∧
        w'.tsx.timeout_timer = w.tsx.timeout_timer ∧
        w'.tsx.retransmit_count =
          (if w.tsx.state = .PJSIP_TSX_STATE_COMPLETED then w.tsx.retransmit_count + 1
           else w.tsx.retransmit_count) ∧
        w'.trace = w.trace ++ new ∧
        new.filter Effect.is_tu_callback = [] ∧
        (∀ e ∈ new, Effect.is_send_step (sample_response_tdata INVITE 486) e = true) ∧
        (w.tsx.state = .PJSIP_TSX_STATE_TRYING → w' = w) ∧
        (w.tsx.state ≠ .PJSIP_TSX_STATE_TRYING →
          w.tsx.transport_flag.TSX_HAS_PENDING_TRANSPORT = true →
          new = [] ∧ w'.tsx.transport_flag.TSX_HAS_PENDING_SEND = true) ∧
        (w.tsx.state ≠ .PJSIP_TSX_STATE_TRYING →
          w.tsx.transport_flag.TSX_HAS_PENDING_TRANSPORT = false →
          ∃ e ∈ new, Effect.is_send e = true ∧
            Effect.sent_tdata e = some (sample_response_tdata INVITE 486)) :=
  ⟨_, rfl, uas_request_retransmission sample_env _ _
    (sample_request INVITE "z9hG4bKabc".toList) _ (sample_response_tdata INVITE 486)
    rfl rfl (Or.inr (Or.inr rfl)) rfl rfl rfl (by decide) (fun _ => rfl) (fun _ => rfl)⟩

/-- C14 (counterexample): an INVITE server transaction over an unreliable
transport that has sent a 486 response is in Completed with the retransmission
counter at 0; a received retransmission of the INVITE leaves it in Completed
and raises the counter to 1. -/
theorem uas_completed_request_retransmission_counts :
    ∃ w2 w3, sample_uas_responded INVITE 0 486 = some w2 ∧
      w2.tsx.state = .PJSIP_TSX_STATE_COMPLETED ∧
      w2.tsx.retransmit_count = 0 ∧
      pjsip_tsx_recv_msg sample_env w2 (sample_request INVITE "z9hG4bKabc".toList) =
        some w3 ∧
      w3.tsx.state = .PJSIP_TSX_STATE_COMPLETED ∧
      w3.tsx.retransmit_count = 1 :=
  ⟨_, _, rfl, rfl, rfl, rfl, rfl, rfl⟩

/-- C15 (amended): for every INVITE UAC transaction in Completed that holds an
ACK in `last_tx`, a received response with a status code of 200 or more whose
send step reports success causes that ACK to be handed to the network again
(or the pending send to be noted while the transport is pending), with no
call into the transaction user and no change of state, status code or
`last_tx`; for a non-INVITE UAC transaction in Completed a received message
changes nothing at all. -/
theorem uac_completed_response_retransmission (env : Env) (w w1 : World)
    (rdata : pjsip_rx_data) (msg : pjsip_msg) (ack : pjsip_tx_data)
    (hrel : w.released = false)
    (hrole : w.tsx.role = .PJSIP_ROLE_UAC)
    (hstate : w.tsx.state = .PJSIP_TSX_STATE_COMPLETED)
    (hwf : handler_consistent w) :
    (w.tsx.method.id ≠ pjsip_method_e.PJSIP_INVITE_METHOD →
      pjsip_tsx_recv_msg env w rdata = some w) ∧
    (w.tsx.method.id = pjsip_method_e.PJSIP_INVITE_METHOD →
      rdata.msg_info.msg = some msg → msg.type = .PJSIP_RESPONSE_MSG →
      msg.line.status.code ≥ 200 → w.tsx.last_tx = some ack →
      retransmit_send_step env w ack = some (.PJ_SUCCESS, w1) →
      ∃ w' new, pjsip_tsx_recv_msg env w rdata = some w' ∧
        w'.tsx.state = w.tsx.state ∧
        w'.tsx.status_code = w.tsx.status_code ∧
        w'.tsx.last_tx = some ack ∧
        w'.trace = w.trace ++ new ∧
        new.filter Effect.is_tu_callback = [] ∧
        (∀ e ∈ new, Effect.is_send_step ack e = true) ∧
        (w.tsx.transport_flag.TSX_HAS_PENDING_TRANSPORT = true →
          new = [] ∧ w'.tsx.transport_flag.TSX_HAS_PENDING_SEND = true) ∧
        (w.tsx.transport_flag.TSX_HAS_PENDING_TRANSPORT = false →
          ∃ e ∈ new, Effect.is_send e = true ∧ Effect.sent_tdata e = some ack)) := by
  have hh : (lock_tsx w).tsx.state_handler = w.tsx.state_handler := rfl
  have hhandler : (lock_tsx w).tsx.state_handler = some .tsx_on_state_completed_uac := by
    rw [hh, hwf, if_pos hrole, hstate]; rfl
  constructor
  · intro hm
    have hm2 : (lock_tsx w).tsx.method.id ≠ pjsip_method_e.PJSIP_INVITE_METHOD := hm
    have hcall : call_state_handler env (lock_tsx w) (.rx_msg rdata) =
        some (.PJ_SUCCESS, lock_tsx w) := by
      unfold call_state_handler
      rw [hhandler]
      simp only [tsx_on_state_completed_uac]
      rw [if_neg hm2]
    unfold pjsip_tsx_recv_msg
    rw [if_neg (by rw [hrel]; decide)]
    simp only [hcall]
    rfl
  · intro hm hmsg hresp hcode hlast hsend
    have hm2 : (lock_tsx w).tsx.method.id = pjsip_method_e.PJSIP_INVITE_METHOD := hm
    unfold retransmit_send_step at hsend
    have e : tsx_retransmit env (lock_tsx w) false = some (.PJ_SUCCESS, w1) :=
      (tsx_retransmit_no_resched env (lock_tsx w) ack hlast).trans hsend
    have hcall : call_state_handler env (lock_tsx w) (.rx_msg rdata) =
        some (.PJ_SUCCESS, w1) := by
      unfold call_state_handler
      rw [hhandler]
      simp only [tsx_on_state_completed_uac, hmsg]
      rw [if_pos hm2, if_pos ⟨hresp, hcode⟩, e]
      rfl
    obtain ⟨f1, f2, f3, f4, f5, f6, f7, f8, new, f9, f10, f11, f12, f13⟩ :=
      resend_frame env _ _ ack hsend
    have hun : unlock_tsx w1 = some (.PJ_SUCCESS, { w1 with tls := w.tls }) := by
      unfold unlock_tsx
      rw [f7]
      rfl
    refine ⟨{ w1 with tls := w.tls }, new, ?_, f1, f2, f3.trans hlast, f9, f10, f11, f12, f13⟩
    unfold pjsip_tsx_recv_msg
    rw [if_neg (by rw [hrel]; decide)]
    simp only [hcall, hun]

theorem uac_completed_response_retransmission_witness :
    ∃ w, sample_uac_responded INVITE 0 486 = some w ∧
      ∃ w' new,
        pjsip_tsx_recv_msg sample_env_ack w (sample_response INVITE "z9hG4bKabc".toList 486) =
          some w' ∧
        w'.tsx.state = w.tsx.state ∧
        w'.tsx.status_code = w.tsx.status_code ∧
        w'.tsx.last_tx = some sample_ack ∧
        w'.trace = w.trace ++ new ∧
        new.filter Effect.is_tu_callback = [] ∧
        (∀ e ∈ new, Effect.is_send_step sample_ack e = true) ∧
        (w.tsx.transport_flag.TSX_HAS_PENDING_TRANSPORT = true →
          new = [] ∧ w'.tsx.transport_flag.TSX_HAS_PENDING_SEND = true) ∧
        (w.tsx.transport_flag.TSX_HAS_PENDING_TRANSPORT = false →
          ∃ e ∈ new, Effect.is_send e = true ∧ Effect.sent_tdata e = some sample_ack) := by
  refine ⟨_, rfl, ?_⟩
  exact (uac_completed_response_retransmission sample_env_ack
    ((sample_uac_responded INVITE 0 486).getD (sample_uac_world INVITE)) _
    (sample_response INVITE "z9hG4bKabc".toList 486) _ sample_ack
    rfl rfl rfl rfl).2 rfl rfl rfl (by decide) rfl rfl

/-- C15 (counterexample): an INVITE client transaction in Completed holds its
transport and the ACK; the transport then breaks, and a retransmission of the
486 response is received: the send of the ACK fails, and the transaction
moves to Terminated with status code 503 and a state callback into the
transaction user. -/
theorem uac_completed_retransmission_send_failure :
    ∃ w w1, sample_uac_responded INVITE 0 486 = some w ∧
      w.tsx.state = .PJSIP_TSX_STATE_COMPLETED ∧
      w.tsx.status_code = 486 ∧
      w.tsx.last_tx = some sample_ack ∧
      pjsip_tsx_recv_msg sample_env_send_fails w
        (sample_response INVITE "z9hG4bKabc".toList 486) = some w1 ∧
      w1.tsx.state = .PJSIP_TSX_STATE_TERMINATED ∧
      w1.tsx.status_code = 503 ∧
      Effect.on_tsx_state .PJSIP_TSX_STATE_TERMINATED .PJSIP_TSX_STATE_COMPLETED
        .PJSIP_EVENT_TRANSPORT_ERROR .null ∈ w1.trace.drop w.trace.length := by
  refine ⟨_, _, rfl, rfl, rfl, rfl, rfl, rfl, rfl, ?_⟩
  decide

/-! ### Final response to an INVITE client transaction -/

theorem sends_only_append (t : pjsip_tx_data) (l1 l2 : List Effect)
    (h1 : sends_only t l1) (h2 : sends_only t l2) : sends_only t (l1 ++ l2) := by
  intro e he hs
  rcases List.mem_append.mp he with h | h
  · exact h1 e h hs
  · exact h2 e h hs

theorem sends_only_of_no_send (t : pjsip_tx_data) (l : List Effect)
    (h : l.filter Effect.is_send = []) : sends_only t l := by
  intro e he hs
  rw [List.filter_eq_nil_iff] at h
  exact absurd hs (h e he)

theorem tsx_send_msg_resolve_total (env : Env) (w : World) (t : pjsip_tx_data)
    (st0 : pj_status_t) :
    ∃ st w', tsx_send_msg_resolve env w t st0 = some (st, w') ∧
      w'.tsx.last_tx = w.tsx.last_tx ∧ w'.tsx.method = w.tsx.method ∧
      w'.tls = w.tls ∧ w'.released = w.released ∧
      ∃ post, w'.trace = w.trace ++ post ∧
        sends_only t post ∧ post.filter Effect.is_create_ack = [] ∧
        (w.tsx.transport_flag.TSX_HAS_RESOLVED_SERVER = false →
          ∃ e ∈ post, Effect.is_send e = true ∧ Effect.sent_tdata e = some t) := by
  have hty : pjsip_event_id_e.PJSIP_EVENT_TRANSPORT_ERROR ≠ .PJSIP_EVENT_RX_MSG := by decide
  unfold tsx_send_msg_resolve
  by_cases hres : w.tsx.transport_flag.TSX_HAS_RESOLVED_SERVER = true
  · simp only [hres, if_true, tsx_set_status_code, tsx_set_state_terminated env _ _ _ hty]
    refine ⟨_, _, rfl, rfl, rfl, rfl, rfl, ?_⟩
    simp only [List.append_assoc]
    refine ⟨_, rfl, ?_, ?_, ?_⟩
    · apply sends_only_of_no_send
      simp only [List.filter_append, (tu_state_callback_filter _ _ _ _ _).2.1,
        (terminated_timer_ops_filter _ _).2.1, List.append_nil]
    · simp only [List.filter_append, (tu_state_callback_filter _ _ _ _ _).2.2,
        (terminated_timer_ops_filter _ _).2.2, List.append_nil]
    · intro h; cases h
  · simp only [hres, Bool.false_eq_true, if_false]
    by_cases hreq : t.msg.type = .PJSIP_REQUEST_MSG
    · simp only [hreq, if_true]
      by_cases hs : (if env.send_request_stateless = pj_status_t.PJ_EPENDING then
          pj_status_t.PJ_SUCCESS else env.send_request_stateless) = pj_status_t.PJ_SUCCESS
      · simp only [hs, ne_eq, not_true_eq_false, if_false, World.log, set_transport_flag]
        refine ⟨_, _, rfl, rfl, rfl, rfl, rfl,
          [Effect.tx_data_add_ref t, Effect.send_request_stateless t], ?_, ?_, rfl, ?_⟩
        · simp only [List.append_assoc, List.singleton_append]
        · intro e he hs
          simp only [List.mem_cons, List.mem_singleton, List.not_mem_nil, or_false] at he
          rcases he with rfl | rfl
          · cases hs
          · rfl
        · intro _
          exact ⟨_, List.mem_cons_of_mem _ (List.mem_cons_self _ _), rfl, rfl⟩
      · simp only [hs, ne_eq, not_false_eq_true, if_true, false_and, if_false, World.log,
          set_transport_flag]
        refine ⟨_, _, rfl, rfl, rfl, rfl, rfl, [Effect.tx_data_add_ref t,
          Effect.send_request_stateless t, Effect.tx_data_dec_ref t], ?_, ?_, rfl, ?_⟩
        · simp only [List.append_assoc, List.singleton_append, List.cons_append,
            List.nil_append]
        · intro e he hs
          simp only [List.mem_cons, List.mem_singleton, List.not_mem_nil, or_false] at he
          rcases he with rfl | rfl | rfl
          · cases hs
          · rfl
          · cases hs
        · intro _
          exact ⟨_, List.mem_cons_of_mem _ (List.mem_cons_self _ _), rfl, rfl⟩
    · simp only [hreq, if_false]
      by_cases hs : (if env.send_response = pj_status_t.PJ_EPENDING then
          pj_status_t.PJ_SUCCESS else env.send_response) = pj_status_t.PJ_SUCCESS
      · simp only [hs, ne_eq, not_true_eq_false, if_false, World.log, set_transport_flag]
        refine ⟨_, _, rfl, rfl, rfl, rfl, rfl,
          [Effect.tx_data_add_ref t, Effect.send_response t], ?_, ?_, rfl, ?_⟩
        · simp only [List.append_assoc, List.singleton_append]
        · intro e he hs
          simp only [List.mem_cons, List.mem_singleton, List.not_mem_nil, or_false] at he
          rcases he with rfl | rfl
          · cases hs
          · rfl
        · intro _
          exact ⟨_, List.mem_cons_of_mem _ (List.mem_cons_self _ _), rfl, rfl⟩
      · simp only [hs, ne_eq, not_false_eq_true, if_true, false_and, if_false, World.log,
          set_transport_flag]
        refine ⟨_, _, rfl, rfl, rfl, rfl, rfl, [Effect.tx_data_add_ref t,
          Effect.send_response t, Effect.tx_data_dec_ref t], ?_, ?_, rfl, ?_⟩
        · simp only [List.append_assoc, List.singleton_append, List.cons_append,
            List.nil_append]
        · intro e he hs
          simp only [List.mem_cons, List.mem_singleton, List.not_mem_nil, or_false] at he
          rcases he with rfl | rfl | rfl
          · cases hs
          · rfl
          · cases hs
        · intro _
          exact ⟨_, List.mem_cons_of_mem _ (List.mem_cons_self _ _), rfl, rfl⟩

/-- `tsx_send_msg` always returns for a message; whatever its status, it
leaves `last_tx`, the method, the lock frames and the liveness of the memory
as they were, the only sends it makes are of the message it was given and it
builds no ACK; with a transport pending it sends nothing and notes the
pending send, and otherwise it hands the message to the network unless the
transaction has neither a transport nor an unresolved destination. -/
theorem tsx_send_msg_total (env : Env) (w : World) (t : pjsip_tx_data) :
    ∃ st w', tsx_send_msg env w (some t) = some (st, w') ∧
      w'.tsx.last_tx = w.tsx.last_tx ∧ w'.tsx.method = w.tsx.method ∧
      w'.tls = w.tls ∧ w'.released = w.released ∧
      ∃ post, w'.trace = w.trace ++ post ∧
        sends_only t post ∧ post.filter Effect.is_create_ack = [] ∧
        (w.tsx.transport_flag.TSX_HAS_PENDING_TRANSPORT = true →
          st = .PJ_SUCCESS ∧ post = [] ∧
          w'.tsx.transport_flag.TSX_HAS_PENDING_SEND = true) ∧
        (w.tsx.transport_flag.TSX_HAS_PENDING_TRANSPORT = false →
          (w.tsx.transport ≠ none ∨
            w.tsx.transport_flag.TSX_HAS_RESOLVED_SERVER = false) →
          ∃ e ∈ post, Effect.is_send e = true ∧ Effect.sent_tdata e = some t) := by
  unfold tsx_send_msg
  simp only
  by_cases hp : w.tsx.transport_flag.TSX_HAS_PENDING_TRANSPORT = true
  · rw [if_pos hp]
    refine ⟨_, _, rfl, rfl, rfl, rfl, rfl, [], ?_, ?_, rfl, ?_, ?_⟩
    · simp only [set_transport_flag, List.append_nil]
    · intro e he; cases he
    · intro _; exact ⟨rfl, rfl, rfl⟩
    · intro h; rw [hp] at h; cases h
  · rw [if_neg hp]
    cases htp : w.tsx.transport with
    | none =>
      simp only
      obtain ⟨st, w', h1, h2, h3, h4, h5, post, h6, h7, h8, h9⟩ :=
        tsx_send_msg_resolve_total env w t .PJ_SUCCESS
      refine ⟨st, w', h1, h2, h3, h4, h5, post, h6, h7, h8, ?_, ?_⟩
      · intro h; exact absurd h hp
      · intro _ hor
        rcases hor with h | h
        · exact absurd rfl h
        · exact h9 h
    | some tp =>
      simp only
      by_cases hst : (if env.transport_send = pj_status_t.PJ_EPENDING then
          pj_status_t.PJ_SUCCESS else env.transport_send) ≠ pj_status_t.PJ_SUCCESS
      · rw [if_pos hst]
        obtain ⟨st, w', h1, h2, h3, h4, h5, post, h6, h7, h8, -⟩ :=
          tsx_send_msg_resolve_total env
            { ((w.log (.transport_send tp t)).log (.transport_dec_ref tp)) with
              tsx := { ((w.log (.transport_send tp t)).log (.transport_dec_ref tp)).tsx with
                transport := none
                addr_len := 0
                res_addr := { transport := none, addr_len := 0 } } } t
            (if env.transport_send = pj_status_t.PJ_EPENDING then
              pj_status_t.PJ_SUCCESS else env.transport_send)
        refine ⟨st, w', h1, h2, h3, h4, h5,
          [Effect.transport_send tp t, Effect.transport_dec_ref tp] ++ post, ?_, ?_, ?_, ?_, ?_⟩
        · rw [h6]
          simp only [World.log, List.append_assoc, List.singleton_append, List.cons_append,
            List.nil_append]
        · apply sends_only_append _ _ _ _ h7
          intro e he hs
          simp only [List.mem_cons, List.mem_singleton, List.not_mem_nil, or_false] at he
          rcases he with rfl | rfl
          · rfl
          · cases hs
        · rw [List.filter_append, h8]
          rfl
        · intro h; exact absurd h hp
        · intro _ _
          exact ⟨_, List.mem_cons_self _ _, rfl, rfl⟩
      · rw [if_neg hst]
        refine ⟨_, _, rfl, rfl, rfl, rfl, rfl, [Effect.transport_send tp t], rfl, ?_, rfl,
          ?_, ?_⟩
        · intro e he hs
          simp only [List.mem_singleton] at he
          subst he
          rfl
        · intro h; exact absurd h hp
        · intro _ _
          exact ⟨_, List.mem_cons_self _ _, rfl, rfl⟩

theorem status_in_class_3xx_6xx (c : Int) (h : 300 ≤ c ∧ c ≤ 699) :
    PJSIP_IS_STATUS_IN_CLASS c 100 = false ∧ PJSIP_IS_STATUS_IN_CLASS c 200 = false ∧
      (c ≥ 300 ∧ c ≤ 699) := by
  have h1 : 3 ≤ Int.tdiv c 100 := by
    rw [Int.tdiv_eq_ediv (by omega) (by omega)]
    omega
  have h2 : Int.tdiv 100 100 = 1 := by decide
  have h3 : Int.tdiv 200 100 = 2 := by decide
  simp only [PJSIP_IS_STATUS_IN_CLASS, h2, h3, decide_eq_false_iff_not]
  refine ⟨by omega, by omega, by omega, h.2⟩

theorem proceeding_uac_3xx_eq (env : Env) (w : World) (rdata : pjsip_rx_data)
    (msg : pjsip_msg) (req ack : pjsip_tx_data)
    (hmethod : w.tsx.method.id = pjsip_method_e.PJSIP_INVITE_METHOD)
    (hmsg : rdata.msg_info.msg = some msg)
    (hresp : msg.type = .PJSIP_RESPONSE_MSG)
    (hcode : 300 ≤ msg.line.status.code ∧ msg.line.status.code ≤ 699)
    (hlast : w.tsx.last_tx = some req)
    (hack : env.create_ack = .ok ack) :
    tsx_on_state_proceeding_uac env w (.rx_msg rdata) =
      match proceeding_uac_send_ack env (uac_notified_world env w rdata msg req)
          (some ack) with
      | none => none
      | some (status, w) =>
        if status ≠ .PJ_SUCCESS then some (status, w)
        else some (.PJ_SUCCESS, proceeding_uac_start_timer_d env w) := by
  obtain ⟨hcl1, hcl2, hcl3⟩ := status_in_class_3xx_6xx _ hcode
  have hc1 : PJSIP_TSX_STATE_COMPLETED ≠ PJSIP_TSX_STATE_TERMINATED := by decide
  have hc2 : PJSIP_TSX_STATE_COMPLETED ≠ PJSIP_TSX_STATE_DESTROYED := by decide
  simp only [tsx_on_state_proceeding_uac, hmsg, hresp, ne_eq, not_true_eq_false, if_false,
    tsx_on_state_proceeding_uac_status, tsx_set_status_code, hcl1, hcl2, hcl3,
    Bool.false_eq_true, and_self, if_true, proceeding_uac_create_ack,
    pjsip_endpt_cancel_timer, set_timer_id, World.log, hmethod, hlast,
    pjsip_event.rx_msg_rdata, hack, pjsip_event.user1,
    tsx_set_state_plain_response env _ _ rdata msg hc1 hc2 hmsg hresp,
    uac_notified_world]

theorem proceeding_uac_start_timer_d_eq (env : Env) (w : World) :
    ∃ d, proceeding_uac_start_timer_d env w =
      pjsip_endpt_schedule_timer env w .TSX_TIMER_TIMEOUT d := ⟨_, rfl⟩

theorem proceeding_uac_3xx_spec (env : Env) (w : World) (rdata : pjsip_rx_data)
    (msg : pjsip_msg) (req ack : pjsip_tx_data)
    (hmethod : w.tsx.method.id = pjsip_method_e.PJSIP_INVITE_METHOD)
    (hmsg : rdata.msg_info.msg = some msg)
    (hresp : msg.type = .PJSIP_RESPONSE_MSG)
    (hcode : 300 ≤ msg.line.status.code ∧ msg.line.status.code ≤ 699)
    (hlast : w.tsx.last_tx = some req)
    (hack : env.create_ack = .ok ack)
    (hfresh : ack.ptr ≠ req.ptr) :
    ∃ st w2 w3, tsx_send_msg env (uac_notified_world env w rdata msg req) (some ack) =
        some (st, w2) ∧
      tsx_on_state_proceeding_uac env w (.rx_msg rdata) = some (st, w3) ∧
      w3.tsx.last_tx = some ack ∧ w3.tls = w.tls ∧ w3.released = w.released ∧
      (∃ mid, w2.trace = (uac_notified_world env w rdata msg req).trace ++ mid ∧
        sends_only ack mid ∧ mid.filter Effect.is_create_ack = [] ∧
        (w.tsx.transport_flag.TSX_HAS_PENDING_TRANSPORT = true →
          mid = [] ∧ w2.tsx.transport_flag.TSX_HAS_PENDING_SEND = true) ∧
        (w.tsx.transport_flag.TSX_HAS_PENDING_TRANSPORT = false →
          (w.tsx.transport ≠ none ∨
            w.tsx.transport_flag.TSX_HAS_RESOLVED_SERVER = false) →
          ∃ e ∈ mid, Effect.is_send e = true ∧ Effect.sent_tdata e = some ack)) ∧
      ∃ post, w3.trace = w2.trace ++ post ∧
        Effect.tx_data_dec_ref req ∈ post ∧
        post.filter Effect.is_send = [] ∧ post.filter Effect.is_create_ack = [] ∧
        post.filter Effect.is_tu_callback = [] := by
  rw [proceeding_uac_3xx_eq env w rdata msg req ack hmethod hmsg hresp hcode hlast hack]
  obtain ⟨st, w2, h1, h2, h3, h4, h5, mid, h6, h7, h8, h9, h10⟩ :=
    tsx_send_msg_total env (uac_notified_world env w rdata msg req) ack
  have hm1 : (uac_notified_world env w rdata msg req).tsx.method.id =
      pjsip_method_e.PJSIP_INVITE_METHOD := hmethod
  have hl1 : (uac_notified_world env w rdata msg req).tsx.last_tx = some req := hlast
  have hl2 : w2.tsx.last_tx = some req := h2.trans hl1
  have hsa : proceeding_uac_send_ack env (uac_notified_world env w rdata msg req)
      (some ack) =
      some (st, { (w2.log (.tx_data_dec_ref req)) with
        tsx := { w2.tsx with last_tx := some ack } }) := by
    unfold proceeding_uac_send_ack
    rw [if_pos hm1, h1]
    simp only [hl2, Option.map_some', ne_eq, Option.some.injEq]
    rw [if_pos (fun h => hfresh h.symm)]
  rw [hsa]
  simp only
  have h9' : w.tsx.transport_flag.TSX_HAS_PENDING_TRANSPORT = true →
      mid = [] ∧ w2.tsx.transport_flag.TSX_HAS_PENDING_SEND = true :=
    fun hp => (h9 hp).2
  have htls : w2.tls = w.tls := h4
  have hrel : w2.released = w.released := h5
  by_cases hst : st = .PJ_SUCCESS
  · obtain ⟨d, hd⟩ := proceeding_uac_start_timer_d_eq env
      { (w2.log (.tx_data_dec_ref req)) with tsx := { w2.tsx with last_tx := some ack } }
    subst hst
    simp only [ne_eq, not_true_eq_false, if_false]
    refine ⟨_, w2, _, h1, rfl, ?_, ?_, ?_, ⟨mid, h6, h7, h8, h9', h10⟩,
      [Effect.tx_data_dec_ref req, Effect.schedule_timer .TSX_TIMER_TIMEOUT d], ?_, ?_, rfl,
      rfl, rfl⟩
    · rw [hd]; rfl
    · rw [hd]; exact htls
    · rw [hd]; exact hrel
    · rw [hd]
      simp only [pjsip_endpt_schedule_timer, set_timer_id, World.log, List.append_assoc,
        List.singleton_append]
    · exact List.mem_cons_self _ _
  · simp only [ne_eq, hst, not_false_eq_true, if_true]
    refine ⟨st, w2, _, h1, rfl, rfl, htls, hrel, ⟨mid, h6, h7, h8, h9', h10⟩,
      [Effect.tx_data_dec_ref req], rfl, List.mem_cons_self _ _, rfl, rfl, rfl⟩

/-- C11: for every INVITE UAC transaction in Calling or Proceeding that holds
its request in `last_tx` and receives a response with status 300 to 699 for
which the ACK is built (as a buffer of its own), the effects happen in this
order: timers are cancelled, the ACK is built from the request in `last_tx`,
the state becomes Completed and the transaction user is told (with `last_tx`
still the request); from that world on, and not before, the ACK is passed to
`tsx_send_msg`, which sends nothing but the ACK (or notes the pending send),
and then the request is released and the ACK is the new `last_tx`. -/
theorem invite_uac_3xx_ack_after_notify (env : Env) (w : World) (rdata : pjsip_rx_data)
    (msg : pjsip_msg) (req ack : pjsip_tx_data)
    (hrel : w.released = false)
    (hrole : w.tsx.role = .PJSIP_ROLE_UAC)
    (hmethod : w.tsx.method.id = pjsip_method_e.PJSIP_INVITE_METHOD)
    (hstate : w.tsx.state = .PJSIP_TSX_STATE_CALLING ∨
      w.tsx.state = .PJSIP_TSX_STATE_PROCEEDING)
    (hwf : handler_consistent w)
    (hmsg : rdata.msg_info.msg = some msg)
    (hresp : msg.type = .PJSIP_RESPONSE_MSG)
    (hcode : 300 ≤ msg.line.status.code ∧ msg.line.status.code ≤ 699)
    (hlast : w.tsx.last_tx = some req)
    (hack : env.create_ack = .ok ack)
    (hfresh : ack.ptr ≠ req.ptr) :
    ∃ w1 st w2 w' pre mid post,
      w1.tsx.state = .PJSIP_TSX_STATE_COMPLETED ∧
      w1.tsx.last_tx = some req ∧
      w1.tsx.status_code = msg.line.status.code ∧
      w1.trace = w.trace ++ pre ++ [Effect.create_ack req rdata] ++
        tu_callbacks_rx w.tsx.tsx_user rdata .PJSIP_TSX_STATE_COMPLETED w.tsx.state ∧
      pre.filter Effect.is_send = [] ∧ pre.filter Effect.is_tu_callback = [] ∧
      pre.filter Effect.is_create_ack = [] ∧
      tsx_send_msg env w1 (some ack) = some (st, w2) ∧
      w2.trace = w1.trace ++ mid ∧
      sends_only ack mid ∧ mid.filter Effect.is_create_ack = [] ∧
      (w.tsx.transport_flag.TSX_HAS_PENDING_TRANSPORT = true →
        mid = [] ∧ w2.tsx.transport_flag.TSX_HAS_PENDING_SEND = true) ∧
      (w.tsx.transport_flag.TSX_HAS_PENDING_TRANSPORT = false →
        (w.tsx.transport ≠ none ∨ w.tsx.transport_flag.TSX_HAS_RESOLVED_SERVER = false) →
        ∃ e ∈ mid, Effect.is_send e = true ∧ Effect.sent_tdata e = some ack) ∧
      pjsip_tsx_recv_msg env w rdata = some w' ∧
      w'.tsx.last_tx = some ack ∧
      w'.trace = w2.trace ++ post ∧
      Effect.tx_data_dec_ref req ∈ post ∧
      post.filter Effect.is_send = [] ∧ post.filter Effect.is_create_ack = [] ∧
      post.filter Effect.is_tu_callback = [] := by
  have hh : (lock_tsx w).tsx.state_handler = w.tsx.state_handler := rfl
  rcases hstate with hs | hs
  · -- Calling
    have hhandler : (lock_tsx w).tsx.state_handler = some .tsx_on_state_calling := by
      rw [hh, hwf, if_pos hrole, hs]; rfl
    obtain ⟨st, w2, w3, h1, h2, h3, h4, h5, ⟨mid, h6, h7, h8, h9, h10⟩, post, h11, h12,
      h13, h14, h15⟩ :=
      proceeding_uac_3xx_spec env
        (pjsip_endpt_cancel_timer (cancel_retransmit_timer (lock_tsx w)) .TSX_TIMER_TIMEOUT)
        rdata msg req ack
        (by simp only [cancel_retransmit_timer_eq, pjsip_endpt_cancel_timer, set_timer_id,
              World.log]; exact hmethod)
        hmsg hresp hcode
        (by simp only [cancel_retransmit_timer_eq, pjsip_endpt_cancel_timer, set_timer_id,
              World.log]; exact hlast)
        hack hfresh
    have hcall : call_state_handler env (lock_tsx w) (.rx_msg rdata) =
        some (.PJ_SUCCESS, w3) := by
      unfold call_state_handler
      rw [hhandler]
      simp only [tsx_on_state_calling, hmsg]
      rw [if_neg (by rw [hresp]; exact fun h => h rfl), h2]
    have hun : unlock_tsx w3 = some (.PJ_SUCCESS, { w3 with tls := w.tls }) := by
      unfold unlock_tsx
      rw [h4]
      simp only [cancel_retransmit_timer_eq, pjsip_endpt_cancel_timer, set_timer_id,
        World.log, lock_tsx, if_true]
    refine ⟨_, st, w2, { w3 with tls := w.tls },
      (if w.tsx.retransmit_timer._timer_id ≠ -1 then
          [Effect.cancel_timer .TSX_TIMER_RETRANSMISSION] else []) ++
        [Effect.cancel_timer .TSX_TIMER_TIMEOUT, Effect.cancel_timer .TSX_TIMER_TIMEOUT],
      mid, post, ?_, ?_, ?_, ?_, ?_, ?_, ?_, h1, h6, h7, h8, ?_, ?_, ?_, h3, h11, h12, h13,
      h14, h15⟩
    · rfl
    · simp only [uac_notified_world, cancel_retransmit_timer_eq, pjsip_endpt_cancel_timer,
        set_timer_id, World.log, tsx_set_status_code]
      exact hlast
    · simp only [uac_notified_world, cancel_retransmit_timer_eq, pjsip_endpt_cancel_timer,
        set_timer_id, World.log, tsx_set_status_code]
    · simp only [uac_notified_world, cancel_retransmit_timer_eq, pjsip_endpt_cancel_timer,
        set_timer_id, World.log, tsx_set_status_code, lock_tsx, List.append_assoc,
        List.singleton_append, List.cons_append, List.nil_append]
    · split_ifs <;> rfl
    · split_ifs <;> rfl
    · split_ifs <;> rfl
    · intro hp
      apply h9
      simp only [cancel_retransmit_timer_eq, pjsip_endpt_cancel_timer, set_timer_id,
        World.log, lock_tsx]
      exact hp
    · intro hp hor
      apply h10
      · simp only [cancel_retransmit_timer_eq, pjsip_endpt_cancel_timer, set_timer_id,
          World.log, lock_tsx]
        exact hp
      · simp only [cancel_retransmit_timer_eq, pjsip_endpt_cancel_timer, set_timer_id,
          World.log, lock_tsx]
        exact hor
    · unfold pjsip_tsx_recv_msg
      rw [if_neg (by rw [hrel]; decide)]
      simp only [hcall, hun]
  · -- Proceeding
    have hhandler : (lock_tsx w).tsx.state_handler = some .tsx_on_state_proceeding_uac := by
      rw [hh, hwf, if_pos hrole, hs]; rfl
    obtain ⟨st, w2, w3, h1, h2, h3, h4, h5, ⟨mid, h6, h7, h8, h9, h10⟩, post, h11, h12,
      h13, h14, h15⟩ :=
      proceeding_uac_3xx_spec env (lock_tsx w) rdata msg req ack hmethod hmsg hresp hcode
        hlast hack hfresh
    have hcall : call_state_handler env (lock_tsx w) (.rx_msg rdata) = some (st, w3) := by
      unfold call_state_handler
      rw [hhandler]
      exact h2
    have hun : unlock_tsx w3 = some (.PJ_SUCCESS, { w3 with tls := w.tls }) := by
      unfold unlock_tsx
      rw [h4]
      simp only [lock_tsx, if_true]
    refine ⟨_, st, w2, { w3 with tls := w.tls }, [Effect.cancel_timer .TSX_TIMER_TIMEOUT],
      mid, post, ?_, ?_, ?_, ?_, rfl, rfl, rfl, h1, h6, h7, h8, h9, h10, ?_, h3, h11, h12,
      h13, h14, h15⟩
    · rfl
    · exact hlast
    · rfl
    · simp only [uac_notified_world, pjsip_endpt_cancel_timer,
        set_timer_id, World.log, tsx_set_status_code, lock_tsx, List.append_assoc,
        List.singleton_append, List.cons_append, List.nil_append]
    · unfold pjsip_tsx_recv_msg
      rw [if_neg (by rw [hrel]; decide)]
      simp only [hcall, hun]

theorem invite_uac_3xx_ack_after_notify_witness :
    ∃ w, sample_uac_sent INVITE 0 = some w ∧
      ∃ w1 st w2 w' pre mid post,
        w1.tsx.state = .PJSIP_TSX_STATE_COMPLETED ∧
        w1.tsx.last_tx = some (sample_tdata INVITE) ∧
        w1.tsx.status_code = 486 ∧
        w1.trace = w.trace ++ pre ++
          [Effect.create_ack (sample_tdata INVITE)
            (sample_response INVITE "z9hG4bKabc".toList 486)] ++
          tu_callbacks_rx (some ⟨true, true⟩) (sample_response INVITE "z9hG4bKabc".toList 486)
            .PJSIP_TSX_STATE_COMPLETED .PJSIP_TSX_STATE_CALLING ∧
        pre.filter Effect.is_send = [] ∧ pre.filter Effect.is_tu_callback = [] ∧
        pre.filter Effect.is_create_ack = [] ∧
        tsx_send_msg sample_env_ack w1 (some sample_ack) = some (st, w2) ∧
        w2.trace = w1.trace ++ mid ∧
        sends_only sample_ack mid ∧ mid.filter Effect.is_create_ack = [] ∧
        (w.tsx.transport_flag.TSX_HAS_PENDING_TRANSPORT = true →
          mid = [] ∧ w2.tsx.transport_flag.TSX_HAS_PENDING_SEND = true) ∧
        (w.tsx.transport_flag.TSX_HAS_PENDING_TRANSPORT = false →
          (w.tsx.transport ≠ none ∨ w.tsx.transport_flag.TSX_HAS_RESOLVED_SERVER = false) →
          ∃ e ∈ mid, Effect.is_send e = true ∧ Effect.sent_tdata e = some sample_ack) ∧
        pjsip_tsx_recv_msg sample_env_ack w
          (sample_response INVITE "z9hG4bKabc".toList 486) = some w' ∧
        w'.tsx.last_tx = some sample_ack ∧
        w'.trace = w2.trace ++ post ∧
        Effect.tx_data_dec_ref (sample_tdata INVITE) ∈ post ∧
        post.filter Effect.is_send = [] ∧ post.filter Effect.is_create_ack = [] ∧
        post.filter Effect.is_tu_callback = [] :=
  ⟨_, rfl, invite_uac_3xx_ack_after_notify sample_env_ack
    ((sample_uac_sent INVITE 0).getD (sample_uac_world INVITE))
    (sample_response INVITE "z9hG4bKabc".toList 486) _ (sample_tdata INVITE) sample_ack
    rfl rfl rfl (Or.inl rfl) rfl rfl rfl (by decide) rfl rfl (by decide)⟩

/-- C18 (the code at the failing input): an INVITE client transaction whose
request went out over a reliable transport receives a 486 response; it moves
to Completed with `is_reliable` true, and the timeout timer (timer D) is
armed with TD, 32 seconds, not with zero. -/
theorem reliable_invite_uac_timer_d_not_zero :
    ∃ w new, sample_uac_responded INVITE 1 486 = some w ∧
      w.tsx.state = .PJSIP_TSX_STATE_COMPLETED ∧
      w.tsx.is_reliable = true ∧
      w.tsx.transport = some ⟨9, 1⟩ ∧
      PJSIP_TRANSPORT_IS_RELIABLE sample_env_ack ⟨9, 1⟩ ≠ 0 ∧
      w.trace = new ++ [Effect.schedule_timer .TSX_TIMER_TIMEOUT (td_timer_val sample_env_ack)] ∧
      (td_timer_val sample_env_ack).to_msec = 32000 := by
  refine ⟨_, _, rfl, rfl, rfl, rfl, by decide, rfl, by decide⟩

/-! ### Retransmit timer and reliable transports -/

theorem quiet_refl (w : World) : retransmit_quiet w w := ⟨rfl, rfl, fun h => h⟩

theorem quiet_trans {a b c : World} (h1 : retransmit_quiet a b) (h2 : retransmit_quiet b c) :
    retransmit_quiet a c :=
  ⟨h2.1.trans h1.1, h2.2.1.trans h1.2.1, fun h => h1.2.2 (h2.2.2 h)⟩

theorem quiet_log (w : World) (e : Effect) (he : Effect.arms_retransmit e = false) :
    retransmit_quiet w (w.log e) := by
  refine ⟨rfl, ?_, fun h => h⟩
  simp only [World.log, List.filter_append, List.filter_cons, he, List.filter_nil,
    List.append_nil, Bool.false_eq_true, if_false]

theorem quiet_set_timer_id (w : World) (entry : Transaction_Timer_Id) (id : Int) :
    retransmit_quiet w (set_timer_id w entry id) := by
  cases entry <;> exact ⟨rfl, rfl, fun h => h⟩

theorem quiet_set_flag (w : World) (f : tsx_transport_flag)
    (hf : f.TSX_HAS_PENDING_RESCHED = true →
      w.tsx.transport_flag.TSX_HAS_PENDING_RESCHED = true) :
    retransmit_quiet w (set_transport_flag w f) := ⟨rfl, rfl, hf⟩

theorem quiet_cancel_timer (w : World) (entry : Transaction_Timer_Id) :
    retransmit_quiet w (pjsip_endpt_cancel_timer w entry) :=
  quiet_trans (quiet_log w (.cancel_timer entry) rfl) (quiet_set_timer_id _ _ _)

theorem quiet_schedule_timeout (env : Env) (w : World) (d : pj_time_val) :
    retransmit_quiet w (pjsip_endpt_schedule_timer env w .TSX_TIMER_TIMEOUT d) :=
  quiet_trans (quiet_log w (.schedule_timer .TSX_TIMER_TIMEOUT d) rfl)
    (quiet_set_timer_id _ _ _)

theorem quiet_set_status_code (env : Env) (w : World) (c : Int) (r : Option pj_str_t) :
    retransmit_quiet w (tsx_set_status_code env w c r) := ⟨rfl, rfl, fun h => h⟩

theorem quiet_lock (w : World) : retransmit_quiet w (lock_tsx w) := ⟨rfl, rfl, fun h => h⟩

theorem quiet_unregister (w : World) : retransmit_quiet w (mod_tsx_layer_unregister_tsx w) :=
  ⟨rfl, rfl, fun h => h⟩

theorem quiet_cancel_retransmit_timer (w : World) :
    retransmit_quiet w (cancel_retransmit_timer w) := by
  rw [cancel_retransmit_timer_eq]
  refine ⟨rfl, ?_, fun h => by cases h⟩
  simp only [List.filter_append]
  split_ifs <;> simp [Effect.arms_retransmit]

theorem quiet_save_last_tx (w : World) (t : pjsip_tx_data) :
    retransmit_quiet w (save_last_tx w t) := by
  unfold save_last_tx
  split
  · exact quiet_trans (quiet_log w (.tx_data_add_ref t) rfl) ⟨rfl, rfl, fun h => h⟩
  · exact quiet_refl w

theorem quiet_discard_last_tx (w : World) (t : pjsip_tx_data) :
    retransmit_quiet w (discard_last_tx w t) := by
  unfold discard_last_tx
  split
  · rename_i l _
    split
    · exact quiet_trans (quiet_log w (.tx_data_dec_ref l) rfl) ⟨rfl, rfl, fun h => h⟩
    · exact quiet_refl w
  · exact quiet_refl w

theorem quiet_tsx_destroy (w : World) : retransmit_quiet w (tsx_destroy w) := by
  rw [tsx_destroy_eq]
  refine ⟨rfl, ?_, fun h => by cases h⟩
  simp only [List.filter_append]
  cases w.tsx.transport <;> cases w.tsx.last_tx <;> split_ifs <;>
    simp [Effect.arms_retransmit]

theorem quiet_inform_rx (w w' : World) (ty : pjsip_event_id_e) (src : event_src)
    (h : tsx_set_state_inform_rx w ty src = some w') : retransmit_quiet w w' := by
  unfold tsx_set_state_inform_rx at h
  repeat' split at h
  all_goals first
    | (cases h; exact quiet_refl _)
    | (cases h; exact quiet_log _ (.on_rx_response _) rfl)
    | cases h

theorem quiet_inform_state (w : World) (s p : pjsip_tsx_state_e)
    (ty : pjsip_event_id_e) (src : event_src) :
    retransmit_quiet w (tsx_set_state_inform_state w s p ty src) := by
  unfold tsx_set_state_inform_state
  repeat' split
  all_goals first
    | exact quiet_refl _
    | exact quiet_log _ (.on_tsx_state _ _ _ _) rfl

theorem quiet_finish (env : Env) (w : World) (s : pjsip_tsx_state_e) :
    retransmit_quiet w (tsx_set_state_finish env w s) := by
  unfold tsx_set_state_finish
  split
  · split
    · exact quiet_set_flag _ _ (fun h => h)
    · simp only
      split
      · exact quiet_trans (quiet_trans (quiet_cancel_timer _ _) (quiet_set_timer_id _ _ _))
          (quiet_schedule_timeout _ _ _)
      · exact quiet_schedule_timeout _ _ _
  · split
    · exact quiet_trans (quiet_unregister _) (quiet_tsx_destroy _)
    · exact quiet_refl _

theorem quiet_set_state (env : Env) (w w' : World) (s : pjsip_tsx_state_e)
    (ty : pjsip_event_id_e) (src : event_src)
    (h : tsx_set_state env w s ty src = some w') : retransmit_quiet w w' := by
  unfold tsx_set_state at h
  simp only at h
  split at h
  · cases h
  · rename_i w1 hw1
    cases h
    have q0 : retransmit_quiet w
        { w with tsx := { w.tsx with
            state := s
            state_handler :=
              if w.tsx.role = pjsip_role_e.PJSIP_ROLE_UAC then tsx_state_handler_uac s
              else tsx_state_handler_uas s } } := ⟨rfl, rfl, fun h => h⟩
    exact quiet_trans (quiet_trans (quiet_trans q0 (quiet_inform_rx _ _ _ _ hw1))
      (quiet_inform_state _ _ _ _ _)) (quiet_finish _ _ _)

theorem quiet_ite_log (w : World) (e : Effect) (c : Prop) [Decidable c]
    (he : Effect.arms_retransmit e = false) :
    retransmit_quiet w (if c then w.log e else w) := by
  split
  · exact quiet_log w e he
  · exact quiet_refl w

theorem quiet_send_msg_resolve (env : Env) (w w' : World) (t : pjsip_tx_data)
    (st0 st : pj_status_t) (h : tsx_send_msg_resolve env w t st0 = some (st, w')) :
    retransmit_quiet w w' := by
  unfold tsx_send_msg_resolve at h
  split at h
  · simp only at h
    split at h
    · cases h
    · rename_i w1 hw1
      cases h
      exact quiet_trans (quiet_set_status_code _ _ _ _) (quiet_set_state _ _ _ _ _ _ hw1)
  · simp only at h
    have q1 : retransmit_quiet w
        (set_transport_flag (w.log (.tx_data_add_ref t))
          { (w.log (.tx_data_add_ref t)).tsx.transport_flag with
            TSX_HAS_PENDING_TRANSPORT := true }) :=
      quiet_trans (quiet_log w (.tx_data_add_ref t) rfl) (quiet_set_flag _ _ (fun h => h))
    split at h
    · have e := congrArg Prod.snd (Option.some.inj h)
      simp only at e
      rw [← e]
      exact quiet_trans (quiet_trans q1 (quiet_log _ (.send_request_stateless t) rfl))
        (quiet_ite_log _ (.tx_data_dec_ref t) _ rfl)
    · have e := congrArg Prod.snd (Option.some.inj h)
      simp only at e
      rw [← e]
      exact quiet_trans (quiet_trans q1 (quiet_log _ (.send_response t) rfl))
        (quiet_ite_log _ (.tx_data_dec_ref t) _ rfl)

theorem quiet_send_msg (env : Env) (w w' : World) (t : Option pjsip_tx_data)
    (st : pj_status_t) (h : tsx_send_msg env w t = some (st, w')) :
    retransmit_quiet w w' := by
  unfold tsx_send_msg at h
  split at h
  · cases h; exact quiet_refl _
  · rename_i tdata
    split at h
    · cases h; exact quiet_set_flag _ _ (fun h => h)
    · split at h
      · rename_i tp htp
        simp only at h
        by_cases hst : (if env.transport_send = pj_status_t.PJ_EPENDING then
            pj_status_t.PJ_SUCCESS else env.transport_send) ≠ pj_status_t.PJ_SUCCESS
        · rw [if_pos hst] at h
          have q := quiet_send_msg_resolve _ _ _ _ _ _ h
          refine quiet_trans ?_ q
          exact quiet_trans (quiet_trans (quiet_log w (.transport_send tp tdata) rfl)
            (quiet_log _ (.transport_dec_ref tp) rfl)) ⟨rfl, rfl, fun h => h⟩
        · rw [if_neg hst] at h
          cases h
          exact quiet_log w (.transport_send tp tdata) rfl
      · exact quiet_send_msg_resolve _ _ _ _ _ _ h

theorem quiet_retransmit_no_resched (env : Env) (w w' : World) (st : pj_status_t)
    (h : tsx_retransmit env w false = some (st, w')) : retransmit_quiet w w' := by
  unfold tsx_retransmit at h
  split at h
  · cases h; exact quiet_refl _
  · simp only [Bool.false_eq_true, if_false] at h
    have h2 := status_passthrough _ _ _ h
    refine quiet_trans ?_ (quiet_send_msg _ _ _ _ _ h2)
    exact ⟨rfl, rfl, fun h => h⟩

theorem quiet_status (X : Option World) (c st : pj_status_t) (w w' : World)
    (h : (match X with
      | none => none
      | some w1 => some (c, w1)) = some (st, w'))
    (hq : ∀ w1, X = some w1 → retransmit_quiet w w1) : retransmit_quiet w w' :=
  hq w' (set_state_then_status X c st w' h).1

theorem quiet_on_state_null (env : Env) (w w' : World) (event : pjsip_event)
    (st : pj_status_t) (hrel : w.tsx.is_reliable = true)
    (h : tsx_on_state_null env w event = some (st, w')) : retransmit_quiet w w' := by
  unfold tsx_on_state_null at h
  split at h
  · exact quiet_status _ _ _ _ _ h
            (fun w1 h1 => quiet_set_state _ _ _ _ _ _ h1)
  · split at h
    · rename_i tdata
      simp only at h
      have q0 : retransmit_quiet w (save_last_tx (discard_last_tx w tdata) tdata) :=
        quiet_trans (quiet_discard_last_tx _ _) (quiet_save_last_tx _ _)
      split at h
      · cases h
      · rename_i status w1 hs
        have q1 := quiet_trans q0 (quiet_send_msg _ _ _ _ _ hs)
        split at h
        · cases h; exact q1
        · have q2 := quiet_trans q1
            (quiet_schedule_timeout env w1 (timeout_timer_val env))
          have hr2 : (pjsip_endpt_schedule_timer env w1 .TSX_TIMER_TIMEOUT
              (timeout_timer_val env)).tsx.is_reliable = true := q2.1.trans hrel
          rw [if_neg (by rw [hr2]; exact fun h => h rfl)] at h
          exact quiet_status _ _ _ _ _ h
            (fun w2 h2 => quiet_trans q2 (quiet_set_state _ _ _ _ _ _ h2))
    · cases h; exact quiet_refl _

theorem quiet_create_ack (env : Env) (w w' : World) (event : pjsip_event)
    (r : Except pj_status_t (Option pjsip_tx_data))
    (h : proceeding_uac_create_ack env w event = some (r, w')) : retransmit_quiet w w' := by
  unfold proceeding_uac_create_ack at h
  split at h
  · split at h
    · rename_i l rd _ _
      split at h <;> cases h <;> exact quiet_log w (.create_ack l rd) rfl
    · cases h
  · cases h; exact quiet_refl _

theorem quiet_send_ack (env : Env) (w w' : World) (ack : Option pjsip_tx_data)
    (st : pj_status_t) (h : proceeding_uac_send_ack env w ack = some (st, w')) :
    retransmit_quiet w w' := by
  unfold proceeding_uac_send_ack at h
  split at h
  · split at h
    · cases h
    · rename_i st1 w1 hs
      have q := quiet_send_msg _ _ _ _ _ hs
      split at h
      · split at h
        · cases h
        · rename_i l _
          cases h
          exact quiet_trans (quiet_trans q (quiet_log w1 (.tx_data_dec_ref l) rfl))
            ⟨rfl, rfl, fun h => h⟩
      · cases h; exact q
  · cases h; exact quiet_refl _

theorem quiet_start_timer_d (env : Env) (w : World) :
    retransmit_quiet w (proceeding_uac_start_timer_d env w) := by
  unfold proceeding_uac_start_timer_d
  exact quiet_schedule_timeout _ _ _

theorem quiet_proceeding_uac_status (env : Env) (w w' : World) (event : pjsip_event)
    (st : pj_status_t)
    (h : tsx_on_state_proceeding_uac_status env w event = some (st, w')) :
    retransmit_quiet w w' := by
  unfold tsx_on_state_proceeding_uac_status at h
  split at h
  · exact quiet_status _ _ _ _ _ h
            (fun w1 h1 => quiet_set_state _ _ _ _ _ _ h1)
  · split at h
    · simp only at h
      have qc := quiet_cancel_timer w .TSX_TIMER_TIMEOUT
      split at h
      · exact quiet_status _ _ _ _ _ h
            (fun w1 h1 => quiet_trans qc (quiet_set_state _ _ _ _ _ _ h1))
      · exact quiet_status _ _ _ _ _ h
            (fun w1 h1 => quiet_trans (quiet_trans qc (quiet_schedule_timeout _ _ _))
            (quiet_set_state _ _ _ _ _ _ h1))
    · split at h
      · simp only at h
        have qc := quiet_cancel_timer w .TSX_TIMER_TIMEOUT
        split at h
        · cases h
        · rename_i status w1 hack
          cases h
          exact quiet_trans qc (quiet_create_ack _ _ _ _ _ hack)
        · rename_i ack w1 hack
          have q1 := quiet_trans qc (quiet_create_ack _ _ _ _ _ hack)
          split at h
          · cases h
          · rename_i w2 hset
            have q2 := quiet_trans q1 (quiet_set_state _ _ _ _ _ _ hset)
            split at h
            · cases h
            · rename_i st3 w3 hsend
              have q3 := quiet_trans q2 (quiet_send_ack _ _ _ _ _ hsend)
              split at h
              · cases h; exact q3
              · cases h; exact quiet_trans q3 (quiet_start_timer_d _ _)
      · cases h; exact quiet_refl _

theorem quiet_proceeding_uac (env : Env) (w w' : World) (event : pjsip_event)
    (st : pj_status_t) (h : tsx_on_state_proceeding_uac env w event = some (st, w')) :
    retransmit_quiet w w' := by
  unfold tsx_on_state_proceeding_uac at h
  split at h
  · cases h; exact quiet_refl _
  · split at h
    · cases h
    · split at h
      · cases h; exact quiet_refl _
      · simp only at h
        exact quiet_trans (quiet_set_status_code _ _ _ _)
          (quiet_proceeding_uac_status _ _ _ _ _ h)
  · simp only at h
    exact quiet_trans (quiet_set_status_code _ _ _ _)
      (quiet_proceeding_uac_status _ _ _ _ _ h)

theorem quiet_calling (env : Env) (w w' : World) (event : pjsip_event)
    (st : pj_status_t) (hev : event ≠ .timer .TSX_TIMER_RETRANSMISSION)
    (h : tsx_on_state_calling env w event = some (st, w')) : retransmit_quiet w w' := by
  unfold tsx_on_state_calling at h
  split at h
  · exact absurd rfl hev
  · simp only at h
    exact quiet_status _ _ _ _ _ h
            (fun w1 h1 => quiet_trans (quiet_trans (quiet_cancel_retransmit_timer _)
        (quiet_set_status_code _ _ _ _)) (quiet_set_state _ _ _ _ _ _ h1))
  · split at h
    · cases h
    · split at h
      · cases h; exact quiet_refl _
      · simp only at h
        split at h
        · cases h
        · rename_i st1 w1 hp
          cases h
          exact quiet_trans (quiet_trans (quiet_cancel_retransmit_timer _)
            (quiet_cancel_timer _ _)) (quiet_proceeding_uac _ _ _ _ _ hp)
  · cases h; exact quiet_refl _

theorem quiet_3xx_timeout (env : Env) (w : World) :
    retransmit_quiet w (proceeding_uas_3xx_timeout env w) := by
  unfold proceeding_uas_3xx_timeout
  split
  · exact quiet_schedule_timeout _ _ _
  · split <;> exact quiet_schedule_timeout _ _ _

theorem quiet_3xx_retransmit (env : Env) (w w' : World) (tdata : pjsip_tx_data)
    (hrel : w.tsx.is_reliable = true)
    (h : proceeding_uas_3xx_retransmit env w tdata = some w') : retransmit_quiet w w' := by
  unfold proceeding_uas_3xx_retransmit at h
  rw [if_neg (by rw [hrel]; exact fun h => h rfl)] at h
  cases h
  exact quiet_refl _

theorem quiet_update_state (env : Env) (w w' : World) (tdata : pjsip_tx_data)
    (st : pj_status_t) (hrel : w.tsx.is_reliable = true)
    (hex : PJSIP_IS_STATUS_IN_CLASS w.tsx.status_code 200 = true →
      w.tsx.method.id = pjsip_method_e.PJSIP_INVITE_METHOD → w.tsx.handle_200resp = 0)
    (h : proceeding_uas_update_state env w tdata = some (st, w')) :
    retransmit_quiet w w' := by
  unfold proceeding_uas_update_state at h
  split at h
  · simp only at h
    exact quiet_status _ _ _ _ _ h
      (fun w1 h1 => quiet_trans (quiet_save_last_tx _ _) (quiet_set_state _ _ _ _ _ _ h1))
  · split at h
    · rename_i h200
      split at h
      · exact quiet_status _ _ _ _ _ h (fun w1 h1 => quiet_set_state _ _ _ _ _ _ h1)
      · rename_i hni
        have hm : ¬ w.tsx.method.id = pjsip_method_e.PJSIP_INVITE_METHOD :=
          fun hm => hni ⟨hm, hex h200 hm⟩
        simp only at h
        rw [if_neg hm] at h
        split at h
        · cases h
        · rename_i d hd
          exact quiet_status _ _ _ _ _ h
            (fun w1 h1 => quiet_trans (quiet_trans (quiet_save_last_tx _ _)
              (quiet_schedule_timeout _ _ _)) (quiet_set_state _ _ _ _ _ _ h1))
    · split at h
      · simp only at h
        have q1 : retransmit_quiet w (proceeding_uas_3xx_timeout env (save_last_tx w tdata)) :=
          quiet_trans (quiet_save_last_tx _ _) (quiet_3xx_timeout _ _)
        split at h
        · cases h
        · rename_i w2 h3
          have q2 := quiet_trans q1 (quiet_3xx_retransmit _ _ _ _ (q1.1.trans hrel) h3)
          exact quiet_status _ _ _ _ _ h
            (fun w1 h1 => quiet_trans q2 (quiet_set_state _ _ _ _ _ _ h1))
      · cases h; exact quiet_refl _

theorem quiet_proceeding_uas (env : Env) (w w' : World) (event : pjsip_event)
    (st : pj_status_t) (hrel : w.tsx.is_reliable = true)
    (hev : event ≠ .timer .TSX_TIMER_RETRANSMISSION)
    (hex : ∀ tdata, event = .tx_msg tdata →
      PJSIP_IS_STATUS_IN_CLASS tdata.msg.line.status.code 200 = true →
      w.tsx.method.id = pjsip_method_e.PJSIP_INVITE_METHOD → w.tsx.handle_200resp = 0)
    (h : tsx_on_state_proceeding_uas env w event = some (st, w')) :
    retransmit_quiet w w' := by
  unfold tsx_on_state_proceeding_uas at h
  split at h
  · split at h
    · cases h; exact quiet_refl _
    · split at h
      · cases h; exact quiet_set_flag _ _ (fun h => h)
      · exact quiet_send_msg _ _ _ _ _ (status_passthrough _ _ _ h)
  · rename_i tdata
    simp only at h
    split at h
    · cases h; exact quiet_refl _
    · split at h
      · cases h
      · rename_i status w1 hs
        have q0 : retransmit_quiet w
            (discard_last_tx (tsx_set_status_code env w tdata.msg.line.status.code
              (some tdata.msg.line.status.reason)) tdata) :=
          quiet_trans (quiet_set_status_code _ _ _ _) (quiet_discard_last_tx _ _)
        have q1 := quiet_trans q0 (quiet_send_msg _ _ _ _ _ hs)
        split at h
        · cases h; exact q1
        · rename_i hsucc
          have hsucc2 : status = .PJ_SUCCESS := by simpa using hsucc
          subst hsucc2
          obtain ⟨tp, al, ra, fl, post, hw1, -⟩ := tsx_send_msg_success _ _ _ _ hs
          have e1 : w1.tsx.status_code = tdata.msg.line.status.code := by
            rw [hw1, discard_last_tx_eq]; rfl
          have e2 : w1.tsx.method = w.tsx.method := by
            rw [hw1, discard_last_tx_eq]; rfl
          have e3 : w1.tsx.handle_200resp = w.tsx.handle_200resp := by
            rw [hw1, discard_last_tx_eq]; rfl
          refine quiet_trans q1 (quiet_update_state _ _ _ _ _ (q1.1.trans hrel) ?_ h)
          rw [e1, e2, e3]
          exact hex tdata rfl
  · exact absurd rfl hev
  · simp only at h
    exact quiet_status _ _ _ _ _ h
      (fun w1 h1 => quiet_trans (quiet_set_status_code _ _ _ _)
        (quiet_set_state _ _ _ _ _ _ h1))

theorem quiet_trying (env : Env) (w w' : World) (event : pjsip_event)
    (st : pj_status_t) (hrel : w.tsx.is_reliable = true)
    (hev : event ≠ .timer .TSX_TIMER_RETRANSMISSION)
    (hex : ∀ tdata, event = .tx_msg tdata →
      PJSIP_IS_STATUS_IN_CLASS tdata.msg.line.status.code 200 = true →
      w.tsx.method.id = pjsip_method_e.PJSIP_INVITE_METHOD → w.tsx.handle_200resp = 0)
    (h : tsx_on_state_trying env w event = some (st, w')) : retransmit_quiet w w' := by
  unfold tsx_on_state_trying at h
  split at h
  · cases h; exact quiet_refl _
  · split at h
    · cases h
    · rename_i status w1 hp
      have q1 := quiet_proceeding_uas _ _ _ _ _ hrel hev hex hp
      split at h
      · exact quiet_status _ _ _ _ _ h
          (fun w2 h2 => quiet_trans q1 (quiet_set_state _ _ _ _ _ _ h2))
      · cases h; exact q1

theorem quiet_completed_uas (env : Env) (w w' : World) (event : pjsip_event)
    (st : pj_status_t) (hev : event ≠ .timer .TSX_TIMER_RETRANSMISSION)
    (h : tsx_on_state_completed_uas env w event = some (st, w')) :
    retransmit_quiet w w' := by
  unfold tsx_on_state_completed_uas at h
  split at h
  · split at h
    · cases h
    · split at h
      · cases h; exact quiet_refl _
      · split at h
        · exact quiet_retransmit_no_resched _ _ _ _ (status_passthrough _ _ _ h)
        · simp only at h
          exact quiet_status _ _ _ _ _ h
            (fun w1 h1 => quiet_trans (quiet_trans (quiet_trans
              (quiet_cancel_retransmit_timer _) (quiet_cancel_timer _ _))
              (quiet_schedule_timeout _ _ _)) (quiet_set_state _ _ _ _ _ _ h1))
  · exact absurd rfl hev
  · split at h
    · simp only at h
      exact quiet_status _ _ _ _ _ h
        (fun w1 h1 => quiet_trans (quiet_set_status_code _ _ _ _)
          (quiet_set_state _ _ _ _ _ _ h1))
    · exact quiet_status _ _ _ _ _ h (fun w1 h1 => quiet_set_state _ _ _ _ _ _ h1)
  · split at h <;> cases h <;> exact quiet_refl _

theorem quiet_completed_uac (env : Env) (w w' : World) (event : pjsip_event)
    (st : pj_status_t)
    (h : tsx_on_state_completed_uac env w event = some (st, w')) :
    retransmit_quiet w w' := by
  unfold tsx_on_state_completed_uac at h
  split at h
  · exact quiet_status _ _ _ _ _ h (fun w1 h1 => quiet_set_state _ _ _ _ _ _ h1)
  · split at h
    · split at h
      · cases h
      · split at h
        · exact quiet_retransmit_no_resched _ _ _ _ (status_passthrough _ _ _ h)
        · cases h; exact quiet_refl _
    · cases h; exact quiet_refl _
  · cases h; exact quiet_refl _

theorem quiet_confirmed (env : Env) (w w' : World) (event : pjsip_event)
    (st : pj_status_t)
    (h : tsx_on_state_confirmed env w event = some (st, w')) :
    retransmit_quiet w w' := by
  unfold tsx_on_state_confirmed at h
  split at h
  · split at h
    · cases h
    · split at h <;> cases h <;> exact quiet_refl _
  · exact quiet_status _ _ _ _ _ h (fun w1 h1 => quiet_set_state _ _ _ _ _ _ h1)
  · cases h; exact quiet_refl _

theorem quiet_terminated (env : Env) (w w' : World) (event : pjsip_event)
    (st : pj_status_t)
    (h : tsx_on_state_terminated env w event = some (st, w')) :
    retransmit_quiet w w' := by
  unfold tsx_on_state_terminated at h
  exact quiet_status _ _ _ _ _ h (fun w1 h1 => quiet_set_state _ _ _ _ _ _ h1)

/-- The handler dispatch on a transaction over a reliable transport schedules
nothing for retransmission, unless the event is the retransmit timer itself
or a 2xx response sent by an INVITE transaction that handles its own 2xx
retransmission. -/
theorem quiet_call_state_handler (env : Env) (w w' : World) (event : pjsip_event)
    (st : pj_status_t) (hrel : w.tsx.is_reliable = true)
    (hev : event ≠ .timer .TSX_TIMER_RETRANSMISSION)
    (hex : ∀ tdata, event = .tx_msg tdata →
      PJSIP_IS_STATUS_IN_CLASS tdata.msg.line.status.code 200 = true →
      w.tsx.method.id = pjsip_method_e.PJSIP_INVITE_METHOD → w.tsx.handle_200resp = 0)
    (h : call_state_handler env w event = some (st, w')) : retransmit_quiet w w' := by
  unfold call_state_handler at h
  split at h
  · cases h
  · exact quiet_on_state_null _ _ _ _ _ hrel h
  · exact quiet_calling _ _ _ _ _ hev h
  · exact quiet_trying _ _ _ _ _ hrel hev hex h
  · exact quiet_proceeding_uas _ _ _ _ _ hrel hev hex h
  · exact quiet_proceeding_uac _ _ _ _ _ h
  · exact quiet_completed_uas _ _ _ _ _ hev h
  · exact quiet_completed_uac _ _ _ _ _ h
  · exact quiet_confirmed _ _ _ _ _ h
  · exact quiet_terminated _ _ _ _ _ h
  · cases h; exact quiet_refl _

theorem quiet_unlock (w w' : World) (st : pj_status_t)
    (h : unlock_tsx w = some (st, w')) : retransmit_quiet w w' := by
  unfold unlock_tsx at h
  split at h
  · cases h
  · have h2 := congrArg Prod.snd (Option.some.inj h)
    simp only at h2
    rw [← h2]
    exact ⟨rfl, rfl, fun h => h⟩

theorem quiet_dispatch (env : Env) (w w' : World) (event : pjsip_event)
    (st st' : pj_status_t) (w1 : World) (hrel : w.tsx.is_reliable = true)
    (hev : event ≠ .timer .TSX_TIMER_RETRANSMISSION)
    (hex : ∀ tdata, event = .tx_msg tdata →
      PJSIP_IS_STATUS_IN_CLASS tdata.msg.line.status.code 200 = true →
      w.tsx.method.id = pjsip_method_e.PJSIP_INVITE_METHOD → w.tsx.handle_200resp = 0)
    (h1 : call_state_handler env (lock_tsx w) event = some (st, w1))
    (h2 : unlock_tsx w1 = some (st', w')) : retransmit_quiet w w' :=
  quiet_trans (quiet_trans (quiet_lock w)
    (quiet_call_state_handler env (lock_tsx w) w1 event st hrel hev hex h1))
    (quiet_unlock _ _ _ h2)

/-- C17 (amended).  On a transaction whose transport is reliable, the
three entry points that dispatch an event to the state handler schedule
nothing for retransmission: the calls that arm the retransmit timer in the
trace are the same afterwards, the pending reschedule is not set unless it was
set before, and the transport is still reliable.  Two events are excepted:
the retransmit timer itself, and a 2xx response sent by an INVITE transaction
with handle_200resp set. -/
theorem reliable_transport_schedules_no_retransmission (env : Env) (w : World)
    (hrel : w.tsx.is_reliable = true) :
    (∀ entry w', entry ≠ .TSX_TIMER_RETRANSMISSION →
      tsx_timer_callback env w entry = some w' → retransmit_quiet w w') ∧
    (∀ rdata w', pjsip_tsx_recv_msg env w rdata = some w' → retransmit_quiet w w') ∧
    (∀ tdata st w',
      (∀ t, tdata = some t ∨ (tdata = none ∧ w.tsx.last_tx = some t) →
        PJSIP_IS_STATUS_IN_CLASS t.msg.line.status.code 200 = true →
        w.tsx.method.id = pjsip_method_e.PJSIP_INVITE_METHOD → w.tsx.handle_200resp = 0) →
      pjsip_tsx_send_msg env w tdata = some (st, w') → retransmit_quiet w w') := by
  refine ⟨?_, ?_, ?_⟩
  · intro entry w' hne h
    unfold tsx_timer_callback at h
    split at h
    · cases h
    · simp only at h
      split at h
      · cases h
      · rename_i st w1 h1
        split at h
        · cases h
        · rename_i st' w2 h2
          cases h
          exact quiet_dispatch env w _ _ st st' w1 hrel
            (fun e => hne (pjsip_event.timer.inj e)) (fun _ e => by cases e) h1 h2
  · intro rdata w' h
    unfold pjsip_tsx_recv_msg at h
    split at h
    · cases h
    · simp only at h
      split at h
      · cases h
      · rename_i st w1 h1
        split at h
        · cases h
        · rename_i st' w2 h2
          cases h
          exact quiet_dispatch env w _ _ st st' w1 hrel
            (fun e => by cases e) (fun _ e => by cases e) h1 h2
  · intro tdata st w' hex h
    unfold pjsip_tsx_send_msg at h
    split at h
    · cases h
    · simp only at h
      split at h
      · cases h; exact quiet_refl _
      · rename_i t ht
        have hsel : tdata = some t ∨ (tdata = none ∧ w.tsx.last_tx = some t) := by
          cases tdata with
          | none => exact Or.inr ⟨rfl, ht⟩
          | some t0 => exact Or.inl ht
        split at h
        · cases h
        · rename_i st1 w1 h1
          split at h
          · cases h
          · rename_i st' w2 h2
            have q := quiet_dispatch env w w2 (.tx_msg t) st1 st' w1 hrel
              (fun e => by cases e)
              (fun t0 e => by cases e; exact hex t hsel) h1 h2
            have hw := congrArg Prod.snd (Option.some.inj h)
            simp only at hw
            rw [← hw]
            split
            · exact quiet_trans q (quiet_log _ (.tx_data_dec_ref t) rfl)
            · exact q

theorem reliable_transport_schedules_no_retransmission_witness :
    ∃ w w', sample_uas_responded INVITE 1 486 = some w ∧
      w.tsx.is_reliable = true ∧
      pjsip_tsx_recv_msg sample_env w (sample_request ACK "z9hG4bKabc".toList) = some w' ∧
      retransmit_quiet w w' := by
  refine ⟨_, _, rfl, rfl, rfl, ?_⟩
  exact (reliable_transport_schedules_no_retransmission sample_env
    ((sample_uas_responded INVITE 1 486).getD (sample_uac_world INVITE)) rfl).2.1
    (sample_request ACK "z9hG4bKabc".toList) _ rfl

/-- C17 (counterexample): an INVITE server transaction over a reliable
transport, with `handle_200resp` set as `tsx_create` leaves it, sends a 200
response: the retransmit timer is armed at T1 although `is_reliable` is
true. -/
theorem reliable_invite_uas_2xx_arms_retransmit_timer :
    ∃ w1 w2, sample_uas_trying INVITE 1 = some w1 ∧
      w1.tsx.is_reliable = true ∧
      pjsip_tsx_send_msg sample_env w1 (some (sample_response_tdata INVITE 200)) =
        some (.PJ_SUCCESS, w2) ∧
      w2.tsx.is_reliable = true ∧
      w1.trace.filter Effect.arms_retransmit = [] ∧
      w2.trace.filter Effect.arms_retransmit =
        [Effect.schedule_timer .TSX_TIMER_RETRANSMISSION (t1_timer_val sample_env)] ∧
      ¬ retransmit_quiet w1 w2 := by
  refine ⟨_, _, rfl, rfl, rfl, rfl, rfl, rfl, ?_⟩
  intro h
  exact absurd h.2.1 (by decide)

end Behaviour

/-! ## Registry, dispatch and creation -/

section Layer
open pjsip_tsx_state_e pjsip_event_id_e

/-- C21 (the code at the failing input): a server transaction is created for
the sample INVITE and registered; a second one is then created for the same
request (memory at another address).  The second creation succeeds as well,
both transactions carry the same key, and the registry entry of that key now
points to the second transaction, so the first one, still alive, is no longer
found. -/
theorem register_with_key_in_use_succeeds :
    ∃ tsx1 l1 tsx2 l2,
      pjsip_tsx_create_uas sample_env (sample_uas_create_env 0) empty_layer
        (some ⟨true, true⟩) (sample_request INVITE "z9hG4bKabc".toList) =
          some (.PJ_SUCCESS, some tsx1, l1) ∧
      pj_hash_get l1.htable tsx1.transaction_key = some tsx1.self ∧
      pjsip_tsx_create_uas sample_env { sample_uas_create_env 0 with pool := some 2 } l1
        (some ⟨true, true⟩) (sample_request INVITE "z9hG4bKabc".toList) =
          some (.PJ_SUCCESS, some tsx2, l2) ∧
      tsx2.transaction_key = tsx1.transaction_key ∧
      tsx2.self ≠ tsx1.self ∧
      l2.htable ≠ l1.htable ∧
      pj_hash_get l2.htable tsx1.transaction_key = some tsx2.self := by
  refine ⟨_, _, _, _, rfl, rfl, rfl, rfl, by decide, by decide, rfl⟩

theorem mod_tsx_layer_on_rx_spec (env : Env) (s : tsx_layer_memory) (role : pjsip_role_e)
    (rdata : pjsip_rx_data) (cseq : pjsip_cseq_hdr) (key : pj_str_t)
    (hcseq : rdata.msg_info.cseq = some cseq)
    (hkey : pjsip_tsx_create_key role cseq.method rdata = some (.ok key)) :
    (pj_hash_get s.layer.htable key = none →
      mod_tsx_layer_on_rx env s role rdata = some (false, s)) ∧
    (∀ addr tsx, pj_hash_get s.layer.htable key = some addr → s.deref addr = some tsx →
      (tsx.state = .PJSIP_TSX_STATE_TERMINATED →
        mod_tsx_layer_on_rx env s role rdata = some (false, s)) ∧
      (tsx.state ≠ .PJSIP_TSX_STATE_TERMINATED →
        ∀ w, pjsip_tsx_recv_msg env (s.world tsx) rdata = some w →
          mod_tsx_layer_on_rx env s role rdata = some (true, s.commit w))) ∧
    (∀ b s', mod_tsx_layer_on_rx env s role rdata = some (b, s') →
      (b = true ↔ ∃ addr tsx, pj_hash_get s.layer.htable key = some addr ∧
        s.deref addr = some tsx ∧ tsx.state ≠ .PJSIP_TSX_STATE_TERMINATED) ∧
      (b = false → s' = s)) := by
  refine ⟨?_, ?_, ?_⟩
  · intro h
    simp only [mod_tsx_layer_on_rx, hcseq, hkey, h]
  · intro addr tsx h1 h2
    refine ⟨?_, ?_⟩
    · intro hs
      simp only [mod_tsx_layer_on_rx, hcseq, hkey, h1, h2, hs, if_true]
    · intro hs w hw
      simp only [mod_tsx_layer_on_rx, hcseq, hkey, h1, h2, hs, if_false, hw]
  · intro b s' h
    simp only [mod_tsx_layer_on_rx, hcseq, hkey] at h
    cases h1 : pj_hash_get s.layer.htable key with
    | none =>
      rw [h1] at h
      simp only [Option.some.injEq, Prod.mk.injEq] at h
      obtain ⟨hb, hs⟩ := h
      subst hb
      refine ⟨⟨(fun hf => by cases hf), ?_⟩, fun _ => hs.symm⟩
      rintro ⟨addr, tsx, ha, -, -⟩
      cases ha
    | some addr =>
      rw [h1] at h
      simp only [] at h
      cases h2 : s.deref addr with
      | none =>
        rw [h2] at h
        cases h
      | some tsx =>
        rw [h2] at h
        simp only [] at h
        by_cases hs : tsx.state = PJSIP_TSX_STATE_TERMINATED
        · rw [if_pos hs] at h
          simp only [Option.some.injEq, Prod.mk.injEq] at h
          obtain ⟨hb, hs'⟩ := h
          subst hb
          refine ⟨⟨(fun hf => by cases hf), ?_⟩, fun _ => hs'.symm⟩
          rintro ⟨addr2, tsx2, ha, hd, hn⟩
          cases ha
          rw [h2] at hd
          cases hd
          exact absurd hs hn
        · rw [if_neg hs] at h
          cases hw : pjsip_tsx_recv_msg env (s.world tsx) rdata with
          | none =>
            rw [hw] at h
            cases h
          | some w =>
            rw [hw] at h
            simp only [Option.some.injEq, Prod.mk.injEq] at h
            obtain ⟨hb, -⟩ := h
            subst hb
            exact ⟨⟨fun _ => ⟨addr, tsx, rfl, h2, hs⟩, fun _ => rfl⟩, fun hf => by cases hf⟩

/-- C22 (amended): for a received message that carries a CSeq header and from
which the key is built (role UAS for `mod_tsx_layer_on_rx_request`, role UAC
for `mod_tsx_layer_on_rx_response`, method taken from CSeq), each function
returns true, after passing the message to `pjsip_tsx_recv_msg`, exactly when
a transaction is registered under that key and is not in state Terminated;
when no transaction is registered under the key, or the one registered is in
Terminated, it returns false and the registry and every transaction are left
as they were. -/
theorem on_rx_absorbs_iff_found_and_not_terminated (env : Env) (s : tsx_layer_memory)
    (rdata : pjsip_rx_data) (cseq : pjsip_cseq_hdr)
    (hcseq : rdata.msg_info.cseq = some cseq) :
    (∀ key, pjsip_tsx_create_key .PJSIP_ROLE_UAS cseq.method rdata = some (.ok key) →
      (pj_hash_get s.layer.htable key = none →
        mod_tsx_layer_on_rx_request env s rdata = some (false, s)) ∧
      (∀ addr tsx, pj_hash_get s.layer.htable key = some addr → s.deref addr = some tsx →
        (tsx.state = .PJSIP_TSX_STATE_TERMINATED →
          mod_tsx_layer_on_rx_request env s rdata = some (false, s)) ∧
        (tsx.state ≠ .PJSIP_TSX_STATE_TERMINATED →
          ∀ w, pjsip_tsx_recv_msg env (s.world tsx) rdata = some w →
            mod_tsx_layer_on_rx_request env s rdata = some (true, s.commit w))) ∧
      (∀ b s', mod_tsx_layer_on_rx_request env s rdata = some (b, s') →
        (b = true ↔ ∃ addr tsx, pj_hash_get s.layer.htable key = some addr ∧
          s.deref addr = some tsx ∧ tsx.state ≠ .PJSIP_TSX_STATE_TERMINATED) ∧
        (b = false → s' = s))) ∧
    (∀ key, pjsip_tsx_create_key .PJSIP_ROLE_UAC cseq.method rdata = some (.ok key) →
      (pj_hash_get s.layer.htable key = none →
        mod_tsx_layer_on_rx_response env s rdata = some (false, s)) ∧
      (∀ addr tsx, pj_hash_get s.layer.htable key = some addr → s.deref addr = some tsx →
        (tsx.state = .PJSIP_TSX_STATE_TERMINATED →
          mod_tsx_layer_on_rx_response env s rdata = some (false, s)) ∧
        (tsx.state ≠ .PJSIP_TSX_STATE_TERMINATED →
          ∀ w, pjsip_tsx_recv_msg env (s.world tsx) rdata = some w →
            mod_tsx_layer_on_rx_response env s rdata = some (true, s.commit w))) ∧
      (∀ b s', mod_tsx_layer_on_rx_response env s rdata = some (b, s') →
        (b = true ↔ ∃ addr tsx, pj_hash_get s.layer.htable key = some addr ∧
          s.deref addr = some tsx ∧ tsx.state ≠ .PJSIP_TSX_STATE_TERMINATED) ∧
        (b = false → s' = s))) :=
  ⟨fun key hkey => mod_tsx_layer_on_rx_spec env s .PJSIP_ROLE_UAS rdata cseq key hcseq hkey,
   fun key hkey => mod_tsx_layer_on_rx_spec env s .PJSIP_ROLE_UAC rdata cseq key hcseq hkey⟩

theorem on_rx_absorbs_iff_found_and_not_terminated_witness :
    ∃ w w1, sample_uac_sent INVITE 0 = some w ∧
      pjsip_tsx_recv_msg sample_env_ack (w.memory.world w.tsx)
        (sample_response INVITE "z9hG4bKabc".toList 180) = some w1 ∧
      mod_tsx_layer_on_rx_response sample_env_ack w.memory
        (sample_response INVITE "z9hG4bKabc".toList 180) = some (true, w.memory.commit w1) :=
  ⟨_, _, rfl, rfl,
    ((((on_rx_absorbs_iff_found_and_not_terminated sample_env_ack
      ((sample_uac_sent INVITE 0).getD (sample_uac_world INVITE)).memory
      (sample_response INVITE "z9hG4bKabc".toList 180) ⟨1, INVITE⟩ rfl).2
        (sample_uac_world INVITE).tsx.transaction_key rfl).2.1 1
        ((sample_uac_sent INVITE 0).getD (sample_uac_world INVITE)).tsx rfl rfl).2
        (by decide)) _ rfl⟩

/-- C22 (counterexample): the sample INVITE client transaction has received a
200 response and is in Terminated, still registered under its key; when the
200 response arrives again, `mod_tsx_layer_on_rx_response` builds that key,
finds the transaction, and returns false without passing the message on. -/
theorem on_rx_response_terminated_returns_false :
    ∃ w, sample_uac_responded INVITE 0 200 = some w ∧
      w.tsx.state = .PJSIP_TSX_STATE_TERMINATED ∧
      pjsip_tsx_create_key .PJSIP_ROLE_UAC INVITE
        (sample_response INVITE "z9hG4bKabc".toList 200) = some (.ok w.tsx.transaction_key) ∧
      pj_hash_get w.memory.layer.htable w.tsx.transaction_key = some w.tsx.self ∧
      w.memory.deref w.tsx.self = some w.tsx ∧
      mod_tsx_layer_on_rx_response sample_env_ack w.memory
        (sample_response INVITE "z9hG4bKabc".toList 200) = some (false, w.memory) :=
  ⟨_, rfl, rfl, rfl, rfl, rfl, rfl⟩

theorem create_uac_generate_branch_spec (uenv : create_uac_env) (b : pj_str_t)
    (h : create_uac_generate_branch uenv = some b) :
    b.length = uenv.PJSIP_MAX_BRANCH_LEN ∧ b.take 7 = PJSIP_RFC3261_BRANCH_ID := by
  unfold create_uac_generate_branch at h
  simp only at h
  split at h
  · rename_i hle
    cases h
    refine ⟨?_, ?_⟩
    · simp only [List.length_append, List.length_drop, List.length_map, List.length_range]
        at hle ⊢
      omega
    · rfl
  · cases h

theorem create_uac_generate_branch_defined (uenv : create_uac_env)
    (h : 9 + uenv.pj_generate_unique_string.length ≤ uenv.PJSIP_MAX_BRANCH_LEN) :
    ∃ b, create_uac_generate_branch uenv = some b := by
  unfold create_uac_generate_branch
  simp only
  rw [if_pos]
  · exact ⟨_, rfl⟩
  · simp only [List.length_append]
    have : (PJSIP_RFC3261_BRANCH_ID.take PJSIP_RFC3261_BRANCH_LEN).length = 7 := rfl
    rw [this]
    simpa [Nat.add_comm, Nat.add_left_comm, Nat.add_assoc] using h

theorem create_uac_via_spec (uenv : create_uac_env) (tdata : pjsip_tx_data)
    (via : pjsip_via_hdr) (h : create_uac_via uenv tdata = some via) :
    (∀ v, tdata.via = some v → v.branch_param ≠ [] → via = v) ∧
    (∀ v, tdata.via = some v → v.branch_param = [] →
      via = { v with branch_param := via.branch_param } ∧
      create_uac_generate_branch uenv = some via.branch_param) ∧
    (tdata.via = none →
      via = { pjsip_via_hdr_create with branch_param := via.branch_param } ∧
      create_uac_generate_branch uenv = some via.branch_param) := by
  unfold create_uac_via at h
  cases hv : tdata.via with
  | none =>
    rw [hv] at h
    simp only [pjsip_via_hdr_create, List.length_nil, if_true] at h
    cases hg : create_uac_generate_branch uenv with
    | none => rw [hg] at h; cases h
    | some b =>
      rw [hg] at h
      cases h
      exact ⟨(fun v hv2 => by cases hv2), (fun v hv2 => by cases hv2), fun _ => ⟨rfl, rfl⟩⟩
  | some v =>
    rw [hv] at h
    simp only at h
    by_cases hb : v.branch_param = []
    · rw [if_pos (by rw [hb]; rfl)] at h
      cases hg : create_uac_generate_branch uenv with
      | none => rw [hg] at h; cases h
      | some b =>
        rw [hg] at h
        cases h
        refine ⟨?_, ?_, fun hn => by cases hn⟩
        · intro v2 hv2 hne; cases hv2; exact absurd hb hne
        · intro v2 hv2 _; cases hv2; exact ⟨rfl, rfl⟩
    · have hl : ¬ v.branch_param.length = 0 := fun e => hb (List.length_eq_zero.mp e)
      rw [if_neg hl] at h
      cases h
      refine ⟨?_, ?_, fun hn => by cases hn⟩
      · intro v2 hv2 _; cases hv2; rfl
      · intro v2 hv2 he; cases hv2; exact absurd he hb

theorem create_uac_via_defined (uenv : create_uac_env) (tdata : pjsip_tx_data)
    (h : (∀ v, tdata.via = some v → v.branch_param = []) →
      9 + uenv.pj_generate_unique_string.length ≤ uenv.PJSIP_MAX_BRANCH_LEN) :
    ∃ via, create_uac_via uenv tdata = some via := by
  unfold create_uac_via
  cases hv : tdata.via with
  | none =>
    obtain ⟨b, hb⟩ := create_uac_generate_branch_defined uenv
      (h (fun v hv2 => by rw [hv] at hv2; cases hv2))
    simp only [pjsip_via_hdr_create, List.length_nil, if_true, hb]
    exact ⟨_, rfl⟩
  | some v =>
    simp only
    by_cases hb : v.branch_param = []
    · obtain ⟨b, hg⟩ := create_uac_generate_branch_defined uenv
        (h (fun v2 hv2 => by rw [hv] at hv2; cases hv2; exact hb))
      rw [if_pos (by rw [hb]; rfl), hg]
      exact ⟨_, rfl⟩
    · have hl : ¬ v.branch_param.length = 0 := fun e => hb (List.length_eq_zero.mp e)
      rw [if_neg hl]
      exact ⟨_, rfl⟩

theorem pjsip_tsx_create_uac_success (env : Env) (cenv : create_env) (uenv : create_uac_env)
    (l : tsx_layer) (tsx_user : Option pjsip_module) (tdata : pjsip_tx_data)
    (cseq : pjsip_cseq_hdr) (addr : Nat) (via : pjsip_via_hdr)
    (hreq : tdata.msg.type = .PJSIP_REQUEST_MSG)
    (hnack : tdata.msg.line.req.method.id ≠ pjsip_method_e.PJSIP_ACK_METHOD)
    (hcseq : tdata.cseq = some cseq)
    (hpool : cenv.pool = some addr)
    (hmutex : cenv.mutex_create = .PJ_SUCCESS)
    (haddr : uenv.get_request_addr.1 = .PJ_SUCCESS)
    (hvia : create_uac_via uenv tdata = some via) :
    ∃ tsx l', pjsip_tsx_create_uac env cenv uenv l tsx_user tdata =
        some (.PJ_SUCCESS, some tsx, l') ∧
      tsx.self = addr ∧
      tsx.tsx_user = tsx_user ∧
      tsx.role = .PJSIP_ROLE_UAC ∧
      tsx.state = .PJSIP_TSX_STATE_NULL ∧
      tsx.state_handler = some .tsx_on_state_null ∧
      tsx.method = tdata.msg.line.req.method ∧
      tsx.cseq = cseq.cseq ∧
      tsx.branch = via.branch_param ∧
      tsx.last_tx = some { tdata with via := some via } ∧
      tsx.transaction_key =
        spec_key_3261 .PJSIP_ROLE_UAC tdata.msg.line.req.method via.branch_param ∧
      pj_hash_get l'.htable tsx.transaction_key = some tsx.self ∧
      l'.tls = l.tls ∧
      l'.trace = l.trace ++ [Effect.tx_data_add_ref { tdata with via := some via }] := by
  have hnack2 : ¬ ¬ tdata.msg.line.req.method.id ≠ pjsip_method_e.PJSIP_ACK_METHOD :=
    fun h => h hnack
  simp only [pjsip_tsx_create_uac, hreq, ne_eq, not_true_eq_false, if_false, hnack,
    not_false_eq_true, hcseq, tsx_create, hpool, hmutex, hvia, create_tsx_key_3261_eq, haddr,
    lock_tsx, mod_tsx_layer_register_tsx, unlock_tsx, World.log, World.layer, if_true]
  refine ⟨_, _, rfl, rfl, rfl, rfl, rfl, rfl, rfl, rfl, rfl, rfl, rfl, ?_, rfl, rfl⟩
  exact pj_hash_get_set_self _ _ _

/-- C23: for every outgoing request with a non-ACK method,
`pjsip_tsx_create_uac` returns the missing-header error, creating nothing,
when the request has no CSeq header; and when it has one and the collaborators
succeed (memory, mutex, request address, room for the generated branch), it
returns success with a transaction of role UAC in state Null whose `cseq` is
the CSeq number and whose `last_tx` is the request, registered under the key
`c$[method$]branch` of the top Via of the request.  A Via that carries a
branch is left as it is; a request without Via gets a new Via; and a branch
that is absent is replaced by a generated one of length
`PJSIP_MAX_BRANCH_LEN` that starts with the magic cookie. -/
theorem pjsip_tsx_create_uac_spec (env : Env) (cenv : create_env) (uenv : create_uac_env)
    (l : tsx_layer) (tsx_user : Option pjsip_module) (tdata : pjsip_tx_data)
    (hreq : tdata.msg.type = .PJSIP_REQUEST_MSG)
    (hnack : tdata.msg.line.req.method.id ≠ pjsip_method_e.PJSIP_ACK_METHOD) :
    (tdata.cseq = none →
      pjsip_tsx_create_uac env cenv uenv l tsx_user tdata =
        some (.PJSIP_EMISSINGHDR, none, l)) ∧
    (∀ cseq addr, tdata.cseq = some cseq → cenv.pool = some addr →
      cenv.mutex_create = .PJ_SUCCESS → uenv.get_request_addr.1 = .PJ_SUCCESS →
      ((∀ v, tdata.via = some v → v.branch_param = []) →
        9 + uenv.pj_generate_unique_string.length ≤ uenv.PJSIP_MAX_BRANCH_LEN) →
      ∃ tsx l' via, pjsip_tsx_create_uac env cenv uenv l tsx_user tdata =
          some (.PJ_SUCCESS, some tsx, l') ∧
        tsx.role = .PJSIP_ROLE_UAC ∧
        tsx.state = .PJSIP_TSX_STATE_NULL ∧
        tsx.cseq = cseq.cseq ∧
        tsx.last_tx = some { tdata with via := some via } ∧
        tsx.transaction_key =
          spec_key_3261 .PJSIP_ROLE_UAC tdata.msg.line.req.method via.branch_param ∧
        pj_hash_get l'.htable tsx.transaction_key = some tsx.self ∧
        (∀ v, tdata.via = some v → v.branch_param ≠ [] → via = v) ∧
        (∀ v, tdata.via = some v → v.branch_param = [] →
          via = { v with branch_param := via.branch_param }) ∧
        (tdata.via = none →
          via = { pjsip_via_hdr_create with branch_param := via.branch_param }) ∧
        ((∀ v, tdata.via = some v → v.branch_param = []) →
          via.branch_param.length = uenv.PJSIP_MAX_BRANCH_LEN ∧
          via.branch_param.take 7 = PJSIP_RFC3261_BRANCH_ID)) := by
  refine ⟨?_, ?_⟩
  · intro hc
    simp only [pjsip_tsx_create_uac, hreq, ne_eq, not_true_eq_false, if_false, hnack,
      not_false_eq_true, hc]
  · intro cseq addr hcseq hpool hmutex haddr hgen
    obtain ⟨via, hvia⟩ := create_uac_via_defined uenv tdata hgen
    obtain ⟨tsx, l', h, -, -, h3, h4, -, -, h7, -, h9, h10, h11, -, -⟩ :=
      pjsip_tsx_create_uac_success env cenv uenv l tsx_user tdata cseq addr via hreq hnack
        hcseq hpool hmutex haddr hvia
    obtain ⟨s1, s2, s3⟩ := create_uac_via_spec uenv tdata via hvia
    refine ⟨tsx, l', via, h, h3, h4, h7, h9, h10, h11, s1, fun v hv hb => (s2 v hv hb).1,
      fun hn => (s3 hn).1, ?_⟩
    intro habs
    cases hv : tdata.via with
    | none => exact create_uac_generate_branch_spec uenv _ (s3 hv).2
    | some v => exact create_uac_generate_branch_spec uenv _ (s2 v hv (habs v hv)).2

theorem pjsip_tsx_create_uac_spec_witness :
    ∃ tsx l' via, pjsip_tsx_create_uac sample_env sample_create_env sample_create_uac_env
        empty_layer (some ⟨true, true⟩) (sample_tdata INVITE) =
          some (.PJ_SUCCESS, some tsx, l') ∧
      tsx.role = .PJSIP_ROLE_UAC ∧
      tsx.state = .PJSIP_TSX_STATE_NULL ∧
      tsx.cseq = 1 ∧
      tsx.last_tx = some { sample_tdata INVITE with via := some via } ∧
      tsx.transaction_key = spec_key_3261 .PJSIP_ROLE_UAC INVITE via.branch_param ∧
      pj_hash_get l'.htable tsx.transaction_key = some tsx.self ∧
      (∀ v, (sample_tdata INVITE).via = some v → v.branch_param ≠ [] → via = v) ∧
      (∀ v, (sample_tdata INVITE).via = some v → v.branch_param = [] →
        via = { v with branch_param := via.branch_param }) ∧
      ((sample_tdata INVITE).via = none →
        via = { pjsip_via_hdr_create with branch_param := via.branch_param }) ∧
      ((∀ v, (sample_tdata INVITE).via = some v → v.branch_param = []) →
        via.branch_param.length = 41 ∧
        via.branch_param.take 7 = PJSIP_RFC3261_BRANCH_ID) :=
  (pjsip_tsx_create_uac_spec sample_env sample_create_env sample_create_uac_env empty_layer
    (some ⟨true, true⟩) (sample_tdata INVITE) rfl (by decide)).2 ⟨1, INVITE⟩ 1 rfl rfl rfl rfl
    (fun _ => by decide)

/-- C24 (amended): `pjsip_tsx_create_uac` does not compare the CSeq method
with the request-line method.  For every outgoing request with a non-ACK
method whose CSeq header names another method, when the collaborators succeed
the call returns success, and the transaction is created with the
request-line method and the CSeq number of the header and registered under
the key built from the request-line method. -/
theorem pjsip_tsx_create_uac_accepts_cseq_method_mismatch (env : Env) (cenv : create_env)
    (uenv : create_uac_env) (l : tsx_layer) (tsx_user : Option pjsip_module)
    (tdata : pjsip_tx_data) (cseq : pjsip_cseq_hdr) (addr : Nat)
    (hreq : tdata.msg.type = .PJSIP_REQUEST_MSG)
    (hnack : tdata.msg.line.req.method.id ≠ pjsip_method_e.PJSIP_ACK_METHOD)
    (hcseq : tdata.cseq = some cseq)
    (hmis : pjsip_method_cmp tdata.msg.line.req.method cseq.method ≠ 0)
    (hpool : cenv.pool = some addr)
    (hmutex : cenv.mutex_create = .PJ_SUCCESS)
    (haddr : uenv.get_request_addr.1 = .PJ_SUCCESS)
    (hgen : (∀ v, tdata.via = some v → v.branch_param = []) →
      9 + uenv.pj_generate_unique_string.length ≤ uenv.PJSIP_MAX_BRANCH_LEN) :
    ∃ tsx l' branch, pjsip_tsx_create_uac env cenv uenv l tsx_user tdata =
        some (.PJ_SUCCESS, some tsx, l') ∧
      pjsip_method_cmp tsx.method cseq.method ≠ 0 ∧
      tsx.method = tdata.msg.line.req.method ∧
      tsx.cseq = cseq.cseq ∧
      tsx.transaction_key =
        spec_key_3261 .PJSIP_ROLE_UAC tdata.msg.line.req.method branch ∧
      pj_hash_get l'.htable tsx.transaction_key = some tsx.self := by
  obtain ⟨via, hvia⟩ := create_uac_via_defined uenv tdata hgen
  obtain ⟨tsx, l', h, -, -, -, -, -, h6, h7, -, -, h10, h11, -, -⟩ :=
    pjsip_tsx_create_uac_success env cenv uenv l tsx_user tdata cseq addr via hreq hnack
      hcseq hpool hmutex haddr hvia
  exact ⟨tsx, l', via.branch_param, h, by rw [h6]; exact hmis, h6, h7, h10, h11⟩

theorem pjsip_tsx_create_uac_accepts_cseq_method_mismatch_witness :
    ∃ tsx l' branch, pjsip_tsx_create_uac sample_env sample_create_env sample_create_uac_env
        empty_layer none { sample_tdata_via OPTIONS with cseq := some ⟨1, INVITE⟩ } =
          some (.PJ_SUCCESS, some tsx, l') ∧
      pjsip_method_cmp tsx.method INVITE ≠ 0 ∧
      tsx.method = OPTIONS ∧
      tsx.cseq = 1 ∧
      tsx.transaction_key = spec_key_3261 .PJSIP_ROLE_UAC OPTIONS branch ∧
      pj_hash_get l'.htable tsx.transaction_key = some tsx.self :=
  pjsip_tsx_create_uac_accepts_cseq_method_mismatch sample_env sample_create_env
    sample_create_uac_env empty_layer none
    { sample_tdata_via OPTIONS with cseq := some ⟨1, INVITE⟩ } ⟨1, INVITE⟩ 1
    rfl (by decide) rfl (by decide) rfl rfl rfl (fun h => absurd (h _ rfl) (by decide))

/-- C24 (counterexample): the sample INVITE whose CSeq header names OPTIONS is
not rejected: `pjsip_tsx_create_uac` returns success, and an INVITE
transaction is created and registered. -/
theorem pjsip_tsx_create_uac_cseq_mismatch_accepted :
    ∃ tsx l', pjsip_tsx_create_uac sample_env sample_create_env sample_create_uac_env
        empty_layer (some ⟨true, true⟩) sample_tdata_cseq_mismatch =
          some (.PJ_SUCCESS, some tsx, l') ∧
      sample_tdata_cseq_mismatch.msg.line.req.method = INVITE ∧
      sample_tdata_cseq_mismatch.cseq = some ⟨1, OPTIONS⟩ ∧
      pjsip_method_cmp INVITE OPTIONS ≠ 0 ∧
      tsx.method = INVITE ∧
      pj_hash_get l'.htable tsx.transaction_key = some tsx.self :=
  ⟨_, _, rfl, rfl, rfl, by decide, rfl, rfl⟩

end Layer

/-! ## Termination and send completion -/

section Completion
open pjsip_tsx_state_e pjsip_event_id_e

theorem rank_lt_terminated (s : pjsip_tsx_state_e)
    (h : s.rank < pjsip_tsx_state_e.PJSIP_TSX_STATE_TERMINATED.rank) :
    s ≠ .PJSIP_TSX_STATE_TERMINATED ∧ s ≠ .PJSIP_TSX_STATE_DESTROYED := by
  cases s <;> first
    | exact ⟨by decide, by decide⟩
    | exact absurd h (by decide)

/-- C25: `pjsip_tsx_terminate` rejects a code below 200 with the
invalid-argument error and no change; on a transaction already in Terminated
it returns success and changes nothing at all; on a transaction in an earlier
state it returns success, sets the status code to the code given (and the
status text to the text of that code), moves the state to Terminated, and the
state callback is the only call into the transaction user. -/
theorem pjsip_tsx_terminate_spec (env : Env) (w : World) (code : Int)
    (hrel : w.released = false) :
    (code < 200 → pjsip_tsx_terminate env w code = some (.PJ_EINVAL, w)) ∧
    (200 ≤ code → w.tsx.state = .PJSIP_TSX_STATE_TERMINATED →
      pjsip_tsx_terminate env w code = some (.PJ_SUCCESS, w)) ∧
    (200 ≤ code → w.tsx.state.rank < pjsip_tsx_state_e.PJSIP_TSX_STATE_TERMINATED.rank →
      ∃ w' new, pjsip_tsx_terminate env w code = some (.PJ_SUCCESS, w') ∧
        w'.tsx.status_code = code ∧
        w'.tsx.status_text = env.pjsip_get_status_text code ∧
        w'.tsx.state = .PJSIP_TSX_STATE_TERMINATED ∧
        w'.trace = w.trace ++ new ∧
        new.filter Effect.is_tu_callback =
          tu_state_callback w.tsx.tsx_user .PJSIP_TSX_STATE_TERMINATED w.tsx.state
            .PJSIP_EVENT_USER .null) := by
  refine ⟨?_, ?_, ?_⟩
  · intro h
    have h2 : ¬ code ≥ 200 := by omega
    simp only [pjsip_tsx_terminate, hrel, h2, if_true, if_false, Bool.false_eq_true,
      not_false_eq_true]
  · intro h hs
    have h2 : code ≥ 200 := h
    simp only [pjsip_tsx_terminate, hrel, h2, hs, if_true, if_false, Bool.false_eq_true,
      not_true_eq_false]
  · intro h hr
    have h2 : code ≥ 200 := h
    obtain ⟨hs, -⟩ := rank_lt_terminated _ hr
    have hty : PJSIP_EVENT_USER ≠ PJSIP_EVENT_RX_MSG := by decide
    simp only [pjsip_tsx_terminate, hrel, h2, hs, if_true, if_false, Bool.false_eq_true,
      not_true_eq_false, tsx_set_state_terminated env _ PJSIP_EVENT_USER .null hty,
      lock_tsx, tsx_set_status_code, unlock_tsx]
    refine ⟨_, tu_state_callback w.tsx.tsx_user PJSIP_TSX_STATE_TERMINATED w.tsx.state
        PJSIP_EVENT_USER .null ++
      terminated_timer_ops w.tsx.transport_flag.TSX_HAS_PENDING_TRANSPORT
        w.tsx.timeout_timer._timer_id, rfl, rfl, rfl, rfl, ?_, ?_⟩
    · simp only [List.append_assoc]
    · rw [List.filter_append, (tu_state_callback_filter _ _ _ _ _).1,
        (terminated_timer_ops_filter _ _).1, List.append_nil]

theorem pjsip_tsx_terminate_spec_witness :
    pjsip_tsx_terminate sample_env (sample_calling_world INVITE) 199 =
      some (.PJ_EINVAL, sample_calling_world INVITE) ∧
    ∃ w' new, pjsip_tsx_terminate sample_env (sample_calling_world INVITE) 487 =
        some (.PJ_SUCCESS, w') ∧
      w'.tsx.status_code = 487 ∧
      w'.tsx.status_text = sample_env.pjsip_get_status_text 487 ∧
      w'.tsx.state = .PJSIP_TSX_STATE_TERMINATED ∧
      w'.trace = (sample_calling_world INVITE).trace ++ new ∧
      new.filter Effect.is_tu_callback =
        tu_state_callback (some ⟨true, true⟩) .PJSIP_TSX_STATE_TERMINATED
          .PJSIP_TSX_STATE_CALLING .PJSIP_EVENT_USER .null :=
  ⟨(pjsip_tsx_terminate_spec sample_env (sample_calling_world INVITE) 199 rfl).1 (by decide),
    (pjsip_tsx_terminate_spec sample_env (sample_calling_world INVITE) 487 rfl).2.2
      (by decide) (by decide)⟩

/-- C26: for every transaction whose pending-transport flag is set and every
message, `tsx_send_msg` returns success and changes nothing but the
pending-send flag, which it sets: no call is made to a transport or to the
endpoint (the trace is the same), and every other field of the transaction is
as before. -/
theorem tsx_send_msg_pending_transport_defers (env : Env) (w : World)
    (tdata : pjsip_tx_data)
    (hpend : w.tsx.transport_flag.TSX_HAS_PENDING_TRANSPORT = true) :
    ∃ w', tsx_send_msg env w (some tdata) = some (.PJ_SUCCESS, w') ∧
      w' = { w with tsx := { w.tsx with
        transport_flag := { w.tsx.transport_flag with TSX_HAS_PENDING_SEND := true } } } ∧
      w'.tsx.transport_flag.TSX_HAS_PENDING_SEND = true ∧
      w'.tsx.transport_flag.TSX_HAS_PENDING_TRANSPORT = true ∧
      w'.trace = w.trace := by
  refine ⟨_, ?_, rfl, rfl, hpend, rfl⟩
  simp only [tsx_send_msg, hpend, if_true, set_transport_flag]

theorem tsx_send_msg_pending_transport_defers_witness :
    ∃ w', tsx_send_msg sample_env (sample_calling_world INVITE) (some (sample_tdata INVITE)) =
        some (.PJ_SUCCESS, w') ∧
      w' = { sample_calling_world INVITE with tsx := { (sample_calling_world INVITE).tsx with
        transport_flag := { (sample_calling_world INVITE).tsx.transport_flag with
          TSX_HAS_PENDING_SEND := true } } } ∧
      w'.tsx.transport_flag.TSX_HAS_PENDING_SEND = true ∧
      w'.tsx.transport_flag.TSX_HAS_PENDING_TRANSPORT = true ∧
      w'.trace = (sample_calling_world INVITE).trace :=
  tsx_send_msg_pending_transport_defers sample_env (sample_calling_world INVITE)
    (sample_tdata INVITE) rfl

theorem release_transport_lock (w : World) (cur : Option pjsip_transport) :
    send_msg_callback_release_transport (lock_tsx w) cur =
      lock_tsx (send_msg_callback_release_transport w cur) := by
  unfold send_msg_callback_release_transport lock_tsx
  cases h : w.tsx.transport with
  | none => simp only [h]
  | some tp =>
    simp only [h]
    split <;> rfl

theorem unlock_lock (w : World) : unlock_tsx (lock_tsx w) = some (.PJ_SUCCESS, w) := by
  simp only [unlock_tsx, lock_tsx, if_true]

/-! ### While a transport is pending the transaction holds none -/

theorem ptc_of_view (a b : World) (h : a.transport_view = b.transport_view)
    (hb : pending_transport_consistent b) : pending_transport_consistent a := by
  unfold World.transport_view at h
  have h1 := congrArg Prod.fst h
  have h2 := congrArg Prod.snd h
  simp only at h1 h2
  intro hp
  rw [h1]
  exact hb (by rw [← h2]; exact hp)

theorem ptc_of_no_transport (w : World) (h : w.tsx.transport = none) :
    pending_transport_consistent w := fun _ => h

theorem ptc_of_not_pending (w : World)
    (h : w.tsx.transport_flag.TSX_HAS_PENDING_TRANSPORT = false) :
    pending_transport_consistent w := by
  intro hp
  rw [h] at hp
  cases hp

@[simp] theorem set_timer_id_view (w : World) (e : Transaction_Timer_Id) (i : Int) :
    (set_timer_id w e i).transport_view = w.transport_view := by
  cases e <;> rfl

@[simp] theorem log_view (w : World) (e : Effect) :
    (w.log e).transport_view = w.transport_view := rfl

@[simp] theorem cancel_timer_view (w : World) (e : Transaction_Timer_Id) :
    (pjsip_endpt_cancel_timer w e).transport_view = w.transport_view := by
  cases e <;> rfl

@[simp] theorem schedule_timer_view (env : Env) (w : World) (e : Transaction_Timer_Id)
    (d : pj_time_val) :
    (pjsip_endpt_schedule_timer env w e d).transport_view = w.transport_view := by
  cases e <;> rfl

@[simp] theorem set_status_code_view (env : Env) (w : World) (c : Int)
    (r : Option pj_str_t) :
    (tsx_set_status_code env w c r).transport_view = w.transport_view := rfl

@[simp] theorem lock_tsx_view (w : World) : (lock_tsx w).transport_view = w.transport_view :=
  rfl

@[simp] theorem unregister_view (w : World) :
    (mod_tsx_layer_unregister_tsx w).transport_view = w.transport_view := rfl

@[simp] theorem cancel_retransmit_timer_view (w : World) :
    (cancel_retransmit_timer w).transport_view = w.transport_view := by
  rw [cancel_retransmit_timer_eq]
  rfl

@[simp] theorem save_last_tx_view (w : World) (t : pjsip_tx_data) :
    (save_last_tx w t).transport_view = w.transport_view := by
  unfold save_last_tx; split <;> rfl

@[simp] theorem discard_last_tx_view (w : World) (t : pjsip_tx_data) :
    (discard_last_tx w t).transport_view = w.transport_view := by
  unfold discard_last_tx; split
  · split <;> rfl
  · rfl

@[simp] theorem start_retransmit_timer_view (env : Env) (w : World) :
    (start_retransmit_timer env w).transport_view = w.transport_view := by
  unfold start_retransmit_timer; simp only; split
  · rfl
  · rw [schedule_timer_view]
    rfl

@[simp] theorem resched_view (env : Env) (w : World) :
    (tsx_resched_retransmission env w).transport_view = w.transport_view := by
  unfold tsx_resched_retransmission; simp only [schedule_timer_view]

@[simp] theorem proceeding_uac_start_timer_d_view (env : Env) (w : World) :
    (proceeding_uac_start_timer_d env w).transport_view = w.transport_view := by
  unfold proceeding_uac_start_timer_d
  simp only [schedule_timer_view]

@[simp] theorem proceeding_uas_3xx_timeout_view (env : Env) (w : World) :
    (proceeding_uas_3xx_timeout env w).transport_view = w.transport_view := by
  unfold proceeding_uas_3xx_timeout
  split
  · rw [schedule_timer_view]
  · split <;> rw [schedule_timer_view]

theorem inform_rx_view (w w' : World) (ty : pjsip_event_id_e) (src : event_src)
    (h : tsx_set_state_inform_rx w ty src = some w') :
    w'.transport_view = w.transport_view := by
  unfold tsx_set_state_inform_rx at h
  repeat' split at h
  all_goals first | (cases h; rfl) | cases h

@[simp] theorem inform_state_view (w : World) (s p : pjsip_tsx_state_e)
    (ty : pjsip_event_id_e) (src : event_src) :
    (tsx_set_state_inform_state w s p ty src).transport_view = w.transport_view := by
  unfold tsx_set_state_inform_state
  repeat' split
  all_goals rfl

theorem finish_ptc (env : Env) (w : World) (s : pjsip_tsx_state_e)
    (hi : pending_transport_consistent w) :
    pending_transport_consistent (tsx_set_state_finish env w s) := by
  unfold tsx_set_state_finish
  split
  · split
    · exact ptc_of_view _ w rfl hi
    · refine ptc_of_view _ w ?_ hi
      simp only [schedule_timer_view]
      split
      · simp only [set_timer_id_view, cancel_timer_view]
      · rfl
  · split
    · apply ptc_of_no_transport
      rw [tsx_destroy_eq]
    · exact hi

theorem tsx_set_state_ptc (env : Env) (w w' : World) (s : pjsip_tsx_state_e)
    (ty : pjsip_event_id_e) (src : event_src)
    (h : tsx_set_state env w s ty src = some w')
    (hi : pending_transport_consistent w) : pending_transport_consistent w' := by
  unfold tsx_set_state at h
  simp only at h
  split at h
  · cases h
  · rename_i w1 hw1
    cases h
    apply finish_ptc
    refine ptc_of_view _ w ?_ hi
    rw [inform_state_view, inform_rx_view _ _ _ _ hw1]
    rfl

theorem tsx_send_msg_resolve_ptc (env : Env) (w w' : World) (t : pjsip_tx_data)
    (st0 st : pj_status_t) (h : tsx_send_msg_resolve env w t st0 = some (st, w'))
    (htp : w.tsx.transport = none) : pending_transport_consistent w' := by
  unfold tsx_send_msg_resolve at h
  split at h
  · simp only at h
    split at h
    · cases h
    · rename_i w1 hw1
      cases h
      exact tsx_set_state_ptc _ _ _ _ _ _ hw1 (ptc_of_no_transport _ htp)
  · simp only at h
    apply ptc_of_no_transport
    split at h <;> cases h <;> (repeat' split) <;> exact htp

/-- The function `tsx_send_msg` keeps the invariant: with a transport pending it only
notes the pending send; a successful send over the transport held changes
neither the transport nor the flag; and the slow path, the only place where
the flag is set, is entered without a transport. -/
theorem tsx_send_msg_ptc (env : Env) (w w' : World) (t : Option pjsip_tx_data)
    (st : pj_status_t) (h : tsx_send_msg env w t = some (st, w'))
    (hi : pending_transport_consistent w) : pending_transport_consistent w' := by
  unfold tsx_send_msg at h
  split at h
  · cases h; exact hi
  · split at h
    · cases h; exact ptc_of_view _ w rfl hi
    · split at h
      · simp only at h
        by_cases hst : (if env.transport_send = pj_status_t.PJ_EPENDING then
            pj_status_t.PJ_SUCCESS else env.transport_send) ≠ pj_status_t.PJ_SUCCESS
        · rw [if_pos hst] at h
          exact tsx_send_msg_resolve_ptc _ _ _ _ _ _ h rfl
        · rw [if_neg hst] at h
          cases h; exact ptc_of_view _ w rfl hi
      · rename_i htp
        exact tsx_send_msg_resolve_ptc _ _ _ _ _ _ h htp

theorem tsx_retransmit_ptc (env : Env) (w w' : World) (resched : Bool)
    (st : pj_status_t) (h : tsx_retransmit env w resched = some (st, w'))
    (hi : pending_transport_consistent w) : pending_transport_consistent w' := by
  unfold tsx_retransmit at h
  split at h
  · cases h; exact hi
  · simp only at h
    split at h
    · cases h
    · rename_i st1 w1 hs
      have e : w1 = w' := by split at h <;> cases h <;> rfl
      subst e
      refine tsx_send_msg_ptc _ _ _ _ _ hs (ptc_of_view _ w ?_ hi)
      repeat' split
      all_goals rfl

theorem proceeding_uac_create_ack_view (env : Env) (w w' : World) (event : pjsip_event)
    (r : Except pj_status_t (Option pjsip_tx_data))
    (h : proceeding_uac_create_ack env w event = some (r, w')) :
    w'.transport_view = w.transport_view := by
  unfold proceeding_uac_create_ack at h
  split at h
  · split at h
    · split at h <;> cases h <;> rfl
    · cases h
  · cases h; rfl

theorem proceeding_uac_send_ack_ptc (env : Env) (w w' : World)
    (ack : Option pjsip_tx_data) (st : pj_status_t)
    (h : proceeding_uac_send_ack env w ack = some (st, w'))
    (hi : pending_transport_consistent w) : pending_transport_consistent w' := by
  unfold proceeding_uac_send_ack at h
  split at h
  · split at h
    · cases h
    · rename_i st1 w1 hs
      have := tsx_send_msg_ptc _ _ _ _ _ hs hi
      split at h
      · split at h
        · cases h
        · cases h; exact ptc_of_view _ w1 rfl this
      · cases h; exact this
  · cases h; exact hi

theorem tsx_on_state_proceeding_uac_status_ptc (env : Env) (w w' : World)
    (event : pjsip_event) (st : pj_status_t)
    (h : tsx_on_state_proceeding_uac_status env w event = some (st, w'))
    (hi : pending_transport_consistent w) : pending_transport_consistent w' := by
  unfold tsx_on_state_proceeding_uac_status at h
  split at h
  · obtain ⟨hX, -⟩ := set_state_then_status _ _ _ _ h
    exact tsx_set_state_ptc _ _ _ _ _ _ hX hi
  · split at h
    · simp only at h
      split at h
      · obtain ⟨hX, -⟩ := set_state_then_status _ _ _ _ h
        exact tsx_set_state_ptc _ _ _ _ _ _ hX (ptc_of_view _ w (by simp) hi)
      · obtain ⟨hX, -⟩ := set_state_then_status _ _ _ _ h
        exact tsx_set_state_ptc _ _ _ _ _ _ hX (ptc_of_view _ w (by simp) hi)
    · split at h
      · simp only at h
        split at h
        · cases h
        · rename_i status w1 hack
          cases h
          refine ptc_of_view _ w ?_ hi
          rw [proceeding_uac_create_ack_view _ _ _ _ _ hack, cancel_timer_view]
        · rename_i ack w1 hack
          have i1 : pending_transport_consistent w1 := by
            refine ptc_of_view _ w ?_ hi
            rw [proceeding_uac_create_ack_view _ _ _ _ _ hack, cancel_timer_view]
          split at h
          · cases h
          · rename_i w2 hset
            have i2 := tsx_set_state_ptc _ _ _ _ _ _ hset i1
            split at h
            · cases h
            · rename_i st3 w3 hsend
              have i3 := proceeding_uac_send_ack_ptc _ _ _ _ _ hsend i2
              split at h
              · cases h; exact i3
              · cases h
                exact ptc_of_view _ w3 (by simp) i3
      · cases h; exact hi

theorem tsx_on_state_proceeding_uac_ptc (env : Env) (w w' : World)
    (event : pjsip_event) (st : pj_status_t)
    (h : tsx_on_state_proceeding_uac env w event = some (st, w'))
    (hi : pending_transport_consistent w) : pending_transport_consistent w' := by
  unfold tsx_on_state_proceeding_uac at h
  split at h
  · cases h; exact hi
  · split at h
    · cases h
    · split at h
      · cases h; exact hi
      · simp only at h
        exact tsx_on_state_proceeding_uac_status_ptc _ _ _ _ _ h (ptc_of_view _ w rfl hi)
  · simp only at h
    exact tsx_on_state_proceeding_uac_status_ptc _ _ _ _ _ h (ptc_of_view _ w rfl hi)

theorem tsx_on_state_calling_ptc (env : Env) (w w' : World)
    (event : pjsip_event) (st : pj_status_t)
    (h : tsx_on_state_calling env w event = some (st, w'))
    (hi : pending_transport_consistent w) : pending_transport_consistent w' := by
  unfold tsx_on_state_calling at h
  split at h
  · exact tsx_retransmit_ptc _ _ _ _ _ (status_passthrough _ _ _ h) hi
  · simp only at h
    obtain ⟨hX, -⟩ := set_state_then_status _ _ _ _ h
    exact tsx_set_state_ptc _ _ _ _ _ _ hX (ptc_of_view _ w (by simp) hi)
  · split at h
    · cases h
    · split at h
      · cases h; exact hi
      · simp only at h
        split at h
        · cases h
        · rename_i st1 w1 hp
          cases h
          exact tsx_on_state_proceeding_uac_ptc _ _ _ _ _ hp (ptc_of_view _ w (by simp) hi)
  · cases h; exact hi

theorem proceeding_uas_3xx_retransmit_view (env : Env) (w w' : World) (tdata : pjsip_tx_data)
    (h : proceeding_uas_3xx_retransmit env w tdata = some w') :
    w'.transport_view = w.transport_view := by
  unfold proceeding_uas_3xx_retransmit at h
  split at h
  · split at h
    · cases h
    · split at h
      · cases h; simp
      · cases h; rfl
  · cases h; rfl

theorem proceeding_uas_update_state_ptc (env : Env) (w w' : World)
    (tdata : pjsip_tx_data) (st : pj_status_t)
    (h : proceeding_uas_update_state env w tdata = some (st, w'))
    (hi : pending_transport_consistent w) : pending_transport_consistent w' := by
  unfold proceeding_uas_update_state at h
  split at h
  · simp only at h
    obtain ⟨hX, -⟩ := set_state_then_status _ _ _ _ h
    exact tsx_set_state_ptc _ _ _ _ _ _ hX (ptc_of_view _ w (by simp) hi)
  · split at h
    · split at h
      · obtain ⟨hX, -⟩ := set_state_then_status _ _ _ _ h
        exact tsx_set_state_ptc _ _ _ _ _ _ hX hi
      · simp only at h
        split at h
        · cases h
        · obtain ⟨hX, -⟩ := set_state_then_status _ _ _ _ h
          refine tsx_set_state_ptc _ _ _ _ _ _ hX (ptc_of_view _ w ?_ hi)
          simp only [schedule_timer_view, save_last_tx_view]
          split
          · simp
          · rfl
    · split at h
      · simp only at h
        split at h
        · cases h
        · rename_i w1 hr
          obtain ⟨hX, -⟩ := set_state_then_status _ _ _ _ h
          refine tsx_set_state_ptc _ _ _ _ _ _ hX (ptc_of_view _ w ?_ hi)
          rw [proceeding_uas_3xx_retransmit_view _ _ _ _ hr]
          simp
      · cases h; exact hi

theorem tsx_on_state_proceeding_uas_ptc (env : Env) (w w' : World)
    (event : pjsip_event) (st : pj_status_t)
    (h : tsx_on_state_proceeding_uas env w event = some (st, w'))
    (hi : pending_transport_consistent w) : pending_transport_consistent w' := by
  unfold tsx_on_state_proceeding_uas at h
  split at h
  · split at h
    · cases h; exact hi
    · split at h
      · cases h; exact ptc_of_view _ w rfl hi
      · exact tsx_send_msg_ptc _ _ _ _ _ (status_passthrough _ _ _ h) hi
  · simp only at h
    split at h
    · cases h; exact hi
    · split at h
      · cases h
      · rename_i st1 w1 hsend
        have i1 := tsx_send_msg_ptc _ _ _ _ _ hsend (ptc_of_view _ w (by simp) hi)
        split at h
        · cases h; exact i1
        · exact proceeding_uas_update_state_ptc _ _ _ _ _ h i1
  · exact tsx_retransmit_ptc _ _ _ _ _ (status_passthrough _ _ _ h) hi
  · simp only at h
    obtain ⟨hX, -⟩ := set_state_then_status _ _ _ _ h
    exact tsx_set_state_ptc _ _ _ _ _ _ hX (ptc_of_view _ w (by simp) hi)

theorem tsx_on_state_trying_ptc (env : Env) (w w' : World)
    (event : pjsip_event) (st : pj_status_t)
    (h : tsx_on_state_trying env w event = some (st, w'))
    (hi : pending_transport_consistent w) : pending_transport_consistent w' := by
  unfold tsx_on_state_trying at h
  split at h
  · cases h; exact hi
  · split at h
    · cases h
    · rename_i st1 w1 hp
      have i1 := tsx_on_state_proceeding_uas_ptc _ _ _ _ _ hp hi
      split at h
      · split at h
        · cases h
        · rename_i w2 hset
          cases h
          exact tsx_set_state_ptc _ _ _ _ _ _ hset i1
      · cases h; exact i1

theorem tsx_on_state_null_ptc (env : Env) (w w' : World)
    (event : pjsip_event) (st : pj_status_t)
    (h : tsx_on_state_null env w event = some (st, w'))
    (hi : pending_transport_consistent w) : pending_transport_consistent w' := by
  unfold tsx_on_state_null at h
  split at h
  · obtain ⟨hX, -⟩ := set_state_then_status _ _ _ _ h
    exact tsx_set_state_ptc _ _ _ _ _ _ hX hi
  · split at h
    · simp only at h
      split at h
      · cases h
      · rename_i st1 w1 hsend
        have i1 := tsx_send_msg_ptc _ _ _ _ _ hsend (ptc_of_view _ w (by simp) hi)
        split at h
        · cases h; exact i1
        · obtain ⟨hX, -⟩ := set_state_then_status _ _ _ _ h
          refine tsx_set_state_ptc _ _ _ _ _ _ hX (ptc_of_view _ w1 ?_ i1)
          split
          · simp
          · simp
    · cases h; exact hi

theorem tsx_on_state_completed_uas_ptc (env : Env) (w w' : World)
    (event : pjsip_event) (st : pj_status_t)
    (h : tsx_on_state_completed_uas env w event = some (st, w'))
    (hi : pending_transport_consistent w) : pending_transport_consistent w' := by
  unfold tsx_on_state_completed_uas at h
  split at h
  · split at h
    · cases h
    · split at h
      · cases h; exact hi
      · split at h
        · exact tsx_retransmit_ptc _ _ _ _ _ (status_passthrough _ _ _ h) hi
        · simp only at h
          obtain ⟨hX, -⟩ := set_state_then_status _ _ _ _ h
          exact tsx_set_state_ptc _ _ _ _ _ _ hX (ptc_of_view _ w (by simp) hi)
  · exact tsx_retransmit_ptc _ _ _ _ _ (status_passthrough _ _ _ h) hi
  · split at h
    · simp only at h
      obtain ⟨hX, -⟩ := set_state_then_status _ _ _ _ h
      exact tsx_set_state_ptc _ _ _ _ _ _ hX (ptc_of_view _ w (by simp) hi)
    · obtain ⟨hX, -⟩ := set_state_then_status _ _ _ _ h
      exact tsx_set_state_ptc _ _ _ _ _ _ hX hi
  · split at h <;> cases h <;> exact hi

theorem tsx_on_state_completed_uac_ptc (env : Env) (w w' : World)
    (event : pjsip_event) (st : pj_status_t)
    (h : tsx_on_state_completed_uac env w event = some (st, w'))
    (hi : pending_transport_consistent w) : pending_transport_consistent w' := by
  unfold tsx_on_state_completed_uac at h
  split at h
  · obtain ⟨hX, -⟩ := set_state_then_status _ _ _ _ h
    exact tsx_set_state_ptc _ _ _ _ _ _ hX hi
  · split at h
    · split at h
      · cases h
      · split at h
        · exact tsx_retransmit_ptc _ _ _ _ _ (status_passthrough _ _ _ h) hi
        · cases h; exact hi
    · cases h; exact hi
  · cases h; exact hi

theorem tsx_on_state_confirmed_ptc (env : Env) (w w' : World)
    (event : pjsip_event) (st : pj_status_t)
    (h : tsx_on_state_confirmed env w event = some (st, w'))
    (hi : pending_transport_consistent w) : pending_transport_consistent w' := by
  unfold tsx_on_state_confirmed at h
  split at h
  · split at h
    · cases h
    · split at h <;> cases h <;> exact hi
  · obtain ⟨hX, -⟩ := set_state_then_status _ _ _ _ h
    exact tsx_set_state_ptc _ _ _ _ _ _ hX hi
  · cases h; exact hi

theorem tsx_on_state_terminated_ptc (env : Env) (w w' : World)
    (event : pjsip_event) (st : pj_status_t)
    (h : tsx_on_state_terminated env w event = some (st, w'))
    (hi : pending_transport_consistent w) : pending_transport_consistent w' := by
  unfold tsx_on_state_terminated at h
  obtain ⟨hX, -⟩ := set_state_then_status _ _ _ _ h
  exact tsx_set_state_ptc _ _ _ _ _ _ hX hi

/-- Every defined run of the current state handler keeps the invariant. -/
theorem call_state_handler_ptc (env : Env) (w w' : World) (event : pjsip_event)
    (st : pj_status_t) (h : call_state_handler env w event = some (st, w'))
    (hi : pending_transport_consistent w) : pending_transport_consistent w' := by
  unfold call_state_handler at h
  split at h
  · cases h
  · exact tsx_on_state_null_ptc _ _ _ _ _ h hi
  · exact tsx_on_state_calling_ptc _ _ _ _ _ h hi
  · exact tsx_on_state_trying_ptc _ _ _ _ _ h hi
  · exact tsx_on_state_proceeding_uas_ptc _ _ _ _ _ h hi
  · exact tsx_on_state_proceeding_uac_ptc _ _ _ _ _ h hi
  · exact tsx_on_state_completed_uas_ptc _ _ _ _ _ h hi
  · exact tsx_on_state_completed_uac_ptc _ _ _ _ _ h hi
  · exact tsx_on_state_confirmed_ptc _ _ _ _ _ h hi
  · exact tsx_on_state_terminated_ptc _ _ _ _ _ h hi
  · unfold tsx_on_state_destroyed at h
    cases h; exact hi

theorem unlock_tsx_view (w w' : World) (st : pj_status_t)
    (h : unlock_tsx w = some (st, w')) : w'.transport_view = w.transport_view := by
  unfold unlock_tsx at h
  split at h
  · cases h
  · cases h; rfl

theorem tsx_create_not_pending (cenv : create_env) (l l' : tsx_layer)
    (tsx_user : Option pjsip_module) (w : World)
    (h : tsx_create cenv l tsx_user = (.ok w, l')) :
    w.tsx.transport_flag.TSX_HAS_PENDING_TRANSPORT = false := by
  unfold tsx_create at h
  split at h
  · cases h
  · simp only at h
    split at h
    · cases h
    · cases h; rfl

/-- A transaction fresh from `pjsip_tsx_create_uas` or `pjsip_tsx_create_uac`
has no transport pending, so the invariant holds when it starts its life. -/
theorem created_pending_transport_consistent (env : Env) (cenv : create_env)
    (uenv : create_uac_env) (l : tsx_layer) (tsx_user : Option pjsip_module) :
    (∀ rdata w, created_world (pjsip_tsx_create_uas env cenv l tsx_user rdata) = some w →
      pending_transport_consistent w) ∧
    (∀ tdata w, created_world (pjsip_tsx_create_uac env cenv uenv l tsx_user tdata) = some w →
      pending_transport_consistent w) := by
  constructor
  · intro rdata w h
    apply ptc_of_not_pending
    unfold created_world at h
    split at h
    · rename_i st tsx l' hc
      cases h
      show tsx.transport_flag.TSX_HAS_PENDING_TRANSPORT = false
      unfold pjsip_tsx_create_uas at hc
      repeat' (first | split at hc | simp only at hc)
      all_goals try (cases hc; done)
      rename_i hcr _ _ _ _ _ _ _ w2 hu
      cases hc
      have hv := congrArg Prod.snd (unlock_tsx_view _ _ _ hu)
      have hcr2 := tsx_create_not_pending _ _ _ _ _ hcr
      show w2.transport_view.2 = false
      rw [hv]
      split
      · exact hcr2
      · exact hcr2
    · cases h
  · intro tdata w h
    apply ptc_of_not_pending
    unfold created_world at h
    split at h
    · rename_i st tsx l' hc
      cases h
      show tsx.transport_flag.TSX_HAS_PENDING_TRANSPORT = false
      unfold pjsip_tsx_create_uac at hc
      repeat' (first | split at hc | simp only at hc)
      all_goals try (cases hc; done)
      rename_i hcr _ _ _ _ _ _ _ _ _ w2 hu
      cases hc
      have hv := congrArg Prod.snd (unlock_tsx_view _ _ _ hu)
      have hcr2 := tsx_create_not_pending _ _ _ _ _ hcr
      show w2.transport_view.2 = false
      rw [hv]
      split
      · exact hcr2
      · exact hcr2
    · cases h

theorem send_msg_callback_release_transport_ptc (w : World)
    (cur_transport : Option pjsip_transport) (hi : pending_transport_consistent w) :
    pending_transport_consistent (send_msg_callback_release_transport w cur_transport) := by
  unfold send_msg_callback_release_transport
  split
  · split
    · exact ptc_of_no_transport _ rfl
    · exact hi
  · exact hi

/-- The send-completion callback keeps the invariant: a successful send
assigns the transport and clears the pending-transport flag; a failed one
assigns nothing. -/
theorem send_msg_callback_ptc (env : Env) (w w' : World)
    (cur_transport : Option pjsip_transport) (tdata : pjsip_tx_data) (sent : Int)
    (cont : Bool) (h : send_msg_callback env w cur_transport tdata sent cont = some w')
    (hi : pending_transport_consistent w) : pending_transport_consistent w' := by
  unfold send_msg_callback at h
  split at h
  · cases h
  · simp only at h
    split at h
    · cases h
    · rename_i w1 hw1
      split at h
      · cases h
      · rename_i st2 w2 hu
        cases h
        refine ptc_of_view _ w1 (unlock_tsx_view _ _ _ hu) ?_
        split at hw1
        · -- successful send
          split at hw1
          · cases hw1
          · rename_i wu hwu
            split at hw1
            · exact tsx_set_state_ptc _ _ _ _ _ _ hw1 (ptc_of_not_pending _ rfl)
            · split at hw1
              · cases hw1
              · rename_i wa ha
                have ia : pending_transport_consistent wa := by
                  split at ha
                  · split at ha
                    · cases ha
                    · rename_i st3 w3 hs
                      cases ha
                      exact tsx_send_msg_ptc _ _ _ _ _ hs (ptc_of_not_pending _ rfl)
                  · cases ha
                    exact ptc_of_not_pending _ rfl
                split at hw1
                · split at hw1
                  · cases hw1
                    exact ptc_of_view _ wa (by simp only [resched_view]; rfl) ia
                  · cases hw1
                    exact ptc_of_view _ wa rfl ia
                · cases hw1; exact ia
        · -- failed send
          have ir := send_msg_callback_release_transport_ptc (lock_tsx w) cur_transport
            (ptc_of_view _ w rfl hi)
          split at hw1
          · split at hw1
            · exact tsx_set_state_ptc _ _ _ _ _ _ hw1 (ptc_of_not_pending _ rfl)
            · cases hw1
              exact ptc_of_not_pending _ rfl
          · cases hw1; exact ir

/-- The invariant holds through every entry point: the three that dispatch
to the state handler, `pjsip_tsx_terminate`, and the two completion
callbacks. -/
theorem entry_points_keep_pending_transport_consistent (env : Env) (w : World)
    (hi : pending_transport_consistent w) :
    (∀ tdata st w', pjsip_tsx_send_msg env w tdata = some (st, w') →
      pending_transport_consistent w') ∧
    (∀ rdata w', pjsip_tsx_recv_msg env w rdata = some w' →
      pending_transport_consistent w') ∧
    (∀ entry w', tsx_timer_callback env w entry = some w' →
      pending_transport_consistent w') ∧
    (∀ code st w', pjsip_tsx_terminate env w code = some (st, w') →
      pending_transport_consistent w') ∧
    (∀ cur_transport tdata sent cont w',
      send_msg_callback env w cur_transport tdata sent cont = some w' →
      pending_transport_consistent w') ∧
    (∀ tdata sent w', transport_callback env w tdata sent = some w' →
      pending_transport_consistent w') := by
  refine ⟨?_, ?_, ?_, ?_, ?_, ?_⟩
  · intro tdata st w' h
    unfold pjsip_tsx_send_msg at h
    split at h
    · cases h
    · simp only at h
      split at h
      · cases h; exact hi
      · split at h
        · cases h
        · rename_i st1 w1 hc
          have m := call_state_handler_ptc env _ _ _ _ hc (ptc_of_view _ w rfl hi)
          split at h
          · cases h
          · rename_i st2 w2 hu
            have e := unlock_tsx_view _ _ _ hu
            cases h
            refine ptc_of_view _ w1 ?_ m
            rw [← e]
            split <;> rfl
  · intro rdata w' h
    unfold pjsip_tsx_recv_msg at h
    split at h
    · cases h
    · simp only at h
      split at h
      · cases h
      · rename_i st1 w1 hc
        have m := call_state_handler_ptc env _ _ _ _ hc (ptc_of_view _ w rfl hi)
        split at h
        · cases h
        · rename_i st2 w2 hu
          cases h
          exact ptc_of_view _ w1 (unlock_tsx_view _ _ _ hu) m
  · intro entry w' h
    unfold tsx_timer_callback at h
    split at h
    · cases h
    · simp only at h
      split at h
      · cases h
      · rename_i st1 w1 hc
        have m := call_state_handler_ptc env _ _ _ _ hc (ptc_of_view _ w rfl hi)
        split at h
        · cases h
        · rename_i st2 w2 hu
          cases h
          exact ptc_of_view _ w1 (unlock_tsx_view _ _ _ hu) m
  · intro code st w' h
    unfold pjsip_tsx_terminate at h
    split at h
    · cases h
    · split at h
      · cases h; exact hi
      · split at h
        · cases h; exact hi
        · simp only at h
          split at h
          · cases h
          · rename_i w1 hset
            have m := tsx_set_state_ptc _ _ _ _ _ _ hset (ptc_of_view _ w rfl hi)
            split at h
            · cases h
            · rename_i st2 w2 hu
              cases h
              exact ptc_of_view _ w1 (unlock_tsx_view _ _ _ hu) m
  · intro cur_transport tdata sent cont w' h
    exact send_msg_callback_ptc _ _ _ _ _ _ _ h hi
  · intro tdata sent w' h
    unfold transport_callback at h
    split at h
    · cases h
    · split at h
      · simp only at h
        split at h
        · cases h
        · rename_i tp htp
          split at h
          · cases h
          · rename_i w1 hset
            have m := tsx_set_state_ptc _ _ _ _ _ _ hset (ptc_of_no_transport _ rfl)
            split at h
            · cases h
            · rename_i st2 w2 hu
              cases h
              exact ptc_of_view _ w1 (unlock_tsx_view _ _ _ hu) m
      · cases h; exact hi

/-- C28: when the send-completion callback reports a transient failure
(`sent < 0`, continue true) for a send in progress (the pending-transport
flag is set, so the transaction holds no transport), `send_msg_callback`
returns with the transaction exactly as it was: state, status code, cached
transport, pending flags, timers and everything else are unchanged, and
nothing is added to the trace, so no call is made into the transaction user
and no timer is touched. -/
theorem send_msg_callback_transient_failure_only_logs (env : Env) (w : World)
    (cur_transport : Option pjsip_transport) (tdata : pjsip_tx_data) (sent : Int)
    (hrel : w.released = false) (hsent : sent < 0)
    (hpend : w.tsx.transport_flag.TSX_HAS_PENDING_TRANSPORT = true)
    (hwf : pending_transport_consistent w) :
    send_msg_callback env w cur_transport tdata sent true = some w := by
  have hs : ¬ sent > 0 := by omega
  have htp : w.tsx.transport = none := hwf hpend
  simp only [send_msg_callback, hrel, hs, if_false, Bool.false_eq_true, not_true_eq_false,
    release_transport_lock, unlock_lock]
  unfold send_msg_callback_release_transport
  rw [htp]

theorem send_msg_callback_transient_failure_only_logs_witness :
    ∃ w, pjsip_tsx_send_msg sample_env (sample_uac_world INVITE) none =
        some (.PJ_SUCCESS, w) ∧
      w.tsx.state = .PJSIP_TSX_STATE_CALLING ∧
      w.tsx.transport_flag.TSX_HAS_PENDING_TRANSPORT = true ∧
      w.tsx.transport = none ∧
      send_msg_callback sample_env w (some ⟨9, 0⟩) (sample_tdata INVITE) (-1) true = some w :=
  ⟨_, rfl, rfl, rfl, rfl,
    send_msg_callback_transient_failure_only_logs sample_env _ (some ⟨9, 0⟩)
      (sample_tdata INVITE) (-1) rfl (by decide) rfl (fun _ => rfl)⟩

theorem release_transport_eq (w : World) (cur : Option pjsip_transport) :
    ∃ T P, send_msg_callback_release_transport w cur =
        { w with tsx := { w.tsx with transport := T }, trace := w.trace ++ P } ∧
      P.filter Effect.is_tu_callback = [] ∧
      (∀ tp, w.tsx.transport = some tp → cur.map (fun t => t.ptr) = some tp.ptr →
        T = none ∧ P = [Effect.transport_dec_ref tp]) ∧
      ((∀ tp, w.tsx.transport = some tp → cur.map (fun t => t.ptr) ≠ some tp.ptr) →
        T = w.tsx.transport ∧ P = []) := by
  obtain ⟨tsx, htable, tls, trace, released⟩ := w
  obtain ⟨self, tsx_user, role, method, cseq, transaction_key, hashed_key, branch,
    status_code, status_text, state, handle_200resp, state_handler, transport, is_reliable,
    addr_len, res_addr, transport_flag, transport_err, last_tx, retransmit_count,
    retransmit_timer, timeout_timer⟩ := tsx
  cases transport with
  | none =>
    refine ⟨none, [], ?_, rfl, ?_, fun _ => ⟨rfl, rfl⟩⟩
    · simp only [send_msg_callback_release_transport, List.append_nil]
    · intro tp htp; cases htp
  | some tp =>
    by_cases hc : cur.map (fun t => t.ptr) = some tp.ptr
    · refine ⟨none, [Effect.transport_dec_ref tp], ?_, rfl, ?_, ?_⟩
      · simp only [send_msg_callback_release_transport, hc, if_true, World.log]
      · intro tp2 htp2 _; cases htp2; exact ⟨rfl, rfl⟩
      · intro hne; exact absurd hc (hne tp rfl)
    · refine ⟨some tp, [], ?_, rfl, ?_, fun _ => ⟨rfl, rfl⟩⟩
      · simp only [send_msg_callback_release_transport, hc, if_false, List.append_nil]
      · intro tp2 htp2 hc2; cases htp2; exact absurd hc2 hc

/-- C27: when the send-completion callback reports a failure with no further
candidate (`sent < 0`, continue false), the transaction drops its transport if
that is the one that failed, the pending-transport flag is cleared (and the
server marked as resolved), the transport error is noted and the status code
set to the transport-error code; a transaction not in Terminated or Destroyed
moves to Terminated and the state callback is the only call into the
transaction user, and a transaction in Terminated or Destroyed keeps its
state and no call is made into the transaction user. -/
theorem send_msg_callback_permanent_failure (env : Env) (w : World)
    (cur_transport : Option pjsip_transport) (tdata : pjsip_tx_data) (sent : Int)
    (hrel : w.released = false) (hsent : sent < 0) :
    ∃ w' new, send_msg_callback env w cur_transport tdata sent false = some w' ∧
      w'.trace = w.trace ++ new ∧
      w'.tsx.transport_flag.TSX_HAS_PENDING_TRANSPORT = false ∧
      w'.tsx.transport_flag.TSX_HAS_RESOLVED_SERVER = true ∧
      w'.tsx.status_code = env.PJSIP_SC_TSX_TRANSPORT_ERROR ∧
      w'.tsx.transport_err = -sent ∧
      (∀ tp, w.tsx.transport = some tp → cur_transport.map (fun t => t.ptr) = some tp.ptr →
        w'.tsx.transport = none ∧ Effect.transport_dec_ref tp ∈ new) ∧
      ((∀ tp, w.tsx.transport = some tp → cur_transport.map (fun t => t.ptr) ≠ some tp.ptr) →
        w'.tsx.transport = w.tsx.transport) ∧
      (w.tsx.state ≠ .PJSIP_TSX_STATE_TERMINATED → w.tsx.state ≠ .PJSIP_TSX_STATE_DESTROYED →
        w'.tsx.state = .PJSIP_TSX_STATE_TERMINATED ∧
        new.filter Effect.is_tu_callback =
          tu_state_callback w.tsx.tsx_user .PJSIP_TSX_STATE_TERMINATED w.tsx.state
            .PJSIP_EVENT_TRANSPORT_ERROR (.tdata tdata)) ∧
      (w.tsx.state = .PJSIP_TSX_STATE_TERMINATED ∨ w.tsx.state = .PJSIP_TSX_STATE_DESTROYED →
        w'.tsx.state = w.tsx.state ∧ new.filter Effect.is_tu_callback = []) := by
  have hs : ¬ sent > 0 := by omega
  obtain ⟨T, P, hq, hP, hT1, hT2⟩ := release_transport_eq w cur_transport
  have hty : PJSIP_EVENT_TRANSPORT_ERROR ≠ PJSIP_EVENT_RX_MSG := by decide
  by_cases hst : w.tsx.state ≠ PJSIP_TSX_STATE_TERMINATED ∧
      w.tsx.state ≠ PJSIP_TSX_STATE_DESTROYED
  · simp only [send_msg_callback, hrel, hs, if_false, if_true, Bool.false_eq_true,
      not_false_eq_true, release_transport_lock, hq]
    simp only [lock_tsx, set_transport_flag,
      tsx_set_status_code, hst, ne_eq, and_self, not_false_eq_true, if_true,
      tsx_set_state_terminated env _ PJSIP_EVENT_TRANSPORT_ERROR (.tdata tdata) hty,
      unlock_tsx]
    refine ⟨_, P ++ (tu_state_callback w.tsx.tsx_user PJSIP_TSX_STATE_TERMINATED w.tsx.state
        PJSIP_EVENT_TRANSPORT_ERROR (.tdata tdata) ++
        terminated_timer_ops false w.tsx.timeout_timer._timer_id),
      rfl, ?_, rfl, rfl, rfl, rfl, ?_, ?_, ?_, ?_⟩
    · simp only [List.append_assoc]
    · intro tp h1 h2
      obtain ⟨e1, e2⟩ := hT1 tp h1 h2
      exact ⟨e1, by rw [e2]; simp⟩
    · intro h; exact (hT2 h).1
    · intro _ _
      refine ⟨rfl, ?_⟩
      rw [List.filter_append, List.filter_append, hP, (tu_state_callback_filter _ _ _ _ _).1,
        (terminated_timer_ops_filter _ _).1, List.append_nil, List.nil_append]
    · intro h
      rcases h with h | h <;> exact h.elim
  · have hst2 : ¬ (¬ w.tsx.state = PJSIP_TSX_STATE_TERMINATED ∧
        ¬ w.tsx.state = PJSIP_TSX_STATE_DESTROYED) := hst
    simp only [send_msg_callback, hrel, hs, if_false, if_true, Bool.false_eq_true,
      not_false_eq_true, release_transport_lock, hq]
    simp only [lock_tsx, set_transport_flag,
      tsx_set_status_code, hst2, ne_eq, if_false, unlock_tsx]
    refine ⟨_, P, rfl, rfl, rfl, rfl, rfl, rfl, ?_, ?_, ?_, ?_⟩
    · intro tp h1 h2
      obtain ⟨e1, e2⟩ := hT1 tp h1 h2
      exact ⟨e1, by rw [e2]; simp⟩
    · intro h; exact (hT2 h).1
    · intro h1 h2; exact absurd ⟨h1, h2⟩ hst
    · intro _; exact ⟨rfl, hP⟩

theorem send_msg_callback_permanent_failure_witness :
    ∃ w' new, send_msg_callback sample_env (sample_calling_world INVITE) (some ⟨9, 0⟩)
        (sample_tdata INVITE) (-1) false = some w' ∧
      w'.trace = (sample_calling_world INVITE).trace ++ new ∧
      w'.tsx.transport_flag.TSX_HAS_PENDING_TRANSPORT = false ∧
      w'.tsx.transport_flag.TSX_HAS_RESOLVED_SERVER = true ∧
      w'.tsx.status_code = 503 ∧
      w'.tsx.transport_err = 1 ∧
      w'.tsx.state = .PJSIP_TSX_STATE_TERMINATED ∧
      new.filter Effect.is_tu_callback =
        tu_state_callback (some ⟨true, true⟩) .PJSIP_TSX_STATE_TERMINATED
          .PJSIP_TSX_STATE_CALLING .PJSIP_EVENT_TRANSPORT_ERROR
          (.tdata (sample_tdata INVITE)) := by
  obtain ⟨w', new, h1, h2, h3, h4, h5, h6, -, -, h9, -⟩ :=
    send_msg_callback_permanent_failure sample_env (sample_calling_world INVITE)
      (some ⟨9, 0⟩) (sample_tdata INVITE) (-1) rfl (by decide)
  exact ⟨w', new, h1, h2, h3, h4, h5, h6, (h9 (by decide) (by decide)).1,
    (h9 (by decide) (by decide)).2⟩

theorem tsx_set_state_inform_rx_total (w : World) (ty : pjsip_event_id_e) (src : event_src)
    (hsrc : ty = .PJSIP_EVENT_RX_MSG → w.tsx.tsx_user ≠ none →
      ∃ rdata msg, src = .rdata rdata ∧ rdata.msg_info.msg = some msg) :
    ∃ pre, tsx_set_state_inform_rx w ty src = some { w with trace := w.trace ++ pre } ∧
      ∀ e ∈ pre, Effect.is_tu_callback e = true := by
  unfold tsx_set_state_inform_rx
  cases hu : w.tsx.tsx_user with
  | none => exact ⟨[], by simp only [List.append_nil], by simp⟩
  | some u =>
    by_cases hty : ty = PJSIP_EVENT_RX_MSG
    · obtain ⟨rdata, msg, hs, hm⟩ := hsrc hty (by rw [hu]; exact fun h => by cases h)
      subst hs
      simp only [hty, if_true, hm]
      split
      · exact ⟨[Effect.on_rx_response rdata], rfl, by simp [Effect.is_tu_callback]⟩
      · exact ⟨[], by simp only [List.append_nil], by simp⟩
    · simp only [hty, if_false]
      exact ⟨[], by simp only [List.append_nil], by simp⟩

theorem tsx_set_state_terminated_any (env : Env) (w : World) (ty : pjsip_event_id_e)
    (src : event_src)
    (hsrc : ty = .PJSIP_EVENT_RX_MSG → w.tsx.tsx_user ≠ none →
      ∃ rdata msg, src = .rdata rdata ∧ rdata.msg_info.msg = some msg) :
    ∃ pre, (∀ e ∈ pre, Effect.is_tu_callback e = true) ∧
      tsx_set_state env w .PJSIP_TSX_STATE_TERMINATED ty src =
      some { w with
        tsx := { w.tsx with
          state := .PJSIP_TSX_STATE_TERMINATED
          state_handler :=
            if w.tsx.role = pjsip_role_e.PJSIP_ROLE_UAC then
              tsx_state_handler_uac .PJSIP_TSX_STATE_TERMINATED
            else tsx_state_handler_uas .PJSIP_TSX_STATE_TERMINATED
          transport_flag := { w.tsx.transport_flag with
            TSX_HAS_PENDING_DESTROY :=
              w.tsx.transport_flag.TSX_HAS_PENDING_DESTROY ||
                w.tsx.transport_flag.TSX_HAS_PENDING_TRANSPORT }
          timeout_timer := { w.tsx.timeout_timer with
            _timer_id :=
              if w.tsx.transport_flag.TSX_HAS_PENDING_TRANSPORT then
                w.tsx.timeout_timer._timer_id
              else env.timer_slot } }
        trace := w.trace ++ pre ++
          tu_state_callback w.tsx.tsx_user .PJSIP_TSX_STATE_TERMINATED w.tsx.state ty src ++
          terminated_timer_ops w.tsx.transport_flag.TSX_HAS_PENDING_TRANSPORT
            w.tsx.timeout_timer._timer_id } := by
  obtain ⟨pre, hpre, hcb⟩ := tsx_set_state_inform_rx_total
    { w with tsx := { w.tsx with
        state := .PJSIP_TSX_STATE_TERMINATED
        state_handler :=
          if w.tsx.role = pjsip_role_e.PJSIP_ROLE_UAC then
            tsx_state_handler_uac .PJSIP_TSX_STATE_TERMINATED
          else tsx_state_handler_uas .PJSIP_TSX_STATE_TERMINATED } } ty src hsrc
  refine ⟨pre, hcb, ?_⟩
  unfold tsx_set_state
  simp only [hpre, tsx_set_state_inform_state_eq, tsx_set_state_finish_terminated]

theorem tsx_set_state_destroyed_defined (env : Env) (w : World) (ty : pjsip_event_id_e)
    (src : event_src) (hty : ty ≠ .PJSIP_EVENT_RX_MSG) :
    ∃ w', tsx_set_state env w .PJSIP_TSX_STATE_DESTROYED ty src = some w' ∧
      w'.tsx.state = .PJSIP_TSX_STATE_DESTROYED ∧ w'.tls.length = w.tls.length := by
  have hd : PJSIP_TSX_STATE_DESTROYED ≠ PJSIP_TSX_STATE_TERMINATED := by decide
  unfold tsx_set_state
  simp only [tsx_set_state_inform_rx_other _ ty src hty, tsx_set_state_inform_state_eq,
    tsx_set_state_finish, hd, if_false, if_true, tsx_destroy_eq, mod_tsx_layer_unregister_tsx]
  refine ⟨_, rfl, rfl, ?_⟩
  simp only []
  split
  · rfl
  · simp only [List.length_map]

theorem terminated_handler (role : pjsip_role_e) :
    (if role = pjsip_role_e.PJSIP_ROLE_UAC then
        tsx_state_handler_uac .PJSIP_TSX_STATE_TERMINATED
      else tsx_state_handler_uas .PJSIP_TSX_STATE_TERMINATED) =
      some .tsx_on_state_terminated := by
  split <;> rfl

theorem terminated_timer_destroys (env : Env) (w : World) (entry : Transaction_Timer_Id)
    (hrel : w.released = false)
    (hh : w.tsx.state_handler = some .tsx_on_state_terminated) :
    ∃ w', tsx_timer_callback env w entry = some w' ∧
      w'.tsx.state = .PJSIP_TSX_STATE_DESTROYED := by
  have hty : PJSIP_EVENT_TIMER ≠ PJSIP_EVENT_RX_MSG := by decide
  obtain ⟨wd, hd, hs, hl⟩ := tsx_set_state_destroyed_defined env (lock_tsx w)
    PJSIP_EVENT_TIMER (.timer_entry entry) hty
  have hh2 : (lock_tsx w).tsx.state_handler = some .tsx_on_state_terminated := hh
  simp only [tsx_timer_callback, hrel, Bool.false_eq_true, if_false, call_state_handler, hh2,
    tsx_on_state_terminated, pjsip_event.type, pjsip_event.user1, hd]
  unfold unlock_tsx
  cases htl : wd.tls with
  | nil =>
    rw [htl] at hl
    simp [lock_tsx] at hl
  | cons lck prev => exact ⟨_, rfl, hs⟩

/-- C29 (amended): a transition into Terminated made by `tsx_set_state`, from
any state and for any event, cancels the timeout timer when it is armed and
schedules it with zero delay, provided no transport is pending; while a
transport is pending it schedules nothing and sets the pending-destroy flag
instead, leaving the timeout timer as it was.  In both cases a timer event
that reaches the transaction afterwards moves it to Destroyed.  (A receive
event is assumed to carry its message when the transaction has a user, as the
code reads it unchecked.) -/
theorem tsx_set_state_terminated_schedules_destroy (env : Env) (w : World)
    (ty : pjsip_event_id_e) (src : event_src)
    (hrel : w.released = false)
    (hsrc : ty = .PJSIP_EVENT_RX_MSG → w.tsx.tsx_user ≠ none →
      ∃ rdata msg, src = .rdata rdata ∧ rdata.msg_info.msg = some msg) :
    ∃ w' new, tsx_set_state env w .PJSIP_TSX_STATE_TERMINATED ty src = some w' ∧
      w'.tsx.state = .PJSIP_TSX_STATE_TERMINATED ∧
      w'.trace = w.trace ++ new ∧
      (w.tsx.transport_flag.TSX_HAS_PENDING_TRANSPORT = false →
        new.filter Effect.arms_timeout =
          [Effect.schedule_timer .TSX_TIMER_TIMEOUT ⟨0, 0⟩] ∧
        (w.tsx.timeout_timer._timer_id ≠ -1 → Effect.cancel_timer .TSX_TIMER_TIMEOUT ∈ new) ∧
        w'.tsx.timeout_timer._timer_id = env.timer_slot) ∧
      (w.tsx.transport_flag.TSX_HAS_PENDING_TRANSPORT = true →
        new.filter Effect.arms_timeout = [] ∧
        w'.tsx.transport_flag.TSX_HAS_PENDING_DESTROY = true ∧
        w'.tsx.timeout_timer = w.tsx.timeout_timer) ∧
      ∀ entry, ∃ w'', tsx_timer_callback env w' entry = some w'' ∧
        w''.tsx.state = .PJSIP_TSX_STATE_DESTROYED := by
  obtain ⟨pre, hcb, heq⟩ := tsx_set_state_terminated_any env w ty src hsrc
  have hpre : pre.filter Effect.arms_timeout = [] := by
    rw [List.filter_eq_nil_iff]
    intro e he
    have := hcb e he
    cases e <;> simp_all [Effect.arms_timeout, Effect.is_tu_callback]
  have hcbk : (tu_state_callback w.tsx.tsx_user PJSIP_TSX_STATE_TERMINATED w.tsx.state ty
      src).filter Effect.arms_timeout = [] := by
    unfold tu_state_callback
    rcases w.tsx.tsx_user with _ | ⟨a, _ | _⟩ <;> rfl
  refine ⟨_, pre ++ (tu_state_callback w.tsx.tsx_user PJSIP_TSX_STATE_TERMINATED w.tsx.state ty
      src ++ terminated_timer_ops w.tsx.transport_flag.TSX_HAS_PENDING_TRANSPORT
        w.tsx.timeout_timer._timer_id), heq, rfl, ?_, ?_, ?_, ?_⟩
  · simp only [List.append_assoc]
  · intro hp
    refine ⟨?_, ?_, ?_⟩
    · rw [List.filter_append, List.filter_append, hpre, hcbk, hp]
      simp only [terminated_timer_ops, Bool.false_eq_true, if_false]
      split_ifs <;> simp [Effect.arms_timeout]
    · intro hid
      rw [hp]
      simp [terminated_timer_ops, hid]
    · simp only [hp, Bool.false_eq_true, if_false]
  · intro hp
    refine ⟨?_, ?_, ?_⟩
    · rw [List.filter_append, List.filter_append, hpre, hcbk, hp]
      rfl
    · simp only [hp, Bool.or_true]
    · simp only [hp, if_true]
  · intro entry
    exact terminated_timer_destroys env _ entry hrel (terminated_handler w.tsx.role)

theorem tsx_set_state_terminated_schedules_destroy_witness :
    ∃ w w' new, sample_uac_sent INVITE 0 = some w ∧
      tsx_set_state sample_env w .PJSIP_TSX_STATE_TERMINATED .PJSIP_EVENT_USER .null =
        some w' ∧
      w'.tsx.state = .PJSIP_TSX_STATE_TERMINATED ∧
      w'.trace = w.trace ++ new ∧
      new.filter Effect.arms_timeout = [Effect.schedule_timer .TSX_TIMER_TIMEOUT ⟨0, 0⟩] ∧
      Effect.cancel_timer .TSX_TIMER_TIMEOUT ∈ new ∧
      (∀ entry, ∃ w'', tsx_timer_callback sample_env w' entry = some w'' ∧
        w''.tsx.state = .PJSIP_TSX_STATE_DESTROYED) := by
  obtain ⟨w', new, h1, h2, h3, h4, -, h6⟩ :=
    tsx_set_state_terminated_schedules_destroy sample_env
      ((sample_uac_sent INVITE 0).getD (sample_uac_world INVITE))
      .PJSIP_EVENT_USER .null rfl (fun h => by cases h)
  exact ⟨_, w', new, rfl, h1, h2, h3, (h4 rfl).1, (h4 rfl).2.1 (by decide), h6⟩

/-- C29 (counterexample): the sample client transaction has sent its request
and the destination is still being resolved (a transport is pending) when it
is terminated: the transition into Terminated schedules no timer at all, the
pending-destroy flag is set instead. -/
theorem terminated_while_transport_pending_schedules_nothing :
    ∃ st w1 w2, pjsip_tsx_send_msg sample_env (sample_uac_world OPTIONS) none =
        some (st, w1) ∧
      w1.tsx.transport_flag.TSX_HAS_PENDING_TRANSPORT = true ∧
      pjsip_tsx_terminate sample_env w1 487 = some (.PJ_SUCCESS, w2) ∧
      w2.tsx.state = .PJSIP_TSX_STATE_TERMINATED ∧
      w2.trace = w1.trace ++
        [Effect.on_tsx_state .PJSIP_TSX_STATE_TERMINATED .PJSIP_TSX_STATE_CALLING
          .PJSIP_EVENT_USER .null] ∧
      w2.tsx.transport_flag.TSX_HAS_PENDING_DESTROY = true :=
  ⟨_, _, _, rfl, rfl, rfl, rfl, rfl, rfl⟩

end Completion

/-! ## STUN message types -/

/-- C30 (the code at the failing inputs): on the request, success-response
and error-response enumerators of `pj_stun_msg_type` the three macros answer
as the names say, but the indication enumerators are not told apart:
`PJ_STUN_IS_REQUEST` holds of `PJ_STUN_SEND_INDICATION` (0x0004), and both
`PJ_STUN_IS_RESPONSE` and `PJ_STUN_IS_ERROR_RESPONSE` hold of
`PJ_STUN_DATA_INDICATION` (0x0115) and of `PJ_STUN_CONNECT_STATUS_INDICATION`
(0x0118). -/
theorem stun_indications_misclassified :
    (∀ t : pj_stun_msg_type, t.kind ≠ .indication →
      (PJ_STUN_IS_REQUEST t.val = true ↔ t.kind = .request) ∧
      (PJ_STUN_IS_RESPONSE t.val = true ↔
        t.kind = .success_response ∨ t.kind = .error_response) ∧
      (PJ_STUN_IS_ERROR_RESPONSE t.val = true ↔ t.kind = .error_response)) ∧
    pj_stun_msg_type.PJ_STUN_SEND_INDICATION.kind = .indication ∧
    PJ_STUN_IS_REQUEST pj_stun_msg_type.PJ_STUN_SEND_INDICATION.val = true ∧
    pj_stun_msg_type.PJ_STUN_DATA_INDICATION.kind = .indication ∧
    PJ_STUN_IS_RESPONSE pj_stun_msg_type.PJ_STUN_DATA_INDICATION.val = true ∧
    PJ_STUN_IS_ERROR_RESPONSE pj_stun_msg_type.PJ_STUN_DATA_INDICATION.val = true ∧
    pj_stun_msg_type.PJ_STUN_CONNECT_STATUS_INDICATION.kind = .indication ∧
    PJ_STUN_IS_RESPONSE pj_stun_msg_type.PJ_STUN_CONNECT_STATUS_INDICATION.val = true ∧
    PJ_STUN_IS_ERROR_RESPONSE pj_stun_msg_type.PJ_STUN_CONNECT_STATUS_INDICATION.val = true := by
  refine ⟨?_, rfl, by decide, rfl, by decide, by decide, rfl, by decide, by decide⟩
  intro t h
  cases t <;> first
    | exact absurd rfl h
    | decide

/-! ## Key sizes and collisions, lock frames, the send pipeline, timers, the
layer at shutdown, and the memory player -/

section Remaining
open pjsip_tsx_state_e pjsip_event_id_e

/-! ## Size of the RFC 2543 key buffer -/

theorem toDigits_length_pos (n : Nat) : 1 ≤ (Nat.toDigits 10 n).length := by
  unfold Nat.toDigits
  rw [Nat.toDigitsCore]
  split
  · simp
  · rw [Nat.toDigitsCore_lens_eq]
    omega

theorem toDigits_length_le (n : Nat) (h : n < 2 ^ 32) : (Nat.toDigits 10 n).length ≤ 10 := by
  unfold Nat.toDigits
  apply Nat.toDigitsCore_length 10 (by decide) (n + 1) n 10 _ (by decide)
  calc n < 2 ^ 32 := h
    _ ≤ 10 ^ 10 := by decide

theorem spec_method_part_length (method : pjsip_method) :
    (spec_method_part method).length =
      if method.id = pjsip_method_e.PJSIP_INVITE_METHOD ∨
          method.id = pjsip_method_e.PJSIP_ACK_METHOD then 0
      else method.name.length + 1 := by
  unfold spec_method_part
  split <;> simp

/-- The number of bytes `create_tsx_key_2543` writes through `p`. -/
theorem key_2543_bytes_length (role : pjsip_role_e) (method : pjsip_method)
    (cseq : pjsip_cseq_hdr) (from_ : pjsip_fromto_hdr) (cid : pjsip_cid_hdr)
    (via : pjsip_via_hdr) :
    (key_2543_bytes role method cseq from_ cid via).length =
      8 + (spec_method_part method).length + (pj_utoa cseq.cseq).length +
        from_.tag.length + cid.id.length + via.sent_by_host.length +
        (pj_utoa via.sent_by_port).length := by
  rw [key_2543_bytes_eq]
  simp only [spec_key_2543, pj_utoa, List.length_cons, List.length_append, List.length_nil]
  omega

/-- For INVITE and ACK, and for a method whose name has at most five
characters, the bytes written fit the buffer when CSeq number and port are
32-bit numbers. -/
theorem key_2543_bytes_within_buffer (role : pjsip_role_e) (method : pjsip_method)
    (cseq : pjsip_cseq_hdr) (from_ : pjsip_fromto_hdr) (cid : pjsip_cid_hdr)
    (via : pjsip_via_hdr)
    (hm : method.id = pjsip_method_e.PJSIP_INVITE_METHOD ∨
      method.id = pjsip_method_e.PJSIP_ACK_METHOD ∨ method.name.length ≤ 5)
    (hcseq : cseq.cseq < 2 ^ 32) (hport : via.sent_by_port < 2 ^ 32) :
    (key_2543_bytes role method cseq from_ cid via).length ≤
      len_required_2543 from_ cid via := by
  rw [key_2543_bytes_length, spec_method_part_length]
  have h1 := toDigits_length_le cseq.cseq hcseq
  have h2 := toDigits_length_le via.sent_by_port hport
  unfold len_required_2543 pj_utoa
  split
  · omega
  · rename_i hne
    rcases hm with hm | hm | hm
    · exact absurd (Or.inl hm) hne
    · exact absurd (Or.inr hm) hne
    · omega

/-- C35: the size `create_tsx_key_2543` allocates for the key,
`len_required = 9 + |From tag| + |Call-ID| + |Via host| + 9 + 16`, leaves the
method name out.  For every role and every message that has the headers the
key is built from, and every method other than INVITE and ACK whose name has
24 characters or more, the function returns success with a key, and the
number of bytes it has written (the reported length, trailing separator and
terminator included) is larger than the size it allocated. -/
theorem create_tsx_key_2543_writes_past_buffer (role : pjsip_role_e)
    (method : pjsip_method) (rdata : pjsip_rx_data) (msg : pjsip_msg)
    (via : pjsip_via_hdr) (cseq : pjsip_cseq_hdr) (from_ : pjsip_fromto_hdr)
    (cid : pjsip_cid_hdr)
    (hmsg : rdata.msg_info.msg = some msg) (hvia : rdata.msg_info.via = some via)
    (hcseq : rdata.msg_info.cseq = some cseq) (hfrom : rdata.msg_info.from_ = some from_)
    (hcid : rdata.msg_info.cid = some cid)
    (hm1 : method.id ≠ pjsip_method_e.PJSIP_INVITE_METHOD)
    (hm2 : method.id ≠ pjsip_method_e.PJSIP_ACK_METHOD)
    (hlen : 24 ≤ method.name.length) :
    ∃ key, create_tsx_key_2543 role method rdata = some (.ok key) ∧
      len_required_2543 from_ cid via < key.length := by
  refine ⟨key_2543_bytes role method cseq from_ cid via, ?_, ?_⟩
  · simp only [create_tsx_key_2543, hmsg, hvia, hcseq, hfrom, hcid]
  · rw [key_2543_bytes_length, spec_method_part_length]
    have h1 := toDigits_length_pos cseq.cseq
    have h2 := toDigits_length_pos via.sent_by_port
    unfold len_required_2543 pj_utoa
    rw [if_neg (by simp [hm1, hm2])]
    omega

theorem create_tsx_key_2543_writes_past_buffer_witness :
    ∃ key, create_tsx_key_2543 .PJSIP_ROLE_UAS sample_long_method
        (sample_request sample_long_method ['x']) = some (.ok key) ∧
      len_required_2543 ⟨"t".toList⟩ ⟨"c".toList⟩ ⟨['x'], "h".toList, 5060⟩ < key.length :=
  create_tsx_key_2543_writes_past_buffer .PJSIP_ROLE_UAS sample_long_method
    (sample_request sample_long_method ['x']) _ _ _ _ _ rfl rfl rfl rfl rfl
    (by decide) (by decide) (by decide)

/-- The failing run in numbers: for the sample request with the 24-character
method name the buffer has 37 bytes and the function writes 41. -/
theorem create_tsx_key_2543_long_method_run :
    len_required_2543 ⟨"t".toList⟩ ⟨"c".toList⟩ ⟨['x'], "h".toList, 5060⟩ = 37 ∧
    (create_tsx_key_2543 .PJSIP_ROLE_UAS sample_long_method
        (sample_request sample_long_method ['x'])).map (fun r => r.toOption.map List.length) =
      some (some 41) := by
  constructor
  · rfl
  · simp only [create_tsx_key_2543, sample_request, Option.map_some', Except.toOption]
    decide

/-! ## RFC 3261 keys do not collide -/

theorem append_sep_inj (n1 n2 b1 b2 : pj_str_t) (h1 : '$' ∉ n1) (h2 : '$' ∉ n2)
    (h : n1 ++ '$' :: b1 = n2 ++ '$' :: b2) : n1 = n2 ∧ b1 = b2 := by
  induction n1 generalizing n2 with
  | nil =>
    cases n2 with
    | nil => simpa using h
    | cons c n2 =>
      simp only [List.nil_append, List.cons_append, List.cons.injEq] at h
      exact absurd (by rw [← h.1]; exact List.mem_cons_self _ _) h2
  | cons c n1 ih =>
    cases n2 with
    | nil =>
      simp only [List.nil_append, List.cons_append, List.cons.injEq] at h
      exact absurd (by rw [h.1]; exact List.mem_cons_self _ _) h1
    | cons d n2 =>
      simp only [List.cons_append, List.cons.injEq] at h
      have := ih n2 (fun hm => h1 (List.mem_cons_of_mem _ hm))
        (fun hm => h2 (List.mem_cons_of_mem _ hm)) h.2
      exact ⟨by rw [h.1, this.1], this.2⟩

theorem no_sep_ne_append_sep (b1 n2 b2 : pj_str_t) (h1 : '$' ∉ b1) :
    b1 ≠ n2 ++ '$' :: b2 := by
  intro h
  apply h1
  rw [h]
  simp

/-- C38: RFC 3261 keys do not collide across transactions.  For branches that
begin with `z9hG4bK` and contain no `$`, and method names that contain no
`$`, two keys built by `create_tsx_key_3261` are equal only if the roles are
equal, the branches are equal, and the methods are either both in
{INVITE, ACK} or both outside it with the same name. -/
theorem create_tsx_key_3261_no_collision (role1 role2 : pjsip_role_e)
    (method1 method2 : pjsip_method) (branch1 branch2 : pj_str_t)
    (_hc1 : branch1.take PJSIP_RFC3261_BRANCH_LEN = PJSIP_RFC3261_BRANCH_ID)
    (_hc2 : branch2.take PJSIP_RFC3261_BRANCH_LEN = PJSIP_RFC3261_BRANCH_ID)
    (hb1 : '$' ∉ branch1) (hb2 : '$' ∉ branch2)
    (hm1 : '$' ∉ method1.name) (hm2 : '$' ∉ method2.name)
    (h : create_tsx_key_3261 role1 method1 branch1 =
      create_tsx_key_3261 role2 method2 branch2) :
    role1 = role2 ∧ branch1 = branch2 ∧
      (((method1.id = pjsip_method_e.PJSIP_INVITE_METHOD ∨
            method1.id = pjsip_method_e.PJSIP_ACK_METHOD) ∧
          (method2.id = pjsip_method_e.PJSIP_INVITE_METHOD ∨
            method2.id = pjsip_method_e.PJSIP_ACK_METHOD)) ∨
        (¬ (method1.id = pjsip_method_e.PJSIP_INVITE_METHOD ∨
            method1.id = pjsip_method_e.PJSIP_ACK_METHOD) ∧
          ¬ (method2.id = pjsip_method_e.PJSIP_INVITE_METHOD ∨
            method2.id = pjsip_method_e.PJSIP_ACK_METHOD) ∧
          method1.name = method2.name)) := by
  rw [create_tsx_key_3261_eq, create_tsx_key_3261_eq] at h
  simp only [spec_key_3261, Except.ok.injEq, List.cons.injEq, true_and] at h
  obtain ⟨hrole, hrest⟩ := h
  have hr : role1 = role2 := by
    cases role1 <;> cases role2 <;> simp at hrole <;> rfl
  refine ⟨hr, ?_⟩
  unfold spec_method_part at hrest
  by_cases ha : method1.id = pjsip_method_e.PJSIP_INVITE_METHOD ∨
      method1.id = pjsip_method_e.PJSIP_ACK_METHOD
  · by_cases hb : method2.id = pjsip_method_e.PJSIP_INVITE_METHOD ∨
        method2.id = pjsip_method_e.PJSIP_ACK_METHOD
    · rw [if_pos ha, if_pos hb] at hrest
      exact ⟨by simpa using hrest, Or.inl ⟨ha, hb⟩⟩
    · rw [if_pos ha, if_neg hb] at hrest
      simp only [List.nil_append, List.append_assoc, List.singleton_append] at hrest
      exact absurd hrest (no_sep_ne_append_sep _ _ _ hb1)
  · by_cases hb : method2.id = pjsip_method_e.PJSIP_INVITE_METHOD ∨
        method2.id = pjsip_method_e.PJSIP_ACK_METHOD
    · rw [if_neg ha, if_pos hb] at hrest
      simp only [List.nil_append, List.append_assoc, List.singleton_append] at hrest
      exact absurd hrest.symm (no_sep_ne_append_sep _ _ _ hb2)
    · rw [if_neg ha, if_neg hb] at hrest
      simp only [List.append_assoc, List.singleton_append] at hrest
      have := append_sep_inj _ _ _ _ hm1 hm2 hrest
      exact ⟨this.2, Or.inr ⟨ha, hb, this.1⟩⟩

theorem create_tsx_key_3261_no_collision_witness :
    pjsip_role_e.PJSIP_ROLE_UAC = pjsip_role_e.PJSIP_ROLE_UAC ∧
    "z9hG4bKabc".toList = "z9hG4bKabc".toList ∧
      (((OPTIONS.id = pjsip_method_e.PJSIP_INVITE_METHOD ∨
            OPTIONS.id = pjsip_method_e.PJSIP_ACK_METHOD) ∧
          (OPTIONS.id = pjsip_method_e.PJSIP_INVITE_METHOD ∨
            OPTIONS.id = pjsip_method_e.PJSIP_ACK_METHOD)) ∨
        (¬ (OPTIONS.id = pjsip_method_e.PJSIP_INVITE_METHOD ∨
            OPTIONS.id = pjsip_method_e.PJSIP_ACK_METHOD) ∧
          ¬ (OPTIONS.id = pjsip_method_e.PJSIP_INVITE_METHOD ∨
            OPTIONS.id = pjsip_method_e.PJSIP_ACK_METHOD) ∧
          OPTIONS.name = OPTIONS.name)) :=
  create_tsx_key_3261_no_collision .PJSIP_ROLE_UAC .PJSIP_ROLE_UAC OPTIONS OPTIONS
    "z9hG4bKabc".toList "z9hG4bKabc".toList (by decide) (by decide) (by decide) (by decide)
    (by decide) (by decide) rfl

/-- Keys of different transactions differ: a CANCEL and the INVITE it cancels
share the branch and get different keys, and so do the client and the server
side of one request. -/
theorem create_tsx_key_3261_distinct_examples :
    create_tsx_key_3261 .PJSIP_ROLE_UAS INVITE "z9hG4bKabc".toList ≠
      create_tsx_key_3261 .PJSIP_ROLE_UAS CANCEL "z9hG4bKabc".toList ∧
    create_tsx_key_3261 .PJSIP_ROLE_UAC INVITE "z9hG4bKabc".toList ≠
      create_tsx_key_3261 .PJSIP_ROLE_UAS INVITE "z9hG4bKabc".toList ∧
    create_tsx_key_3261 .PJSIP_ROLE_UAC OPTIONS "z9hG4bKabc".toList ≠
      create_tsx_key_3261 .PJSIP_ROLE_UAC OPTIONS "z9hG4bKabd".toList := by
  simp only [create_tsx_key_3261_eq, ne_eq, Except.ok.injEq]
  decide

/-! ## Lock frames left by the creation functions -/

/-- C36: the failure exits of `pjsip_tsx_create_uac` and `pjsip_tsx_create_uas`
that come after `lock_tsx` call `tsx_destroy` and return without `unlock_tsx`.
When memory and mutex are obtained and the function fails at
`pjsip_get_request_addr` (client side) or `pjsip_get_response_addr` (server
side), it returns that status with no transaction, and the lock-frame stack on
return is the stack on entry (its frames for the same address cleared) with
the frame pushed by `lock_tsx` still on top of it, marked not alive. -/
theorem create_failure_leaves_lock_frame (env : Env) (cenv : create_env)
    (uenv : create_uac_env) (l : tsx_layer) (tsx_user : Option pjsip_module)
    (addr : Nat) (tdata : pjsip_tx_data) (cseq_t : pjsip_cseq_hdr) (via_t : pjsip_via_hdr)
    (rdata : pjsip_rx_data) (msg : pjsip_msg) (cseq : pjsip_cseq_hdr) (via : pjsip_via_hdr)
    (key : pj_str_t)
    (hpool : cenv.pool = some addr)
    (hmutex : cenv.mutex_create = .PJ_SUCCESS)
    (hreq_t : tdata.msg.type = .PJSIP_REQUEST_MSG)
    (hnack_t : tdata.msg.line.req.method.id ≠ pjsip_method_e.PJSIP_ACK_METHOD)
    (hcseq_t : tdata.cseq = some cseq_t)
    (hvia_t : create_uac_via uenv tdata = some via_t)
    (haddr_t : uenv.get_request_addr.1 ≠ .PJ_SUCCESS)
    (hmsg : rdata.msg_info.msg = some msg)
    (hreq : msg.type = .PJSIP_REQUEST_MSG)
    (hnack : msg.line.req.method.id ≠ pjsip_method_e.PJSIP_ACK_METHOD)
    (hcseq : rdata.msg_info.cseq = some cseq)
    (hvia : rdata.msg_info.via = some via)
    (hcmp : pjsip_method_cmp msg.line.req.method cseq.method = 0)
    (hkey : pjsip_tsx_create_key .PJSIP_ROLE_UAS msg.line.req.method rdata = some (.ok key))
    (haddr : cenv.get_response_addr.1 ≠ .PJ_SUCCESS) :
    (∃ l', pjsip_tsx_create_uac env cenv uenv l tsx_user tdata =
        some (uenv.get_request_addr.1, none, l') ∧
      l'.tls = { tsx := addr, is_alive := false } :: l.tls.map (tsx_lock_data.clear addr) ∧
      l'.tls ≠ l.tls) ∧
    (∃ l', pjsip_tsx_create_uas env cenv l tsx_user rdata =
        some (cenv.get_response_addr.1, none, l') ∧
      l'.tls = { tsx := addr, is_alive := false } :: l.tls.map (tsx_lock_data.clear addr) ∧
      l'.tls ≠ l.tls) := by
  have hne : ∀ (t : List tsx_lock_data) (f : tsx_lock_data),
      f :: t.map (tsx_lock_data.clear addr) ≠ t := by
    intro t f h
    have := congrArg List.length h
    simp at this
  constructor
  · simp only [pjsip_tsx_create_uac, hreq_t, ne_eq, not_true_eq_false, if_false, hnack_t,
      not_false_eq_true, hcseq_t, tsx_create, hpool, hmutex, hvia_t, create_tsx_key_3261_eq,
      haddr_t, lock_tsx, World.log, if_true, tsx_destroy_eq, World.layer,
      Bool.false_eq_true, List.map_cons]
    refine ⟨_, rfl, ?_, ?_⟩
    · simp [tsx_lock_data.clear]
    · simp only [if_true]
      exact hne _ _
  · simp only [pjsip_tsx_create_uas, hmsg, hreq, ne_eq, not_true_eq_false, if_false, hnack,
      not_false_eq_true, hcseq, hvia, hcmp, tsx_create, hpool, hmutex, hkey,
      haddr, lock_tsx, World.log, if_true, tsx_destroy_eq, World.layer,
      Bool.false_eq_true, List.map_cons]
    refine ⟨_, rfl, ?_, ?_⟩
    · simp [tsx_lock_data.clear]
    · simp only [if_true]
      exact hne _ _

theorem create_failure_leaves_lock_frame_witness :
    (∃ l', pjsip_tsx_create_uac sample_env sample_create_env
        sample_create_uac_env_no_request_addr empty_layer (some ⟨true, true⟩)
        (sample_tdata_via INVITE) =
        some (sample_create_uac_env_no_request_addr.get_request_addr.1, none, l') ∧
      l'.tls = { tsx := 1, is_alive := false } ::
        empty_layer.tls.map (tsx_lock_data.clear 1) ∧
      l'.tls ≠ empty_layer.tls) ∧
    (∃ l', pjsip_tsx_create_uas sample_env sample_create_env_no_response_addr empty_layer
        (some ⟨true, true⟩) (sample_request INVITE "z9hG4bKabc".toList) =
        some (sample_create_env_no_response_addr.get_response_addr.1, none, l') ∧
      l'.tls = { tsx := 1, is_alive := false } ::
        empty_layer.tls.map (tsx_lock_data.clear 1) ∧
      l'.tls ≠ empty_layer.tls) :=
  create_failure_leaves_lock_frame sample_env
    { sample_create_env_no_response_addr with pool := some 1 }
    sample_create_uac_env_no_request_addr empty_layer (some ⟨true, true⟩) 1
    (sample_tdata_via INVITE) ⟨1, INVITE⟩ ⟨"z9hG4bKabc".toList, "h".toList, 5060⟩
    (sample_request INVITE "z9hG4bKabc".toList) _ ⟨1, INVITE⟩
    ⟨"z9hG4bKabc".toList, "h".toList, 5060⟩ _ rfl rfl rfl (by decide) rfl rfl (by decide)
    rfl rfl (by decide) rfl rfl rfl rfl (by decide)

/-- The failing runs, evaluated: on an empty lock-frame stack each of the
three failure exits after `lock_tsx` (request address, key builder, response
address) returns with one frame, not alive, left on the stack. -/
theorem create_failure_runs :
    pjsip_tsx_create_uac sample_env sample_create_env sample_create_uac_env_no_request_addr
        empty_layer (some ⟨true, true⟩) (sample_tdata_via INVITE) =
      some (.PJ_EINVAL, none,
        { htable := [], tls := [⟨1, false⟩],
          trace := [.tx_data_add_ref (sample_tdata_via INVITE),
            .tx_data_dec_ref (sample_tdata_via INVITE), .mutex_destroy, .release_pool] }) ∧
    pjsip_tsx_create_uas sample_env sample_create_env empty_layer (some ⟨true, true⟩)
        sample_request_no_from =
      some (.PJSIP_EMISSINGHDR, none,
        { htable := [], tls := [⟨1, false⟩], trace := [.mutex_destroy, .release_pool] }) ∧
    pjsip_tsx_create_uas sample_env sample_create_env_no_response_addr empty_layer
        (some ⟨true, true⟩) (sample_request INVITE "z9hG4bKabc".toList) =
      some (.PJ_EINVAL, none,
        { htable := [], tls := [⟨1, false⟩], trace := [.mutex_destroy, .release_pool] }) := by
  refine ⟨?_, ?_, ?_⟩ <;> rfl

/-- The exits before `lock_tsx` leave the stack as it was: a failed argument
check or a failed `tsx_create` returns the layer it was given, up to the
release of the pool in the trace. -/
theorem create_uas_early_failure_keeps_lock_frames (env : Env) (cenv : create_env)
    (l : tsx_layer) (tsx_user : Option pjsip_module) (rdata : pjsip_rx_data)
    (st : pj_status_t) (l' : tsx_layer)
    (hfail : cenv.pool = none ∨ cenv.mutex_create ≠ .PJ_SUCCESS)
    (h : pjsip_tsx_create_uas env cenv l tsx_user rdata = some (st, none, l')) :
    l'.tls = l.tls := by
  unfold pjsip_tsx_create_uas at h
  split at h
  · cases h; rfl
  · split at h
    · cases h; rfl
    · split at h
      · cases h; rfl
      · split at h
        · cases h; rfl
        · split at h
          · cases h; rfl
          · split at h
            · cases h; rfl
            · rename_i hc
              unfold tsx_create at h
              rcases hfail with hp | hm
              · simp only [hp] at h
                cases h; rfl
              · cases hpool : cenv.pool with
                | none =>
                  simp only [hpool] at h
                  cases h; rfl
                | some a =>
                  simp only [hpool, hm, ne_eq, not_false_eq_true, if_true] at h
                  cases h; rfl

/-! ## Lock frames, destruction and unlock -/

theorem tsx_destroy_tls (w : World)
    (h : w.tsx.transport_flag.TSX_HAS_PENDING_TRANSPORT = false) :
    (tsx_destroy w).tls = w.tls.map (tsx_lock_data.clear w.tsx.self) ∧
    (tsx_destroy w).released = true ∧
    (tsx_destroy w).tsx.self = w.tsx.self := by
  rw [tsx_destroy_eq]
  simp only [h, Bool.false_eq_true, if_false]
  refine ⟨?_, trivial, trivial⟩
  apply List.map_congr_left
  intro lck _
  rfl

/-- C33: after `tsx_destroy` destroys transaction `t` (no transport pending:
the pool is released), the lock-frame stack of the thread has the same frames
in the same order, every frame for `t` has `is_alive` false and the frames of
other transactions are unchanged; and `unlock_tsx` on the top frame pops it
and, when the frame is alive, releases the mutex and returns success, and
when it is not alive leaves the mutex alone and returns
`PJSIP_ETSXDESTROYED`. -/
theorem tsx_destroy_clears_frames_unlock_reads_them (w : World)
    (hp : w.tsx.transport_flag.TSX_HAS_PENDING_TRANSPORT = false) :
    (tsx_destroy w).released = true ∧
    (tsx_destroy w).tls.length = w.tls.length ∧
    (∀ (i : Nat) (lck : tsx_lock_data), w.tls[i]? = some lck →
      (lck.tsx = w.tsx.self →
        (tsx_destroy w).tls[i]? = some { lck with is_alive := false }) ∧
      (lck.tsx ≠ w.tsx.self → (tsx_destroy w).tls[i]? = some lck)) ∧
    (∀ lck ∈ (tsx_destroy w).tls, lck.tsx = w.tsx.self → lck.is_alive = false) ∧
    (∀ (w1 : World) lck prev, w1.tls = lck :: prev →
      (lck.is_alive = true →
        unlock_tsx w1 = some (.PJ_SUCCESS, { w1 with tls := prev }) ∧
        unlock_tsx_mutex w1 = some [.pj_mutex_unlock]) ∧
      (lck.is_alive = false →
        unlock_tsx w1 = some (.PJSIP_ETSXDESTROYED, { w1 with tls := prev }) ∧
        unlock_tsx_mutex w1 = some [])) ∧
    (∀ lck prev, w.tls = lck :: prev → lck.tsx = w.tsx.self →
      ∃ w', unlock_tsx (tsx_destroy w) = some (.PJSIP_ETSXDESTROYED, w') ∧
        w'.tls = prev.map (tsx_lock_data.clear w.tsx.self) ∧
        unlock_tsx_mutex (tsx_destroy w) = some []) := by
  obtain ⟨htls, hrel, _⟩ := tsx_destroy_tls w hp
  refine ⟨hrel, ?_, ?_, ?_, ?_, ?_⟩
  · rw [htls, List.length_map]
  · intro i lck hi
    rw [htls, List.getElem?_map, hi]
    constructor
    · intro h
      simp [tsx_lock_data.clear, h]
    · intro h
      simp [tsx_lock_data.clear, h]
  · intro lck hmem h
    rw [htls, List.mem_map] at hmem
    obtain ⟨l0, _, rfl⟩ := hmem
    unfold tsx_lock_data.clear at h ⊢
    split
    · rfl
    · rename_i hne
      rw [if_neg hne] at h
      exact absurd h hne
  · intro w1 lck prev h1
    constructor
    · intro ha
      simp [unlock_tsx, unlock_tsx_mutex, h1, ha]
    · intro ha
      simp [unlock_tsx, unlock_tsx_mutex, h1, ha]
  · intro lck prev h1 hself
    have h2 : (tsx_destroy w).tls =
        { lck with is_alive := false } :: prev.map (tsx_lock_data.clear w.tsx.self) := by
      rw [htls, h1, List.map_cons]
      simp [tsx_lock_data.clear, hself]
    refine ⟨{ tsx_destroy w with tls := prev.map (tsx_lock_data.clear w.tsx.self) }, ?_, rfl, ?_⟩
    · simp [unlock_tsx, h2]
    · simp [unlock_tsx_mutex, h2]

theorem tsx_destroy_clears_frames_unlock_reads_them_witness :
    (tsx_destroy sample_nested_lock_world).released = true ∧
    (tsx_destroy sample_nested_lock_world).tls.length = sample_nested_lock_world.tls.length ∧
    (∀ (i : Nat) (lck : tsx_lock_data), sample_nested_lock_world.tls[i]? = some lck →
      (lck.tsx = sample_nested_lock_world.tsx.self →
        (tsx_destroy sample_nested_lock_world).tls[i]? = some { lck with is_alive := false }) ∧
      (lck.tsx ≠ sample_nested_lock_world.tsx.self →
        (tsx_destroy sample_nested_lock_world).tls[i]? = some lck)) ∧
    (∀ lck ∈ (tsx_destroy sample_nested_lock_world).tls,
      lck.tsx = sample_nested_lock_world.tsx.self → lck.is_alive = false) ∧
    (∀ (w1 : World) lck prev, w1.tls = lck :: prev →
      (lck.is_alive = true →
        unlock_tsx w1 = some (.PJ_SUCCESS, { w1 with tls := prev }) ∧
        unlock_tsx_mutex w1 = some [.pj_mutex_unlock]) ∧
      (lck.is_alive = false →
        unlock_tsx w1 = some (.PJSIP_ETSXDESTROYED, { w1 with tls := prev }) ∧
        unlock_tsx_mutex w1 = some [])) ∧
    (∀ lck prev, sample_nested_lock_world.tls = lck :: prev →
      lck.tsx = sample_nested_lock_world.tsx.self →
      ∃ w', unlock_tsx (tsx_destroy sample_nested_lock_world) =
          some (.PJSIP_ETSXDESTROYED, w') ∧
        w'.tls = prev.map (tsx_lock_data.clear sample_nested_lock_world.tsx.self) ∧
        unlock_tsx_mutex (tsx_destroy sample_nested_lock_world) = some []) :=
  tsx_destroy_clears_frames_unlock_reads_them sample_nested_lock_world rfl

/-- The frames of the sample world with nested locks after the transaction at
address 1 has been destroyed, and the three unlocks that unwind them: the
frames of the destroyed transaction report `PJSIP_ETSXDESTROYED`, the frame of
the other transaction reports success. -/
theorem tsx_destroy_nested_run :
    (tsx_destroy sample_nested_lock_world).tls = [⟨1, false⟩, ⟨2, true⟩, ⟨1, false⟩] ∧
    ((unlock_tsx (tsx_destroy sample_nested_lock_world)).map (fun r => (r.1, r.2.tls)) =
      some (.PJSIP_ETSXDESTROYED, [⟨2, true⟩, ⟨1, false⟩])) ∧
    (((unlock_tsx (tsx_destroy sample_nested_lock_world)).bind
        (fun r => unlock_tsx r.2)).map (fun r => (r.1, r.2.tls)) =
      some (.PJ_SUCCESS, [⟨1, false⟩])) ∧
    ((((unlock_tsx (tsx_destroy sample_nested_lock_world)).bind
        (fun r => unlock_tsx r.2)).bind (fun r => unlock_tsx r.2)).map
          (fun r => (r.1, r.2.tls)) =
      some (.PJSIP_ETSXDESTROYED, [])) := by
  refine ⟨?_, ?_, ?_, ?_⟩ <;> rfl

/-- While a transport is pending `tsx_destroy` defers the destruction and
leaves every lock frame as it was. -/
theorem tsx_destroy_pending_keeps_frames (w : World)
    (hp : w.tsx.transport_flag.TSX_HAS_PENDING_TRANSPORT = true) :
    (tsx_destroy w).tls = w.tls ∧ (tsx_destroy w).released = w.released := by
  rw [tsx_destroy_eq]
  simp only [hp, if_true]
  exact ⟨trivial, trivial⟩

/-! ## A failed send over the cached transport -/

/-- C32: when a send over the cached transport fails (no transport pending,
`pjsip_transport_send` returns an error), `tsx_send_msg` releases the cached
transport; what follows depends on `TSX_HAS_RESOLVED_SERVER`.  While the
server has not been resolved the same message is handed to the endpoint for
sending with resolution, the transport is marked pending and the state is
left as it was.  Once the server has been resolved the error is treated as
permanent: nothing is handed to the endpoint, the status code becomes the
transport-error code, the transaction moves to Terminated and the error is
returned. -/
theorem tsx_send_msg_cached_transport_failure (env : Env) (w : World) (tp : pjsip_transport)
    (tdata : pjsip_tx_data)
    (hpend : w.tsx.transport_flag.TSX_HAS_PENDING_TRANSPORT = false)
    (htp : w.tsx.transport = some tp)
    (hfail : env.transport_send ≠ .PJ_SUCCESS ∧ env.transport_send ≠ .PJ_EPENDING) :
    (w.tsx.transport_flag.TSX_HAS_RESOLVED_SERVER = false →
      ∃ st w' post, tsx_send_msg env w (some tdata) = some (st, w') ∧
        w'.tsx.transport = none ∧
        w'.tsx.state = w.tsx.state ∧
        w'.tsx.status_code = w.tsx.status_code ∧
        w'.tsx.transport_flag.TSX_HAS_PENDING_TRANSPORT = true ∧
        w'.trace = w.trace ++ [.transport_send tp tdata, .transport_dec_ref tp,
          .tx_data_add_ref tdata, slow_path_send tdata] ++ post ∧
        post = (if slow_path_status env tdata = .PJ_SUCCESS ∨
            slow_path_status env tdata = .PJ_EPENDING then []
          else [.tx_data_dec_ref tdata])) ∧
    (w.tsx.transport_flag.TSX_HAS_RESOLVED_SERVER = true →
      ∃ w', tsx_send_msg env w (some tdata) = some (env.transport_send, w') ∧
        w'.tsx.transport = none ∧
        w'.tsx.state = .PJSIP_TSX_STATE_TERMINATED ∧
        w'.tsx.status_code = env.PJSIP_SC_TSX_TRANSPORT_ERROR ∧
        w'.tsx.transport_flag.TSX_HAS_PENDING_TRANSPORT = false ∧
        w'.trace = w.trace ++ [.transport_send tp tdata, .transport_dec_ref tp] ++
          tu_state_callback w.tsx.tsx_user .PJSIP_TSX_STATE_TERMINATED w.tsx.state
            .PJSIP_EVENT_TRANSPORT_ERROR .null ++
          terminated_timer_ops false w.tsx.timeout_timer._timer_id ∧
        w'.trace.filter Effect.is_slow_path_send =
          w.trace.filter Effect.is_slow_path_send) := by
  obtain ⟨hf1, hf2⟩ := hfail
  have hty : pjsip_event_id_e.PJSIP_EVENT_TRANSPORT_ERROR ≠ .PJSIP_EVENT_RX_MSG := by decide
  constructor
  · intro hres
    by_cases hreq : tdata.msg.type = .PJSIP_REQUEST_MSG
    · by_cases hs : env.send_request_stateless = .PJ_SUCCESS ∨
          env.send_request_stateless = .PJ_EPENDING
      · rcases hs with hs | hs <;>
        · simp only [tsx_send_msg, hpend, htp, hf1, hf2, tsx_send_msg_resolve, hres, hreq, hs,
            World.log, set_transport_flag, slow_path_send, slow_path_status, ne_eq,
            not_false_eq_true, not_true_eq_false, if_true, if_false, Bool.false_eq_true,
            reduceCtorEq, true_or, or_true]
          split <;> exact ⟨_, _, _, rfl, rfl, rfl, rfl, rfl, by simp, rfl⟩
      · have hs1 : env.send_request_stateless ≠ .PJ_SUCCESS := fun h => hs (Or.inl h)
        have hs2 : env.send_request_stateless ≠ .PJ_EPENDING := fun h => hs (Or.inr h)
        simp only [tsx_send_msg, hpend, htp, hf1, hf2, tsx_send_msg_resolve, hres, hreq, hs1,
          hs2, World.log, set_transport_flag, slow_path_send, slow_path_status, ne_eq,
          not_false_eq_true, not_true_eq_false, if_true, if_false, Bool.false_eq_true,
          reduceCtorEq, false_and, or_self]
        exact ⟨_, _, _, rfl, rfl, rfl, rfl, rfl, by simp, rfl⟩
    · by_cases hs : env.send_response = .PJ_SUCCESS ∨ env.send_response = .PJ_EPENDING
      · rcases hs with hs | hs <;>
        · simp only [tsx_send_msg, hpend, htp, hf1, hf2, tsx_send_msg_resolve, hres, hreq, hs,
            World.log, set_transport_flag, slow_path_send, slow_path_status, ne_eq,
            not_false_eq_true, not_true_eq_false, if_true, if_false, Bool.false_eq_true,
            reduceCtorEq, true_or, or_true]
          split <;> exact ⟨_, _, _, rfl, rfl, rfl, rfl, rfl, by simp, rfl⟩
      · have hs1 : env.send_response ≠ .PJ_SUCCESS := fun h => hs (Or.inl h)
        have hs2 : env.send_response ≠ .PJ_EPENDING := fun h => hs (Or.inr h)
        simp only [tsx_send_msg, hpend, htp, hf1, hf2, tsx_send_msg_resolve, hres, hreq, hs1,
          hs2, World.log, set_transport_flag, slow_path_send, slow_path_status, ne_eq,
          not_false_eq_true, not_true_eq_false, if_true, if_false, Bool.false_eq_true,
          reduceCtorEq, false_and, or_self]
        exact ⟨_, _, _, rfl, rfl, rfl, rfl, rfl, by simp, rfl⟩
  · intro hres
    simp only [tsx_send_msg, hpend, htp, hf1, hf2, tsx_send_msg_resolve, hres,
      World.log, tsx_set_status_code, tsx_set_state_terminated _ _ _ _ hty, ne_eq,
      not_false_eq_true, not_true_eq_false, if_true, if_false, Bool.false_eq_true]
    refine ⟨_, rfl, rfl, rfl, rfl, rfl, by simp, ?_⟩
    have h1 : (tu_state_callback w.tsx.tsx_user .PJSIP_TSX_STATE_TERMINATED w.tsx.state
        .PJSIP_EVENT_TRANSPORT_ERROR .null).filter Effect.is_slow_path_send = [] := by
      rcases w.tsx.tsx_user with _ | ⟨a, _ | _⟩ <;> rfl
    have h2 : (terminated_timer_ops false w.tsx.timeout_timer._timer_id).filter
        Effect.is_slow_path_send = [] := by
      unfold terminated_timer_ops
      simp only [Bool.false_eq_true, if_false]
      split <;> rfl
    simp only [List.filter_append, h1, h2, List.append_nil]
    simp [Effect.is_slow_path_send]

theorem tsx_send_msg_cached_transport_failure_witness :
    (∃ st w' post, tsx_send_msg sample_env_send_fails
          ((sample_uas_trying INVITE 0).getD (sample_uac_world INVITE))
          (some (sample_response_tdata INVITE 180)) = some (st, w') ∧
        w'.tsx.transport = none ∧
        w'.tsx.state = .PJSIP_TSX_STATE_TRYING ∧
        w'.tsx.status_code = 0 ∧
        w'.tsx.transport_flag.TSX_HAS_PENDING_TRANSPORT = true ∧
        w'.trace = ((sample_uas_trying INVITE 0).getD (sample_uac_world INVITE)).trace ++
          [.transport_send ⟨9, 0⟩ (sample_response_tdata INVITE 180),
            .transport_dec_ref ⟨9, 0⟩,
            .tx_data_add_ref (sample_response_tdata INVITE 180),
            slow_path_send (sample_response_tdata INVITE 180)] ++ post ∧
        post = (if slow_path_status sample_env_send_fails (sample_response_tdata INVITE 180) =
              .PJ_SUCCESS ∨
            slow_path_status sample_env_send_fails (sample_response_tdata INVITE 180) =
              .PJ_EPENDING then []
          else [.tx_data_dec_ref (sample_response_tdata INVITE 180)])) ∧
    (∃ w', tsx_send_msg sample_env_send_fails
          ((sample_uac_sent OPTIONS 0).getD (sample_uac_world OPTIONS))
          (some (sample_tdata OPTIONS)) = some (.PJ_EUNKNOWN, w') ∧
        w'.tsx.transport = none ∧
        w'.tsx.state = .PJSIP_TSX_STATE_TERMINATED ∧
        w'.tsx.status_code = 503 ∧
        w'.tsx.transport_flag.TSX_HAS_PENDING_TRANSPORT = false ∧
        w'.trace = ((sample_uac_sent OPTIONS 0).getD (sample_uac_world OPTIONS)).trace ++
          [.transport_send ⟨9, 0⟩ (sample_tdata OPTIONS), .transport_dec_ref ⟨9, 0⟩] ++
          tu_state_callback (some ⟨true, true⟩) .PJSIP_TSX_STATE_TERMINATED
            .PJSIP_TSX_STATE_CALLING .PJSIP_EVENT_TRANSPORT_ERROR .null ++
          terminated_timer_ops false 1 ∧
        w'.trace.filter Effect.is_slow_path_send =
          ((sample_uac_sent OPTIONS 0).getD (sample_uac_world OPTIONS)).trace.filter
            Effect.is_slow_path_send) :=
  ⟨(tsx_send_msg_cached_transport_failure sample_env_send_fails
      ((sample_uas_trying INVITE 0).getD (sample_uac_world INVITE)) ⟨9, 0⟩
      (sample_response_tdata INVITE 180) rfl rfl (by decide)).1 rfl,
    (tsx_send_msg_cached_transport_failure sample_env_send_fails
      ((sample_uac_sent OPTIONS 0).getD (sample_uac_world OPTIONS)) ⟨9, 0⟩
      (sample_tdata OPTIONS) rfl rfl (by decide)).2 rfl⟩

/-- C32 (counterexample): the sample client transaction has sent its OPTIONS
request and holds the transport the endpoint resolved.  The transport then
fails the next send (the retransmission timer E fires).  `tsx_send_msg` does
not fall through to the slow path: the request is not handed to the endpoint
again, the transaction is terminated with status 503 and the transaction user
is told so. -/
theorem cached_transport_failure_terminates_resolved_transaction :
    ∃ w w', sample_uac_sent OPTIONS 0 = some w ∧
      w.tsx.transport = some ⟨9, 0⟩ ∧
      w.tsx.state = .PJSIP_TSX_STATE_CALLING ∧
      tsx_timer_callback sample_env_send_fails w .TSX_TIMER_RETRANSMISSION = some w' ∧
      w'.tsx.state = .PJSIP_TSX_STATE_TERMINATED ∧
      w'.tsx.status_code = 503 ∧
      w'.trace = w.trace ++
        [.schedule_timer .TSX_TIMER_RETRANSMISSION ⟨1, 0⟩,
          .transport_send ⟨9, 0⟩ (sample_tdata OPTIONS), .transport_dec_ref ⟨9, 0⟩,
          .on_tsx_state .PJSIP_TSX_STATE_TERMINATED .PJSIP_TSX_STATE_CALLING
            .PJSIP_EVENT_TRANSPORT_ERROR .null,
          .cancel_timer .TSX_TIMER_TIMEOUT, .schedule_timer .TSX_TIMER_TIMEOUT ⟨0, 0⟩] ∧
      w'.trace.filter Effect.is_slow_path_send = w.trace.filter Effect.is_slow_path_send :=
  ⟨_, _, rfl, rfl, rfl, rfl, rfl, rfl, rfl, rfl⟩

/-! ## The pending flags after a completed send -/

/-- C31: on a send-completion callback with `sent > 0` for a transaction that
was waiting for its transport, the transport reported is taken,
`TSX_HAS_PENDING_TRANSPORT` is cleared and `TSX_HAS_RESOLVED_SERVER` set.
With `TSX_HAS_PENDING_DESTROY` set the transaction is then destroyed and
unregistered, and nothing is sent or scheduled.  Otherwise the two other
flags are looked at one after the other, not as alternatives: when
`TSX_HAS_PENDING_SEND` is set it is cleared and `last_tx` is sent over the new
transport, and after that, when `TSX_HAS_PENDING_RESCHED` is set, it is
cleared and the retransmit timer is armed if the transport is unreliable; with
both flags set both actions are taken. -/
theorem send_msg_callback_drains_pending_flags (env : Env) (w : World) (tp : pjsip_transport)
    (tdata t : pjsip_tx_data) (sent : Int) (cont : Bool)
    (hrel : w.released = false) (hsent : sent > 0)
    (htp : w.tsx.transport = none)
    (hok : env.transport_send = .PJ_SUCCESS ∨ env.transport_send = .PJ_EPENDING) :
    (w.tsx.transport_flag.TSX_HAS_PENDING_DESTROY = true →
      ∃ w', send_msg_callback env w (some tp) tdata sent cont = some w' ∧
        w'.released = true ∧
        w'.tsx.state = .PJSIP_TSX_STATE_DESTROYED ∧
        w'.htable = pj_hash_set w.htable w.tsx.transaction_key none ∧
        w'.trace.filter Effect.is_send = w.trace.filter Effect.is_send ∧
        w'.trace.filter Effect.arms_retransmit = w.trace.filter Effect.arms_retransmit) ∧
    (w.tsx.transport_flag.TSX_HAS_PENDING_DESTROY = false → w.tsx.last_tx = some t →
      ∃ w' delay, send_msg_callback env w (some tp) tdata sent cont = some w' ∧
        w'.trace = w.trace ++ [.transport_add_ref tp] ++
          (if w.tsx.transport_flag.TSX_HAS_PENDING_SEND then [.transport_send tp t]
            else []) ++
          (if w.tsx.transport_flag.TSX_HAS_PENDING_RESCHED = true ∧
              PJSIP_TRANSPORT_IS_RELIABLE env tp = 0 then
            [.schedule_timer .TSX_TIMER_RETRANSMISSION delay] else []) ∧
        w'.tsx.transport = some tp ∧
        w'.tsx.transport_flag = ⟨false, false, false, false, true⟩ ∧
        w'.tsx.state = w.tsx.state ∧
        w'.released = false) := by
  have hs1 : (if env.transport_send = .PJ_EPENDING then pj_status_t.PJ_SUCCESS
      else env.transport_send) = .PJ_SUCCESS := by
    rcases hok with h | h <;> simp [h]
  have hty : pjsip_event_id_e.PJSIP_EVENT_UNKNOWN ≠ .PJSIP_EVENT_RX_MSG := by decide
  constructor
  · intro hd
    simp only [send_msg_callback, hrel, hsent, send_msg_callback_update_transport, htp,
      lock_tsx, set_transport_flag, World.log, hd, Option.map_none', Option.map_some',
      ne_eq, reduceCtorEq, not_false_eq_true, if_true, Bool.false_eq_true, if_false,
      tsx_set_state, tsx_set_state_inform_rx_other _ _ _ hty, tsx_set_state_inform_state_eq,
      tsx_set_state_finish, mod_tsx_layer_unregister_tsx, tsx_destroy_eq, unlock_tsx,
      List.map_cons]
    refine ⟨_, rfl, rfl, rfl, rfl, ?_, ?_⟩
    · simp only [List.filter_append, (tu_state_callback_filter _ _ _ _ _).2.1]
      cases w.tsx.last_tx <;> split <;> split <;> simp [Effect.is_send]
    · have h1 : ∀ u s p ty src, (tu_state_callback u s p ty src).filter
          Effect.arms_retransmit = [] := by
        intro u s p ty src
        rcases u with _ | ⟨a, _ | _⟩ <;> rfl
      simp only [List.filter_append, h1]
      cases w.tsx.last_tx <;> split <;> split <;> simp [Effect.arms_retransmit]
  · intro hd hlast
    cases hS : w.tsx.transport_flag.TSX_HAS_PENDING_SEND <;>
    cases hR : w.tsx.transport_flag.TSX_HAS_PENDING_RESCHED <;>
    by_cases hU : PJSIP_TRANSPORT_IS_RELIABLE env tp = 0 <;>
    · simp only [send_msg_callback, hrel, hsent, send_msg_callback_update_transport, htp,
        lock_tsx, set_transport_flag, World.log, hd, hS, hR, hU, hlast, Option.map_none',
        Option.map_some', ne_eq, reduceCtorEq, not_false_eq_true, if_true,
        Bool.false_eq_true, if_false, tsx_send_msg, hs1, not_true_eq_false,
        tsx_resched_retransmission, pjsip_endpt_schedule_timer, set_timer_id, unlock_tsx,
        decide_True, decide_False, Bool.not_true, Bool.not_false, and_self, and_true,
        and_false, false_and, true_and, List.append_nil, decide_not, Bool.not_eq_true',
        decide_eq_false_iff_not, decide_eq_true_eq]
      first
        | exact ⟨_, ⟨0, 0⟩, rfl, rfl, rfl, rfl, rfl, rfl⟩
        | exact ⟨_, _, rfl, rfl, rfl, rfl, rfl, rfl⟩

theorem send_msg_callback_drains_pending_flags_witness :
    (∃ w', send_msg_callback sample_env
          (sample_terminated_pending.getD (sample_uac_world OPTIONS)) (some ⟨9, 0⟩)
          (sample_tdata OPTIONS) 1 false = some w' ∧
        w'.released = true ∧
        w'.tsx.state = .PJSIP_TSX_STATE_DESTROYED ∧
        w'.htable = pj_hash_set (sample_terminated_pending.getD (sample_uac_world OPTIONS)).htable
          (sample_terminated_pending.getD (sample_uac_world OPTIONS)).tsx.transaction_key none ∧
        w'.trace.filter Effect.is_send =
          (sample_terminated_pending.getD (sample_uac_world OPTIONS)).trace.filter
            Effect.is_send ∧
        w'.trace.filter Effect.arms_retransmit =
          (sample_terminated_pending.getD (sample_uac_world OPTIONS)).trace.filter
            Effect.arms_retransmit) ∧
    (∃ w' delay, send_msg_callback sample_env
          (sample_uas_two_responses.getD (sample_uac_world INVITE)) (some ⟨9, 0⟩)
          (sample_response_tdata INVITE 180) 1 false = some w' ∧
        w'.trace = (sample_uas_two_responses.getD (sample_uac_world INVITE)).trace ++
          [.transport_add_ref ⟨9, 0⟩] ++
          (if (sample_uas_two_responses.getD
              (sample_uac_world INVITE)).tsx.transport_flag.TSX_HAS_PENDING_SEND then
            [.transport_send ⟨9, 0⟩ sample_response_tdata_486] else []) ++
          (if (sample_uas_two_responses.getD
              (sample_uac_world INVITE)).tsx.transport_flag.TSX_HAS_PENDING_RESCHED = true ∧
              PJSIP_TRANSPORT_IS_RELIABLE sample_env ⟨9, 0⟩ = 0 then
            [.schedule_timer .TSX_TIMER_RETRANSMISSION delay] else []) ∧
        w'.tsx.transport = some ⟨9, 0⟩ ∧
        w'.tsx.transport_flag = ⟨false, false, false, false, true⟩ ∧
        w'.tsx.state = .PJSIP_TSX_STATE_COMPLETED ∧
        w'.released = false) :=
  ⟨(send_msg_callback_drains_pending_flags sample_env
      (sample_terminated_pending.getD (sample_uac_world OPTIONS)) ⟨9, 0⟩
      (sample_tdata OPTIONS) (sample_tdata OPTIONS) 1 false rfl (by decide) rfl
      (Or.inr rfl)).1 rfl,
    (send_msg_callback_drains_pending_flags sample_env
      (sample_uas_two_responses.getD (sample_uac_world INVITE)) ⟨9, 0⟩
      (sample_response_tdata INVITE 180) sample_response_tdata_486 1 false rfl (by decide) rfl
      (Or.inr rfl)).2 rfl rfl⟩

/-- C31 (counterexample): a server INVITE transaction whose response
destination is being resolved is given a 180 and then a 486 by the transaction
user; the 486 is noted as a pending send and its retransmission as a pending
reschedule.  When the send of the 180 completes over an unreliable transport,
one callback takes both pending actions: the 486 is sent and the retransmit
timer is armed, and both flags are cleared. -/
theorem send_msg_callback_takes_two_pending_actions :
    ∃ w w', sample_uas_two_responses = some w ∧
      w.tsx.transport_flag = ⟨true, true, true, false, false⟩ ∧
      send_msg_callback sample_env w (some ⟨9, 0⟩) (sample_response_tdata INVITE 180) 1 false =
        some w' ∧
      w'.trace = w.trace ++
        [.transport_add_ref ⟨9, 0⟩, .transport_send ⟨9, 0⟩ sample_response_tdata_486,
          .schedule_timer .TSX_TIMER_RETRANSMISSION ⟨0, 500⟩] ∧
      w'.tsx.transport_flag = ⟨false, false, false, false, true⟩ :=
  ⟨_, _, rfl, rfl, rfl, rfl, rfl⟩

/-! ## Timer events and slot ids -/

/-- C34 (the code at the failing inputs): the slot of the retransmit timer
holds `-1` (the timer was cancelled or never scheduled) and a timer event for
that timer is delivered through `tsx_timer_callback` to a client transaction
in Completed or to a transaction in Confirmed.  The handler does not look at
the slot id, and does not tell the two timers apart either (it only asserts
"must be the timeout timer"): the transaction moves to Terminated at once, the
state callback is made into the transaction user, and the timeout timer is
armed for the destruction (when no transport is pending); the slot of the
retransmit timer still holds `-1`. -/
theorem cancelled_retransmit_timer_event_is_acted_on (env : Env) (w : World)
    (hrel : w.released = false)
    (hslot : w.timer_slot_id .TSX_TIMER_RETRANSMISSION = -1)
    (hcase :
      (w.tsx.state_handler = some .tsx_on_state_completed_uac ∧
        w.tsx.state = .PJSIP_TSX_STATE_COMPLETED) ∨
      (w.tsx.state_handler = some .tsx_on_state_confirmed ∧
        w.tsx.state = .PJSIP_TSX_STATE_CONFIRMED)) :
    ∃ w' new src, tsx_timer_callback env w .TSX_TIMER_RETRANSMISSION = some w' ∧
      w'.tsx.state = .PJSIP_TSX_STATE_TERMINATED ∧
      w'.tsx.state ≠ w.tsx.state ∧
      w'.timer_slot_id .TSX_TIMER_RETRANSMISSION = -1 ∧
      w'.trace = w.trace ++ new ∧
      new.filter Effect.is_tu_callback =
        tu_state_callback w.tsx.tsx_user .PJSIP_TSX_STATE_TERMINATED w.tsx.state
          .PJSIP_EVENT_TIMER src ∧
      (w.tsx.transport_flag.TSX_HAS_PENDING_TRANSPORT = false →
        Effect.schedule_timer .TSX_TIMER_TIMEOUT ⟨0, 0⟩ ∈ new) := by
  have hty : pjsip_event_id_e.PJSIP_EVENT_TIMER ≠ .PJSIP_EVENT_RX_MSG := by decide
  have hsched : ∀ id, Effect.schedule_timer .TSX_TIMER_TIMEOUT ⟨0, 0⟩ ∈
      terminated_timer_ops false id := by
    intro id
    unfold terminated_timer_ops
    simp
  rcases hcase with ⟨hh, hs⟩ | ⟨hh, hs⟩
  · simp only [tsx_timer_callback, hrel, lock_tsx, call_state_handler, hh,
      tsx_on_state_completed_uac, tsx_set_state_terminated env _ _ _ hty, unlock_tsx,
      if_false, Bool.false_eq_true]
    refine ⟨_,
      tu_state_callback w.tsx.tsx_user .PJSIP_TSX_STATE_TERMINATED w.tsx.state
          .PJSIP_EVENT_TIMER (.timer_entry .TSX_TIMER_RETRANSMISSION) ++
        terminated_timer_ops w.tsx.transport_flag.TSX_HAS_PENDING_TRANSPORT
          w.tsx.timeout_timer._timer_id, .timer_entry .TSX_TIMER_RETRANSMISSION,
      rfl, rfl, ?_, hslot, ?_, ?_, ?_⟩
    · rw [hs]; intro h; cases h
    · simp only [List.append_assoc]
    · simp only [List.filter_append, (tu_state_callback_filter _ _ _ _ _).1,
        (terminated_timer_ops_filter _ _).1, List.append_nil]
    · intro hp
      rw [hp]
      exact List.mem_append_right _ (hsched _)
  · simp only [tsx_timer_callback, hrel, lock_tsx, call_state_handler, hh,
      tsx_on_state_confirmed, tsx_set_state_terminated env _ _ _ hty, unlock_tsx,
      if_false, Bool.false_eq_true]
    refine ⟨_,
      tu_state_callback w.tsx.tsx_user .PJSIP_TSX_STATE_TERMINATED w.tsx.state
          .PJSIP_EVENT_TIMER (.timer_entry .TSX_TIMER_TIMEOUT) ++
        terminated_timer_ops w.tsx.transport_flag.TSX_HAS_PENDING_TRANSPORT
          w.tsx.timeout_timer._timer_id, .timer_entry .TSX_TIMER_TIMEOUT,
      rfl, rfl, ?_, hslot, ?_, ?_, ?_⟩
    · rw [hs]; intro h; cases h
    · simp only [List.append_assoc]
    · simp only [List.filter_append, (tu_state_callback_filter _ _ _ _ _).1,
        (terminated_timer_ops_filter _ _).1, List.append_nil]
    · intro hp
      rw [hp]
      exact List.mem_append_right _ (hsched _)

theorem cancelled_retransmit_timer_event_is_acted_on_witness :
    ∃ w, sample_uac_responded OPTIONS 0 200 = some w ∧
      w.tsx.state = .PJSIP_TSX_STATE_COMPLETED ∧
      w.tsx.retransmit_timer._timer_id = -1 ∧
      w.tsx.timeout_timer._timer_id ≠ -1 ∧
      ∃ w' new src, tsx_timer_callback sample_env_ack w .TSX_TIMER_RETRANSMISSION = some w' ∧
        w'.tsx.state = .PJSIP_TSX_STATE_TERMINATED ∧
        w'.tsx.state ≠ w.tsx.state ∧
        w'.timer_slot_id .TSX_TIMER_RETRANSMISSION = -1 ∧
        w'.trace = w.trace ++ new ∧
        new.filter Effect.is_tu_callback =
          tu_state_callback w.tsx.tsx_user .PJSIP_TSX_STATE_TERMINATED w.tsx.state
            .PJSIP_EVENT_TIMER src ∧
        (w.tsx.transport_flag.TSX_HAS_PENDING_TRANSPORT = false →
          Effect.schedule_timer .TSX_TIMER_TIMEOUT ⟨0, 0⟩ ∈ new) :=
  ⟨_, rfl, rfl, rfl, by decide,
    cancelled_retransmit_timer_event_is_acted_on sample_env_ack
      ((sample_uac_responded OPTIONS 0 200).getD (sample_uac_world OPTIONS))
      rfl rfl (Or.inl ⟨rfl, rfl⟩)⟩

/-! ## The key of a client transaction and the key of its responses -/

/-- C37: for every client transaction `pjsip_tsx_create_uac` creates from a
request whose top-Via branch, when the transaction user has supplied one,
begins with the magic cookie `z9hG4bK` (a generated branch always does), the
key `pjsip_tsx_create_key` derives with role UAC for an incoming response
whose top-Via branch equals the branch of the transaction and whose CSeq
method equals the request method is the key the transaction is registered
under; the registry lookup with that key finds the transaction, and
`mod_tsx_layer_on_rx_response` passes the response to it. -/
theorem uac_response_key_is_registered_key (env : Env) (cenv : create_env)
    (uenv : create_uac_env) (l : tsx_layer) (tsx_user : Option pjsip_module)
    (tdata : pjsip_tx_data) (cseq : pjsip_cseq_hdr) (addr : Nat) (via : pjsip_via_hdr)
    (rdata : pjsip_rx_data) (rvia : pjsip_via_hdr) (rcseq : pjsip_cseq_hdr)
    (hreq : tdata.msg.type = .PJSIP_REQUEST_MSG)
    (hnack : tdata.msg.line.req.method.id ≠ pjsip_method_e.PJSIP_ACK_METHOD)
    (hcseq : tdata.cseq = some cseq)
    (hpool : cenv.pool = some addr)
    (hmutex : cenv.mutex_create = .PJ_SUCCESS)
    (haddr : uenv.get_request_addr.1 = .PJ_SUCCESS)
    (hvia : create_uac_via uenv tdata = some via)
    (hsupplied : ∀ v, tdata.via = some v → v.branch_param ≠ [] →
      v.branch_param.take 7 = PJSIP_RFC3261_BRANCH_ID)
    (hrvia : rdata.msg_info.via = some rvia)
    (hrcseq : rdata.msg_info.cseq = some rcseq)
    (hbranch : rvia.branch_param = via.branch_param)
    (hmethod : rcseq.method = tdata.msg.line.req.method) :
    ∃ tsx l', pjsip_tsx_create_uac env cenv uenv l tsx_user tdata =
        some (.PJ_SUCCESS, some tsx, l') ∧
      tsx.branch = rvia.branch_param ∧
      pjsip_tsx_create_key .PJSIP_ROLE_UAC rcseq.method rdata =
        some (.ok tsx.transaction_key) ∧
      pj_hash_get l'.htable tsx.transaction_key = some tsx.self ∧
      (∀ w, pjsip_tsx_recv_msg env
          (tsx_layer_memory.world { layer := l', heap := [(tsx.self, tsx)] } tsx) rdata =
            some w →
        mod_tsx_layer_on_rx_response env { layer := l', heap := [(tsx.self, tsx)] } rdata =
          some (true,
            tsx_layer_memory.commit { layer := l', heap := [(tsx.self, tsx)] } w)) := by
  obtain ⟨tsx, l', hrun, -, -, -, hstate, -, -, -, hbr, -, hkey, hget, -, -⟩ :=
    pjsip_tsx_create_uac_success env cenv uenv l tsx_user tdata cseq addr via hreq hnack hcseq
      hpool hmutex haddr hvia
  have hcookie : via.branch_param.take 7 = PJSIP_RFC3261_BRANCH_ID := by
    obtain ⟨h1, h2, h3⟩ := create_uac_via_spec uenv tdata via hvia
    cases hv : tdata.via with
    | none => exact (create_uac_generate_branch_spec uenv _ (h3 hv).2).2
    | some v =>
      by_cases hb : v.branch_param = []
      · exact (create_uac_generate_branch_spec uenv _ (h2 v hv hb).2).2
      · have := h1 v hv hb
        rw [this]
        exact hsupplied v hv hb
  have hk : pjsip_tsx_create_key .PJSIP_ROLE_UAC rcseq.method rdata =
      some (.ok tsx.transaction_key) := by
    unfold pjsip_tsx_create_key
    simp only [hrvia]
    rw [if_pos ((pj_strncmp_cookie _).mpr (by rw [hbranch]; exact hcookie)),
      create_tsx_key_3261_eq, hkey, hmethod, hbranch]
  refine ⟨tsx, l', hrun, by rw [hbr, hbranch], hk, hget, ?_⟩
  intro w hw
  have hspec := mod_tsx_layer_on_rx_spec env { layer := l', heap := [(tsx.self, tsx)] }
    .PJSIP_ROLE_UAC rdata rcseq tsx.transaction_key hrcseq hk
  have hderef : tsx_layer_memory.deref { layer := l', heap := [(tsx.self, tsx)] } tsx.self =
      some tsx := by
    simp [tsx_layer_memory.deref, List.lookup]
  have hnt : tsx.state ≠ .PJSIP_TSX_STATE_TERMINATED := by
    rw [hstate]; intro h; cases h
  exact (hspec.2.1 tsx.self tsx hget hderef).2 hnt w hw

theorem uac_response_key_is_registered_key_witness :
    ∃ tsx l', pjsip_tsx_create_uac sample_env sample_create_env sample_create_uac_env
        empty_layer (some ⟨true, true⟩) (sample_tdata INVITE) =
        some (.PJ_SUCCESS, some tsx, l') ∧
      tsx.branch = "z9hG4bKPj0123456789abcdef0123456789abcdef".toList ∧
      pjsip_tsx_create_key .PJSIP_ROLE_UAC INVITE
        (sample_response INVITE "z9hG4bKPj0123456789abcdef0123456789abcdef".toList 180) =
        some (.ok tsx.transaction_key) ∧
      pj_hash_get l'.htable tsx.transaction_key = some tsx.self ∧
      (∀ w, pjsip_tsx_recv_msg sample_env
          (tsx_layer_memory.world { layer := l', heap := [(tsx.self, tsx)] } tsx)
          (sample_response INVITE "z9hG4bKPj0123456789abcdef0123456789abcdef".toList 180) =
            some w →
        mod_tsx_layer_on_rx_response sample_env { layer := l', heap := [(tsx.self, tsx)] }
          (sample_response INVITE "z9hG4bKPj0123456789abcdef0123456789abcdef".toList 180) =
          some (true,
            tsx_layer_memory.commit { layer := l', heap := [(tsx.self, tsx)] } w)) :=
  uac_response_key_is_registered_key sample_env sample_create_env sample_create_uac_env
    empty_layer (some ⟨true, true⟩) (sample_tdata INVITE) ⟨1, INVITE⟩ 1
    ⟨"z9hG4bKPj0123456789abcdef0123456789abcdef".toList, [], 0⟩
    (sample_response INVITE "z9hG4bKPj0123456789abcdef0123456789abcdef".toList 180)
    ⟨"z9hG4bKPj0123456789abcdef0123456789abcdef".toList, "h".toList, 5060⟩ ⟨1, INVITE⟩
    rfl (by decide) rfl rfl rfl rfl rfl (fun v hv => by cases hv) rfl rfl rfl rfl

/-- C37 (counterexample): the transaction user supplies the branch `abc`,
which does not begin with the magic cookie.  `pjsip_tsx_create_uac` registers
the transaction under the RFC 3261 key `c$abc`; for the response with the same
branch and CSeq method `pjsip_tsx_create_key` builds the RFC 2543 key
instead, the lookup finds nothing, and `mod_tsx_layer_on_rx_response` returns
false without passing the response to the transaction. -/
theorem uac_supplied_branch_without_cookie_misses_response :
    ∃ tsx l' s key, pjsip_tsx_create_uac sample_env sample_create_env sample_create_uac_env
        empty_layer (some ⟨true, true⟩) (sample_tdata_old_branch INVITE) =
        some (.PJ_SUCCESS, some tsx, l') ∧
      created_memory (pjsip_tsx_create_uac sample_env sample_create_env sample_create_uac_env
        empty_layer (some ⟨true, true⟩) (sample_tdata_old_branch INVITE)) = some s ∧
      tsx.branch = "abc".toList ∧
      tsx.transaction_key = "c$abc".toList ∧
      pj_hash_get l'.htable tsx.transaction_key = some tsx.self ∧
      pjsip_tsx_create_key .PJSIP_ROLE_UAC INVITE (sample_response INVITE "abc".toList 180) =
        some (.ok key) ∧
      key = "c$1$t$c$h:5060$".toList ++ [Char.ofNat 0] ∧
      key ≠ tsx.transaction_key ∧
      pj_hash_get l'.htable key = none ∧
      mod_tsx_layer_on_rx_response sample_env s (sample_response INVITE "abc".toList 180) =
        some (false, s) :=
  ⟨_, _, _, _, rfl, rfl, rfl, rfl, rfl, rfl, rfl, by decide, rfl, rfl⟩

/-! ## Stopping and unloading the layer -/

theorem tsx_destroy_htable (w : World) :
    (tsx_destroy w).htable = w.htable ∧ (tsx_destroy w).tsx.self = w.tsx.self := by
  rw [tsx_destroy_eq]
  exact ⟨rfl, rfl⟩

theorem heap_lookup_filter_other (heap : List (Nat × pjsip_transaction)) (a k : Nat)
    (hk : k ≠ a) :
    List.lookup k (heap.filter (fun e => decide (e.1 ≠ a))) = List.lookup k heap := by
  induction heap with
  | nil => rfl
  | cons e rest ih =>
    obtain ⟨b, t⟩ := e
    by_cases h : b = a
    · have hk2 : (k == b) = false := by
        simp only [beq_eq_false_iff_ne, ne_eq]
        rw [h]; exact hk
      rw [List.filter_cons_of_neg (by simpa using h)]
      simp only [List.lookup, hk2]
      exact ih
    · rw [List.filter_cons_of_pos (by simpa using h)]
      simp only [List.lookup]
      split
      · rfl
      · exact ih

theorem commit_deref_other (s : tsx_layer_memory) (w : World) (k : Nat)
    (hk : k ≠ w.tsx.self) : (s.commit w).deref k = s.deref k := by
  unfold tsx_layer_memory.commit tsx_layer_memory.deref
  simp only
  split
  · exact heap_lookup_filter_other _ _ _ hk
  · have hk2 : (k == w.tsx.self) = false := by
      simp only [beq_eq_false_iff_ne, ne_eq]; exact hk
    simp only [List.lookup, hk2]
    exact heap_lookup_filter_other _ _ _ hk

theorem commit_destroy_htable (s : tsx_layer_memory) (tsx : pjsip_transaction) :
    (s.commit (tsx_destroy (s.world tsx))).layer.htable = s.layer.htable := by
  unfold tsx_layer_memory.commit World.layer
  simp only
  rw [(tsx_destroy_htable _).1]
  rfl

/-- The loop of `mod_tsx_layer_stop` leaves the registry as it was. -/
theorem mod_tsx_layer_stop_loop_htable (it : List (pj_str_t × Nat)) :
    ∀ s s', mod_tsx_layer_stop_loop s it = some s' → s'.layer.htable = s.layer.htable := by
  induction it with
  | nil =>
    intro s s' h
    simp only [mod_tsx_layer_stop_loop, Option.some.injEq] at h
    rw [← h]
  | cons e next ih =>
    intro s s' h
    simp only [mod_tsx_layer_stop_loop] at h
    cases hd : s.deref e.2 with
    | none => simp only [hd] at h; cases h
    | some tsx =>
      simp only [hd] at h
      rw [ih _ _ h, commit_destroy_htable]

/-- The loop of `mod_tsx_layer_stop` runs to its end when every entry it
visits points to a transaction alive in memory. -/
theorem mod_tsx_layer_stop_loop_defined (it : List (pj_str_t × Nat)) :
    ∀ s, entries_alive s it → ∃ s', mod_tsx_layer_stop_loop s it = some s' := by
  induction it with
  | nil => intro s _; exact ⟨s, rfl⟩
  | cons e next ih =>
    intro s ⟨halive, hnodup⟩
    obtain ⟨tsx, hd, hself⟩ := halive e (List.mem_cons_self _ _)
    simp only [mod_tsx_layer_stop_loop, hd]
    apply ih
    simp only [List.map_cons, List.nodup_cons] at hnodup
    refine ⟨?_, hnodup.2⟩
    intro e' he'
    obtain ⟨t', hd', hself'⟩ := halive e' (List.mem_cons_of_mem _ he')
    refine ⟨t', ?_, hself'⟩
    rw [commit_deref_other]
    · exact hd'
    · rw [(tsx_destroy_htable _).2]
      show e'.2 ≠ tsx.self
      rw [hself]
      intro heq
      exact hnodup.1 (List.mem_map.mpr ⟨e', he', heq⟩)

/-- C39: `mod_tsx_layer_stop` destroys the transactions it finds in the
registry but removes none of them from it (`tsx_destroy` does not unregister).
For every layer whose registry entries point to transactions alive in memory,
`mod_tsx_layer_stop` returns success and the registry holds the same entries
as before, so its count is unchanged, and a following `mod_tsx_layer_unload`
returns `PJ_EBUSY` whenever a transaction was registered when the layer was
stopped. -/
theorem mod_tsx_layer_stop_keeps_registry (s : tsx_layer_memory)
    (halive : entries_alive s s.layer.htable) :
    ∃ s', mod_tsx_layer_stop s = some (.PJ_SUCCESS, s') ∧
      s'.layer.htable = s.layer.htable ∧
      pj_hash_count s'.layer.htable = pj_hash_count s.layer.htable ∧
      (s.layer.htable ≠ [] → mod_tsx_layer_unload s' = (.PJ_EBUSY, s')) := by
  obtain ⟨s', hs'⟩ := mod_tsx_layer_stop_loop_defined _ s halive
  have hht := mod_tsx_layer_stop_loop_htable _ _ _ hs'
  refine ⟨s', ?_, hht, by rw [hht], ?_⟩
  · simp only [mod_tsx_layer_stop, hs']
  · intro hne
    unfold mod_tsx_layer_unload pj_hash_count
    rw [hht, if_pos]
    intro h0
    exact hne (List.length_eq_zero.mp h0)

theorem mod_tsx_layer_stop_keeps_registry_witness :
    ∃ s', mod_tsx_layer_stop (sample_uac_world INVITE).memory = some (.PJ_SUCCESS, s') ∧
      s'.layer.htable = (sample_uac_world INVITE).memory.layer.htable ∧
      pj_hash_count s'.layer.htable =
        pj_hash_count (sample_uac_world INVITE).memory.layer.htable ∧
      ((sample_uac_world INVITE).memory.layer.htable ≠ [] →
        mod_tsx_layer_unload s' = (.PJ_EBUSY, s')) :=
  mod_tsx_layer_stop_keeps_registry (sample_uac_world INVITE).memory
    ⟨fun e he => ⟨(sample_uac_world INVITE).tsx, by
        simp only [World.memory, World.layer, sample_uac_world, List.mem_singleton] at he
        subst he
        exact ⟨rfl, rfl⟩⟩, by decide⟩

/-- The failing run, evaluated: a client transaction is created on an empty
layer; `mod_tsx_layer_stop` destroys it (its pool is released and it is gone
from memory) and returns success; the registry still holds its key with the
dangling address, its count is 1, and `mod_tsx_layer_unload` refuses with
`PJ_EBUSY`. -/
theorem mod_tsx_layer_stop_then_unload_busy :
    ∃ s s', created_memory (pjsip_tsx_create_uac sample_env sample_create_env
        sample_create_uac_env empty_layer (some ⟨true, true⟩) (sample_tdata_via INVITE)) =
        some s ∧
      pj_hash_count s.layer.htable = 1 ∧
      mod_tsx_layer_stop s = some (.PJ_SUCCESS, s') ∧
      s'.heap = [] ∧
      s'.layer.htable = [("c$z9hG4bKabc".toList, 1)] ∧
      pj_hash_count s'.layer.htable = 1 ∧
      (mod_tsx_layer_unload s').1 = .PJ_EBUSY :=
  ⟨_, _, rfl, rfl, rfl, rfl, rfl, rfl, rfl⟩

/-- With an empty registry `mod_tsx_layer_stop` does nothing and
`mod_tsx_layer_unload` succeeds. -/
theorem mod_tsx_layer_unload_empty (s : tsx_layer_memory) (h : s.layer.htable = []) :
    mod_tsx_layer_stop s = some (.PJ_SUCCESS, s) ∧
      (mod_tsx_layer_unload s).1 = .PJ_SUCCESS := by
  constructor
  · simp only [mod_tsx_layer_stop, h, mod_tsx_layer_stop_loop]
  · simp only [mod_tsx_layer_unload, pj_hash_count, h, List.length_nil, ne_eq,
      not_true_eq_false, if_false]

/-! ## Memory player -/

theorem int32_of_small (x : Int) (h0 : 0 ≤ x) (h1 : x < 2147483648) : int32 x = x := by
  unfold int32
  omega

/-- One iteration of the loop of `mem_get_frame` for a player without
callback, when less than 2^31 bytes are still needed: the smaller of the bytes
needed and the bytes left in the buffer is copied, and the read position
wraps when it reaches the end. -/
theorem mem_get_frame_loop_step (fuel : Nat) (player : mem_player) (frame : pjmedia_frame)
    (n sw : Nat) (hcb : player.cb = none) (hlt : sw < n) (hn : n - sw < 2147483648)
    (hrp : player.read_pos ≤ player.buf_size) :
    mem_get_frame_loop (fuel + 1) player frame n sw =
      mem_get_frame_loop fuel
        { player with
          read_pos :=
            if player.read_pos + min (n - sw) (player.buf_size - player.read_pos) =
                player.buf_size then 0
            else player.read_pos + min (n - sw) (player.buf_size - player.read_pos) }
        { frame with
          buf := fun j =>
            if sw ≤ j ∧ j < sw + min (n - sw) (player.buf_size - player.read_pos) then
              player.buffer (player.read_pos + (j - sw))
            else frame.buf j }
        n (sw + min (n - sw) (player.buf_size - player.read_pos)) := by
  have hi : int32 ((n - sw : Nat) : Int) = ((n - sw : Nat) : Int) :=
    int32_of_small _ (by omega) (by omega)
  have hmax : (if (player.buf_size : Int) - (player.read_pos : Int) <
        int32 ((n - sw : Nat) : Int) then player.buf_size - player.read_pos else n - sw) =
      min (n - sw) (player.buf_size - player.read_pos) := by
    rw [hi]
    split
    · rw [Nat.min_def]
      split <;> omega
    · rw [Nat.min_def]
      split <;> omega
  have hle : ¬ (player.read_pos + min (n - sw) (player.buf_size - player.read_pos) >
      player.buf_size) := by
    rw [Nat.min_def]
    split <;> omega
  rw [mem_get_frame_loop]
  simp only [hlt, if_true, hmax, hle, if_false, hcb]
  split <;> rfl

theorem mem_get_frame_loop_done (fuel : Nat) (player : mem_player) (frame : pjmedia_frame)
    (n sw : Nat) (h : ¬ sw < n) :
    mem_get_frame_loop fuel player frame n sw = .ok (none, player, frame) := by
  cases fuel with
  | zero => rw [mem_get_frame_loop]; simp only [h, if_false]
  | succ f => rw [mem_get_frame_loop]; simp only [h, if_false]

/-- The loop of `mem_get_frame` for a player without callback whose read
position lies inside the buffer, when less than 2^31 bytes are needed and the
iterations allowed are at least the bytes still needed: it ends with the bytes
`size_written .. size_needed - 1` of the frame copied from the buffer, going
round it, and the read position advanced modulo the buffer size. -/
theorem mem_get_frame_loop_spec (k : Nat) :
    ∀ (fuel : Nat) (player : mem_player) (frame : pjmedia_frame) (n sw : Nat),
      n - sw = k → player.cb = none → 0 < player.buf_size →
      player.read_pos < player.buf_size → n < 2147483648 → sw ≤ n → n - sw ≤ fuel →
      mem_get_frame_loop fuel player frame n sw =
        .ok (none,
          { player with read_pos := (player.read_pos + (n - sw)) % player.buf_size },
          { frame with
            buf := fun j =>
              if sw ≤ j ∧ j < n then
                player.buffer ((player.read_pos + (j - sw)) % player.buf_size)
              else frame.buf j }) := by
  induction k using Nat.strong_induction_on with
  | _ k ih =>
    intro fuel player frame n sw hk hcb hB hrp hn hsw hfuel
    by_cases hlt : sw < n
    · obtain ⟨f, rfl⟩ : ∃ f, fuel = f + 1 := ⟨fuel - 1, by omega⟩
      rw [mem_get_frame_loop_step f player frame n sw hcb hlt (by omega) (by omega)]
      have hmpos : 0 < min (n - sw) (player.buf_size - player.read_pos) := by
        rw [Nat.min_def]; split <;> omega
      have hmle1 : min (n - sw) (player.buf_size - player.read_pos) ≤ n - sw :=
        Nat.min_le_left _ _
      have hmle2 : min (n - sw) (player.buf_size - player.read_pos) ≤
          player.buf_size - player.read_pos := Nat.min_le_right _ _
      have hmdef : min (n - sw) (player.buf_size - player.read_pos) =
          if n - sw ≤ player.buf_size - player.read_pos then n - sw
          else player.buf_size - player.read_pos := Nat.min_def
      generalize min (n - sw) (player.buf_size - player.read_pos) = m at *
      by_cases hwrap : player.read_pos + m = player.buf_size
      · rw [if_pos hwrap]
        refine (ih (n - (sw + m)) (by omega) f _ _ n (sw + m) rfl ?_ ?_ ?_ hn (by omega)
          (by omega)).trans ?_
        · exact hcb
        · exact hB
        · exact hB
        · simp only [Except.ok.injEq, Prod.mk.injEq, mem_player.mk.injEq,
            pjmedia_frame.mk.injEq, true_and, and_true]
          constructor
          · have : player.read_pos + (n - sw) = player.buf_size + (n - (sw + m)) := by omega
            rw [this, Nat.add_mod_left, Nat.zero_add]
          · funext j
            by_cases h1 : sw + m ≤ j ∧ j < n
            · rw [if_pos h1, if_pos ⟨by omega, h1.2⟩]
              have : player.read_pos + (j - sw) = player.buf_size + (j - (sw + m)) := by
                omega
              rw [this, Nat.add_mod_left, Nat.zero_add]
            · rw [if_neg h1]
              by_cases h2 : sw ≤ j ∧ j < sw + m
              · rw [if_pos h2, if_pos ⟨h2.1, by omega⟩, Nat.mod_eq_of_lt (by omega)]
              · rw [if_neg h2, if_neg (by omega)]
      · rw [if_neg hwrap]
        have hmn : sw + m = n := by
          split at hmdef <;> omega
        rw [mem_get_frame_loop_done _ _ _ _ _ (by omega)]
        simp only [Except.ok.injEq, Prod.mk.injEq, mem_player.mk.injEq,
          pjmedia_frame.mk.injEq, true_and, and_true]
        constructor
        · rw [Nat.mod_eq_of_lt (by omega)]
          omega
        · funext j
          by_cases h2 : sw ≤ j ∧ j < sw + m
          · rw [if_pos h2, if_pos ⟨h2.1, by omega⟩, Nat.mod_eq_of_lt (by omega)]
          · rw [if_neg h2, if_neg (by omega)]
    · rw [mem_get_frame_loop_done _ _ _ _ _ hlt]
      have hz : n - sw = 0 := by omega
      have hr : (player.read_pos + (n - sw)) % player.buf_size = player.read_pos := by
        rw [hz, Nat.add_zero, Nat.mod_eq_of_lt hrp]
      have hf : (fun j => if sw ≤ j ∧ j < n then
          player.buffer ((player.read_pos + (j - sw)) % player.buf_size)
          else frame.buf j) = frame.buf := by
        funext j
        rw [if_neg (by omega)]
      rw [hr, hf]

/-- For frames of less than 2^31 bytes `mem_get_frame` does what is claimed:
for every player with the port signature, `buf_size > 0`, no EOF callback, EOF
flag clear and read offset `p < buf_size`, and frame size `n =
bytes_per_frame < 2^31`, the function returns success whenever at least `n`
iterations are allowed; byte `i < n` of the frame is
`buffer[(p + i) mod buf_size]` and the bytes from `n` on are untouched; the
read offset becomes `(p + n) mod buf_size`, which is below `buf_size`; the
frame gets size `n`, type audio and the timestamp the player had; and the
timestamp of the player advances by `samples_per_frame` (a 64-bit counter). -/
theorem mem_get_frame_spec (fuel : Nat) (player : mem_player) (frame : pjmedia_frame)
    (hsig : player.info.signature = SIGNATURE)
    (hB : 0 < player.buf_size) (hcb : player.cb = none) (heof : player.eof = false)
    (hrp : player.read_pos < player.buf_size)
    (hn : player.info.bytes_per_frame < 2147483648)
    (hfuel : player.info.bytes_per_frame ≤ fuel) :
    ∃ player' frame', mem_get_frame fuel player frame = .ok (.PJ_SUCCESS, player', frame') ∧
      (∀ i, i < player.info.bytes_per_frame →
        frame'.buf i = player.buffer ((player.read_pos + i) % player.buf_size)) ∧
      (∀ i, player.info.bytes_per_frame ≤ i → frame'.buf i = frame.buf i) ∧
      player'.read_pos =
        (player.read_pos + player.info.bytes_per_frame) % player.buf_size ∧
      player'.read_pos < player.buf_size ∧
      frame'.size = player.info.bytes_per_frame ∧
      frame'.type = pjmedia_frame_type.PJMEDIA_FRAME_TYPE_AUDIO ∧
      frame'.timestamp = player.timestamp ∧
      player'.timestamp = (player.timestamp + player.info.samples_per_frame) % 2 ^ 64 ∧
      player'.buf_size = player.buf_size ∧ player'.eof = false ∧ player'.cb = none ∧
      player'.info = player.info := by
  have hloop := mem_get_frame_loop_spec (player.info.bytes_per_frame - 0) fuel player frame
    player.info.bytes_per_frame 0 rfl hcb hB hrp hn (Nat.zero_le _) (by omega)
  simp only [mem_get_frame, hsig, ne_eq, not_true_eq_false, if_false, heof,
    Bool.false_eq_true, hloop]
  refine ⟨_, _, rfl, ?_, ?_, rfl, Nat.mod_lt _ hB, rfl, rfl, rfl, rfl, rfl, rfl, hcb, rfl⟩
  · intro i hi
    show (if 0 ≤ i ∧ i < player.info.bytes_per_frame then
        player.buffer ((player.read_pos + (i - 0)) % player.buf_size) else frame.buf i) = _
    rw [if_pos ⟨Nat.zero_le _, hi⟩, Nat.sub_zero]
  · intro i hi
    show (if 0 ≤ i ∧ i < player.info.bytes_per_frame then
        player.buffer ((player.read_pos + (i - 0)) % player.buf_size) else frame.buf i) = _
    rw [if_neg (by omega)]

/-- The sample player, read twice: the first frame holds the five bytes of
the buffer and its first three again, the read offset is 3 afterwards; the
second frame starts at byte 3. -/
theorem mem_get_frame_sample_run :
    ∃ p1 f1 p2 f2, mem_get_frame 8 sample_player sample_frame = .ok (.PJ_SUCCESS, p1, f1) ∧
      (List.range 8).map f1.buf = [10, 11, 12, 13, 14, 10, 11, 12] ∧
      p1.read_pos = 3 ∧ f1.size = 8 ∧ f1.timestamp = 0 ∧ p1.timestamp = 4 ∧
      mem_get_frame 8 p1 sample_frame = .ok (.PJ_SUCCESS, p2, f2) ∧
      (List.range 8).map f2.buf = [13, 14, 10, 11, 12, 13, 14, 10] ∧
      p2.read_pos = 1 ∧ f2.timestamp = 4 ∧ p2.timestamp = 8 :=
  ⟨_, _, _, _, rfl, rfl, rfl, rfl, rfl, rfl, rfl, rfl, rfl, rfl, rfl⟩

/-- The frame size `pjmedia_port_info_init` computes is below 2^29, whatever
the arguments: the product is an `unsigned`. -/
theorem pjmedia_port_info_init_bytes_per_frame (signature clock_rate channel_count
    bits_per_sample samples_per_frame : Nat) :
    (pjmedia_port_info_init signature clock_rate channel_count bits_per_sample
      samples_per_frame).bytes_per_frame < 536870912 := by
  show samples_per_frame * bits_per_sample % 2 ^ 32 / 8 < 536870912
  have h := Nat.mod_lt (samples_per_frame * bits_per_sample) (by norm_num : 0 < 2 ^ 32)
  omega

/-- The port info of every player `pjmedia_mem_player_create` returns carries
the signature of the memory player and a frame size below 2^29 bytes. -/
theorem pjmedia_mem_player_create_info (alloc pool : Bool) (buffer : Option (Nat → Nat))
    (size clock_rate channel_count samples_per_frame bits_per_sample options : Nat)
    (p_port : Bool) (created : mem_player)
    (h : pjmedia_mem_player_create alloc pool buffer size clock_rate channel_count
      samples_per_frame bits_per_sample options p_port = .ok created) :
    created.info.signature = SIGNATURE ∧ created.info.bytes_per_frame < 536870912 ∧
      created.info.bytes_per_frame = samples_per_frame * 16 % 2 ^ 32 / 8 ∧
      created.info.samples_per_frame = samples_per_frame ∧
      created.buf_size = size ∧ 0 < created.buf_size ∧ created.read_pos = 0 ∧
      created.eof = false ∧ created.cb = none := by
  unfold pjmedia_mem_player_create at h
  split at h
  · cases h
  · split at h
    · cases h
    · rename_i hs
      split at h
      · cases h
      · rename_i h16
        split at h
        · cases h
        · cases h
          have h16 : bits_per_sample = 16 := by simpa using h16
          have hs2 : size ≠ 0 := by
            simp only [not_not] at hs
            exact hs.2.1
          subst h16
          exact ⟨rfl, pjmedia_port_info_init_bytes_per_frame _ _ _ _ _, rfl, rfl, rfl,
            Nat.pos_of_ne_zero hs2, rfl, rfl, rfl⟩

/-- C40: a memory player is a structure `pjmedia_mem_player_create` has
returned, with the port info nobody changes afterwards.  For every such
player with `buf_size > 0`, no EOF callback, EOF flag clear and read offset
`p < buf_size`, and frame size `n = bytes_per_frame`, `mem_get_frame` returns
success whenever at least `n` iterations of its loop are allowed (it
terminates); byte `i < n` of the frame is `buffer[(p + i) mod buf_size]` and
the bytes from `n` on are untouched; the read offset becomes
`(p + n) mod buf_size`, which is below `buf_size`; the frame gets size `n`,
type audio and the timestamp the player had; the timestamp of the player
advances by `samples_per_frame` (a 64-bit counter); and the port info, the
buffer size, the callback and the EOF flag are as before, so the same holds
for the next call. -/
theorem mem_get_frame_round_robin (alloc pool : Bool) (buffer : Option (Nat → Nat))
    (size clock_rate channel_count samples_per_frame bits_per_sample options : Nat)
    (p_port : Bool) (created : mem_player)
    (fuel : Nat) (player : mem_player) (frame : pjmedia_frame)
    (hcreated : pjmedia_mem_player_create alloc pool buffer size clock_rate channel_count
      samples_per_frame bits_per_sample options p_port = .ok created)
    (hinfo : player.info = created.info)
    (hB : 0 < player.buf_size) (hcb : player.cb = none) (heof : player.eof = false)
    (hrp : player.read_pos < player.buf_size)
    (hfuel : player.info.bytes_per_frame ≤ fuel) :
    ∃ player' frame', mem_get_frame fuel player frame = .ok (.PJ_SUCCESS, player', frame') ∧
      (∀ i, i < player.info.bytes_per_frame →
        frame'.buf i = player.buffer ((player.read_pos + i) % player.buf_size)) ∧
      (∀ i, player.info.bytes_per_frame ≤ i → frame'.buf i = frame.buf i) ∧
      player'.read_pos =
        (player.read_pos + player.info.bytes_per_frame) % player.buf_size ∧
      player'.read_pos < player.buf_size ∧
      frame'.size = player.info.bytes_per_frame ∧
      frame'.type = pjmedia_frame_type.PJMEDIA_FRAME_TYPE_AUDIO ∧
      frame'.timestamp = player.timestamp ∧
      player'.timestamp = (player.timestamp + player.info.samples_per_frame) % 2 ^ 64 ∧
      player'.buffer = player.buffer ∧
      player'.buf_size = player.buf_size ∧ player'.eof = false ∧ player'.cb = none ∧
      player'.info = created.info := by
  obtain ⟨hsig, hn, -⟩ := pjmedia_mem_player_create_info _ _ _ _ _ _ _ _ _ _ _ hcreated
  have hloop := mem_get_frame_loop_spec (player.info.bytes_per_frame - 0) fuel player frame
    player.info.bytes_per_frame 0 rfl hcb hB hrp (by rw [hinfo]; omega) (Nat.zero_le _)
    (by omega)
  have hsig2 : player.info.signature = SIGNATURE := by rw [hinfo]; exact hsig
  simp only [mem_get_frame, hsig2, ne_eq, not_true_eq_false, if_false, heof,
    Bool.false_eq_true, hloop]
  refine ⟨_, _, rfl, ?_, ?_, rfl, Nat.mod_lt _ hB, rfl, rfl, rfl, rfl, rfl, rfl, rfl, hcb,
    hinfo⟩
  · intro i hi
    show (if 0 ≤ i ∧ i < player.info.bytes_per_frame then
        player.buffer ((player.read_pos + (i - 0)) % player.buf_size) else frame.buf i) = _
    rw [if_pos ⟨Nat.zero_le _, hi⟩, Nat.sub_zero]
  · intro i hi
    show (if 0 ≤ i ∧ i < player.info.bytes_per_frame then
        player.buffer ((player.read_pos + (i - 0)) % player.buf_size) else frame.buf i) = _
    rw [if_neg (by omega)]

theorem mem_get_frame_round_robin_witness :
    pjmedia_mem_player_create true true (some (fun i => 10 + i)) 5 8000 1 4 16 0 true =
      .ok sample_player ∧
    ∃ player' frame', mem_get_frame 8 sample_player sample_frame =
        .ok (.PJ_SUCCESS, player', frame') ∧
      (∀ i, i < 8 → frame'.buf i = sample_player.buffer ((0 + i) % 5)) ∧
      (∀ i, 8 ≤ i → frame'.buf i = sample_frame.buf i) ∧
      player'.read_pos = (0 + 8) % 5 ∧
      player'.read_pos < 5 ∧
      frame'.size = 8 ∧
      frame'.type = pjmedia_frame_type.PJMEDIA_FRAME_TYPE_AUDIO ∧
      frame'.timestamp = 0 ∧
      player'.timestamp = (0 + 4) % 2 ^ 64 ∧
      player'.buffer = sample_player.buffer ∧
      player'.buf_size = 5 ∧ player'.eof = false ∧ player'.cb = none ∧
      player'.info = sample_player.info :=
  ⟨rfl, mem_get_frame_round_robin true true (some (fun i => 10 + i)) 5 8000 1 4 16 0 true
    sample_player 8 sample_player sample_frame rfl rfl (by decide) rfl rfl (by decide)
    (by decide)⟩

/-- The player `pjmedia_mem_player_create` returns starts at offset 0 of the
buffer, with the size it was given, no callback and the EOF flag clear. -/
theorem pjmedia_mem_player_create_spec
    (buffer : Nat → Nat) (size clock_rate channel_count samples_per_frame options : Nat)
    (hsize : size ≠ 0) (hclock : clock_rate ≠ 0) (hchan : channel_count ≠ 0)
    (hspf : samples_per_frame ≠ 0) :
    ∃ player, pjmedia_mem_player_create true true (some buffer) size clock_rate
        channel_count samples_per_frame 16 options true = .ok player ∧
      player.read_pos = 0 ∧ player.buf_size = size ∧ player.cb = none ∧
      player.eof = false ∧ player.timestamp = 0 ∧
      player.info =
        pjmedia_port_info_init SIGNATURE clock_rate channel_count 16 samples_per_frame := by
  simp only [pjmedia_mem_player_create, hsize, hclock, hchan, hspf, ne_eq,
    not_false_eq_true, and_self, not_true_eq_false, if_false, OfNat.ofNat_ne_zero,
    Bool.not_true, Bool.false_eq_true]
  exact ⟨_, rfl, rfl, rfl, rfl, rfl, rfl, rfl⟩

end Remaining

end PJSIP
